import Mathlib

/-! Software timers driver (drv_swtimers.c): shallow embedding.

The driver multiplexes one hardware tick into `num` software timer slots.
The embedding keeps the C control flow of every function of `src/src/drv_swtimers.c`:

* a driver instance (`swtimers_instance_t`) is the constant part that the API receives
  through `const swtimers_t *`;
* the mutable memory reachable from it (the timers table, the hardware timer and a trace of
  the externally visible actions) is the `World`;
* every function returns `Option World`: `none` is a failed `assert` or undefined behaviour
  (NULL dereference, access outside the table, division by zero);
* `uint32_t` values are natural numbers, reduced modulo `2^32` (`wrap32`) where the C code can wrap.
-/

namespace SWT

/-- Timer mode, `swtimers_mode_t` of drv_swtimers.h -/
inductive swtimers_mode_t
  | SWTIMERS_MODE_SINGLE_FROM_LOOP
  | SWTIMERS_MODE_PERIODIC_FROM_LOOP
  | SWTIMERS_MODE_SINGLE_FROM_ISR
  | SWTIMERS_MODE_PERIODIC_FROM_ISR
  deriving DecidableEq, Repr

open swtimers_mode_t

/-- Single timer structure, `swtimers_timer_instance_t`.  The union `handler` holds one function
pointer whichever member is written or read; pointers are numbers and `0` is `NULL`. -/
structure swtimers_timer_instance_t where
  handler : Nat
  threshold : Nat
  arg_1_p : Nat
  arg_2_p : Nat
  mode : swtimers_mode_t
  is_simple : Bool
  is_run : Bool
  is_waiting : Bool
  counter : Nat
  deriving DecidableEq, Repr

/-- Slot as left by `memset(..., 0x00, ...)` -/
def zero_timer : swtimers_timer_instance_t :=
  { handler := 0, threshold := 0, arg_1_p := 0, arg_2_p := 0,
    mode := SWTIMERS_MODE_SINGLE_FROM_LOOP, is_simple := false,
    is_run := false, is_waiting := false, counter := 0 }

/-- Interface to the hardware timer, `swtimers_hw_interface_t`.  A callback field is `true` when
the function pointer is not `NULL`. -/
structure swtimers_hw_interface_t where
  hw_timer_p : Nat
  isr_enable_cb : Bool
  isr_disable_cb : Bool
  hw_start_cb : Bool
  hw_stop_cb : Bool
  hw_is_started_cb : Bool
  tick_ms : Nat
  deriving DecidableEq, Repr

/-- Driver instance, `swtimers_instance_t`: pointer to the hardware interface (`none` is `NULL`)
and number of timers.  The table that `timers_table_p` points to is `World.timers`. -/
structure swtimers_instance_t where
  hw_p : Option swtimers_hw_interface_t
  num : Nat
  deriving DecidableEq, Repr

/-- The fields of a slot shared between the interrupt and the application context -/
inductive Field
  | is_run
  | is_waiting
  | counter
  deriving DecidableEq, Repr

/-- Externally visible actions of the driver, in program order.  `call_simple f i` is the call
`f()` made for slot `i` (the index is not passed to the callee). -/
inductive Event
  | isr_disable
  | isr_enable
  | hw_is_started
  | hw_start
  | hw_stop
  | rd (idx : Nat) (fld : Field)
  | wr (idx : Nat) (fld : Field)
  | call_full (f idx arg_1_p arg_2_p : Nat)
  | call_simple (f idx : Nat)
  deriving DecidableEq, Repr

/-- Memory the driver works on: the caller's timers table, the state of the hardware timer as the
`hw_start_cb` / `hw_stop_cb` / `hw_is_started_cb` callbacks of drv_swtimers_test.c keep it, and the
trace of actions. -/
structure World where
  timers : List swtimers_timer_instance_t
  hw_is_started : Bool
  trace : List Event
  deriving DecidableEq, Repr

/-- Application handlers: what the function behind a handler pointer does to the world when it
is called (it may call `swtimers_start` / `swtimers_stop`); `none` if it halts. -/
structure Handlers where
  full_cb : Nat → Nat → Nat → Nat → World → Option World
  simple_cb : Nat → World → Option World

/-- Reduction of a value to `uint32_t` -/
def wrap32 (n : Nat) : Nat :=
  n % 4294967296

/-- Append one action to the trace -/
def World.emit (w : World) (e : Event) : World :=
  { w with trace := w.trace ++ [e] }

/-- Slot `i` of the table; `none` outside the table -/
def World.slot (w : World) (i : Nat) : Option swtimers_timer_instance_t :=
  w.timers[i]?

/-- Overwrite slot `i` of the table; `none` outside the table -/
def World.store (w : World) (i : Nat) (t : swtimers_timer_instance_t) : Option World :=
  if i < w.timers.length then some { w with timers := w.timers.set i t } else none

/-- Read `timers_table_p[i].is_run` -/
def rd_is_run (i : Nat) (w : World) : Option (Bool × World) :=
  (w.slot i).map fun t => (t.is_run, w.emit (Event.rd i Field.is_run))

/-- Read `timers_table_p[i].is_waiting` -/
def rd_is_waiting (i : Nat) (w : World) : Option (Bool × World) :=
  (w.slot i).map fun t => (t.is_waiting, w.emit (Event.rd i Field.is_waiting))

/-- Read `timers_table_p[i].counter` -/
def rd_counter (i : Nat) (w : World) : Option (Nat × World) :=
  (w.slot i).map fun t => (t.counter, w.emit (Event.rd i Field.counter))

/-- Write `timers_table_p[i].is_run = v` -/
def wr_is_run (i : Nat) (v : Bool) (w : World) : Option World :=
  (w.slot i).bind fun t => (w.emit (Event.wr i Field.is_run)).store i { t with is_run := v }

/-- Write `timers_table_p[i].is_waiting = v` -/
def wr_is_waiting (i : Nat) (v : Bool) (w : World) : Option World :=
  (w.slot i).bind fun t => (w.emit (Event.wr i Field.is_waiting)).store i { t with is_waiting := v }

/-- Write `timers_table_p[i].counter = v` -/
def wr_counter (i : Nat) (v : Nat) (w : World) : Option World :=
  (w.slot i).bind fun t => (w.emit (Event.wr i Field.counter)).store i { t with counter := v }

/-- Call `hw_p->isr_disable_cb(hw_p->hw_timer_p)` -/
def call_isr_disable (hw : swtimers_hw_interface_t) (w : World) : Option World :=
  if hw.isr_disable_cb then some (w.emit Event.isr_disable) else none

/-- Call `hw_p->isr_enable_cb(hw_p->hw_timer_p)` -/
def call_isr_enable (hw : swtimers_hw_interface_t) (w : World) : Option World :=
  if hw.isr_enable_cb then some (w.emit Event.isr_enable) else none

/-- Call `hw_p->hw_is_started_cb(hw_p->hw_timer_p)` -/
def call_hw_is_started (hw : swtimers_hw_interface_t) (w : World) : Option (Bool × World) :=
  if hw.hw_is_started_cb then some (w.hw_is_started, w.emit Event.hw_is_started) else none

/-- Call `hw_p->hw_start_cb(hw_p->hw_timer_p)` -/
def call_hw_start (hw : swtimers_hw_interface_t) (w : World) : Option World :=
  if hw.hw_start_cb then some { w.emit Event.hw_start with hw_is_started := true } else none

/-- Call `hw_p->hw_stop_cb(hw_p->hw_timer_p)` -/
def call_hw_stop (hw : swtimers_hw_interface_t) (w : World) : Option World :=
  if hw.hw_stop_cb then some { w.emit Event.hw_stop with hw_is_started := false } else none

/-- Call `(handler.full_cb)(i, arg_1_p, arg_2_p)` -/
def call_full (env : Handlers) (f i a1 a2 : Nat) (w : World) : Option World :=
  env.full_cb f i a1 a2 (w.emit (Event.call_full f i a1 a2))

/-- Call `(handler.simple_cb)()` for slot `i` -/
def call_simple (env : Handlers) (f i : Nat) (w : World) : Option World :=
  env.simple_cb f (w.emit (Event.call_simple f i))

/-- A `for (size_t i = 0; i < n; ++i) body` loop with the bound taken at entry: the instance is
`const` in every function that loops over it. -/
def for_loop (body : Nat → World → Option World) : Nat → World → Option World
  | 0, w => some w
  | n + 1, w => (for_loop body n w).bind (body n)

/-- Start hardware timer if necessary, `swtimers_start_hw_timer` -/
def swtimers_start_hw_timer (inst : swtimers_instance_t) (w : World) : Option World := do
  let hw ← inst.hw_p
  if hw.hw_is_started_cb = false then pure w
  else do
    let r ← call_hw_is_started hw w
    if r.1 then pure r.2 else call_hw_start hw r.2

/-- The scan of `swtimers_stop_hw_timer` over slots `i, i+1, ...` (`k` of them): `true` as soon as
a slot with `is_run` is met -/
def stop_hw_scan : Nat → Nat → World → Option (Bool × World)
  | 0, _, w => some (false, w)
  | k + 1, i, w => do
    let r ← rd_is_run i w
    if r.1 then pure (true, r.2) else stop_hw_scan k (i + 1) r.2

/-- Stop hardware timer if necessary (if no timers are started), `swtimers_stop_hw_timer` -/
def swtimers_stop_hw_timer (inst : swtimers_instance_t) (w : World) : Option World := do
  let hw ← inst.hw_p
  if hw.hw_is_started_cb = false then pure w
  else do
    let r ← call_hw_is_started hw w
    if r.1 = false then pure r.2
    else do
      let s ← stop_hw_scan inst.num 0 r.2
      if s.1 then pure s.2 else call_hw_stop hw s.2

/-- Stop timer, `swtimers_stop` -/
def swtimers_stop (inst : swtimers_instance_t) (idx : Nat) (w : World) : Option World := do
  if idx < inst.num then do
    let hw ← inst.hw_p
    let w ← call_isr_disable hw w
    let w ← wr_is_run idx false w
    let w ← wr_is_waiting idx false w
    let w ← wr_counter idx 0 w
    let w ← call_isr_enable hw w
    swtimers_stop_hw_timer inst w
  else none

/-- Stop all timers, `swtimers_stop_all` -/
def swtimers_stop_all (inst : swtimers_instance_t) (w : World) : Option World := do
  if inst.num ≠ 0 then do
    let w ← for_loop (fun i w => swtimers_stop inst i w) inst.num w
    swtimers_stop_hw_timer inst w
  else none

/-- Start timer, `swtimers_do_start` -/
def swtimers_do_start (inst : swtimers_instance_t) (idx ms : Nat) (mode : swtimers_mode_t)
    (is_simple : Bool) (handler_cb handler_simple_cb arg_1_p arg_2_p : Nat) (w : World) :
    Option World := do
  if idx < inst.num then do
    let hw ← inst.hw_p
    let w ← swtimers_stop inst idx w
    let t ← w.slot idx
    if hw.tick_ms = 0 then none
    else do
      let w ← w.store idx
        { t with
          is_simple := is_simple
          handler := if is_simple then handler_simple_cb else handler_cb
          mode := mode
          arg_1_p := arg_1_p
          arg_2_p := arg_2_p
          threshold := ms / hw.tick_ms }
      let w ← call_isr_disable hw w
      let w ← wr_is_run idx true w
      let w ← call_isr_enable hw w
      swtimers_start_hw_timer inst w
  else none

/-- Start timer, `swtimers_start` -/
def swtimers_start (inst : swtimers_instance_t) (idx ms : Nat) (mode : swtimers_mode_t)
    (handler_cb arg_1_p arg_2_p : Nat) (w : World) : Option World :=
  swtimers_do_start inst idx ms mode false handler_cb 0 arg_1_p arg_2_p w

/-- Start timer with simplified handler callback function, `swtimers_start_simple` -/
def swtimers_start_simple (inst : swtimers_instance_t) (idx ms : Nat) (mode : swtimers_mode_t)
    (handler_cb : Nat) (w : World) : Option World :=
  swtimers_do_start inst idx ms mode true 0 handler_cb 0 0 w

/-- Start single shot timer without handler, `swtimers_start_no_handler` -/
def swtimers_start_no_handler (inst : swtimers_instance_t) (idx ms : Nat) (w : World) :
    Option World :=
  swtimers_do_start inst idx ms SWTIMERS_MODE_SINGLE_FROM_LOOP true 0 0 0 0 w

/-- Check if timer is run and get time since the last start of the timer, `swtimers_is_run`.
The result is the returned flag, the value stored through `time_ms_out_p` and the world;
`time_ms_out_p = 0` is a `NULL` pointer, and the store through it is undefined. -/
def swtimers_is_run (inst : swtimers_instance_t) (idx : Nat) (time_ms_out_p : Nat) (w : World) :
    Option (Bool × Nat × World) := do
  if idx < inst.num then do
    let hw ← inst.hw_p
    let w ← call_isr_disable hw w
    let r ← rd_is_run idx w
    let q ← rd_is_waiting idx r.2
    let c ← rd_counter idx q.2
    let w ← call_isr_enable hw c.2
    if r.1 || q.1 then
      if time_ms_out_p = 0 then none else pure (true, wrap32 (c.1 * hw.tick_ms), w)
    else
      if time_ms_out_p = 0 then none else pure (false, 0, w)
  else none

/-- Body of the loop of `swtimers_task` for slot `i` -/
def swtimers_task_slot (env : Handlers) (hw : swtimers_hw_interface_t) (i : Nat) (w : World) :
    Option World := do
  let w ← call_isr_disable hw w
  let r ← rd_is_waiting i w
  let w ← call_isr_enable hw r.2
  if r.1 then do
    let t ← w.slot i
    let w ←
      if t.is_simple = true ∧ t.handler ≠ 0 then call_simple env t.handler i w
      else if t.is_simple = false ∧ t.handler ≠ 0 then
        call_full env t.handler i t.arg_1_p t.arg_2_p w
      else pure w
    let w ← call_isr_disable hw w
    let w ← wr_is_waiting i false w
    call_isr_enable hw w
  else pure w

/-- Check all timers and call handlers if necessary, `swtimers_task` -/
def swtimers_task (env : Handlers) (inst : swtimers_instance_t) (w : World) : Option World := do
  if inst.num ≠ 0 then do
    let hw ← inst.hw_p
    let w ← for_loop (swtimers_task_slot env hw) inst.num w
    swtimers_stop_hw_timer inst w
  else none

/-- Body of the loop of `swtimers_isr` for slot `i` -/
def swtimers_isr_slot (env : Handlers) (i : Nat) (w : World) : Option World := do
  let r ← rd_is_run i w
  if r.1 = false then pure r.2
  else do
    let c ← rd_counter i r.2
    let w ← wr_counter i (wrap32 (c.1 + 1)) c.2
    let c ← rd_counter i w
    let t ← c.2.slot i
    if c.1 < t.threshold then pure c.2
    else do
      let w ←
        if t.mode = SWTIMERS_MODE_SINGLE_FROM_LOOP ∨ t.mode = SWTIMERS_MODE_SINGLE_FROM_ISR then
          wr_is_run i false c.2
        else wr_counter i 0 c.2
      if t.handler ≠ 0 then
        if t.mode = SWTIMERS_MODE_SINGLE_FROM_ISR ∨ t.mode = SWTIMERS_MODE_PERIODIC_FROM_ISR then
          if t.is_simple then call_simple env t.handler i w
          else call_full env t.handler i t.arg_1_p t.arg_2_p w
        else wr_is_waiting i true w
      else pure w

/-- ISR handler for hardware timer interrupt, `swtimers_isr` -/
def swtimers_isr (env : Handlers) (inst : swtimers_instance_t) (w : World) : Option World :=
  for_loop (swtimers_isr_slot env) inst.num w

/-- Init driver, `swtimers_init`: `w.timers` is the caller's table with whatever it held -/
def swtimers_init (hw_interface_p : Option swtimers_hw_interface_t) (num : Nat) (w : World) :
    Option (swtimers_instance_t × World) := do
  let hw ← hw_interface_p
  if 0 < num ∧ hw.isr_disable_cb = true ∧ hw.isr_enable_cb = true ∧ hw.tick_ms ≠ 0 ∧
      ((hw.hw_start_cb = false ∧ hw.hw_stop_cb = false ∧ hw.hw_is_started_cb = false) ∨
       (hw.hw_start_cb = true ∧ hw.hw_stop_cb = true ∧ hw.hw_is_started_cb = true)) then do
    let inst : swtimers_instance_t := { hw_p := some hw, num := num }
    if num ≤ w.timers.length then do
      let w := { w with timers := List.replicate num zero_timer ++ w.timers.drop num }
      let w ← swtimers_stop_all inst w
      pure (inst, w)
    else none
  else none

/-! ## Vocabulary of the statements -/

/-- Whether an action is a call of an application handler -/
def Event.is_call : Event → Bool
  | Event.call_full _ _ _ _ => true
  | Event.call_simple _ _ => true
  | _ => false

/-- Whether an action is a call of the handler of slot `idx` -/
def Event.is_call_of (idx : Nat) : Event → Bool
  | Event.call_full _ i _ _ => decide (i = idx)
  | Event.call_simple _ i => decide (i = idx)
  | _ => false

/-- The handler calls of a trace, in order -/
def calls (tr : List Event) : List Event :=
  tr.filter Event.is_call

/-- The calls of the handler of slot `idx` in a trace, in order -/
def calls_of (idx : Nat) (tr : List Event) : List Event :=
  tr.filter (Event.is_call_of idx)

/-- Handlers that do not call back into the driver: they leave the table, the hardware timer
and the trace as they found them -/
def Quiet (env : Handlers) : Prop :=
  (∀ f i a b w, env.full_cb f i a b w = some w) ∧ (∀ f w, env.simple_cb f w = some w)

/-- The handlers that do nothing -/
def idle_handlers : Handlers :=
  { full_cb := fun _ _ _ _ w => some w, simple_cb := fun _ w => some w }

/-- The requirements that `swtimers_init` asserts on the hardware interface -/
def hw_ok (hw : swtimers_hw_interface_t) : Prop :=
  hw.isr_disable_cb = true ∧ hw.isr_enable_cb = true ∧ hw.tick_ms ≠ 0 ∧
    ((hw.hw_start_cb = false ∧ hw.hw_stop_cb = false ∧ hw.hw_is_started_cb = false) ∨
     (hw.hw_start_cb = true ∧ hw.hw_stop_cb = true ∧ hw.hw_is_started_cb = true))

/-- An initialized instance: the interface is wired and accepted by `swtimers_init`, there is at
least one timer and the table has `num` slots -/
def Initialized (inst : swtimers_instance_t) (hw : swtimers_hw_interface_t) (w : World) : Prop :=
  inst.hw_p = some hw ∧ hw_ok hw ∧ 0 < inst.num ∧ w.timers.length = inst.num

/-- Whether some slot of the table has `is_run` -/
def any_run (l : List swtimers_timer_instance_t) : Bool :=
  l.any fun t => t.is_run

/-- The calls `n` consecutive `swtimers_isr` make, nothing else running in between -/
def isr_n (env : Handlers) (inst : swtimers_instance_t) : Nat → World → Option World
  | 0, w => some w
  | n + 1, w => (isr_n env inst n w).bind (swtimers_isr env inst)

/-- Whether the mode is one of the two single shot modes -/
def is_single (m : swtimers_mode_t) : Bool :=
  decide (m = SWTIMERS_MODE_SINGLE_FROM_LOOP ∨ m = SWTIMERS_MODE_SINGLE_FROM_ISR)

/-- Whether the mode is one of the two modes that dispatch from the ISR -/
def is_from_isr (m : swtimers_mode_t) : Bool :=
  decide (m = SWTIMERS_MODE_SINGLE_FROM_ISR ∨ m = SWTIMERS_MODE_PERIODIC_FROM_ISR)

/-- Whether one `swtimers_isr` pass takes a slot through the expiry branch: the slot runs and the
incremented counter is not below the threshold -/
def expires (t : swtimers_timer_instance_t) : Bool :=
  t.is_run && !decide (wrap32 (t.counter + 1) < t.threshold)

/-- The call that dispatches the handler of slot `i` -/
def dispatch (i : Nat) (t : swtimers_timer_instance_t) : Event :=
  if t.is_simple then Event.call_simple t.handler i
  else Event.call_full t.handler i t.arg_1_p t.arg_2_p

/-- What one `swtimers_isr` pass does to a slot when handlers are quiet -/
def tick (t : swtimers_timer_instance_t) : swtimers_timer_instance_t :=
  if t.is_run = false then t
  else if wrap32 (t.counter + 1) < t.threshold then { t with counter := wrap32 (t.counter + 1) }
  else
    { t with
      counter := if is_single t.mode then wrap32 (t.counter + 1) else 0
      is_run := !is_single t.mode
      is_waiting := if t.handler ≠ 0 ∧ is_from_isr t.mode = false then true else t.is_waiting }

/-- The handler calls one `swtimers_isr` pass makes for slot `i` -/
def tick_calls (i : Nat) (t : swtimers_timer_instance_t) : List Event :=
  if expires t = true ∧ t.handler ≠ 0 ∧ is_from_isr t.mode = true then [dispatch i t] else []

/-- The handler calls one `swtimers_task` pass makes for slot `i` -/
def task_calls (i : Nat) (t : swtimers_timer_instance_t) : List Event :=
  if t.is_waiting = true ∧ t.handler ≠ 0 then [dispatch i t] else []

/-- The calls `g` lists for the slots `0 .. n-1` of a table, in index order -/
def slot_calls (g : Nat → swtimers_timer_instance_t → List Event)
    (l : List swtimers_timer_instance_t) (n : Nat) : List Event :=
  (List.range n).flatMap fun i =>
    match l[i]? with
    | some t => g i t
    | none => []

/-- The hardware interface of drv_swtimers_test.c: every callback present, `tick_ms = 1` -/
def test_hw_interface : swtimers_hw_interface_t :=
  { hw_timer_p := 1, isr_enable_cb := true, isr_disable_cb := true, hw_start_cb := true,
    hw_stop_cb := true, hw_is_started_cb := true, tick_ms := 1 }

/-- A driver instance over `test_hw_interface` with three timers -/
def test_inst : swtimers_instance_t :=
  { hw_p := some test_hw_interface, num := 3 }

/-- A zeroed table of three timers, hardware timer stopped, nothing traced -/
def test_world : World :=
  { timers := List.replicate 3 zero_timer, hw_is_started := false, trace := [] }

/-- The slot an action refers to (`0` for the actions on the hardware) -/
def Event.slot_idx : Event → Nat
  | Event.rd i _ => i
  | Event.wr i _ => i
  | Event.call_full _ i _ _ => i
  | Event.call_simple _ i => i
  | _ => 0

/-- The calls an application can make on an initialized instance -/
inductive Op
  | start (idx ms : Nat) (mode : swtimers_mode_t) (handler_cb arg_1_p arg_2_p : Nat)
  | start_simple (idx ms : Nat) (mode : swtimers_mode_t) (handler_cb : Nat)
  | start_no_handler (idx ms : Nat)
  | stop (idx : Nat)
  | stop_all
  | task
  | isr
  deriving DecidableEq, Repr

/-- One call on the instance -/
def Op.exec (env : Handlers) (inst : swtimers_instance_t) : Op → World → Option World
  | Op.start idx ms mode handler_cb arg_1_p arg_2_p, w =>
    swtimers_start inst idx ms mode handler_cb arg_1_p arg_2_p w
  | Op.start_simple idx ms mode handler_cb, w => swtimers_start_simple inst idx ms mode handler_cb w
  | Op.start_no_handler idx ms, w => swtimers_start_no_handler inst idx ms w
  | Op.stop idx, w => swtimers_stop inst idx w
  | Op.stop_all, w => swtimers_stop_all inst w
  | Op.task, w => swtimers_task env inst w
  | Op.isr, w => swtimers_isr env inst w

/-- A sequence of calls, each one returning before the next starts -/
def run (env : Handlers) (inst : swtimers_instance_t) : List Op → World → Option World
  | [], w => some w
  | op :: ops, w => (op.exec env inst w).bind (run env inst ops)

/-- Deinit driver, `swtimers_deinit`: the result is the instance as the function leaves it
(zeroed: `hw_p = NULL`, `num = 0`) and the world -/
def swtimers_deinit (inst : swtimers_instance_t) (w : World) :
    Option (swtimers_instance_t × World) := do
  if inst.num = 0 then pure (inst, w)
  else do
    let w ← swtimers_stop_all inst w
    let w ← swtimers_stop_hw_timer inst w
    if inst.num ≤ w.timers.length then
      pure ({ hw_p := none, num := 0 },
        { w with timers := List.replicate inst.num zero_timer ++ w.timers.drop inst.num })
    else none

/-- Whether a trace keeps the critical-section discipline: every read or write of `is_run`,
`is_waiting` or `counter` lies between an `isr_disable` and the next `isr_enable`, the two calls
alternate, and the trace ends outside a critical section.  The flag says whether the trace
starts inside one. -/
def guarded : Bool → List Event → Bool
  | inside, [] => !inside
  | inside, Event.isr_disable :: tr => !inside && guarded true tr
  | inside, Event.isr_enable :: tr => inside && guarded false tr
  | inside, Event.rd _ _ :: tr => inside && guarded inside tr
  | inside, Event.wr _ _ :: tr => inside && guarded inside tr
  | inside, _ :: tr => guarded inside tr

/-! ## Buttons driver (drv_buttons.c) -/

/-- Button events, `buttons_event_t`: no event -/
def BUTTONS_NO_EVENT : Nat := 0

/-- Button is pressed (after bouncing filter) -/
def BUTTONS_PRESSED : Nat := 1

/-- Button is released (after bouncing filter) -/
def BUTTONS_RELEASED : Nat := 2

/-- Hold is detected -/
def BUTTONS_HOLD : Nat := 4

/-- Two short clicks are detected -/
def BUTTONS_DOUBLE : Nat := 8

/-- Button check mode, `buttons_check_t` -/
inductive buttons_check_t
  | BUTTONS_CHECK_DISABLED
  | BUTTONS_CHECK_IN_POLLING
  | BUTTONS_CHECK_IN_ISR
  deriving DecidableEq, Repr

open buttons_check_t

/-- Button structure, `buttons_button_instance_t` -/
structure buttons_button_instance_t where
  handler_cb : Nat
  gpio_pin : Nat
  arg_p : Nat
  bouncing_ms : Nat
  double_click_ms : Nat
  hold_ms : Nat
  check_type : buttons_check_t
  is_pressed_low : Bool
  timer_id : Nat
  is_changed : Bool
  is_pressed_raw : Bool
  is_pressed_debounced : Bool
  is_debouncing : Bool
  is_holding : Bool
  is_double_clicking : Bool
  deriving DecidableEq, Repr

/-- Button as left by `memset(..., 0x00, ...)` -/
def zero_button : buttons_button_instance_t :=
  { handler_cb := 0, gpio_pin := 0, arg_p := 0, bouncing_ms := 0, double_click_ms := 0,
    hold_ms := 0, check_type := BUTTONS_CHECK_DISABLED, is_pressed_low := false, timer_id := 0,
    is_changed := false, is_pressed_raw := false, is_pressed_debounced := false,
    is_debouncing := false, is_holding := false, is_double_clicking := false }

/-- Interface to hardware GPIO, `buttons_hw_interface_t`.  A callback field is `true` when the
function pointer is not `NULL`. -/
structure buttons_hw_interface_t where
  hw_gpio_p : Nat
  isr_enable_cb : Bool
  isr_disable_cb : Bool
  gpio_read : Bool
  deriving DecidableEq, Repr

/-- Time settings, `buttons_time_settings_t` -/
structure buttons_time_settings_t where
  bouncing_ms : Nat
  double_click_ms : Nat
  hold_ms : Nat
  deriving DecidableEq, Repr

/-- Driver instance, `buttons_instance_t`; the table `buttons_table_p` points to is
`BWorld.buttons` -/
structure buttons_instance_t where
  swtimers_p : Option swtimers_instance_t
  hw_p : Option buttons_hw_interface_t
  num : Nat
  deriving DecidableEq, Repr

/-- Externally visible actions of the buttons driver: the calls of the GPIO interface and of
the application handler `handler_cb(button_idx, event, arg_p)` -/
inductive BEvent
  | isr_disable
  | isr_enable
  | gpio_read (pin_idx : Nat)
  | handler (f button_idx event arg_p : Nat)
  deriving DecidableEq, Repr

/-- Memory the buttons driver works on: the memory of the software timers driver, the caller's
buttons table and the trace of actions -/
structure BWorld where
  swt : World
  buttons : List buttons_button_instance_t
  log : List BEvent
  deriving DecidableEq, Repr

/-- Application handlers of button events: what the function behind a handler pointer does when
called with `(button_idx, event, arg_p)`; `none` if it halts -/
structure BHandlers where
  handler_cb : Nat → Nat → Nat → Nat → BWorld → Option BWorld

/-- Local variables and memory of one iteration of the loop of `buttons_task`: `*button_p`,
`event`, `is_timer_run`, the timers memory and the trace -/
structure BLocal where
  b : buttons_button_instance_t
  event : Nat
  is_timer_run : Bool
  w : World
  log : List BEvent
  deriving DecidableEq, Repr

/-- A `for (size_t i = 0; i < n; ++i) body` loop over the buttons table -/
def for_loop_b (body : Nat → BWorld → Option BWorld) : Nat → BWorld → Option BWorld
  | 0, bw => some bw
  | n + 1, bw => (for_loop_b body n bw).bind (body n)

/-- Configure button, `buttons_configure`; `gpio` is the level of each input pin -/
def buttons_configure (inst : buttons_instance_t) (gpio : Nat → Bool) (idx gpio_pin timer_id : Nat)
    (is_pressed_low : Bool) (check_type : buttons_check_t) (times : buttons_time_settings_t)
    (handler_cb arg_p : Nat) (bw : BWorld) : Option BWorld := do
  if idx < inst.num then do
    let swt ← inst.swtimers_p
    let w ← swtimers_stop swt timer_id bw.swt
    let hw ← inst.hw_p
    if hw.gpio_read = true ∧ idx < bw.buttons.length then
      let gpio_state := gpio gpio_pin
      let raw := if is_pressed_low then !gpio_state else gpio_state
      pure
        { swt := w
          buttons := bw.buttons.set idx
            { zero_button with
              gpio_pin := gpio_pin
              timer_id := timer_id
              is_pressed_low := is_pressed_low
              check_type := check_type
              handler_cb := handler_cb
              arg_p := arg_p
              bouncing_ms := times.bouncing_ms
              double_click_ms := times.double_click_ms
              hold_ms := times.hold_ms
              is_pressed_raw := raw
              is_pressed_debounced := raw }
          log := bw.log ++ [BEvent.gpio_read gpio_pin] }
    else none
  else none

/-- Get button state after bouncing filter, `buttons_is_pressed` -/
def buttons_is_pressed (inst : buttons_instance_t) (idx : Nat) (bw : BWorld) : Option Bool :=
  if idx < inst.num then (bw.buttons[idx]?).map fun b => b.is_pressed_debounced else none

/-- Get raw button state before bouncing filter, `buttons_is_pressed_raw` -/
def buttons_is_pressed_raw (inst : buttons_instance_t) (idx : Nat) (bw : BWorld) :
    Option (Bool × BWorld) := do
  if idx < inst.num then do
    let b ← bw.buttons[idx]?
    if b.check_type = BUTTONS_CHECK_IN_ISR then do
      let hw ← inst.hw_p
      if hw.isr_disable_cb = true ∧ hw.isr_enable_cb = true then
        pure (b.is_pressed_raw,
          { bw with log := bw.log ++ [BEvent.isr_disable, BEvent.isr_enable] })
      else none
    else pure (b.is_pressed_raw, bw)
  else none

/-- Check if button state has been changed since previous processing,
`buttons_process_changes`: the raw event, the button and the trace -/
def buttons_process_changes (hw_p : Option buttons_hw_interface_t) (gpio : Nat → Bool)
    (b : buttons_button_instance_t) (log : List BEvent) :
    Option (Nat × buttons_button_instance_t × List BEvent) := do
  if b.check_type = BUTTONS_CHECK_IN_POLLING then do
    let hw ← hw_p
    if hw.gpio_read = true then
      let gpio_state := gpio b.gpio_pin
      let gpio_state := if b.is_pressed_low then !gpio_state else gpio_state
      if b.is_pressed_raw ≠ gpio_state then
        pure (if gpio_state then BUTTONS_PRESSED else BUTTONS_RELEASED,
          { b with is_pressed_raw := gpio_state }, log ++ [BEvent.gpio_read b.gpio_pin])
      else pure (BUTTONS_NO_EVENT, b, log ++ [BEvent.gpio_read b.gpio_pin])
    else none
  else if b.check_type = BUTTONS_CHECK_IN_ISR then do
    let hw ← hw_p
    if hw.isr_disable_cb = true ∧ hw.isr_enable_cb = true then
      pure (if b.is_changed then (if b.is_pressed_raw then BUTTONS_PRESSED else BUTTONS_RELEASED)
          else BUTTONS_NO_EVENT,
        { b with is_changed := false }, log ++ [BEvent.isr_disable, BEvent.isr_enable])
    else none
  else pure (BUTTONS_NO_EVENT, b, log)

/-- Lines 218-231 of `buttons_task`: if button change is detected, start debouncing or, without
bouncing filter, make the event at once -/
def buttons_task_change (swt : swtimers_instance_t) (raw_event : Nat) (s : BLocal) :
    Option BLocal :=
  if raw_event ≠ BUTTONS_NO_EVENT then
    if s.b.bouncing_ms ≠ 0 then
      (swtimers_start_no_handler swt s.b.timer_id s.b.bouncing_ms s.w).map fun w =>
        { s with w := w, b := { s.b with is_debouncing := true } }
    else
      some
        { s with
          b := { s.b with
            is_pressed_debounced := decide (raw_event &&& BUTTONS_PRESSED ≠ 0)
            is_holding := false }
          event := s.event ||| raw_event }
  else some s

/-- Line 234 of `buttons_task`: check previously started timer,
`is_timer_run = swtimers_is_run(swtimers_p, timer_id, NULL)`; the out pointer is `NULL` -/
def buttons_task_timer (swt : swtimers_instance_t) (s : BLocal) : Option BLocal :=
  (swtimers_is_run swt s.b.timer_id 0 s.w).map fun r =>
    { s with is_timer_run := r.1, w := r.2.2 }

/-- Lines 236-242 of `buttons_task`: if debouncing is finished -/
def buttons_task_debounced (s : BLocal) : BLocal :=
  if s.b.is_debouncing = true ∧ s.is_timer_run = false then
    { s with
      b := { s.b with
        is_debouncing := false
        is_pressed_debounced := s.b.is_pressed_raw
        is_holding := false }
      event := s.event ||| (if s.b.is_pressed_raw then BUTTONS_PRESSED else BUTTONS_RELEASED) }
  else s

/-- Lines 244-248 of `buttons_task`: if hold is detected -/
def buttons_task_hold (s : BLocal) : BLocal :=
  if s.b.is_holding = true ∧ s.is_timer_run = false then
    { s with b := { s.b with is_holding := false }, event := s.event ||| BUTTONS_HOLD }
  else s

/-- Lines 250-261 of `buttons_task`: if pressed, check for double click or start holding -/
def buttons_task_pressed (swt : swtimers_instance_t) (s : BLocal) : Option BLocal :=
  if s.event &&& BUTTONS_PRESSED ≠ 0 then
    if s.b.is_double_clicking = true then
      (swtimers_stop swt s.b.timer_id s.w).map fun w =>
        { s with
          w := w
          b := { s.b with is_double_clicking := false }
          event := s.event ||| BUTTONS_DOUBLE }
    else
      (swtimers_start_no_handler swt s.b.timer_id s.b.hold_ms s.w).map fun w =>
        { s with w := w, b := { s.b with is_holding := true } }
  else some s

/-- Lines 263-266 of `buttons_task`: if double click timeout is over -/
def buttons_task_double_timeout (s : BLocal) : BLocal :=
  if s.b.is_double_clicking = true ∧ s.is_timer_run = false then
    { s with b := { s.b with is_double_clicking := false } }
  else s

/-- Lines 268-272 of `buttons_task`: if released, start double click -/
def buttons_task_released (swt : swtimers_instance_t) (s : BLocal) : Option BLocal :=
  if s.event &&& BUTTONS_RELEASED ≠ 0 then
    (swtimers_start_no_handler swt s.b.timer_id s.b.double_click_ms s.w).map fun w =>
      { s with w := w, b := { s.b with is_double_clicking := true } }
  else some s

/-- The condition asserted at lines 275-278 of `buttons_task` -/
def buttons_task_assert (event : Nat) : Bool :=
  !(decide (event &&& BUTTONS_PRESSED ≠ 0) && decide (event &&& BUTTONS_RELEASED ≠ 0)) ||
  !(decide (event &&& BUTTONS_RELEASED ≠ 0) && decide (event &&& BUTTONS_HOLD ≠ 0)) ||
  !(decide (event &&& BUTTONS_RELEASED ≠ 0) && decide (event &&& BUTTONS_DOUBLE ≠ 0)) ||
  !(decide (event &&& BUTTONS_HOLD ≠ 0) && decide (event &&& BUTTONS_DOUBLE ≠ 0))

/-- The steps of the loop body of `buttons_task` on the local variables, from the detected
change to the last timer call (lines 218-272) -/
def buttons_task_steps (swt : swtimers_instance_t) (raw_event : Nat) (s : BLocal) :
    Option BLocal := do
  let s ← buttons_task_change swt raw_event s
  let s ← buttons_task_timer swt s
  let s ← buttons_task_pressed swt (buttons_task_hold (buttons_task_debounced s))
  buttons_task_released swt (buttons_task_double_timeout s)

/-- The loop body of `buttons_task` for an enabled button `i` up to the assertion (lines
216-278): the event mask and the memory.  The accesses to `*button_p` are made on a local copy
stored back at the end; nothing else in the body touches the buttons table. -/
def buttons_task_events (inst : buttons_instance_t) (gpio : Nat → Bool) (i : Nat) (bw : BWorld) :
    Option (Nat × BWorld) := do
  let b ← bw.buttons[i]?
  let r ← buttons_process_changes inst.hw_p gpio b bw.log
  let swt ← inst.swtimers_p
  let s ← buttons_task_steps swt r.1
    { b := r.2.1, event := BUTTONS_NO_EVENT, is_timer_run := false, w := bw.swt, log := r.2.2 }
  if buttons_task_assert s.event = true then
    pure (s.event, { swt := s.w, buttons := bw.buttons.set i s.b, log := s.log })
  else none

/-- The loop body of `buttons_task` for button `i` (lines 208-283) -/
def buttons_task_button (env : BHandlers) (inst : buttons_instance_t) (gpio : Nat → Bool)
    (i : Nat) (bw : BWorld) : Option BWorld := do
  let b ← bw.buttons[i]?
  if b.check_type = BUTTONS_CHECK_DISABLED then pure bw
  else do
    let r ← buttons_task_events inst gpio i bw
    if r.1 ≠ BUTTONS_NO_EVENT ∧ b.handler_cb ≠ 0 then
      env.handler_cb b.handler_cb i r.1 b.arg_p
        { r.2 with log := r.2.log ++ [BEvent.handler b.handler_cb i r.1 b.arg_p] }
    else pure r.2

/-- Poll buttons if necessary, process changes and call handlers if necessary, `buttons_task`;
`gpio` is the level of each input pin during the pass -/
def buttons_task (env : BHandlers) (inst : buttons_instance_t) (gpio : Nat → Bool)
    (bw : BWorld) : Option BWorld :=
  if inst.num ≠ 0 then for_loop_b (buttons_task_button env inst gpio) inst.num bw else none

/-- ISR handler for hardware GPIO pin changes, `buttons_isr` -/
def buttons_isr (idx : Nat) (gpio_state : Bool) (bw : BWorld) : Option BWorld := do
  let b ← bw.buttons[idx]?
  if b.check_type = BUTTONS_CHECK_IN_ISR then pure bw
  else
    let gpio_state := if b.is_pressed_low then !gpio_state else gpio_state
    if b.is_pressed_raw ≠ gpio_state then
      pure { bw with
        buttons := bw.buttons.set idx { b with is_pressed_raw := gpio_state, is_changed := true } }
    else pure bw

/-- The calls an application can make on initialized buttons and timers drivers: configure a
button, run `buttons_task` with the given pin levels, notify a pin change with `buttons_isr`,
and let the hardware timer tick (`swtimers_isr`) or the timers task run (`swtimers_task`) -/
inductive BOp
  | configure (gpio : Nat → Bool) (idx gpio_pin timer_id : Nat) (is_pressed_low : Bool)
      (check_type : buttons_check_t) (times : buttons_time_settings_t) (handler_cb arg_p : Nat)
  | task (gpio : Nat → Bool)
  | isr (idx : Nat) (gpio_state : Bool)
  | timer_isr
  | timer_task

/-- One call on the two drivers -/
def BOp.exec (tenv : Handlers) (env : BHandlers) (swt : swtimers_instance_t)
    (inst : buttons_instance_t) : BOp → BWorld → Option BWorld
  | BOp.configure gpio idx gpio_pin timer_id is_pressed_low check_type times handler_cb arg_p, bw =>
    buttons_configure inst gpio idx gpio_pin timer_id is_pressed_low check_type times handler_cb
      arg_p bw
  | BOp.task gpio, bw => buttons_task env inst gpio bw
  | BOp.isr idx gpio_state, bw => buttons_isr idx gpio_state bw
  | BOp.timer_isr, bw => (swtimers_isr tenv swt bw.swt).map fun w => { bw with swt := w }
  | BOp.timer_task, bw => (swtimers_task tenv swt bw.swt).map fun w => { bw with swt := w }

/-- A sequence of calls, each one returning before the next starts -/
def brun (tenv : Handlers) (env : BHandlers) (swt : swtimers_instance_t)
    (inst : buttons_instance_t) : List BOp → BWorld → Option BWorld
  | [], bw => some bw
  | op :: ops, bw => (op.exec tenv env swt inst bw).bind (brun tenv env swt inst ops)

/-- The button handlers that do nothing -/
def idle_button_handlers : BHandlers :=
  { handler_cb := fun _ _ _ _ bw => some bw }

/-- A GPIO interface with every callback present -/
def test_gpio_interface : buttons_hw_interface_t :=
  { hw_gpio_p := 1, isr_enable_cb := true, isr_disable_cb := true, gpio_read := true }

/-- A buttons driver instance with two buttons over `test_inst` -/
def test_buttons_inst : buttons_instance_t :=
  { swtimers_p := some test_inst, hw_p := some test_gpio_interface, num := 2 }

/-- Timers as in `test_world`, a zeroed table of two buttons, nothing traced -/
def test_buttons_world : BWorld :=
  { swt := test_world, buttons := List.replicate 2 zero_button, log := [] }

/-- The combinations of events that must not be delivered together: Pressed with Released,
Released with Hold, Released with Double, Hold with Double -/
def mask_conflict (event : Nat) : Prop :=
  (event &&& BUTTONS_PRESSED ≠ 0 ∧ event &&& BUTTONS_RELEASED ≠ 0) ∨
  (event &&& BUTTONS_RELEASED ≠ 0 ∧ event &&& BUTTONS_HOLD ≠ 0) ∨
  (event &&& BUTTONS_RELEASED ≠ 0 ∧ event &&& BUTTONS_DOUBLE ≠ 0) ∨
  (event &&& BUTTONS_HOLD ≠ 0 ∧ event &&& BUTTONS_DOUBLE ≠ 0)

/-- Whether a trace entry is a call of a button handler -/
def BEvent.is_handler : BEvent → Bool
  | BEvent.handler _ _ _ _ => true
  | _ => false

/-- The handler calls of a trace, in order -/
def delivered (log : List BEvent) : List BEvent :=
  log.filter BEvent.is_handler

/-- Time settings with a bouncing filter: B = 2 ms, D = 3 ms, H = 5 ms -/
def test_times : buttons_time_settings_t :=
  { bouncing_ms := 2, double_click_ms := 3, hold_ms := 5 }

/-- Pin levels: every input is logical one -/
def gpio_high : Nat → Bool := fun _ => true

/-- Pin levels: every input is logical zero -/
def gpio_low : Nat → Bool := fun _ => false

/-- Configure button 0 on pin 5 with timer 1, pressed high, polled, with `test_times`, handler 7
and argument 9, while the pin is low -/
def test_configure : BOp :=
  BOp.configure gpio_low 0 5 1 false BUTTONS_CHECK_IN_POLLING test_times 7 9

/-- Button 0 as `test_configure` leaves it -/
def test_button : buttons_button_instance_t :=
  { zero_button with
    handler_cb := 7, gpio_pin := 5, arg_p := 9, bouncing_ms := 2, double_click_ms := 3,
    hold_ms := 5, check_type := BUTTONS_CHECK_IN_POLLING, timer_id := 1 }

/-- Configure button 0 as `test_configure` does, with the given time settings -/
def test_configure_with (times : buttons_time_settings_t) : BOp :=
  BOp.configure gpio_low 0 5 1 false BUTTONS_CHECK_IN_POLLING times 7 9

/-! ## LED control driver (drv_leds.c) -/

/-- LED blinking states, `leds_blink_t` -/
inductive leds_blink_t
  | LED_BLINK_STATE_DISABLED
  | LED_BLINK_STATE_PULSE
  | LED_BLINK_STATE_PAUSE
  deriving DecidableEq, Repr

open leds_blink_t

/-- Single LED structure, `leds_led_instance_t`; `series` and `pulse_counter` are `uint8_t` -/
structure leds_led_instance_t where
  gpio_pin : Nat
  wait_ms : Nat
  pulse_ms : Nat
  pause_ms : Nat
  timer_id : Nat
  series : Nat
  is_active_high : Bool
  is_inverted : Bool
  pulse_counter : Nat
  blink_state : leds_blink_t
  deriving DecidableEq, Repr

/-- LED as left by `memset(..., 0x00, ...)` -/
def zero_led : leds_led_instance_t :=
  { gpio_pin := 0, wait_ms := 0, pulse_ms := 0, pause_ms := 0, timer_id := 0, series := 0,
    is_active_high := false, is_inverted := false, pulse_counter := 0,
    blink_state := LED_BLINK_STATE_DISABLED }

/-- Interface to hardware GPIO, `leds_hw_interface_t`.  A callback field is `true` when the
function pointer is not `NULL`. -/
structure leds_hw_interface_t where
  hw_gpio_p : Nat
  gpio_write : Bool
  gpio_toggle : Bool
  deriving DecidableEq, Repr

/-- Driver instance, `leds_instance_t`: the pointers to the timers driver instance and to the
hardware interface (`none` is `NULL`) and the number of LEDs; the table is in `LWorld`. -/
structure leds_instance_t where
  swtimers_p : Option swtimers_instance_t
  hw_p : Option leds_hw_interface_t
  num : Nat
  deriving DecidableEq, Repr

/-- What the LEDs driver does to the pins: calls of `gpio_write` and `gpio_toggle` -/
inductive LEvent
  | gpio_write (pin_idx : Nat) (pin_state : Bool)
  | gpio_toggle (pin_idx : Nat)
  deriving DecidableEq, Repr

/-- Memory of the LEDs driver and of the timers driver it uses, and the trace of pin calls -/
structure LWorld where
  swt : World
  leds : List leds_led_instance_t
  log : List LEvent
  deriving DecidableEq, Repr

/-- The function pointer `&leds_processing` (not `NULL`) -/
def leds_processing_cb : Nat := 1

/-- The address of the driver instance, as passed to the timers driver (not `NULL`) -/
def leds_inst_addr : Nat := 1

/-- The address of `leds_table_p[idx]`, as passed to the timers driver (not `NULL`) -/
def led_addr (idx : Nat) : Nat := idx + 1

/-- Subtraction of `uint32_t` values -/
def sub32 (a b : Nat) : Nat :=
  (a + 4294967296 - b) % 4294967296

/-- A `for (size_t i = 0; i < n; ++i) body` loop on the memory of both drivers -/
def for_loop_l (body : Nat → LWorld → Option LWorld) : Nat → LWorld → Option LWorld
  | 0, lw => some lw
  | n + 1, lw => (for_loop_l body n lw).bind (body n)

/-- Init LED control driver, `leds_init`: `lw.leds` is the caller's table -/
def leds_init (hw_interface_p : Option leds_hw_interface_t) (num : Nat)
    (swtimers_p : Option swtimers_instance_t) (lw : LWorld) :
    Option (leds_instance_t × LWorld) :=
  if swtimers_p.isSome ∧ hw_interface_p.isSome ∧ 0 < num then
    if num ≤ lw.leds.length then
      some ({ swtimers_p := swtimers_p, hw_p := hw_interface_p, num := num },
        { lw with leds := List.replicate num zero_led ++ lw.leds.drop num })
    else none
  else none

/-- Internal function for LED ON/OFF, `leds_gpio_set` -/
def leds_gpio_set (inst : leds_instance_t) (led : leds_led_instance_t) (led_state : Bool)
    (lw : LWorld) : Option LWorld := do
  let hw ← inst.hw_p
  if hw.gpio_write = true then
    pure { lw with
      log := lw.log ++
        [LEvent.gpio_write led.gpio_pin (if led.is_active_high then led_state else !led_state)] }
  else none

/-- Internal function for LED toggle, `leds_gpio_toggle` -/
def leds_gpio_toggle (inst : leds_instance_t) (led : leds_led_instance_t) (lw : LWorld) :
    Option LWorld := do
  let hw ← inst.hw_p
  if hw.gpio_toggle = true then
    pure { lw with log := lw.log ++ [LEvent.gpio_toggle led.gpio_pin] }
  else none

/-- Match LED and physical GPIO pin, `leds_set_pin` -/
def leds_set_pin (inst : leds_instance_t) (idx pin_idx timer_idx : Nat) (is_active_high : Bool)
    (lw : LWorld) : Option LWorld := do
  if idx < inst.num then do
    let led ← lw.leds[idx]?
    let swt ← inst.swtimers_p
    let w ← swtimers_stop swt timer_idx lw.swt
    pure { lw with
      swt := w
      leds := lw.leds.set idx
        { led with gpio_pin := pin_idx, is_active_high := is_active_high, timer_id := timer_idx } }
  else none

/-- Switch the LED on and stay in current blinking mode, `leds_switch_on` -/
def leds_switch_on (inst : leds_instance_t) (idx : Nat) (lw : LWorld) : Option LWorld := do
  if idx < inst.num then do
    let led ← lw.leds[idx]?
    leds_gpio_set inst led true lw
  else none

/-- Switch the LED off and stay in current blinking mode, `leds_switch_off` -/
def leds_switch_off (inst : leds_instance_t) (idx : Nat) (lw : LWorld) : Option LWorld := do
  if idx < inst.num then do
    let led ← lw.leds[idx]?
    leds_gpio_set inst led false lw
  else none

/-- Toggle the LED and stay in current blinking mode, `leds_switch_toggle` -/
def leds_switch_toggle (inst : leds_instance_t) (idx : Nat) (lw : LWorld) : Option LWorld := do
  if idx < inst.num then do
    let led ← lw.leds[idx]?
    leds_gpio_toggle inst led lw
  else none

/-- Switch the LED on and leave current blinking mode, `leds_on` -/
def leds_on (inst : leds_instance_t) (idx : Nat) (lw : LWorld) : Option LWorld := do
  if idx < inst.num then do
    let led ← lw.leds[idx]?
    let led := { led with blink_state := LED_BLINK_STATE_DISABLED }
    leds_gpio_set inst led true { lw with leds := lw.leds.set idx led }
  else none

/-- Switch the LED off and leave current blinking mode, `leds_off` -/
def leds_off (inst : leds_instance_t) (idx : Nat) (lw : LWorld) : Option LWorld := do
  if idx < inst.num then do
    let led ← lw.leds[idx]?
    let led := { led with blink_state := LED_BLINK_STATE_DISABLED }
    leds_gpio_set inst led false { lw with leds := lw.leds.set idx led }
  else none

/-- Toggle the LED and leave current blinking mode, `leds_toggle` -/
def leds_toggle (inst : leds_instance_t) (idx : Nat) (lw : LWorld) : Option LWorld := do
  if idx < inst.num then do
    let led ← lw.leds[idx]?
    let led := { led with blink_state := LED_BLINK_STATE_DISABLED }
    leds_gpio_toggle inst led { lw with leds := lw.leds.set idx led }
  else none

/-- Run blink with extended options, `leds_blink_ext`.  The arguments are values of their C
types (`series` a `uint8_t`, the times `uint32_t`); the products and the sum of the period
check and the subtractions are `uint32_t` operations. -/
def leds_blink_ext (inst : leds_instance_t) (idx series pulse_ms pause_ms period_ms delay_ms : Nat)
    (is_inverted : Bool) (lw : LWorld) : Option LWorld := do
  if series ≠ 0 ∧ pulse_ms ≠ 0 then do
    if idx < inst.num then do
      let led ← lw.leds[idx]?
      if period_ms = 0 ∨
          period_ms ≥ wrap32 (wrap32 (pulse_ms * series) + wrap32 (pause_ms * (series - 1))) then do
        let led := { led with
          wait_ms :=
            if period_ms = 0 then 0
            else sub32 (sub32 period_ms (wrap32 (pulse_ms * series)))
              (wrap32 (pause_ms * (series - 1)))
          pulse_ms := pulse_ms
          pause_ms := pause_ms
          series := series
          pulse_counter := 0
          is_inverted := is_inverted }
        let swt ← inst.swtimers_p
        if delay_ms ≠ 0 then do
          let w ← swtimers_start swt led.timer_id delay_ms SWTIMERS_MODE_SINGLE_FROM_LOOP
            leds_processing_cb leds_inst_addr (led_addr idx) lw.swt
          let led := { led with blink_state := LED_BLINK_STATE_PAUSE }
          leds_gpio_set inst led (if is_inverted then true else false)
            { lw with swt := w, leds := lw.leds.set idx led }
        else do
          let w ← swtimers_start swt led.timer_id pulse_ms SWTIMERS_MODE_SINGLE_FROM_LOOP
            leds_processing_cb leds_inst_addr (led_addr idx) lw.swt
          let led := { led with blink_state := LED_BLINK_STATE_PULSE }
          leds_gpio_set inst led (if is_inverted then false else true)
            { lw with swt := w, leds := lw.leds.set idx led }
      else none
    else none
  else none

/-- Run meander blink, `leds_meander`; `2 * duration_ms` is a `uint32_t` product -/
def leds_meander (inst : leds_instance_t) (idx duration_ms : Nat) (lw : LWorld) :
    Option LWorld :=
  leds_blink_ext inst idx 1 duration_ms duration_ms (wrap32 (2 * duration_ms)) 0 false lw

/-- Run simple blink with series of pulses, `leds_blink` -/
def leds_blink (inst : leds_instance_t) (idx series pulse_ms pause_ms period_ms : Nat)
    (lw : LWorld) : Option LWorld :=
  leds_blink_ext inst idx series pulse_ms pause_ms period_ms 0 false lw

/-- Internal function for LED processing, `leds_processing`, the handler of the timers of the
LEDs.  `inst` is the driver instance at `inst_p`; `led_p` is the address of a table entry.
`pulse_counter++` is a `uint8_t` increment. -/
def leds_processing (inst : leds_instance_t) (timer_idx inst_p led_p : Nat) (lw : LWorld) :
    Option LWorld := do
  if inst_p ≠ 0 ∧ led_p ≠ 0 then do
    let idx := led_p - 1
    let led ← lw.leds[idx]?
    let swt ← inst.swtimers_p
    match led.blink_state with
    | LED_BLINK_STATE_PAUSE => do
      let lw ← leds_gpio_set inst led (if led.is_inverted then false else true) lw
      let w ← swtimers_start swt timer_idx led.pulse_ms SWTIMERS_MODE_SINGLE_FROM_LOOP
        leds_processing_cb inst_p led_p lw.swt
      pure { lw with
        swt := w, leds := lw.leds.set idx { led with blink_state := LED_BLINK_STATE_PULSE } }
    | LED_BLINK_STATE_PULSE => do
      let lw ← leds_gpio_set inst led (if led.is_inverted then true else false) lw
      let led := { led with pulse_counter := (led.pulse_counter + 1) % 256 }
      if led.pulse_counter = led.series then
        let led := { led with pulse_counter := 0 }
        if led.wait_ms ≠ 0 then do
          let w ← swtimers_start swt timer_idx led.wait_ms SWTIMERS_MODE_SINGLE_FROM_LOOP
            leds_processing_cb inst_p led_p lw.swt
          pure { lw with
            swt := w, leds := lw.leds.set idx { led with blink_state := LED_BLINK_STATE_PAUSE } }
        else
          pure { lw with
            leds := lw.leds.set idx { led with blink_state := LED_BLINK_STATE_DISABLED } }
      else do
        let w ← swtimers_start swt timer_idx led.pause_ms SWTIMERS_MODE_SINGLE_FROM_LOOP
          leds_processing_cb inst_p led_p lw.swt
        pure { lw with
          swt := w, leds := lw.leds.set idx { led with blink_state := LED_BLINK_STATE_PAUSE } }
    | LED_BLINK_STATE_DISABLED => pure lw
  else none

/-- Deinit LED control driver, `leds_deinit`: the result is the instance as the function leaves
it (zeroed) and the memory -/
def leds_deinit (inst : leds_instance_t) (lw : LWorld) : Option (leds_instance_t × LWorld) := do
  if inst.num = 0 then pure (inst, lw)
  else do
    let lw ← for_loop_l (fun i lw => leds_off inst i lw) inst.num lw
    if inst.num ≤ lw.leds.length then
      pure ({ swtimers_p := none, hw_p := none, num := 0 },
        { lw with leds := List.replicate inst.num zero_led ++ lw.leds.drop inst.num })
    else none

/-- The function behind a full handler pointer, on the memory of both drivers: `leds_processing`
for `&leds_processing` (its first argument must point to the driver instance), nothing for
any other handler of the application -/
def leds_full_cb (inst : leds_instance_t) (f i a1 a2 : Nat) (lw : LWorld) : Option LWorld :=
  if f = leds_processing_cb then
    if a1 = leds_inst_addr then leds_processing inst i a1 a2 lw else none
  else some lw

/-- Body of the loop of `swtimers_task` for slot `i` on the memory of both drivers: the body
of `swtimers_task_slot`, with the handler run on the LEDs memory too -/
def swtimers_task_slot_leds (inst : leds_instance_t) (hw : swtimers_hw_interface_t) (i : Nat)
    (lw : LWorld) : Option LWorld := do
  let w ← call_isr_disable hw lw.swt
  let r ← rd_is_waiting i w
  let w ← call_isr_enable hw r.2
  if r.1 then do
    let t ← w.slot i
    let lw ←
      if t.is_simple = true ∧ t.handler ≠ 0 then
        pure { lw with swt := w.emit (Event.call_simple t.handler i) }
      else if t.is_simple = false ∧ t.handler ≠ 0 then
        leds_full_cb inst t.handler i t.arg_1_p t.arg_2_p
          { lw with swt := w.emit (Event.call_full t.handler i t.arg_1_p t.arg_2_p) }
      else pure { lw with swt := w }
    let w ← call_isr_disable hw lw.swt
    let w ← wr_is_waiting i false w
    let w ← call_isr_enable hw w
    pure { lw with swt := w }
  else pure { lw with swt := w }

/-- Check all timers and call handlers if necessary, `swtimers_task`, on the memory of both
drivers -/
def swtimers_task_leds (inst : leds_instance_t) (swt : swtimers_instance_t) (lw : LWorld) :
    Option LWorld := do
  if swt.num ≠ 0 then do
    let hw ← swt.hw_p
    let lw ← for_loop_l (swtimers_task_slot_leds inst hw) swt.num lw
    let w ← swtimers_stop_hw_timer swt lw.swt
    pure { lw with swt := w }
  else none

/-- The calls an application can make on initialized LEDs and timers drivers -/
inductive LOp
  | set_pin (idx pin_idx timer_idx : Nat) (is_active_high : Bool)
  | switch_on (idx : Nat)
  | switch_off (idx : Nat)
  | switch_toggle (idx : Nat)
  | turn_on (idx : Nat)
  | turn_off (idx : Nat)
  | turn_toggle (idx : Nat)
  | meander (idx duration_ms : Nat)
  | blink (idx series pulse_ms pause_ms period_ms : Nat)
  | blink_ext (idx series pulse_ms pause_ms period_ms delay_ms : Nat) (is_inverted : Bool)
  | timer_isr
  | timer_task
  deriving DecidableEq, Repr

/-- One call on the two drivers; the hardware timer interrupt runs `swtimers_isr`, which calls
no handler of the LEDs driver (its timers are started in a from-loop mode) -/
def LOp.exec (inst : leds_instance_t) (swt : swtimers_instance_t) : LOp → LWorld → Option LWorld
  | LOp.set_pin idx pin_idx timer_idx is_active_high, lw =>
    leds_set_pin inst idx pin_idx timer_idx is_active_high lw
  | LOp.switch_on idx, lw => leds_switch_on inst idx lw
  | LOp.switch_off idx, lw => leds_switch_off inst idx lw
  | LOp.switch_toggle idx, lw => leds_switch_toggle inst idx lw
  | LOp.turn_on idx, lw => leds_on inst idx lw
  | LOp.turn_off idx, lw => leds_off inst idx lw
  | LOp.turn_toggle idx, lw => leds_toggle inst idx lw
  | LOp.meander idx duration_ms, lw => leds_meander inst idx duration_ms lw
  | LOp.blink idx series pulse_ms pause_ms period_ms, lw =>
    leds_blink inst idx series pulse_ms pause_ms period_ms lw
  | LOp.blink_ext idx series pulse_ms pause_ms period_ms delay_ms is_inverted, lw =>
    leds_blink_ext inst idx series pulse_ms pause_ms period_ms delay_ms is_inverted lw
  | LOp.timer_isr, lw => (swtimers_isr idle_handlers swt lw.swt).map fun w => { lw with swt := w }
  | LOp.timer_task, lw => swtimers_task_leds inst swt lw

/-- A sequence of calls, each one returning before the next starts -/
def lrun (inst : leds_instance_t) (swt : swtimers_instance_t) :
    List LOp → LWorld → Option LWorld
  | [], lw => some lw
  | op :: ops, lw => (op.exec inst swt lw).bind (lrun inst swt ops)

/-- Whether the arguments of a call are values of their C types: `series` a `uint8_t` -/
def LOp.in_range : LOp → Bool
  | LOp.blink _ series _ _ _ => decide (series < 256)
  | LOp.blink_ext _ series _ _ _ _ _ => decide (series < 256)
  | _ => true

/-- Let the timer in slot `tid` expire and be served: the hardware ticks up to the one that
expires the slot (`max 1 threshold` of them), then one `swtimers_task` pass -/
def leds_expire (inst : leds_instance_t) (swt : swtimers_instance_t) (tid : Nat) (lw : LWorld) :
    Option LWorld := do
  let t ← lw.swt.slot tid
  let w ← isr_n idle_handlers swt (max 1 t.threshold) lw.swt
  swtimers_task_leds inst swt { lw with swt := w }

/-- `k` successive expiries of the timer in slot `tid` -/
def leds_expiries (inst : leds_instance_t) (swt : swtimers_instance_t) (tid : Nat) :
    Nat → LWorld → Option LWorld
  | 0, lw => some lw
  | k + 1, lw => (leds_expiries inst swt tid k lw).bind (leds_expire inst swt tid)

/-- A GPIO interface for LEDs with every callback present -/
def test_leds_interface : leds_hw_interface_t :=
  { hw_gpio_p := 1, gpio_write := true, gpio_toggle := true }

/-- A LEDs driver instance with two LEDs over `test_inst` -/
def test_leds_inst : leds_instance_t :=
  { swtimers_p := some test_inst, hw_p := some test_leds_interface, num := 2 }

/-- Timers as in `test_world`, a zeroed table of two LEDs, nothing traced -/
def test_leds_world : LWorld :=
  { swt := test_world, leds := List.replicate 2 zero_led, log := [] }

/-- The pulse counter of a blinking LED is below the number of pulses of a series, a `uint8_t` -/
def counter_ok (led : leds_led_instance_t) : Prop :=
  led.blink_state ≠ LED_BLINK_STATE_DISABLED → led.pulse_counter < led.series ∧ led.series < 256

/-- Initialized LEDs and timers drivers: the LEDs instance is wired to the timers instance and
to a GPIO interface with its callbacks, the table has `num` LEDs and the timers driver is
initialized -/
def LInitialized (inst : leds_instance_t) (swt : swtimers_instance_t)
    (hwt : swtimers_hw_interface_t) (hw : leds_hw_interface_t) (lw : LWorld) : Prop :=
  inst.swtimers_p = some swt ∧ inst.hw_p = some hw ∧ hw.gpio_write = true ∧
    hw.gpio_toggle = true ∧ 0 < inst.num ∧ lw.leds.length = inst.num ∧
    Initialized swt hwt lw.swt

/-- Every timer other than `tid` is idle: neither running nor waiting for its handler -/
def others_idle (tid : Nat) (w : World) : Prop :=
  ∀ t ∈ w.timers.eraseIdx tid, t.is_run = false ∧ t.is_waiting = false

/-- The slot `swtimers_start` leaves when the LEDs driver arms a timer for `ms` on behalf of
LED `idx` -/
def led_slot (hwt : swtimers_hw_interface_t) (idx ms : Nat) : swtimers_timer_instance_t :=
  { handler := leds_processing_cb, threshold := ms / hwt.tick_ms, arg_1_p := leds_inst_addr,
    arg_2_p := led_addr idx, mode := SWTIMERS_MODE_SINGLE_FROM_LOOP, is_simple := false,
    is_run := true, is_waiting := false, counter := 0 }

/-- The slot of `led_slot` once it has expired and its handler has been served without a
restart -/
def led_slot_served (hwt : swtimers_hw_interface_t) (idx ms : Nat) : swtimers_timer_instance_t :=
  { led_slot hwt idx ms with is_run := false, counter := max 1 (ms / hwt.tick_ms) }

/-- What `leds_processing` does to the table entry of a LED -/
def blink_next (led : leds_led_instance_t) : leds_led_instance_t :=
  match led.blink_state with
  | LED_BLINK_STATE_PAUSE => { led with blink_state := LED_BLINK_STATE_PULSE }
  | LED_BLINK_STATE_PULSE =>
    if (led.pulse_counter + 1) % 256 = led.series then
      if led.wait_ms ≠ 0 then { led with pulse_counter := 0, blink_state := LED_BLINK_STATE_PAUSE }
      else { led with pulse_counter := 0, blink_state := LED_BLINK_STATE_DISABLED }
    else
      { led with
        pulse_counter := (led.pulse_counter + 1) % 256, blink_state := LED_BLINK_STATE_PAUSE }
  | LED_BLINK_STATE_DISABLED => led

/-- The time `leds_processing` arms the timer for, `none` when it does not arm it -/
def blink_arm (led : leds_led_instance_t) : Option Nat :=
  match led.blink_state with
  | LED_BLINK_STATE_PAUSE => some led.pulse_ms
  | LED_BLINK_STATE_PULSE =>
    if (led.pulse_counter + 1) % 256 = led.series then
      if led.wait_ms ≠ 0 then some led.wait_ms else none
    else some led.pause_ms
  | LED_BLINK_STATE_DISABLED => none

/-- The pin call `leds_processing` makes for a blinking LED: the LED goes on at the end of a
pause and off at the end of a pulse, the other way round when the blinking is inverted -/
def blink_write (led : leds_led_instance_t) : List LEvent :=
  match led.blink_state with
  | LED_BLINK_STATE_PAUSE =>
    [LEvent.gpio_write led.gpio_pin
      (if led.is_active_high then (if led.is_inverted then false else true)
        else !(if led.is_inverted then false else true))]
  | LED_BLINK_STATE_PULSE =>
    [LEvent.gpio_write led.gpio_pin
      (if led.is_active_high then (if led.is_inverted then true else false)
        else !(if led.is_inverted then true else false))]
  | LED_BLINK_STATE_DISABLED => []

/-- LED `idx` blinks on timer `tid`, the only active timer: the drivers are initialized, the
table entry is `led`, and the slot is as the LEDs driver armed it for `ms` -/
def Blinking (inst : leds_instance_t) (swt : swtimers_instance_t)
    (hwt : swtimers_hw_interface_t) (hw : leds_hw_interface_t) (tid idx : Nat)
    (led : leds_led_instance_t) (ms : Nat) (lw : LWorld) : Prop :=
  LInitialized inst swt hwt hw lw ∧ lw.leds[idx]? = some led ∧
    lw.swt.slot tid = some (led_slot hwt idx ms) ∧ others_idle tid lw.swt

/-- The table entry of a LED during the pulse that follows `j` pulses of the series -/
def led_pulse (led : leds_led_instance_t) (j : Nat) : leds_led_instance_t :=
  { led with pulse_counter := j, blink_state := LED_BLINK_STATE_PULSE }

/-- The table entry of a LED during a pause, a delay or a wait, `j` pulses of the series made -/
def led_pause (led : leds_led_instance_t) (j : Nat) : leds_led_instance_t :=
  { led with pulse_counter := j, blink_state := LED_BLINK_STATE_PAUSE }

/-- The table entry of a LED when the blinking has stopped -/
def led_stopped (led : leds_led_instance_t) : leds_led_instance_t :=
  { led with pulse_counter := 0, blink_state := LED_BLINK_STATE_DISABLED }

/-- The pin call that switches a LED on (`lit`) or off -/
def led_write (led : leds_led_instance_t) (lit : Bool) : LEvent :=
  LEvent.gpio_write led.gpio_pin (if led.is_active_high then lit else !lit)

/-- The table entry `leds_blink_ext` stores, before the blink state is set -/
def led_pattern (led : leds_led_instance_t) (series pulse_ms pause_ms period_ms : Nat)
    (is_inverted : Bool) : leds_led_instance_t :=
  { led with
    wait_ms :=
      if period_ms = 0 then 0
      else sub32 (sub32 period_ms (wrap32 (pulse_ms * series))) (wrap32 (pause_ms * (series - 1)))
    pulse_ms := pulse_ms
    pause_ms := pause_ms
    series := series
    pulse_counter := 0
    is_inverted := is_inverted }

/-- The stored pattern of a LED is made of values of their C types, with at least one pulse -/
def pattern_ok (led : leds_led_instance_t) : Prop :=
  0 < led.series ∧ led.series < 256 ∧ led.pulse_ms < 4294967296 ∧ led.pause_ms < 4294967296 ∧
    led.wait_ms < 4294967296

/-- The pin calls of `j` pulses, each followed by its pause or wait: the call at the end of the
pulse, then the call at the end of the pause -/
def pulses_log (led : leds_led_instance_t) (j : Nat) : List LEvent :=
  (List.replicate j
    [led_write led (if led.is_inverted then true else false),
      led_write led (if led.is_inverted then false else true)]).flatten

/-- The memory `test_leds_world` after LED 0 is matched with pin 4 and timer 1 (active high),
`leds_blink` starts two pulses of 1 ms with a pause of 1 ms, and the first pulse has expired and
been served: LED 0 is in the pause, one pulse counted, the timer armed for the pause -/
def test_pause_world : LWorld :=
  { swt :=
      { timers := [zero_timer,
          { zero_timer with
            handler := leds_processing_cb, threshold := 1, arg_1_p := leds_inst_addr,
            arg_2_p := led_addr 0, is_run := true },
          zero_timer]
        hw_is_started := true
        trace := [Event.isr_disable, Event.wr 1 Field.is_run, Event.wr 1 Field.is_waiting,
          Event.wr 1 Field.counter, Event.isr_enable, Event.hw_is_started, Event.isr_disable,
          Event.wr 1 Field.is_run, Event.wr 1 Field.is_waiting, Event.wr 1 Field.counter,
          Event.isr_enable, Event.hw_is_started, Event.isr_disable, Event.wr 1 Field.is_run,
          Event.isr_enable, Event.hw_is_started, Event.hw_start, Event.rd 0 Field.is_run,
          Event.rd 1 Field.is_run, Event.rd 1 Field.counter, Event.wr 1 Field.counter,
          Event.rd 1 Field.counter, Event.wr 1 Field.is_run, Event.wr 1 Field.is_waiting,
          Event.rd 2 Field.is_run, Event.isr_disable, Event.rd 0 Field.is_waiting,
          Event.isr_enable, Event.isr_disable, Event.rd 1 Field.is_waiting, Event.isr_enable,
          Event.call_full 1 1 1 1, Event.isr_disable, Event.wr 1 Field.is_run,
          Event.wr 1 Field.is_waiting, Event.wr 1 Field.counter, Event.isr_enable,
          Event.hw_is_started, Event.rd 0 Field.is_run, Event.rd 1 Field.is_run,
          Event.rd 2 Field.is_run, Event.hw_stop, Event.isr_disable, Event.wr 1 Field.is_run,
          Event.isr_enable, Event.hw_is_started, Event.hw_start, Event.isr_disable,
          Event.wr 1 Field.is_waiting, Event.isr_enable, Event.isr_disable,
          Event.rd 2 Field.is_waiting, Event.isr_enable, Event.hw_is_started,
          Event.rd 0 Field.is_run, Event.rd 1 Field.is_run] }
    leds := [{ zero_led with
        gpio_pin := 4, pulse_ms := 1, pause_ms := 1, timer_id := 1, series := 2,
        is_active_high := true, pulse_counter := 1, blink_state := LED_BLINK_STATE_PAUSE },
      zero_led]
    log := [LEvent.gpio_write 4 true, LEvent.gpio_write 4 false] }

/-- LED 0 as `leds_set_pin` leaves it for pin 4 and timer 1, active high -/
def test_led : leds_led_instance_t :=
  { zero_led with gpio_pin := 4, timer_id := 1, is_active_high := true }

/-- Timers as in `test_world`, LED 0 matched with pin 4 and timer 1, nothing traced -/
def test_led_world : LWorld :=
  { swt := test_world, leds := [test_led, zero_led], log := [] }

/-- The pin level the specification gives for a phase of a blink pattern: the LED is logically
on exactly when the phase is a pulse XOR the pattern is inverted, and the pin is high exactly
when being logically on agrees with `is_active_high` -/
def spec_pin_level (is_pulse is_inverted is_active_high : Bool) : Bool :=
  (is_pulse != is_inverted) == is_active_high

/-- Application handlers of which the one called for slot `idx` restarts that slot: it calls
`swtimers_start(idx, ms, mode, ...)` with itself as handler and the arguments it received;
every other handler does nothing -/
def rearm_handlers (inst : swtimers_instance_t) (idx ms : Nat) (mode : swtimers_mode_t) :
    Handlers :=
  { full_cb := fun f i a1 a2 w =>
      if i = idx then swtimers_start inst i ms mode f a1 a2 w else some w
    simple_cb := fun _ w => some w }

/-- What `buttons_task_change` does to the button and the event -/
def change_flags (raw_event : Nat) (s : BLocal) : BLocal :=
  if raw_event ≠ BUTTONS_NO_EVENT then
    if s.b.bouncing_ms ≠ 0 then { s with b := { s.b with is_debouncing := true } }
    else
      { s with
        b := { s.b with
          is_pressed_debounced := decide (raw_event &&& BUTTONS_PRESSED ≠ 0)
          is_holding := false }
        event := s.event ||| raw_event }
  else s

/-- What `buttons_task_pressed` does to the button and the event -/
def pressed_flags (s : BLocal) : BLocal :=
  if s.event &&& BUTTONS_PRESSED ≠ 0 then
    if s.b.is_double_clicking = true then
      { s with b := { s.b with is_double_clicking := false }, event := s.event ||| BUTTONS_DOUBLE }
    else { s with b := { s.b with is_holding := true } }
  else s

/-- What `buttons_task_released` does to the button -/
def released_flags (s : BLocal) : BLocal :=
  if s.event &&& BUTTONS_RELEASED ≠ 0 then { s with b := { s.b with is_double_clicking := true } }
  else s

/-- What the statements of the loop body of `buttons_task` before and after line 234 (lines
218-231 and 236-272) do to the button and the event, for a value `run` of `is_timer_run` -/
def steps_flags (raw_event : Nat) (run : Bool) (s : BLocal) : BLocal :=
  released_flags (buttons_task_double_timeout (pressed_flags (buttons_task_hold
    (buttons_task_debounced { change_flags raw_event s with is_timer_run := run }))))

/-- The raw events `buttons_process_changes` can return for a button: none, Pressed with the
raw level pressed, Released with the raw level released -/
def raw_ok (raw_event : Nat) (b : buttons_button_instance_t) : Prop :=
  raw_event = BUTTONS_NO_EVENT ∨ (raw_event = BUTTONS_PRESSED ∧ b.is_pressed_raw = true) ∨
    (raw_event = BUTTONS_RELEASED ∧ b.is_pressed_raw = false)

/-- The event masks without a conflict that the loop body computes: none, Pressed, Released,
Hold, Pressed with Double -/
def mask_ok (event : Nat) : Prop :=
  event = BUTTONS_NO_EVENT ∨ event = BUTTONS_PRESSED ∨ event = BUTTONS_RELEASED ∨
    event = BUTTONS_HOLD ∨ event = BUTTONS_PRESSED ||| BUTTONS_DOUBLE

/-- The local state without the timers memory -/
def BLocal.core (s : BLocal) : BLocal :=
  { s with w := { timers := [], hw_is_started := false, trace := [] } }

/-- The local state of the loop body for `test_button` after `buttons_task_change` has seen a
press at `test_buttons_world`: the bouncing filter is started on timer 1 -/
def test_change_local : BLocal :=
  { b := { test_button with is_pressed_raw := true, is_debouncing := true }
    event := BUTTONS_NO_EVENT
    is_timer_run := false
    w := (swtimers_start_no_handler test_inst 1 2 test_world).getD test_world
    log := [BEvent.gpio_read 5] }

/-- The local state that the statements after line 234 compute from `test_change_local` with
`is_timer_run = false`: Pressed, the hold phase started on timer 1 -/
def test_pressed_local : BLocal :=
  { b :=
      { test_button with is_pressed_raw := true, is_pressed_debounced := true, is_holding := true }
    event := BUTTONS_PRESSED
    is_timer_run := false
    w := (swtimers_start_no_handler test_inst 1 5 test_change_local.w).getD test_world
    log := [BEvent.gpio_read 5] }

/-- The world `test_configure_with` leaves for time settings without bouncing filter (B = 0,
D = 3 ms, H = 5 ms): button 0 is polled on pin 5, released -/
def test_unfiltered_world : BWorld :=
  { swt := (swtimers_stop test_inst 1 test_world).getD test_world
    buttons := [{ test_button with bouncing_ms := 0 }, zero_button]
    log := [BEvent.gpio_read 5] }

/-- The world `test_configure` leaves: button 0 is polled on pin 5 with `test_times`, released -/
def test_configured_world : BWorld :=
  { swt := (swtimers_stop test_inst 1 test_world).getD test_world
    buttons := [test_button, zero_button]
    log := [BEvent.gpio_read 5] }

instance (hw : swtimers_hw_interface_t) : Decidable (hw_ok hw) := by
  unfold hw_ok; infer_instance

instance (inst : swtimers_instance_t) (hw : swtimers_hw_interface_t) (w : World) :
    Decidable (Initialized inst hw w) := by
  unfold Initialized; infer_instance

theorem quiet_idle : Quiet idle_handlers :=
  ⟨fun _ _ _ _ _ => rfl, fun _ _ => rfl⟩

@[simp] theorem slot_emit (w : World) (e : Event) (i : Nat) : (w.emit e).slot i = w.slot i := rfl

@[simp] theorem timers_emit (w : World) (e : Event) : (w.emit e).timers = w.timers := rfl

@[simp] theorem hw_emit (w : World) (e : Event) :
    (w.emit e).hw_is_started = w.hw_is_started := rfl

@[simp] theorem trace_emit (w : World) (e : Event) : (w.emit e).trace = w.trace ++ [e] := rfl

@[simp] theorem calls_nil : calls [] = [] := rfl

@[simp] theorem calls_append (a b : List Event) : calls (a ++ b) = calls a ++ calls b := by
  simp [calls]

@[simp] theorem calls_cons (e : Event) (tr : List Event) :
    calls (e :: tr) = if e.is_call then e :: calls tr else calls tr := by
  simp only [calls, List.filter_cons]

@[simp] theorem calls_of_nil (idx : Nat) : calls_of idx [] = [] := rfl

@[simp] theorem calls_of_append (idx : Nat) (a b : List Event) :
    calls_of idx (a ++ b) = calls_of idx a ++ calls_of idx b := by
  simp [calls_of]

@[simp] theorem calls_of_cons (idx : Nat) (e : Event) (tr : List Event) :
    calls_of idx (e :: tr) = if e.is_call_of idx then e :: calls_of idx tr else calls_of idx tr := by
  simp only [calls_of, List.filter_cons]

theorem calls_of_calls (idx : Nat) (tr : List Event) : calls_of idx (calls tr) = calls_of idx tr := by
  induction tr with
  | nil => rfl
  | cons e tr ih =>
    cases e <;> simp [Event.is_call, Event.is_call_of, ih]

theorem slot_lt {w : World} {i : Nat} {t : swtimers_timer_instance_t} (h : w.slot i = some t) :
    i < w.timers.length := by
  unfold World.slot at h
  by_contra hc
  rw [List.getElem?_eq_none (by omega)] at h
  cases h

theorem set_slot_self {w : World} {i : Nat} {t : swtimers_timer_instance_t}
    (h : w.slot i = some t) : w.timers.set i t = w.timers := by
  have hlt := slot_lt h
  apply List.ext_getElem?
  intro j
  unfold World.slot at h
  by_cases hj : i = j
  · subst hj; simp [List.getElem?_set, h, hlt]
  · simp [List.getElem?_set, hj]

theorem slot_of_lt (w : World) {i : Nat} (h : i < w.timers.length) :
    ∃ t, w.slot i = some t :=
  ⟨w.timers[i], List.getElem?_eq_getElem h⟩

@[simp] theorem slot_mk_set (l : List swtimers_timer_instance_t) (b : Bool) (tr : List Event)
    (i j : Nat) (t : swtimers_timer_instance_t) :
    World.slot { timers := l.set i t, hw_is_started := b, trace := tr } j =
      if i = j then (if i < l.length then some t else none) else l[j]? := by
  unfold World.slot
  simp only [List.getElem?_set]

theorem isr_slot_spec (env : Handlers) (hq : Quiet env) (i : Nat) (w : World)
    (t : swtimers_timer_instance_t) (h : w.slot i = some t) :
    ∃ w', swtimers_isr_slot env i w = some w' ∧ w'.timers = w.timers.set i (tick t) ∧
      w'.hw_is_started = w.hw_is_started ∧ calls w'.trace = calls w.trace ++ tick_calls i t := by
  have hlt := slot_lt h
  have hset := set_slot_self h
  obtain ⟨hf, hs⟩ := hq
  cases hr : t.is_run
  · simp [swtimers_isr_slot, rd_is_run, h, hr, tick, tick_calls, expires, Event.is_call, hset]
  · by_cases hc : wrap32 (t.counter + 1) < t.threshold
    · simp [swtimers_isr_slot, rd_is_run, rd_counter, wr_counter, h, hr, tick, tick_calls,
        expires, World.store, hlt, hc, Event.is_call]
    · simp [swtimers_isr_slot, rd_is_run, rd_counter, wr_counter, wr_is_run, wr_is_waiting,
        call_full, call_simple, hf, hs, h, hr, World.store, hlt, hc, tick, tick_calls, expires,
        dispatch, is_single, is_from_isr, Event.is_call]
      by_cases hh : t.handler = 0 <;> cases hm : t.mode <;> cases hsim : t.is_simple <;>
        simp [hh, hm, hsim, hlt, Event.is_call]

theorem for_loop_inv (body : Nat → World → Option World) (I : Nat → World → Prop) (n : Nat)
    (w : World) (h0 : I 0 w)
    (hstep : ∀ k v, k < n → I k v → ∃ v', body k v = some v' ∧ I (k + 1) v') :
    ∃ w', for_loop body n w = some w' ∧ I n w' := by
  induction n with
  | zero => exact ⟨w, rfl, h0⟩
  | succ n ih =>
    obtain ⟨v, hv, hI⟩ := ih (fun k v hk hi => hstep k v (by omega) hi)
    obtain ⟨v', hv', hI'⟩ := hstep n v (by omega) hI
    exact ⟨v', by simp [for_loop, hv, hv'], hI'⟩

theorem slot_calls_succ (g : Nat → swtimers_timer_instance_t → List Event)
    (l : List swtimers_timer_instance_t) (n : Nat) (t : swtimers_timer_instance_t)
    (h : l[n]? = some t) : slot_calls g l (n + 1) = slot_calls g l n ++ g n t := by
  simp [slot_calls, List.range_succ, List.flatMap_append, h]

/-- A loop whose body rewrites slot `i` by `f` and makes the calls `g i`, leaving the rest alone -/
theorem for_loop_slotwise (body : Nat → World → Option World)
    (f : swtimers_timer_instance_t → swtimers_timer_instance_t)
    (g : Nat → swtimers_timer_instance_t → List Event)
    (hbody : ∀ i v t, v.slot i = some t → ∃ v', body i v = some v' ∧
      v'.timers = v.timers.set i (f t) ∧ v'.hw_is_started = v.hw_is_started ∧
      calls v'.trace = calls v.trace ++ g i t)
    (w : World) :
    ∃ w', for_loop body w.timers.length w = some w' ∧ w'.timers = w.timers.map f ∧
      w'.hw_is_started = w.hw_is_started ∧
      calls w'.trace = calls w.trace ++ slot_calls g w.timers w.timers.length := by
  have key := for_loop_inv body
    (fun k v => v.timers.length = w.timers.length ∧
      (∀ j, v.timers[j]? = if j < k then (w.timers[j]?).map f else w.timers[j]?) ∧
      v.hw_is_started = w.hw_is_started ∧
      calls v.trace = calls w.trace ++ slot_calls g w.timers k)
    w.timers.length w ⟨rfl, by simp, rfl, by simp [slot_calls]⟩
    (by
      intro k v hk ⟨hlen, hpt, hhw, hcl⟩
      have hk1 : v.timers[k]? = w.timers[k]? := by simpa using hpt k
      have hk2 : w.timers[k]? = some w.timers[k] := List.getElem?_eq_getElem hk
      obtain ⟨v', hv', ht', hhw', hcl'⟩ := hbody k v w.timers[k] (by unfold World.slot; rw [hk1, hk2])
      refine ⟨v', hv', by simp [ht', hlen], ?_, by rw [hhw', hhw], ?_⟩
      · intro j
        rw [ht', List.getElem?_set]
        by_cases hj : k = j
        · subst hj; simp [hlen, hk, hk2]
        · have := hpt j
          by_cases hj2 : j < k
          · simp [hj, hj2, this, show j < k + 1 by omega]
          · simp [hj, hj2, this, show ¬ j < k + 1 by omega]
      · rw [hcl', hcl, slot_calls_succ g w.timers k _ hk2, List.append_assoc])
  obtain ⟨w', hw', hlen, hpt, hhw, hcl⟩ := key
  refine ⟨w', hw', ?_, hhw, hcl⟩
  apply List.ext_getElem?
  intro j
  rw [hpt j, List.getElem?_map]
  by_cases hj : j < w.timers.length
  · simp [hj]
  · simp [hj, List.getElem?_eq_none (show w.timers.length ≤ j by omega)]

theorem isr_spec (env : Handlers) (hq : Quiet env) (inst : swtimers_instance_t) (w : World)
    (hlen : w.timers.length = inst.num) :
    ∃ w', swtimers_isr env inst w = some w' ∧ w'.timers = w.timers.map tick ∧
      w'.hw_is_started = w.hw_is_started ∧
      calls w'.trace = calls w.trace ++ slot_calls tick_calls w.timers inst.num := by
  have := for_loop_slotwise (swtimers_isr_slot env) tick tick_calls (isr_slot_spec env hq) w
  rw [hlen] at this
  exact this

theorem stop_hw_scan_spec (k : Nat) : ∀ (i : Nat) (w : World), i + k ≤ w.timers.length →
    ∃ w', stop_hw_scan k i w = some (any_run ((w.timers.drop i).take k), w') ∧
      w'.timers = w.timers ∧ w'.hw_is_started = w.hw_is_started ∧
      calls w'.trace = calls w.trace := by
  induction k with
  | zero => intro i w _; exact ⟨w, by simp [stop_hw_scan, any_run], rfl, rfl, rfl⟩
  | succ k ih =>
    intro i w h
    have hi : i < w.timers.length := by omega
    have hs : w.slot i = some w.timers[i] := List.getElem?_eq_getElem hi
    have hd : w.timers.drop i = w.timers[i] :: w.timers.drop (i + 1) :=
      List.drop_eq_getElem_cons hi
    obtain ⟨w', hw', h1, h2, h3⟩ := ih (i + 1) (w.emit (Event.rd i Field.is_run))
      (by simp; omega)
    cases hr : w.timers[i].is_run
    · refine ⟨w', ?_, by simpa using h1, by simpa using h2, by simpa [Event.is_call] using h3⟩
      simp only [stop_hw_scan, rd_is_run, hs, hr, hw', any_run, Option.map_some', bind,
        Option.some_bind, Bool.false_eq_true, if_false, timers_emit]
      rw [hd, List.take_succ_cons, List.any_cons, hr, Bool.false_or]
    · refine ⟨w.emit (Event.rd i Field.is_run), ?_, rfl, rfl, by simp [Event.is_call]⟩
      simp only [stop_hw_scan, rd_is_run, hs, hr, any_run, Option.map_some', bind,
        Option.some_bind, if_true, pure]
      rw [hd, List.take_succ_cons, List.any_cons, hr, Bool.true_or]

theorem stop_hw_timer_spec (inst : swtimers_instance_t) (hw : swtimers_hw_interface_t)
    (w : World) (hp : inst.hw_p = some hw) (hok : hw_ok hw) (hlen : w.timers.length = inst.num) :
    ∃ w', swtimers_stop_hw_timer inst w = some w' ∧ w'.timers = w.timers ∧
      w'.hw_is_started =
        (if hw.hw_is_started_cb then w.hw_is_started && any_run w.timers else w.hw_is_started) ∧
      calls w'.trace = calls w.trace := by
  obtain ⟨-, -, -, hall⟩ := hok
  cases hg : hw.hw_is_started_cb
  · exact ⟨w, by simp [swtimers_stop_hw_timer, hp, hg], rfl, by simp, rfl⟩
  · have hstop : hw.hw_stop_cb = true := by rcases hall with h | h <;> simp_all
    cases hst : w.hw_is_started
    · exact ⟨w.emit Event.hw_is_started,
        by simp [swtimers_stop_hw_timer, hp, hg, call_hw_is_started, hst], rfl, by simp [hst],
        by simp [Event.is_call]⟩
    · obtain ⟨w', hw', h1, h2, h3⟩ := stop_hw_scan_spec inst.num 0 (w.emit Event.hw_is_started)
        (by simp [hlen])
      have hfull : (w.timers.drop 0).take inst.num = w.timers := by simp [← hlen]
      simp only [timers_emit, hw_emit, trace_emit, hfull] at hw' h1 h2 h3
      cases har : any_run w.timers
      · refine ⟨{ w'.emit Event.hw_stop with hw_is_started := false }, ?_, by simpa using h1,
          by simp, by simpa [Event.is_call, World.emit] using h3⟩
        simp [swtimers_stop_hw_timer, hp, hg, call_hw_is_started, hst, hw', har, call_hw_stop,
          hstop]
      · refine ⟨w', ?_, h1, by simp [h2, hst], by simpa [Event.is_call] using h3⟩
        simp [swtimers_stop_hw_timer, hp, hg, call_hw_is_started, hst, hw', har]

theorem start_hw_timer_spec (inst : swtimers_instance_t) (hw : swtimers_hw_interface_t)
    (w : World) (hp : inst.hw_p = some hw) (hok : hw_ok hw) :
    ∃ w', swtimers_start_hw_timer inst w = some w' ∧ w'.timers = w.timers ∧
      w'.hw_is_started = (hw.hw_is_started_cb || w.hw_is_started) ∧
      calls w'.trace = calls w.trace := by
  obtain ⟨-, -, -, hall⟩ := hok
  cases hg : hw.hw_is_started_cb
  · exact ⟨w, by simp [swtimers_start_hw_timer, hp, hg], rfl, by simp, rfl⟩
  · have hstart : hw.hw_start_cb = true := by rcases hall with h | h <;> simp_all
    cases hst : w.hw_is_started
    · exact ⟨{ (w.emit Event.hw_is_started).emit Event.hw_start with hw_is_started := true },
        by simp [swtimers_start_hw_timer, hp, hg, call_hw_is_started, hst, call_hw_start, hstart],
        rfl, by simp, by simp [Event.is_call, World.emit]⟩
    · exact ⟨w.emit Event.hw_is_started,
        by simp [swtimers_start_hw_timer, hp, hg, call_hw_is_started, hst], rfl, by simp [hst],
        by simp [Event.is_call]⟩

@[simp] theorem slot_mk (l : List swtimers_timer_instance_t) (b : Bool) (tr : List Event)
    (i : Nat) : World.slot { timers := l, hw_is_started := b, trace := tr } i = l[i]? := rfl

/-- The slot `swtimers_stop` leaves behind -/
theorem stop_spec (inst : swtimers_instance_t) (hw : swtimers_hw_interface_t) (w : World)
    (idx : Nat) (t : swtimers_timer_instance_t)
    (hp : inst.hw_p = some hw) (hok : hw_ok hw) (hlen : w.timers.length = inst.num)
    (ht : w.slot idx = some t) :
    ∃ w', swtimers_stop inst idx w = some w' ∧
      w'.timers = w.timers.set idx { t with is_run := false, is_waiting := false, counter := 0 } ∧
      w'.hw_is_started =
        (if hw.hw_is_started_cb then
          w.hw_is_started &&
            any_run (w.timers.set idx { t with is_run := false, is_waiting := false, counter := 0 })
         else w.hw_is_started) ∧
      calls w'.trace = calls w.trace := by
  have hlt := slot_lt ht
  have hidx : idx < inst.num := by omega
  obtain ⟨hd, he, -, -⟩ := id hok
  obtain ⟨w', hw', h1, h2, h3⟩ := stop_hw_timer_spec inst hw
    { timers := w.timers.set idx { t with is_run := false, is_waiting := false, counter := 0 },
      hw_is_started := w.hw_is_started,
      trace := w.trace ++ [Event.isr_disable, Event.wr idx Field.is_run,
        Event.wr idx Field.is_waiting, Event.wr idx Field.counter, Event.isr_enable] }
    hp hok (by simp [hlen])
  refine ⟨w', ?_, h1, h2, by simpa [Event.is_call] using h3⟩
  rw [← hw']
  have ht' : w.timers[idx]? = some t := ht
  simp [swtimers_stop, hidx, hp, call_isr_disable, call_isr_enable, hd, he, wr_is_run,
    wr_is_waiting, wr_counter, ht', World.store, hlt, World.emit]

/-- The slot `swtimers_do_start` leaves behind -/
theorem do_start_spec (inst : swtimers_instance_t) (hw : swtimers_hw_interface_t) (w : World)
    (idx ms : Nat) (mode : swtimers_mode_t) (is_simple : Bool)
    (handler_cb handler_simple_cb arg_1_p arg_2_p : Nat) (t : swtimers_timer_instance_t)
    (hp : inst.hw_p = some hw) (hok : hw_ok hw) (hlen : w.timers.length = inst.num)
    (ht : w.slot idx = some t) :
    ∃ w', swtimers_do_start inst idx ms mode is_simple handler_cb handler_simple_cb
        arg_1_p arg_2_p w = some w' ∧
      w'.timers = w.timers.set idx
        { handler := if is_simple then handler_simple_cb else handler_cb,
          threshold := ms / hw.tick_ms, arg_1_p := arg_1_p, arg_2_p := arg_2_p, mode := mode,
          is_simple := is_simple, is_run := true, is_waiting := false, counter := 0 } ∧
      w'.hw_is_started = (hw.hw_is_started_cb || w.hw_is_started) ∧
      calls w'.trace = calls w.trace := by
  have hlt := slot_lt ht
  have hidx : idx < inst.num := by omega
  obtain ⟨hd, he, htick, -⟩ := id hok
  obtain ⟨w1, hw1, h1, h2, h3⟩ := stop_spec inst hw w idx t hp hok hlen ht
  obtain ⟨w2, hw2, k1, k2, k3⟩ := start_hw_timer_spec inst hw
    { timers := w.timers.set idx
        { handler := if is_simple then handler_simple_cb else handler_cb,
          threshold := ms / hw.tick_ms, arg_1_p := arg_1_p, arg_2_p := arg_2_p, mode := mode,
          is_simple := is_simple, is_run := true, is_waiting := false, counter := 0 },
      hw_is_started := w1.hw_is_started,
      trace := w1.trace ++ [Event.isr_disable, Event.wr idx Field.is_run, Event.isr_enable] }
    hp hok
  refine ⟨w2, ?_, k1, ?_, by simpa [Event.is_call, h3] using k3⟩
  · rw [← hw2]
    have hs1 : w1.slot idx = some { t with is_run := false, is_waiting := false, counter := 0 } := by
      unfold World.slot
      rw [h1]
      simp [hlt]
    have hlt1 : idx < w1.timers.length := slot_lt hs1
    simp [swtimers_do_start, hidx, hp, hw1, hs1, htick, World.store, hlt1, call_isr_disable,
      call_isr_enable, hd, he, wr_is_run, World.emit, h1, hlt]
  · rw [k2]
    simp only [h2]
    cases hw.hw_is_started_cb <;> simp

/-- The result of `swtimers_is_run` with a valid pointer for the time -/
theorem is_run_spec (inst : swtimers_instance_t) (hw : swtimers_hw_interface_t) (w : World)
    (idx p : Nat) (t : swtimers_timer_instance_t)
    (hp : inst.hw_p = some hw) (hok : hw_ok hw) (hlen : w.timers.length = inst.num)
    (ht : w.slot idx = some t) (hnn : p ≠ 0) :
    ∃ w', swtimers_is_run inst idx p w =
        some (t.is_run || t.is_waiting,
          if (t.is_run || t.is_waiting) = true then wrap32 (t.counter * hw.tick_ms) else 0, w') ∧
      w'.timers = w.timers ∧ w'.hw_is_started = w.hw_is_started ∧
      calls w'.trace = calls w.trace := by
  have hlt := slot_lt ht
  have hidx : idx < inst.num := by omega
  obtain ⟨hd, he, -, -⟩ := id hok
  refine ⟨((((w.emit Event.isr_disable).emit (Event.rd idx Field.is_run)).emit
    (Event.rd idx Field.is_waiting)).emit (Event.rd idx Field.counter)).emit Event.isr_enable,
    ?_, rfl, rfl, by simp [Event.is_call]⟩
  cases hr : t.is_run <;> cases hwt : t.is_waiting <;>
    simp [swtimers_is_run, hidx, hp, call_isr_disable, call_isr_enable, hd, he, rd_is_run,
      rd_is_waiting, rd_counter, ht, hr, hwt, hnn]

theorem task_slot_spec (env : Handlers) (hq : Quiet env) (hw : swtimers_hw_interface_t)
    (hok : hw_ok hw) (i : Nat) (w : World) (t : swtimers_timer_instance_t)
    (h : w.slot i = some t) :
    ∃ w', swtimers_task_slot env hw i w = some w' ∧
      w'.timers = w.timers.set i { t with is_waiting := false } ∧
      w'.hw_is_started = w.hw_is_started ∧ calls w'.trace = calls w.trace ++ task_calls i t := by
  have hlt := slot_lt h
  have hset := set_slot_self h
  have h' : w.timers[i]? = some t := h
  obtain ⟨hf, hs⟩ := hq
  obtain ⟨hd, he, -, -⟩ := id hok
  cases hwt : t.is_waiting
  · have e : ({ t with is_waiting := false } : swtimers_timer_instance_t) = t := by
      cases t; simp_all
    rw [e, hset]
    simp [swtimers_task_slot, call_isr_disable, call_isr_enable, hd, he, rd_is_waiting, h, hwt,
      task_calls, Event.is_call]
  · by_cases hh : t.handler = 0 <;> cases hsim : t.is_simple <;>
      simp [swtimers_task_slot, call_isr_disable, call_isr_enable, hd, he, rd_is_waiting, h, h',
        hwt, task_calls, Event.is_call, hh, hsim, call_full, call_simple, hf, hs, wr_is_waiting,
        World.store, hlt, dispatch, World.emit]

theorem any_run_map_waiting (l : List swtimers_timer_instance_t) :
    any_run (l.map fun t => { t with is_waiting := false }) = any_run l := by
  simp [any_run, List.any_map, Function.comp_def]

theorem task_spec (env : Handlers) (hq : Quiet env) (inst : swtimers_instance_t)
    (hw : swtimers_hw_interface_t) (w : World) (hp : inst.hw_p = some hw) (hok : hw_ok hw)
    (hnum : 0 < inst.num) (hlen : w.timers.length = inst.num) :
    ∃ w', swtimers_task env inst w = some w' ∧
      w'.timers = w.timers.map (fun t => { t with is_waiting := false }) ∧
      w'.hw_is_started =
        (if hw.hw_is_started_cb then w.hw_is_started && any_run w.timers else w.hw_is_started) ∧
      calls w'.trace = calls w.trace ++ slot_calls task_calls w.timers inst.num := by
  obtain ⟨w1, hw1, h1, h2, h3⟩ := for_loop_slotwise (swtimers_task_slot env hw)
    (fun t => { t with is_waiting := false }) task_calls (task_slot_spec env hq hw hok) w
  rw [hlen] at hw1 h3
  obtain ⟨w2, hw2, k1, k2, k3⟩ := stop_hw_timer_spec inst hw w1 hp hok (by simp [h1, hlen])
  refine ⟨w2, ?_, by rw [k1, h1], ?_, by rw [k3, h3]⟩
  · simp [swtimers_task, show inst.num ≠ 0 by omega, hp, hw1, hw2]
  · rw [k2, h2, h1, any_run_map_waiting]

theorem calls_of_dispatch (idx i : Nat) (t : swtimers_timer_instance_t) :
    calls_of idx [dispatch i t] = if i = idx then [dispatch i t] else [] := by
  unfold dispatch
  cases t.is_simple <;> by_cases h : i = idx <;> simp [Event.is_call_of, h]

theorem calls_of_tick_calls (idx i : Nat) (t : swtimers_timer_instance_t) :
    calls_of idx (tick_calls i t) = if i = idx then tick_calls i t else [] := by
  unfold tick_calls
  split
  · exact calls_of_dispatch idx i t
  · simp

theorem calls_of_task_calls (idx i : Nat) (t : swtimers_timer_instance_t) :
    calls_of idx (task_calls i t) = if i = idx then task_calls i t else [] := by
  unfold task_calls
  split
  · exact calls_of_dispatch idx i t
  · simp

/-- Among the calls of one pass over the table, those of slot `idx` are the ones listed for it -/
theorem calls_of_slot_calls (g : Nat → swtimers_timer_instance_t → List Event) (idx : Nat)
    (hg : ∀ j t, calls_of idx (g j t) = if j = idx then g j t else [])
    (l : List swtimers_timer_instance_t) (t : swtimers_timer_instance_t) (h : l[idx]? = some t)
    (n : Nat) : calls_of idx (slot_calls g l n) = if idx < n then g idx t else [] := by
  induction n with
  | zero => simp [slot_calls]
  | succ n ih =>
    have e : slot_calls g l (n + 1) = slot_calls g l n ++
        (match l[n]? with
          | some t => g n t
          | none => []) := by
      simp [slot_calls, List.range_succ, List.flatMap_append]
    rw [e, calls_of_append, ih]
    by_cases h1 : idx < n
    · have h2 : n ≠ idx := by omega
      cases hn : l[n]? <;> simp [h1, hg, h2, show idx < n + 1 by omega]
    · by_cases h2 : n = idx
      · subst h2
        simp [h, hg]
      · cases hn : l[n]? <;> simp [h1, hg, h2, show ¬ idx < n + 1 by omega]

theorem isr_n_spec (env : Handlers) (hq : Quiet env) (inst : swtimers_instance_t) (w : World)
    (hlen : w.timers.length = inst.num) (idx : Nat) (t : swtimers_timer_instance_t)
    (ht : w.slot idx = some t) (n : Nat) :
    ∃ w', isr_n env inst n w = some w' ∧ w'.timers = w.timers.map (tick^[n]) ∧
      w'.hw_is_started = w.hw_is_started ∧
      calls_of idx w'.trace = calls_of idx w.trace ++
        (List.range n).flatMap (fun r => tick_calls idx (tick^[r] t)) := by
  have hidx : idx < inst.num := by have := slot_lt ht; omega
  induction n with
  | zero => exact ⟨w, rfl, by simp, rfl, by simp⟩
  | succ n ih =>
    obtain ⟨v, hv, h1, h2, h3⟩ := ih
    obtain ⟨v', hv', k1, k2, k3⟩ := isr_spec env hq inst v (by simp [h1, hlen])
    refine ⟨v', by simp [isr_n, hv, hv'], ?_, by rw [k2, h2], ?_⟩
    · rw [k1, h1, List.map_map]
      congr 1
      funext x
      simp [Function.iterate_succ_apply']
    · have hs : v.timers[idx]? = some (tick^[n] t) := by
        have ht' : w.timers[idx]? = some t := ht
        rw [h1, List.getElem?_map, ht']
        rfl
      have := congrArg (calls_of idx) k3
      rw [calls_of_calls, calls_of_append, calls_of_calls,
        calls_of_slot_calls tick_calls idx (calls_of_tick_calls idx) v.timers _ hs] at this
      rw [this, h3, List.range_succ, List.flatMap_append]
      simp [hidx]

theorem wrap32_of_lt {n : Nat} (h : n < 4294967296) : wrap32 n = n :=
  Nat.mod_eq_of_lt h

/-- A running slot below its threshold only counts -/
theorem tick_iter_counting (t : swtimers_timer_instance_t) (hr : t.is_run = true)
    (hT : t.threshold ≤ 4294967296) (k : Nat) (hk : k = 0 ∨ t.counter + k < t.threshold) :
    tick^[k] t = { t with counter := t.counter + k } := by
  induction k with
  | zero => rfl
  | succ k ih =>
    have hk' : t.counter + (k + 1) < t.threshold := by omega
    rw [Function.iterate_succ_apply', ih (by omega)]
    have hw : wrap32 (t.counter + k + 1) = t.counter + k + 1 := wrap32_of_lt (by omega)
    have hlt : t.counter + k + 1 < t.threshold := by omega
    simp [tick, hr, hw, hlt]
    omega

theorem succ_div_mod_cases (n T : Nat) (hT : 0 < T) :
    (n % T + 1 < T ∧ (n + 1) % T = n % T + 1 ∧ (n + 1) / T = n / T) ∨
    (n % T + 1 = T ∧ (n + 1) % T = 0 ∧ (n + 1) / T = n / T + 1) := by
  have h1 := Nat.div_add_mod n T
  have h2 := Nat.mod_lt n hT
  have e : n + 1 = T * (n / T) + (n % T + 1) := by omega
  by_cases h : n % T + 1 < T
  · left
    refine ⟨h, ?_, ?_⟩
    · rw [e, Nat.mul_add_mod, Nat.mod_eq_of_lt h]
    · rw [e, Nat.mul_add_div hT, Nat.div_eq_of_lt h]
      simp
  · right
    have h3 : n % T + 1 = T := by omega
    refine ⟨h3, ?_, ?_⟩
    · rw [e, Nat.mul_add_mod, h3]
      exact Nat.mod_self T
    · rw [e, Nat.mul_add_div hT, h3, Nat.div_self hT]

/-- A running periodic slot dispatched from the ISR counts modulo its threshold -/
theorem tick_iter_periodic_isr (t : swtimers_timer_instance_t) (hr : t.is_run = true)
    (hm : t.mode = SWTIMERS_MODE_PERIODIC_FROM_ISR) (hc : t.counter = 0)
    (h1 : 1 ≤ t.threshold) (hT : t.threshold < 4294967296) (n : Nat) :
    tick^[n] t = { t with counter := n % t.threshold } := by
  induction n with
  | zero => cases t; simp_all
  | succ n ih =>
    rw [Function.iterate_succ_apply', ih]
    have hlt := Nat.mod_lt n (show 0 < t.threshold by omega)
    have hw : wrap32 (n % t.threshold + 1) = n % t.threshold + 1 := wrap32_of_lt (by omega)
    rcases succ_div_mod_cases n t.threshold (by omega) with ⟨a, b, -⟩ | ⟨a, b, -⟩
    · simp [tick, hr, hw, a, b]
    · have a' : ¬ n % t.threshold + 1 < t.threshold := by omega
      simp [tick, hr, hw, a', b, hm, is_single, is_from_isr]

theorem periodic_isr_calls (t : swtimers_timer_instance_t) (idx : Nat) (hr : t.is_run = true)
    (hm : t.mode = SWTIMERS_MODE_PERIODIC_FROM_ISR) (hc : t.counter = 0)
    (hh : t.handler ≠ 0) (h1 : 1 ≤ t.threshold) (hT : t.threshold < 4294967296) (n : Nat) :
    (List.range n).flatMap (fun r => tick_calls idx (tick^[r] t)) =
      List.replicate (n / t.threshold) (dispatch idx t) := by
  induction n with
  | zero => simp
  | succ n ih =>
    rw [List.range_succ, List.flatMap_append, ih]
    simp only [List.flatMap_cons, List.flatMap_nil, List.append_nil]
    rw [tick_iter_periodic_isr t hr hm hc h1 hT n]
    have hlt := Nat.mod_lt n (show 0 < t.threshold by omega)
    have hw : wrap32 (n % t.threshold + 1) = n % t.threshold + 1 := wrap32_of_lt (by omega)
    rcases succ_div_mod_cases n t.threshold (by omega) with ⟨a, -, c⟩ | ⟨a, -, c⟩
    · simp [tick_calls, expires, hr, hw, a, c]
    · have a' : ¬ n % t.threshold + 1 < t.threshold := by omega
      rw [c, List.replicate_succ']
      simp [tick_calls, expires, hr, hw, a', hh, hm, is_from_isr, dispatch]

theorem tick_iter_stopped (t : swtimers_timer_instance_t) (hr : t.is_run = false) (n : Nat) :
    tick^[n] t = t := by
  induction n with
  | zero => rfl
  | succ n ih => rw [Function.iterate_succ_apply', ih]; simp [tick, hr]

theorem tick_calls_stopped (idx : Nat) (t : swtimers_timer_instance_t) (hr : t.is_run = false) :
    tick_calls idx t = [] := by
  simp [tick_calls, expires, hr]

/-- While a freshly armed slot counts, no handler is dispatched for it -/
theorem counting_no_calls (idx : Nat) (t : swtimers_timer_instance_t) (hr : t.is_run = true)
    (hc : t.counter = 0) (hT : t.threshold ≤ 4294967296) (k : Nat)
    (hk : k = 0 ∨ k < t.threshold) :
    (List.range k).flatMap (fun r => tick_calls idx (tick^[r] t)) = [] := by
  induction k with
  | zero => simp
  | succ k ih =>
    have hk' : k + 1 < t.threshold := by omega
    rw [List.range_succ, List.flatMap_append, ih (by omega)]
    simp only [List.flatMap_cons, List.flatMap_nil, List.append_nil, List.nil_append]
    rw [tick_iter_counting t hr hT k (by omega)]
    have hw : wrap32 (k + 1) = k + 1 := wrap32_of_lt (by omega)
    simp [tick_calls, expires, hr, hc, hw, hk']

/-- The slot as the expiring pass leaves it -/
theorem expiry_state (t : swtimers_timer_instance_t) (hr : t.is_run = true) (hc : t.counter = 0)
    (hT : t.threshold < 4294967296) :
    tick^[max 1 t.threshold] t =
      { t with
        counter := if is_single t.mode then max 1 t.threshold else 0
        is_run := !is_single t.mode
        is_waiting := if t.handler ≠ 0 ∧ is_from_isr t.mode = false then true else t.is_waiting } := by
  obtain ⟨m, hm⟩ : ∃ m, max 1 t.threshold = m + 1 := ⟨max 1 t.threshold - 1, by omega⟩
  rw [hm, Function.iterate_succ_apply', tick_iter_counting t hr (by omega) m (by omega)]
  have hw : wrap32 (m + 1) = m + 1 := wrap32_of_lt (by omega)
  have hnlt : ¬ m + 1 < t.threshold := by omega
  simp [tick, hr, hc, hw, hnlt]

/-- The handler calls for a freshly armed slot up to and including the expiring pass -/
theorem expiry_calls (idx : Nat) (t : swtimers_timer_instance_t) (hr : t.is_run = true)
    (hc : t.counter = 0) (hT : t.threshold < 4294967296) :
    (List.range (max 1 t.threshold)).flatMap (fun r => tick_calls idx (tick^[r] t)) =
      if t.handler ≠ 0 ∧ is_from_isr t.mode = true then [dispatch idx t] else [] := by
  obtain ⟨m, hm⟩ : ∃ m, max 1 t.threshold = m + 1 := ⟨max 1 t.threshold - 1, by omega⟩
  rw [hm, List.range_succ, List.flatMap_append, counting_no_calls idx t hr hc (by omega) m (by omega)]
  simp only [List.flatMap_cons, List.flatMap_nil, List.append_nil, List.nil_append]
  rw [tick_iter_counting t hr (by omega) m (by omega)]
  have hw : wrap32 (m + 1) = m + 1 := wrap32_of_lt (by omega)
  have hnlt : ¬ m + 1 < t.threshold := by omega
  simp [tick_calls, expires, hr, hc, hw, hnlt, dispatch]

theorem slot_idx_dispatch (i : Nat) (t : swtimers_timer_instance_t) :
    (dispatch i t).slot_idx = i := by
  unfold dispatch
  cases t.is_simple <;> rfl

/-- The calls of one `swtimers_task` pass come in strictly increasing index order -/
theorem task_calls_sorted (l : List swtimers_timer_instance_t) (n : Nat) :
    ((slot_calls task_calls l n).map Event.slot_idx).Pairwise (fun a b => a < b) ∧
      ∀ a ∈ (slot_calls task_calls l n).map Event.slot_idx, a < n := by
  induction n with
  | zero => simp [slot_calls]
  | succ n ih =>
    obtain ⟨ih1, ih2⟩ := ih
    have e : slot_calls task_calls l (n + 1) = slot_calls task_calls l n ++
        (match l[n]? with
          | some t => task_calls n t
          | none => []) := by
      cases h : l[n]? <;> simp [slot_calls, List.range_succ, List.flatMap_append, h]
    have hlast : ∀ b ∈ (match l[n]? with
          | some t => task_calls n t
          | none => []).map Event.slot_idx, b = n := by
      intro b hb
      cases hn : l[n]? with
      | none => simp [hn] at hb
      | some t =>
        simp only [hn, task_calls] at hb
        split at hb
        · simp [slot_idx_dispatch] at hb
          exact hb
        · simp at hb
    have hlen : ((match l[n]? with
          | some t => task_calls n t
          | none => []).map Event.slot_idx).Pairwise (fun a b => a < b) := by
      cases hn : l[n]? with
      | none => simp
      | some t =>
        simp only [task_calls]
        split <;> simp
    rw [e, List.map_append]
    constructor
    · rw [List.pairwise_append]
      refine ⟨ih1, hlen, ?_⟩
      intro a ha b hb
      have := ih2 a ha
      have := hlast b hb
      omega
    · intro a ha
      rw [List.mem_append] at ha
      rcases ha with ha | ha
      · have := ih2 a ha
        omega
      · have := hlast a ha
        omega

theorem any_run_eq_true {l : List swtimers_timer_instance_t} :
    any_run l = true ↔
      ∃ (j : Nat) (t : swtimers_timer_instance_t), l[j]? = some t ∧ t.is_run = true := by
  unfold any_run
  rw [List.any_eq_true]
  constructor
  · rintro ⟨t, hm, hr⟩
    obtain ⟨j, hj⟩ := List.getElem?_of_mem hm
    exact ⟨j, t, hj, hr⟩
  · rintro ⟨j, t, hj, hr⟩
    exact ⟨t, List.getElem?_mem hj, hr⟩

theorem any_run_set_running (l : List swtimers_timer_instance_t) (idx : Nat)
    (t : swtimers_timer_instance_t) (h : idx < l.length) (hr : t.is_run = true) :
    any_run (l.set idx t) = true :=
  any_run_eq_true.mpr ⟨idx, t, by simp [h], hr⟩

theorem any_run_of_set_stopped (l : List swtimers_timer_instance_t) (idx : Nat)
    (t : swtimers_timer_instance_t) (hr : t.is_run = false)
    (h : any_run (l.set idx t) = true) : any_run l = true := by
  obtain ⟨j, u, hj, hu⟩ := any_run_eq_true.mp h
  rw [List.getElem?_set] at hj
  by_cases hji : idx = j
  · simp only [hji, if_true] at hj
    split at hj
    · cases hj
      rw [hr] at hu
      cases hu
    · cases hj
  · simp only [hji, if_false] at hj
    exact any_run_eq_true.mpr ⟨j, u, hj, hu⟩

theorem tick_is_run (t : swtimers_timer_instance_t) (h : (tick t).is_run = true) :
    t.is_run = true := by
  cases hr : t.is_run
  · simp [tick, hr] at h
  · rfl

theorem any_run_of_map_tick (l : List swtimers_timer_instance_t)
    (h : any_run (l.map tick) = true) : any_run l = true := by
  obtain ⟨j, u, hj, hu⟩ := any_run_eq_true.mp h
  rw [List.getElem?_map] at hj
  cases hl : l[j]? with
  | none => simp [hl] at hj
  | some t =>
    simp only [hl, Option.map_some', Option.some.injEq] at hj
    subst hj
    exact any_run_eq_true.mpr ⟨j, t, hl, tick_is_run t hu⟩

theorem any_run_map_stopped (l : List swtimers_timer_instance_t) :
    any_run (l.map fun t => { t with is_run := false, is_waiting := false, counter := 0 })
      = false := by
  simp [any_run, List.any_map, Function.comp_def]

/-- What `swtimers_stop_all` leaves behind -/
theorem stop_all_spec (inst : swtimers_instance_t) (hw : swtimers_hw_interface_t) (w : World)
    (hp : inst.hw_p = some hw) (hok : hw_ok hw) (hnum : 0 < inst.num)
    (hlen : w.timers.length = inst.num) :
    ∃ w', swtimers_stop_all inst w = some w' ∧
      w'.timers = w.timers.map
        (fun t => { t with is_run := false, is_waiting := false, counter := 0 }) ∧
      w'.hw_is_started = (if hw.hw_is_started_cb then false else w.hw_is_started) ∧
      calls w'.trace = calls w.trace := by
  have key := for_loop_inv (fun i v => swtimers_stop inst i v)
    (fun k v => v.timers.length = w.timers.length ∧
      (∀ j, v.timers[j]? = if j < k then (w.timers[j]?).map
        (fun t => { t with is_run := false, is_waiting := false, counter := 0 })
        else w.timers[j]?) ∧
      (hw.hw_is_started_cb = false → v.hw_is_started = w.hw_is_started) ∧
      calls v.trace = calls w.trace)
    inst.num w ⟨rfl, by simp, fun _ => rfl, rfl⟩
    (by
      intro k v hk ⟨hl, hpt, hhw, hcl⟩
      have hk' : k < w.timers.length := by omega
      have hk1 : v.timers[k]? = w.timers[k]? := by simpa using hpt k
      have hk2 : w.timers[k]? = some w.timers[k] := List.getElem?_eq_getElem hk'
      obtain ⟨v', hv', ht', hhw', hcl'⟩ := stop_spec inst hw v k w.timers[k] hp hok
        (by omega) (by unfold World.slot; rw [hk1, hk2])
      refine ⟨v', hv', by simp [ht', hl], ?_, ?_, by rw [hcl', hcl]⟩
      · intro j
        rw [ht', List.getElem?_set]
        by_cases hj : k = j
        · subst hj; simp [hl, hk', hk2]
        · have := hpt j
          by_cases hj2 : j < k
          · simp [hj, hj2, this, show j < k + 1 by omega]
          · simp [hj, hj2, this, show ¬ j < k + 1 by omega]
      · intro hg
        rw [hhw', hhw hg]
        simp [hg])
  obtain ⟨v, hv, hl, hpt, hhwv, hcl⟩ := key
  have htv : v.timers = w.timers.map
      (fun t => { t with is_run := false, is_waiting := false, counter := 0 }) := by
    apply List.ext_getElem?
    intro j
    rw [hpt j, List.getElem?_map]
    by_cases hj : j < inst.num
    · simp [hj]
    · simp [hj, List.getElem?_eq_none (show w.timers.length ≤ j by omega)]
  obtain ⟨w', hw', k1, k2, k3⟩ := stop_hw_timer_spec inst hw v hp hok (by omega)
  refine ⟨w', ?_, by rw [k1, htv], ?_, by rw [k3, hcl]⟩
  · simp [swtimers_stop_all, show inst.num ≠ 0 by omega, hv, hw']
  · rw [k2, htv, any_run_map_stopped]
    cases hg : hw.hw_is_started_cb
    · simp [hhwv hg]
    · simp

/-- What `swtimers_init` returns on a table of `num` slots -/
theorem init_spec (hw : swtimers_hw_interface_t) (num : Nat) (w : World)
    (inst : swtimers_instance_t) (w1 : World)
    (hlen : w.timers.length = num) (h : swtimers_init (some hw) num w = some (inst, w1)) :
    inst = { hw_p := some hw, num := num } ∧ hw_ok hw ∧ 0 < num ∧
      w1.timers = List.replicate num zero_timer ∧
      w1.hw_is_started = (if hw.hw_is_started_cb then false else w.hw_is_started) ∧
      calls w1.trace = calls w.trace := by
  unfold swtimers_init at h
  simp only [bind, Option.some_bind] at h
  split at h
  · rename_i hc
    obtain ⟨hnum, hd, he, htick, hall⟩ := hc
    have hok : hw_ok hw := ⟨hd, he, htick, hall⟩
    simp only [hlen, le_refl, if_true] at h
    have hz : List.replicate num zero_timer ++ List.drop num w.timers =
        List.replicate num zero_timer := by
      rw [← hlen]
      simp
    rw [hz] at h
    obtain ⟨v, hv, h1, h2, h3⟩ := stop_all_spec { hw_p := some hw, num := num } hw
      { w with timers := List.replicate num zero_timer } rfl hok hnum (by simp)
    rw [hv] at h
    simp only [Option.some_bind, pure, Option.some.injEq, Prod.mk.injEq] at h
    obtain ⟨rfl, rfl⟩ := h
    refine ⟨rfl, hok, hnum, ?_, h2, h3⟩
    rw [h1]
    simp [zero_timer]
  · cases h

theorem do_start_gating (inst : swtimers_instance_t) (hw : swtimers_hw_interface_t)
    (w w' : World) (idx ms : Nat) (mode : swtimers_mode_t) (is_simple : Bool)
    (handler_cb handler_simple_cb arg_1_p arg_2_p : Nat)
    (hp : inst.hw_p = some hw) (hok : hw_ok hw) (hg : hw.hw_is_started_cb = true)
    (hlen : w.timers.length = inst.num)
    (h : swtimers_do_start inst idx ms mode is_simple handler_cb handler_simple_cb
      arg_1_p arg_2_p w = some w') :
    w'.timers.length = inst.num ∧ w'.hw_is_started = true ∧ any_run w'.timers = true := by
  have hidx : idx < inst.num := by
    by_contra hc
    simp [swtimers_do_start, hc] at h
  obtain ⟨t, ht⟩ := slot_of_lt w (show idx < w.timers.length by omega)
  obtain ⟨v, hv, h1, h2, -⟩ := do_start_spec inst hw w idx ms mode is_simple handler_cb
    handler_simple_cb arg_1_p arg_2_p t hp hok hlen ht
  rw [hv] at h
  cases h
  refine ⟨by simp [h1, hlen], by simp [h2, hg], ?_⟩
  rw [h1]
  exact any_run_set_running _ _ _ (slot_lt ht) rfl

/-- One call keeps the hardware timer started while a slot runs, and every call but
`swtimers_isr` leaves it started exactly when a slot runs -/
theorem exec_gating (env : Handlers) (hq : Quiet env) (inst : swtimers_instance_t)
    (hw : swtimers_hw_interface_t) (hp : inst.hw_p = some hw) (hok : hw_ok hw)
    (hnum : 0 < inst.num) (hg : hw.hw_is_started_cb = true) (op : Op) (w w' : World)
    (hlen : w.timers.length = inst.num)
    (hinv : any_run w.timers = true → w.hw_is_started = true)
    (h : op.exec env inst w = some w') :
    w'.timers.length = inst.num ∧ (any_run w'.timers = true → w'.hw_is_started = true) ∧
      (op ≠ Op.isr → w'.hw_is_started = any_run w'.timers) := by
  cases op with
  | start idx ms mode handler_cb arg_1_p arg_2_p =>
    obtain ⟨a, b, c⟩ := do_start_gating inst hw w w' idx ms mode false handler_cb 0 arg_1_p
      arg_2_p hp hok hg hlen h
    exact ⟨a, fun _ => b, fun _ => by rw [b, c]⟩
  | start_simple idx ms mode handler_cb =>
    obtain ⟨a, b, c⟩ := do_start_gating inst hw w w' idx ms mode true 0 handler_cb 0 0
      hp hok hg hlen h
    exact ⟨a, fun _ => b, fun _ => by rw [b, c]⟩
  | start_no_handler idx ms =>
    obtain ⟨a, b, c⟩ := do_start_gating inst hw w w' idx ms SWTIMERS_MODE_SINGLE_FROM_LOOP true
      0 0 0 0 hp hok hg hlen h
    exact ⟨a, fun _ => b, fun _ => by rw [b, c]⟩
  | stop idx =>
    have hidx : idx < inst.num := by
      by_contra hc
      simp [Op.exec, swtimers_stop, hc] at h
    obtain ⟨t, ht⟩ := slot_of_lt w (show idx < w.timers.length by omega)
    obtain ⟨v, hv, h1, h2, -⟩ := stop_spec inst hw w idx t hp hok hlen ht
    simp only [Op.exec] at h
    rw [hv] at h
    cases h
    have key : w'.hw_is_started = any_run w'.timers := by
      rw [h2, ← h1]
      simp only [hg, if_true]
      cases har : any_run w'.timers
      · simp
      · rw [h1] at har
        have := hinv (any_run_of_set_stopped _ _ _ rfl har)
        simp [this]
    exact ⟨by simp [h1, hlen], fun har => by rw [key, har], fun _ => key⟩
  | stop_all =>
    obtain ⟨v, hv, h1, h2, -⟩ := stop_all_spec inst hw w hp hok hnum hlen
    simp only [Op.exec] at h
    rw [hv] at h
    cases h
    have har : any_run w'.timers = false := by rw [h1]; exact any_run_map_stopped _
    refine ⟨by simp [h1, hlen], fun h' => ?_, fun _ => ?_⟩
    · rw [har] at h'
      cases h'
    · rw [h2, har]
      simp [hg]
  | task =>
    obtain ⟨v, hv, h1, h2, -⟩ := task_spec env hq inst hw w hp hok hnum hlen
    simp only [Op.exec] at h
    rw [hv] at h
    cases h
    have har : any_run w'.timers = any_run w.timers := by rw [h1]; exact any_run_map_waiting _
    have key : w'.hw_is_started = any_run w'.timers := by
      rw [h2, har]
      simp only [hg, if_true]
      cases hr : any_run w.timers
      · simp
      · simp [hinv hr]
    exact ⟨by simp [h1, hlen], fun h' => by rw [key, h'], fun _ => key⟩
  | isr =>
    obtain ⟨v, hv, h1, h2, -⟩ := isr_spec env hq inst w hlen
    simp only [Op.exec] at h
    rw [hv] at h
    cases h
    refine ⟨by simp [h1, hlen], fun h' => ?_, fun hne => absurd rfl hne⟩
    rw [h2]
    rw [h1] at h'
    exact hinv (any_run_of_map_tick _ h')

theorem run_gating (env : Handlers) (hq : Quiet env) (inst : swtimers_instance_t)
    (hw : swtimers_hw_interface_t) (hp : inst.hw_p = some hw) (hok : hw_ok hw)
    (hnum : 0 < inst.num) (hg : hw.hw_is_started_cb = true) (ops : List Op) :
    ∀ (w w' : World), w.timers.length = inst.num →
      (any_run w.timers = true → w.hw_is_started = true) →
      run env inst ops w = some w' →
      w'.timers.length = inst.num ∧ (any_run w'.timers = true → w'.hw_is_started = true) ∧
        (∀ op, ops.getLast? = some op → op ≠ Op.isr → w'.hw_is_started = any_run w'.timers) := by
  induction ops with
  | nil =>
    intro w w' hlen hinv h
    cases h
    exact ⟨hlen, hinv, fun op hop => by simp at hop⟩
  | cons op ops ih =>
    intro w w' hlen hinv h
    simp only [run] at h
    cases hv : op.exec env inst w with
    | none => simp [hv] at h
    | some v =>
      rw [hv] at h
      simp only [Option.some_bind] at h
      obtain ⟨a, b, c⟩ := exec_gating env hq inst hw hp hok hnum hg op w v hlen hinv hv
      obtain ⟨a', b', c'⟩ := ih v w' a b h
      refine ⟨a', b', ?_⟩
      intro o ho hne
      cases ops with
      | nil =>
        simp at ho
        subst ho
        cases h
        exact c hne
      | cons o2 ops2 =>
        rw [List.getLast?_cons_cons] at ho
        exact c' o ho hne

theorem tick_handler (t : swtimers_timer_instance_t) : (tick t).handler = t.handler := by
  unfold tick
  split
  · rfl
  · split <;> rfl

theorem tick_iter_handler (t : swtimers_timer_instance_t) (n : Nat) :
    (tick^[n] t).handler = t.handler := by
  induction n with
  | zero => rfl
  | succ n ih => rw [Function.iterate_succ_apply', tick_handler, ih]

/-- Nothing is dispatched from the ISR for a slot without handler -/
theorem no_handler_no_calls (idx : Nat) (t : swtimers_timer_instance_t) (hh : t.handler = 0)
    (n : Nat) : (List.range n).flatMap (fun r => tick_calls idx (tick^[r] t)) = [] := by
  induction n with
  | zero => simp
  | succ n ih =>
    rw [List.range_succ, List.flatMap_append, ih]
    simp [tick_calls, tick_iter_handler, hh]

/-- What `swtimers_init` needs to return -/
theorem init_ok (hw : swtimers_hw_interface_t) (num : Nat) (w : World) (hok : hw_ok hw)
    (hnum : 0 < num) (hlen : w.timers.length = num) :
    ∃ inst w1, swtimers_init (some hw) num w = some (inst, w1) := by
  have hz : List.replicate num zero_timer ++ List.drop num w.timers =
      List.replicate num zero_timer := by
    rw [← hlen]
    simp
  obtain ⟨v, hv, -⟩ := stop_all_spec { hw_p := some hw, num := num } hw
    { w with timers := List.replicate num zero_timer } rfl hok hnum (by simp)
  obtain ⟨hd, he, htick, hall⟩ := id hok
  refine ⟨{ hw_p := some hw, num := num }, v, ?_⟩
  unfold swtimers_init
  simp only [bind, Option.some_bind]
  rw [if_pos ⟨hnum, hd, he, htick, hall⟩, if_pos (by omega), hz, hv]
  rfl

theorem do_start_slots (inst : swtimers_instance_t) (hw : swtimers_hw_interface_t)
    (w w' : World) (idx ms : Nat) (mode : swtimers_mode_t) (is_simple : Bool)
    (handler_cb handler_simple_cb arg_1_p arg_2_p : Nat)
    (hp : inst.hw_p = some hw) (hok : hw_ok hw) (hlen : w.timers.length = inst.num)
    (h : swtimers_do_start inst idx ms mode is_simple handler_cb handler_simple_cb
      arg_1_p arg_2_p w = some w') :
    ∃ t', t'.is_run = true ∧ t'.is_waiting = false ∧ w'.timers = w.timers.set idx t' := by
  have hidx : idx < inst.num := by
    by_contra hc
    simp [swtimers_do_start, hc] at h
  obtain ⟨t, ht⟩ := slot_of_lt w (show idx < w.timers.length by omega)
  obtain ⟨v, hv, h1, -, -⟩ := do_start_spec inst hw w idx ms mode is_simple handler_cb
    handler_simple_cb arg_1_p arg_2_p t hp hok hlen ht
  rw [hv] at h
  cases h
  exact ⟨_, rfl, rfl, h1⟩

/-- What one call can do to a slot when handlers are quiet: leave it, arm it (running, not
waiting), stop it, tick it, or clear its `is_waiting` -/
theorem exec_slots (env : Handlers) (hq : Quiet env) (inst : swtimers_instance_t)
    (hw : swtimers_hw_interface_t) (hp : inst.hw_p = some hw) (hok : hw_ok hw)
    (hnum : 0 < inst.num) (op : Op) (w w' : World) (hlen : w.timers.length = inst.num)
    (h : op.exec env inst w = some w') :
    w'.timers.length = inst.num ∧
      ∀ (j : Nat) (t' : swtimers_timer_instance_t), w'.timers[j]? = some t' → ∃ t, w.timers[j]? = some t ∧
        (t' = t ∨ (t'.is_run = true ∧ t'.is_waiting = false) ∨
          (t'.is_run = false ∧ t'.is_waiting = false) ∨ t' = tick t ∨
          t' = { t with is_waiting := false }) := by
  have hset : ∀ (idx : Nat) (u : swtimers_timer_instance_t),
      (u.is_run = true ∧ u.is_waiting = false) ∨ (u.is_run = false ∧ u.is_waiting = false) →
      w'.timers = w.timers.set idx u →
      w'.timers.length = inst.num ∧
      ∀ (j : Nat) (t' : swtimers_timer_instance_t), w'.timers[j]? = some t' → ∃ t, w.timers[j]? = some t ∧
        (t' = t ∨ (t'.is_run = true ∧ t'.is_waiting = false) ∨
          (t'.is_run = false ∧ t'.is_waiting = false) ∨ t' = tick t ∨
          t' = { t with is_waiting := false }) := by
    intro idx u hu he
    refine ⟨by simp [he, hlen], ?_⟩
    intro j t' hj
    rw [he, List.getElem?_set] at hj
    by_cases hij : idx = j
    · simp only [hij, if_true] at hj
      split at hj
      · rename_i hlt
        cases hj
        refine ⟨w.timers[j], List.getElem?_eq_getElem hlt, ?_⟩
        rcases hu with hu | hu
        · exact Or.inr (Or.inl hu)
        · exact Or.inr (Or.inr (Or.inl hu))
      · cases hj
    · simp only [hij, if_false] at hj
      exact ⟨t', hj, Or.inl rfl⟩
  have hmap : ∀ (f : swtimers_timer_instance_t → swtimers_timer_instance_t),
      (∀ t, f t = t ∨ ((f t).is_run = true ∧ (f t).is_waiting = false) ∨
          ((f t).is_run = false ∧ (f t).is_waiting = false) ∨ f t = tick t ∨
          f t = { t with is_waiting := false }) →
      w'.timers = w.timers.map f →
      w'.timers.length = inst.num ∧
      ∀ (j : Nat) (t' : swtimers_timer_instance_t), w'.timers[j]? = some t' → ∃ t, w.timers[j]? = some t ∧
        (t' = t ∨ (t'.is_run = true ∧ t'.is_waiting = false) ∨
          (t'.is_run = false ∧ t'.is_waiting = false) ∨ t' = tick t ∨
          t' = { t with is_waiting := false }) := by
    intro f hf he
    refine ⟨by simp [he, hlen], ?_⟩
    intro j t' hj
    rw [he, List.getElem?_map] at hj
    cases hl : w.timers[j]? with
    | none => simp [hl] at hj
    | some t =>
      simp only [hl, Option.map_some', Option.some.injEq] at hj
      subst hj
      exact ⟨t, rfl, hf t⟩
  cases op with
  | start idx ms mode handler_cb arg_1_p arg_2_p =>
    obtain ⟨u, a, b, c⟩ := do_start_slots inst hw w w' idx ms mode false handler_cb 0 arg_1_p
      arg_2_p hp hok hlen h
    exact hset idx u (Or.inl ⟨a, b⟩) c
  | start_simple idx ms mode handler_cb =>
    obtain ⟨u, a, b, c⟩ := do_start_slots inst hw w w' idx ms mode true 0 handler_cb 0 0
      hp hok hlen h
    exact hset idx u (Or.inl ⟨a, b⟩) c
  | start_no_handler idx ms =>
    obtain ⟨u, a, b, c⟩ := do_start_slots inst hw w w' idx ms SWTIMERS_MODE_SINGLE_FROM_LOOP true
      0 0 0 0 hp hok hlen h
    exact hset idx u (Or.inl ⟨a, b⟩) c
  | stop idx =>
    have hidx : idx < inst.num := by
      by_contra hc
      simp [Op.exec, swtimers_stop, hc] at h
    obtain ⟨t, ht⟩ := slot_of_lt w (show idx < w.timers.length by omega)
    obtain ⟨v, hv, h1, -, -⟩ := stop_spec inst hw w idx t hp hok hlen ht
    simp only [Op.exec] at h
    rw [hv] at h
    cases h
    exact hset idx _ (Or.inr ⟨rfl, rfl⟩) h1
  | stop_all =>
    obtain ⟨v, hv, h1, -, -⟩ := stop_all_spec inst hw w hp hok hnum hlen
    simp only [Op.exec] at h
    rw [hv] at h
    cases h
    exact hmap _ (fun t => Or.inr (Or.inr (Or.inl ⟨rfl, rfl⟩))) h1
  | task =>
    obtain ⟨v, hv, h1, -, -⟩ := task_spec env hq inst hw w hp hok hnum hlen
    simp only [Op.exec] at h
    rw [hv] at h
    cases h
    exact hmap _ (fun t => Or.inr (Or.inr (Or.inr (Or.inr rfl)))) h1
  | isr =>
    obtain ⟨v, hv, h1, -, -⟩ := isr_spec env hq inst w hlen
    simp only [Op.exec] at h
    rw [hv] at h
    cases h
    exact hmap _ (fun t => Or.inr (Or.inr (Or.inr (Or.inl rfl)))) h1

/-- A property of the world kept by every call is kept by a sequence of calls -/
theorem run_preserves (env : Handlers) (inst : swtimers_instance_t) (P : World → Prop)
    (hstep : ∀ (op : Op) (w w' : World), P w → op.exec env inst w = some w' → P w') (ops : List Op) :
    ∀ w w', P w → run env inst ops w = some w' → P w' := by
  induction ops with
  | nil =>
    intro w w' hP h
    cases h
    exact hP
  | cons op ops ih =>
    intro w w' hP h
    simp only [run] at h
    cases hv : op.exec env inst w with
    | none => simp [hv] at h
    | some v =>
      rw [hv] at h
      exact ih v w' (hstep op w v hP hv) h

/-- The ISR sets `is_waiting` on a running slot only for a periodic slot served from the loop -/
theorem tick_both_flags (t : swtimers_timer_instance_t)
    (h : t.is_run = true → t.is_waiting = true →
      t.mode = SWTIMERS_MODE_PERIODIC_FROM_LOOP ∧ t.handler ≠ 0)
    (hr : (tick t).is_run = true) (hw : (tick t).is_waiting = true) :
    (tick t).mode = SWTIMERS_MODE_PERIODIC_FROM_LOOP ∧ (tick t).handler ≠ 0 := by
  have hr0 := tick_is_run t hr
  unfold tick at hr hw ⊢
  simp only [hr0, Bool.true_eq_false, if_false] at hr hw ⊢
  split at hr
  · rename_i hc
    simp only [hc, if_true] at hw ⊢
    exact h hr0 hw
  · rename_i hc
    simp only [hc, if_false] at hw ⊢
    simp only at hr hw ⊢
    cases hm : t.mode <;> simp [hm, is_single, is_from_isr] at hr hw ⊢
    · rcases hw with hw | hw
      · exact hw
      · exact (h hr0 hw).2
    · have := (h hr0 hw).1
      rw [hm] at this
      cases this

/-- The bit operations on the event masks that occur in `buttons_task` -/
theorem event_bits :
    (1 &&& 1 : Nat) = 1 ∧ (2 &&& 1 : Nat) = 0 ∧ (4 &&& 1 : Nat) = 0 ∧ (9 &&& 1 : Nat) = 1 ∧
    (1 &&& 2 : Nat) = 0 ∧ (2 &&& 2 : Nat) = 2 ∧ (4 &&& 2 : Nat) = 0 ∧ (9 &&& 2 : Nat) = 0 ∧
    (1 ||| 8 : Nat) = 9 ∧ (1 ||| 1 : Nat) = 1 ∧ (2 ||| 2 : Nat) = 2 ∧ (1 ||| 2 : Nat) = 3 ∧
    (2 ||| 1 : Nat) = 3 ∧ (3 &&& 1 : Nat) = 1 ∧ (3 &&& 2 : Nat) = 2 ∧ (3 ||| 8 : Nat) = 11 ∧
    (11 &&& 2 : Nat) = 2 ∧ (1 ||| 4 : Nat) = 5 ∧ (2 ||| 4 : Nat) = 6 := by
  decide

theorem and_of_imp {a b : Prop} (ha : a) (hab : a → b) : a ∧ b :=
  ⟨ha, hab ha⟩

theorem delivered_append (a b : List BEvent) : delivered (a ++ b) = delivered a ++ delivered b := by
  simp [delivered]

theorem for_loop_l_inv (body : Nat → LWorld → Option LWorld) (I : LWorld → Prop) (n : Nat)
    (hstep : ∀ (i : Nat) (lw lw' : LWorld), i < n → I lw → body i lw = some lw' → I lw') :
    ∀ (m : Nat) (lw lw' : LWorld), m ≤ n → I lw → for_loop_l body m lw = some lw' → I lw' := by
  intro m
  induction m with
  | zero =>
    intro lw lw' _ h0 h
    simp only [for_loop_l, Option.some.injEq] at h
    exact h ▸ h0
  | succ m ih =>
    intro lw lw' hm h0 h
    simp only [for_loop_l, Option.bind_eq_some] at h
    obtain ⟨lw1, h1, h2⟩ := h
    exact hstep m lw1 lw' (by omega) (ih lw lw1 (by omega) h0 h1) h2

/-- `leds_gpio_set` touches the trace of pin calls only -/
theorem gpio_set_frame (inst : leds_instance_t) (led : leds_led_instance_t) (s : Bool)
    (lw lw' : LWorld) (h : leds_gpio_set inst led s lw = some lw') :
    lw'.leds = lw.leds ∧ lw'.swt = lw.swt := by
  unfold leds_gpio_set at h
  simp only [bind, Option.bind_eq_some] at h
  obtain ⟨hw, -, h⟩ := h
  split at h
  · simp only [pure, Option.some.injEq] at h
    subst h
    exact ⟨rfl, rfl⟩
  · cases h

theorem gpio_toggle_frame (inst : leds_instance_t) (led : leds_led_instance_t)
    (lw lw' : LWorld) (h : leds_gpio_toggle inst led lw = some lw') :
    lw'.leds = lw.leds ∧ lw'.swt = lw.swt := by
  unfold leds_gpio_toggle at h
  simp only [bind, Option.bind_eq_some] at h
  obtain ⟨hw, -, h⟩ := h
  split at h
  · simp only [pure, Option.some.injEq] at h
    subst h
    exact ⟨rfl, rfl⟩
  · cases h

/-- A property of the LEDs table that holds for every table and is kept when one entry is
replaced by an entry with the property -/
theorem forall_mem_set {α : Type} (P : α → Prop) (l : List α) (i : Nat) (a : α)
    (hl : ∀ x ∈ l, P x) (ha : P a) : ∀ x ∈ l.set i a, P x := by
  intro x hx
  rcases List.mem_or_eq_of_mem_set hx with h | rfl
  · exact hl x h
  · exact ha

/-- What `leds_processing` does to the table: it leaves it or replaces one entry `led` by an
entry that is blinking with a counter below `series`, or Disabled -/
theorem processing_table (inst : leds_instance_t) (timer_idx inst_p led_p : Nat)
    (lw lw' : LWorld) (h : leds_processing inst timer_idx inst_p led_p lw = some lw') :
    lw'.leds = lw.leds ∨
      ∃ idx led led', lw.leds[idx]? = some led ∧ lw'.leds = lw.leds.set idx led' ∧
        led.blink_state ≠ LED_BLINK_STATE_DISABLED ∧
        led'.series = led.series ∧ led'.wait_ms = led.wait_ms ∧
        (led'.blink_state = LED_BLINK_STATE_DISABLED → led.wait_ms = 0) ∧
        (led.pulse_counter < led.series → led.series < 256 →
          led'.blink_state ≠ LED_BLINK_STATE_DISABLED → led'.pulse_counter < led.series) := by
  unfold leds_processing at h
  split at h
  · simp only [bind, Option.bind_eq_some] at h
    obtain ⟨led, hled, swt, -, h⟩ := h
    split at h
    · rename_i hst
      simp only [Option.bind_eq_some] at h
      obtain ⟨lw1, h1, w, -, h⟩ := h
      obtain ⟨f1, -⟩ := gpio_set_frame _ _ _ _ _ h1
      simp only [pure, Option.some.injEq] at h
      subst h
      refine Or.inr ⟨_, led, { led with blink_state := LED_BLINK_STATE_PULSE }, hled,
        by rw [f1], by simp [hst], rfl, rfl, by simp, ?_⟩
      intro hc _ _
      exact hc
    · rename_i hst
      simp only [Option.bind_eq_some] at h
      obtain ⟨lw1, h1, h⟩ := h
      obtain ⟨f1, -⟩ := gpio_set_frame _ _ _ _ _ h1
      split at h
      · rename_i heq
        split at h
        · simp only [Option.bind_eq_some] at h
          obtain ⟨w, -, h⟩ := h
          simp only [pure, Option.some.injEq] at h
          subst h
          refine Or.inr ⟨_, led,
            { led with pulse_counter := 0, blink_state := LED_BLINK_STATE_PAUSE }, hled,
            by rw [f1], by simp [hst], rfl, rfl, by simp, ?_⟩
          intro hc _ _
          simp only
          omega
        · rename_i hw0
          simp only [pure, Option.some.injEq] at h
          subst h
          refine Or.inr ⟨_, led,
            { led with pulse_counter := 0, blink_state := LED_BLINK_STATE_DISABLED }, hled,
            by rw [f1], by simp [hst], rfl, rfl, ?_, ?_⟩
          · intro _
            simpa using hw0
          · intro _ _ hne
            exact absurd rfl hne
      · rename_i hneq
        simp only [Option.bind_eq_some] at h
        obtain ⟨w, -, h⟩ := h
        simp only [pure, Option.some.injEq] at h
        subst h
        refine Or.inr ⟨_, led,
          { led with
            pulse_counter := (led.pulse_counter + 1) % 256
            blink_state := LED_BLINK_STATE_PAUSE }, hled,
          by rw [f1], by simp [hst], rfl, rfl, by simp, ?_⟩
        intro hc h256 _
        simp only at hneq ⊢
        have : (led.pulse_counter + 1) % 256 = led.pulse_counter + 1 :=
          Nat.mod_eq_of_lt (by omega)
        rw [this] at hneq ⊢
        omega
    · simp only [pure, Option.some.injEq] at h
      subst h
      exact Or.inl rfl
  · cases h

/-- A property of the LEDs table kept by `leds_processing` is kept by the loop body of
`swtimers_task` -/
theorem task_slot_leds_inv (inst : leds_instance_t) (Q : List leds_led_instance_t → Prop)
    (hQ : ∀ (ti a1 a2 : Nat) (lw lw' : LWorld),
      leds_processing inst ti a1 a2 lw = some lw' → Q lw.leds → Q lw'.leds)
    (hw : swtimers_hw_interface_t) (i : Nat) (lw lw' : LWorld)
    (h : swtimers_task_slot_leds inst hw i lw = some lw') (hq : Q lw.leds) : Q lw'.leds := by
  unfold swtimers_task_slot_leds at h
  simp only [bind, Option.bind_eq_some] at h
  obtain ⟨w1, -, r, -, w2, -, h⟩ := h
  split at h
  · simp only [Option.bind_eq_some] at h
    obtain ⟨t, -, h⟩ := h
    split at h
    · simp only [pure, Option.bind_eq_some, Option.some.injEq] at h
      obtain ⟨lw1, h1, w3, -, w4, -, w5, -, h⟩ := h
      subst h h1
      exact hq
    · split at h
      · simp only [pure, Option.bind_eq_some, Option.some.injEq] at h
        obtain ⟨lw1, h1, w3, -, w4, -, w5, -, h⟩ := h
        subst h
        show Q lw1.leds
        unfold leds_full_cb at h1
        split at h1
        · split at h1
          · exact hQ _ _ _ _ _ h1 hq
          · cases h1
        · simp only [Option.some.injEq] at h1
          subst h1
          exact hq
      · simp only [pure, Option.bind_eq_some, Option.some.injEq] at h
        obtain ⟨lw1, h1, w3, -, w4, -, w5, -, h⟩ := h
        subst h h1
        exact hq
  · simp only [pure, Option.some.injEq] at h
    subst h
    exact hq

/-- A property of the LEDs table kept by `leds_processing` is kept by `swtimers_task` -/
theorem task_leds_inv (inst : leds_instance_t) (Q : List leds_led_instance_t → Prop)
    (hQ : ∀ (ti a1 a2 : Nat) (lw lw' : LWorld),
      leds_processing inst ti a1 a2 lw = some lw' → Q lw.leds → Q lw'.leds)
    (swt : swtimers_instance_t) (lw lw' : LWorld)
    (h : swtimers_task_leds inst swt lw = some lw') (hq : Q lw.leds) : Q lw'.leds := by
  unfold swtimers_task_leds at h
  split at h
  · simp only [bind, Option.bind_eq_some] at h
    obtain ⟨hw, -, lw1, h1, w, -, h⟩ := h
    simp only [pure, Option.some.injEq] at h
    subst h
    exact for_loop_l_inv (swtimers_task_slot_leds inst hw) (fun x => Q x.leds) swt.num
      (fun i x x' _ hx hstep => task_slot_leds_inv inst Q hQ hw i x x' hstep hx)
      swt.num lw lw1 (Nat.le_refl _) hq h1
  · cases h

/-- `leds_processing` keeps the pulse counter of every blinking LED below `series` -/
theorem processing_counter_ok (inst : leds_instance_t) (ti a1 a2 : Nat) (lw lw' : LWorld)
    (h : leds_processing inst ti a1 a2 lw = some lw')
    (hx : ∀ led ∈ lw.leds, counter_ok led) : ∀ led ∈ lw'.leds, counter_ok led := by
  rcases processing_table inst ti a1 a2 lw lw' h with h1 | ⟨idx, led, led', hl, h1, hne, hs, -, -, hc⟩
  · rw [h1]
    exact hx
  · rw [h1]
    refine forall_mem_set counter_ok _ _ _ hx ?_
    intro hne'
    obtain ⟨c1, c2⟩ := hx led (List.getElem?_mem hl) hne
    rw [hs]
    exact ⟨hc c1 c2 hne', c2⟩

/-- `leds_blink_ext` with a `uint8_t` series keeps the pulse counter of every blinking LED
below `series` -/
theorem blink_ext_counter_ok (inst : leds_instance_t)
    (idx series pulse_ms pause_ms period_ms delay_ms : Nat) (is_inverted : Bool)
    (lw lw' : LWorld) (hs : series < 256)
    (h : leds_blink_ext inst idx series pulse_ms pause_ms period_ms delay_ms is_inverted lw =
      some lw')
    (hx : ∀ led ∈ lw.leds, counter_ok led) : ∀ led ∈ lw'.leds, counter_ok led := by
  unfold leds_blink_ext at h
  split at h
  · rename_i hsp
    split at h
    · simp only [bind, Option.bind_eq_some] at h
      obtain ⟨led, -, h⟩ := h
      split at h
      · simp only [Option.bind_eq_some] at h
        obtain ⟨swt, -, h⟩ := h
        split at h
        · simp only [Option.bind_eq_some] at h
          obtain ⟨w, -, h⟩ := h
          obtain ⟨f1, -⟩ := gpio_set_frame _ _ _ _ _ h
          rw [f1]
          refine forall_mem_set counter_ok _ _ _ hx ?_
          intro _
          exact ⟨Nat.pos_of_ne_zero hsp.1, hs⟩
        · simp only [Option.bind_eq_some] at h
          obtain ⟨w, -, h⟩ := h
          obtain ⟨f1, -⟩ := gpio_set_frame _ _ _ _ _ h
          rw [f1]
          refine forall_mem_set counter_ok _ _ _ hx ?_
          intro _
          exact ⟨Nat.pos_of_ne_zero hsp.1, hs⟩
      · cases h
    · cases h
  · cases h

/-- Every call with arguments in range keeps the pulse counter of every blinking LED below
`series` -/
theorem exec_counter_ok (inst : leds_instance_t) (swt : swtimers_instance_t) (op : LOp)
    (lw lw' : LWorld) (hr : op.in_range = true) (h : op.exec inst swt lw = some lw')
    (hx : ∀ led ∈ lw.leds, counter_ok led) : ∀ led ∈ lw'.leds, counter_ok led := by
  have hdis : ∀ led : leds_led_instance_t,
      counter_ok { led with blink_state := LED_BLINK_STATE_DISABLED } :=
    fun led hne => absurd rfl hne
  cases op with
  | set_pin idx pin_idx timer_idx is_active_high =>
    simp only [LOp.exec, leds_set_pin, bind, Option.bind_eq_some] at h
    split at h
    · simp only [Option.bind_eq_some] at h
      obtain ⟨led, hl, s, -, w, -, h⟩ := h
      simp only [pure, Option.some.injEq] at h
      subst h
      exact forall_mem_set counter_ok _ _ _ hx (hx led (List.getElem?_mem hl))
    · cases h
  | switch_on idx =>
    simp only [LOp.exec, leds_switch_on, bind, Option.bind_eq_some] at h
    split at h
    · simp only [Option.bind_eq_some] at h
      obtain ⟨led, -, h⟩ := h
      rw [(gpio_set_frame _ _ _ _ _ h).1]
      exact hx
    · cases h
  | switch_off idx =>
    simp only [LOp.exec, leds_switch_off, bind, Option.bind_eq_some] at h
    split at h
    · simp only [Option.bind_eq_some] at h
      obtain ⟨led, -, h⟩ := h
      rw [(gpio_set_frame _ _ _ _ _ h).1]
      exact hx
    · cases h
  | switch_toggle idx =>
    simp only [LOp.exec, leds_switch_toggle, bind, Option.bind_eq_some] at h
    split at h
    · simp only [Option.bind_eq_some] at h
      obtain ⟨led, -, h⟩ := h
      rw [(gpio_toggle_frame _ _ _ _ h).1]
      exact hx
    · cases h
  | turn_on idx =>
    simp only [LOp.exec, leds_on, bind, Option.bind_eq_some] at h
    split at h
    · simp only [Option.bind_eq_some] at h
      obtain ⟨led, -, h⟩ := h
      rw [(gpio_set_frame _ _ _ _ _ h).1]
      exact forall_mem_set counter_ok _ _ _ hx (hdis led)
    · cases h
  | turn_off idx =>
    simp only [LOp.exec, leds_off, bind, Option.bind_eq_some] at h
    split at h
    · simp only [Option.bind_eq_some] at h
      obtain ⟨led, -, h⟩ := h
      rw [(gpio_set_frame _ _ _ _ _ h).1]
      exact forall_mem_set counter_ok _ _ _ hx (hdis led)
    · cases h
  | turn_toggle idx =>
    simp only [LOp.exec, leds_toggle, bind, Option.bind_eq_some] at h
    split at h
    · simp only [Option.bind_eq_some] at h
      obtain ⟨led, -, h⟩ := h
      rw [(gpio_toggle_frame _ _ _ _ h).1]
      exact forall_mem_set counter_ok _ _ _ hx (hdis led)
    · cases h
  | meander idx duration_ms =>
    exact blink_ext_counter_ok inst idx 1 _ _ _ 0 false lw lw' (by omega) h hx
  | blink idx series pulse_ms pause_ms period_ms =>
    exact blink_ext_counter_ok inst idx series _ _ _ 0 false lw lw'
      (by simpa [LOp.in_range] using hr) h hx
  | blink_ext idx series pulse_ms pause_ms period_ms delay_ms is_inverted =>
    exact blink_ext_counter_ok inst idx series _ _ _ _ _ lw lw'
      (by simpa [LOp.in_range] using hr) h hx
  | timer_isr =>
    simp only [LOp.exec] at h
    obtain ⟨w, -, rfl⟩ := Option.map_eq_some'.mp h
    exact hx
  | timer_task =>
    exact task_leds_inv inst (fun l => ∀ led ∈ l, counter_ok led)
      (fun ti a1 a2 x x' hp hq => processing_counter_ok inst ti a1 a2 x x' hp hq) swt lw lw' h hx

theorem lrun_counter_ok (inst : leds_instance_t) (swt : swtimers_instance_t) (ops : List LOp) :
    ∀ (lw lw' : LWorld), (∀ op ∈ ops, op.in_range = true) → lrun inst swt ops lw = some lw' →
      (∀ led ∈ lw.leds, counter_ok led) → ∀ led ∈ lw'.leds, counter_ok led := by
  induction ops with
  | nil =>
    intro lw lw' _ h hx
    simp only [lrun, Option.some.injEq] at h
    exact h ▸ hx
  | cons op ops ih =>
    intro lw lw' hops h hx
    simp only [lrun, Option.bind_eq_some] at h
    obtain ⟨lw1, h1, h2⟩ := h
    exact ih lw1 lw' (fun o ho => hops o (List.mem_cons_of_mem _ ho)) h2
      (exec_counter_ok inst swt op lw lw1 (hops op (List.mem_cons_self _ _)) h1 hx)

/-- The table `leds_init` leaves: `num` zeroed LEDs -/
theorem leds_init_table (hw_p : Option leds_hw_interface_t) (num : Nat)
    (swtimers_p : Option swtimers_instance_t) (inst : leds_instance_t) (lw00 lw0 : LWorld)
    (hlen : lw00.leds.length = num)
    (hinit : leds_init hw_p num swtimers_p lw00 = some (inst, lw0)) :
    inst = { swtimers_p := swtimers_p, hw_p := hw_p, num := num } ∧
      lw0.leds = List.replicate num zero_led ∧ lw0.swt = lw00.swt ∧ lw0.log = lw00.log := by
  unfold leds_init at hinit
  split at hinit
  · split at hinit
    · simp only [Option.some.injEq, Prod.mk.injEq] at hinit
      obtain ⟨rfl, rfl⟩ := hinit
      refine ⟨rfl, ?_, rfl, rfl⟩
      simp [List.drop_of_length_le (show lw00.leds.length ≤ num by omega)]
    · cases hinit
  · cases hinit

instance (inst : leds_instance_t) (swt : swtimers_instance_t) (hwt : swtimers_hw_interface_t)
    (hw : leds_hw_interface_t) (lw : LWorld) : Decidable (LInitialized inst swt hwt hw lw) := by
  unfold LInitialized; infer_instance

instance (tid : Nat) (w : World) : Decidable (others_idle tid w) := by
  unfold others_idle; infer_instance

/-- `swtimers_start` returns on an initialized instance: the slot it leaves -/
theorem start_spec (inst : swtimers_instance_t) (hw : swtimers_hw_interface_t) (w : World)
    (idx ms : Nat) (mode : swtimers_mode_t) (handler_cb arg_1_p arg_2_p : Nat)
    (hi : Initialized inst hw w) (hidx : idx < inst.num) :
    ∃ w', swtimers_start inst idx ms mode handler_cb arg_1_p arg_2_p w = some w' ∧
      w'.timers = w.timers.set idx
        { handler := handler_cb, threshold := ms / hw.tick_ms, arg_1_p := arg_1_p,
          arg_2_p := arg_2_p, mode := mode, is_simple := false, is_run := true,
          is_waiting := false, counter := 0 } ∧
      w'.hw_is_started = (hw.hw_is_started_cb || w.hw_is_started) := by
  obtain ⟨hp, hok, hn, hlen⟩ := hi
  obtain ⟨t, ht⟩ := slot_of_lt w (show idx < w.timers.length by omega)
  obtain ⟨w', h1, h2, h3, -⟩ := do_start_spec inst hw w idx ms mode false handler_cb 0
    arg_1_p arg_2_p t hp hok hlen ht
  exact ⟨w', h1, by simpa using h2, h3⟩

/-- `leds_processing` for a blinking LED returns, whatever the timers trace: the entry, the pin
call and the slot it leaves -/
theorem processing_spec (inst : leds_instance_t) (swt : swtimers_instance_t)
    (hwt : swtimers_hw_interface_t) (hw : leds_hw_interface_t) (tid idx : Nat)
    (led : leds_led_instance_t) (lw : LWorld) (hi : LInitialized inst swt hwt hw lw)
    (hled : lw.leds[idx]? = some led) (htid : tid < swt.num) :
    ∃ lw', leds_processing inst tid leds_inst_addr (led_addr idx) lw = some lw' ∧
      lw'.leds = lw.leds.set idx (blink_next led) ∧
      lw'.log = lw.log ++ blink_write led ∧
      lw'.swt.timers =
        (match blink_arm led with
          | some ms => lw.swt.timers.set tid (led_slot hwt idx ms)
          | none => lw.swt.timers) := by
  obtain ⟨hs, hp, hg, -, -, -, hsw⟩ := hi
  have hstart : ∀ ms w, Initialized swt hwt w → ∃ w',
      swtimers_start swt tid ms SWTIMERS_MODE_SINGLE_FROM_LOOP leds_processing_cb
        leds_inst_addr (led_addr idx) w = some w' ∧
      w'.timers = w.timers.set tid (led_slot hwt idx ms) := by
    intro ms w hw'
    obtain ⟨w', h1, h2, -⟩ := start_spec swt hwt w tid ms SWTIMERS_MODE_SINGLE_FROM_LOOP
      leds_processing_cb leds_inst_addr (led_addr idx) hw' htid
    exact ⟨w', h1, h2⟩
  have hself : lw.leds.set idx led = lw.leds := by
    apply List.ext_getElem?
    intro j
    by_cases hj : idx = j
    · subst hj
      have : idx < lw.leds.length := by
        by_contra hc
        rw [List.getElem?_eq_none (by omega)] at hled
        cases hled
      simp [List.getElem?_set, this, hled]
    · simp [List.getElem?_set, hj]
  have hidx : led_addr idx - 1 = idx := by simp [led_addr]
  have hia : leds_inst_addr ≠ 0 := by decide
  have hla : led_addr idx ≠ 0 := by simp [led_addr]
  cases hst : led.blink_state with
  | LED_BLINK_STATE_DISABLED =>
    refine ⟨lw, ?_, ?_, ?_, ?_⟩
    · simp [leds_processing, hia, hla, hidx, hled, hs, hst]
    · simp [blink_next, hst, hself]
    · simp [blink_write, hst]
    · simp [blink_arm, hst]
  | LED_BLINK_STATE_PAUSE =>
    obtain ⟨w', h1, h2⟩ := hstart led.pulse_ms lw.swt hsw
    refine ⟨LWorld.mk w' (lw.leds.set idx (blink_next led))
      (lw.log ++ blink_write led), ?_, rfl, rfl, ?_⟩
    · simp [leds_processing, hia, hla, hidx, hled, hs, hst, leds_gpio_set, hp, hg, h1,
        blink_next, blink_write]
    · simp [blink_arm, hst, h2]
  | LED_BLINK_STATE_PULSE =>
    by_cases hc : (led.pulse_counter + 1) % 256 = led.series
    · by_cases hwz : led.wait_ms = 0
      · refine ⟨LWorld.mk lw.swt (lw.leds.set idx (blink_next led))
      (lw.log ++ blink_write led), ?_, rfl, rfl, ?_⟩
        · simp [leds_processing, hia, hla, hidx, hled, hs, hst, leds_gpio_set, hp, hg,
            hc, hwz, blink_next, blink_write]
        · simp [blink_arm, hst, hc, hwz]
      · obtain ⟨w', h1, h2⟩ := hstart led.wait_ms lw.swt hsw
        refine ⟨LWorld.mk w' (lw.leds.set idx (blink_next led))
      (lw.log ++ blink_write led), ?_, rfl, rfl, ?_⟩
        · simp [leds_processing, hia, hla, hidx, hled, hs, hst, leds_gpio_set, hp, hg,
            hc, hwz, h1, blink_next, blink_write]
        · simp [blink_arm, hst, hc, hwz, h2]
    · obtain ⟨w', h1, h2⟩ := hstart led.pause_ms lw.swt hsw
      refine ⟨LWorld.mk w' (lw.leds.set idx (blink_next led))
      (lw.log ++ blink_write led), ?_, rfl, rfl, ?_⟩
      · simp [leds_processing, hia, hla, hidx, hled, hs, hst, leds_gpio_set, hp, hg,
          hc, h1, blink_next, blink_write]
      · simp [blink_arm, hst, hc, h2]

theorem for_loop_l_total (body : Nat → LWorld → Option LWorld) (I : Nat → LWorld → Prop)
    (n : Nat) (lw : LWorld) (h0 : I 0 lw)
    (hstep : ∀ k v, k < n → I k v → ∃ v', body k v = some v' ∧ I (k + 1) v') :
    ∃ lw', for_loop_l body n lw = some lw' ∧ I n lw' := by
  induction n with
  | zero => exact ⟨lw, rfl, h0⟩
  | succ n ih =>
    obtain ⟨v, hv, hI⟩ := ih (fun k v hk hi => hstep k v (by omega) hi)
    obtain ⟨v', hv', hI'⟩ := hstep n v (by omega) hI
    exact ⟨v', by simp [for_loop_l, hv, hv'], hI'⟩

/-- A map that moves only the entry at `i` is a `set` -/
theorem map_eq_set {α : Type} (f : α → α) (l : List α) (i : Nat) (a : α)
    (ha : l[i]? = some a) (hf : ∀ x ∈ l.eraseIdx i, f x = x) : l.map f = l.set i (f a) := by
  apply List.ext_getElem?
  intro j
  have hi : i < l.length := by
    by_contra hc
    rw [List.getElem?_eq_none (by omega)] at ha
    cases ha
  rw [List.getElem?_map, List.getElem?_set]
  by_cases hj : i = j
  · subst hj
    simp [ha, hi]
  · simp only [hj, if_false]
    cases hx : l[j]? with
    | none => rfl
    | some x =>
      simp only [Option.map_some']
      rw [hf x (List.mem_eraseIdx_iff_getElem?.mpr ⟨j, Ne.symm hj, hx⟩)]

/-- The loop body of `swtimers_task` for a slot that is not waiting for its handler -/
theorem task_slot_leds_idle (inst : leds_instance_t) (hw : swtimers_hw_interface_t)
    (hok : hw_ok hw) (i : Nat) (lw : LWorld) (t : swtimers_timer_instance_t)
    (ht : lw.swt.slot i = some t) (hwt : t.is_waiting = false) :
    ∃ w', swtimers_task_slot_leds inst hw i lw = some { lw with swt := w' } ∧
      w'.timers = lw.swt.timers ∧ w'.hw_is_started = lw.swt.hw_is_started := by
  obtain ⟨hd, he, -, -⟩ := id hok
  refine ⟨((lw.swt.emit Event.isr_disable).emit (Event.rd i Field.is_waiting)).emit
    Event.isr_enable, ?_, rfl, rfl⟩
  simp [swtimers_task_slot_leds, call_isr_disable, call_isr_enable, hd, he, rd_is_waiting, ht,
    hwt]

/-- The loop body of `swtimers_task` for a slot that waits for `leds_processing` -/
theorem task_slot_leds_fire (inst : leds_instance_t) (swt : swtimers_instance_t)
    (hwt : swtimers_hw_interface_t) (hw : leds_hw_interface_t) (tid idx : Nat)
    (led : leds_led_instance_t) (lw : LWorld) (t : swtimers_timer_instance_t)
    (hi : LInitialized inst swt hwt hw lw) (hled : lw.leds[idx]? = some led)
    (ht : lw.swt.slot tid = some t) (hw1 : t.is_waiting = true) (hs : t.is_simple = false)
    (hh : t.handler = leds_processing_cb) (ha1 : t.arg_1_p = leds_inst_addr)
    (ha2 : t.arg_2_p = led_addr idx) :
    ∃ lw', swtimers_task_slot_leds inst hwt tid lw = some lw' ∧
      lw'.leds = lw.leds.set idx (blink_next led) ∧
      lw'.log = lw.log ++ blink_write led ∧
      lw'.swt.timers =
        (match blink_arm led with
          | some ms => lw.swt.timers.set tid (led_slot hwt idx ms)
          | none => lw.swt.timers.set tid { t with is_waiting := false }) := by
  have hi' := id hi
  obtain ⟨hsp, hp, hg, hgt, hn, hlen, hsw⟩ := hi'
  obtain ⟨hwp, hok, hnum, hlenw⟩ := id hsw
  obtain ⟨hd, he, -, -⟩ := id hok
  have htid : tid < swt.num := by have := slot_lt ht; omega
  have ht' : lw.swt.timers[tid]? = some t := ht
  generalize hw2 : (((lw.swt.emit Event.isr_disable).emit (Event.rd tid Field.is_waiting)).emit
    Event.isr_enable).emit (Event.call_full leds_processing_cb tid leds_inst_addr (led_addr idx))
    = w2
  have hw2t : w2.timers = lw.swt.timers := by rw [← hw2]; rfl
  obtain ⟨lw1, hp1, hl1, hg1, ht1⟩ := processing_spec inst swt hwt hw tid idx led
    { lw with swt := w2 }
    ⟨hsp, hp, hg, hgt, hn, hlen, hwp, hok, hnum, by rw [hw2t]; exact hlenw⟩ hled htid
  have hlt1 : tid < lw1.swt.timers.length := by
    rw [ht1]
    cases blink_arm led <;> simp [hw2t, hlenw, htid]
  obtain ⟨t1, hslot1⟩ := slot_of_lt lw1.swt hlt1
  have hslot1' : lw1.swt.timers[tid]? = some t1 := hslot1
  refine ⟨{ lw1 with
    swt := { timers := lw1.swt.timers.set tid { t1 with is_waiting := false },
             hw_is_started := lw1.swt.hw_is_started,
             trace := lw1.swt.trace ++ [Event.isr_disable, Event.wr tid Field.is_waiting,
               Event.isr_enable] } }, ?_, hl1, hg1, ?_⟩
  · have hne : leds_processing_cb ≠ 0 := by decide
    simp [swtimers_task_slot_leds, call_isr_disable, call_isr_enable, hd, he, rd_is_waiting,
      ht, ht', hw1, hs, hh, ha1, ha2, hne, leds_full_cb, World.emit, wr_is_waiting, World.store,
      World.slot] at hw2 ⊢
    rw [hw2, hp1]
    simp [hslot1', hlt1]
  · show lw1.swt.timers.set tid { t1 with is_waiting := false } = _
    rw [ht1] at hslot1' ⊢
    cases harm : blink_arm led with
    | none =>
      simp only [harm, hw2t] at hslot1' ⊢
      rw [ht'] at hslot1'
      cases hslot1'
      rfl
    | some ms =>
      simp only [harm, hw2t] at hslot1' ⊢
      rw [List.getElem?_set] at hslot1'
      simp [show tid < lw.swt.timers.length by omega] at hslot1'
      subst hslot1'
      simp [led_slot]

/-- Replacing the entry at `tid` keeps the other timers idle -/
theorem others_idle_set (tid : Nat) (w w' : World) (t : swtimers_timer_instance_t)
    (h : w'.timers = w.timers.set tid t) (ho : others_idle tid w) : others_idle tid w' := by
  intro x hx
  obtain ⟨j, hj, hx⟩ := List.mem_eraseIdx_iff_getElem?.mp hx
  rw [h, List.getElem?_set] at hx
  simp only [Ne.symm hj, if_false] at hx
  exact ho x (List.mem_eraseIdx_iff_getElem?.mpr ⟨j, hj, hx⟩)

/-- The slot of a LED timer as the expiring tick leaves it -/
theorem led_slot_expired (hwt : swtimers_hw_interface_t) (idx ms : Nat)
    (hms : ms < 4294967296) :
    tick^[max 1 (led_slot hwt idx ms).threshold] (led_slot hwt idx ms) =
      { led_slot hwt idx ms with
        counter := max 1 (ms / hwt.tick_ms), is_run := false, is_waiting := true } := by
  have hT : (led_slot hwt idx ms).threshold < 4294967296 :=
    lt_of_le_of_lt (Nat.div_le_self _ _) hms
  rw [expiry_state _ rfl rfl hT]
  simp [led_slot, is_single, is_from_isr, leds_processing_cb]

/-- One expiry of the timer of a LED, the only active timer: the ticks expire the slot and the
`swtimers_task` pass runs `leds_processing` once -/
theorem expire_spec (inst : leds_instance_t) (swt : swtimers_instance_t)
    (hwt : swtimers_hw_interface_t) (hw : leds_hw_interface_t) (tid idx : Nat)
    (led : leds_led_instance_t) (lw : LWorld) (ms : Nat)
    (hi : LInitialized inst swt hwt hw lw) (hled : lw.leds[idx]? = some led)
    (ht : lw.swt.slot tid = some (led_slot hwt idx ms)) (hms : ms < 4294967296)
    (hothers : others_idle tid lw.swt) :
    ∃ lw', leds_expire inst swt tid lw = some lw' ∧ LInitialized inst swt hwt hw lw' ∧
      lw'.leds = lw.leds.set idx (blink_next led) ∧
      lw'.log = lw.log ++ blink_write led ∧
      lw'.swt.timers = lw.swt.timers.set tid
        (match blink_arm led with
          | some m => led_slot hwt idx m
          | none => led_slot_served hwt idx ms) ∧
      others_idle tid lw'.swt ∧
      (blink_arm led = none → hwt.hw_is_started_cb = true →
        lw'.swt.hw_is_started = false) := by
  obtain ⟨hsp, hp, hg, hgt, hn, hlen, hsw⟩ := id hi
  obtain ⟨hwp, hok, hnum, hlenw⟩ := id hsw
  have htid : tid < swt.num := by have := slot_lt ht; omega
  have ht' : lw.swt.timers[tid]? = some (led_slot hwt idx ms) := ht
  -- the ticks
  obtain ⟨w1, hw1, k1, -, -⟩ := isr_n_spec idle_handlers quiet_idle swt lw.swt hlenw tid _ ht
    (max 1 (led_slot hwt idx ms).threshold)
  rw [map_eq_set _ _ tid _ ht' (fun x hx => tick_iter_stopped x (hothers x hx).1 _),
    led_slot_expired hwt idx ms hms] at k1
  generalize he : ({ led_slot hwt idx ms with
    counter := max 1 (ms / hwt.tick_ms), is_run := false, is_waiting := true } :
      swtimers_timer_instance_t) = e at k1
  have hew : e.is_waiting = true := by rw [← he]
  have hes : e.is_simple = false := by rw [← he]; rfl
  have heh : e.handler = leds_processing_cb := by rw [← he]; rfl
  have he1 : e.arg_1_p = leds_inst_addr := by rw [← he]; rfl
  have he2 : e.arg_2_p = led_addr idx := by rw [← he]; rfl
  have hserved : ({ e with is_waiting := false } : swtimers_timer_instance_t) =
      led_slot_served hwt idx ms := by rw [← he]; rfl
  -- the pass over the slots
  let final : swtimers_timer_instance_t :=
    match blink_arm led with
    | some m => led_slot hwt idx m
    | none => led_slot_served hwt idx ms
  obtain ⟨lw2, hlw2, i1, i2, i3⟩ := for_loop_l_total (swtimers_task_slot_leds inst hwt)
    (fun k x =>
      x.leds = (if tid < k then lw.leds.set idx (blink_next led) else lw.leds) ∧
      x.log = (if tid < k then lw.log ++ blink_write led else lw.log) ∧
      x.swt.timers = (if tid < k then lw.swt.timers.set tid final else lw.swt.timers.set tid e))
    swt.num { lw with swt := w1 } ⟨by simp, by simp, by simpa using k1⟩
    (by
      intro k v hk ⟨j1, j2, j3⟩
      by_cases hkt : k = tid
      · subst hkt
        simp only [lt_irrefl, if_false] at j1 j2 j3
        have hvi : LInitialized inst swt hwt hw v :=
          ⟨hsp, hp, hg, hgt, hn, by rw [j1]; exact hlen, hwp, hok, hnum,
            by rw [j3, List.length_set]; exact hlenw⟩
        have hvs : v.swt.slot k = some e := by
          unfold World.slot
          rw [j3, List.getElem?_set]
          simp [hlenw, htid]
        obtain ⟨v', hv', q1, q2, q3⟩ := task_slot_leds_fire inst swt hwt hw k idx led v e hvi
          (by rw [j1]; exact hled) hvs hew hes heh he1 he2
        refine ⟨v', hv', ?_, ?_, ?_⟩
        · simp [q1, j1]
        · simp [q2, j2]
        · simp only [Nat.lt_succ_self, if_true]
          rw [q3, j3]
          cases harm : blink_arm led with
          | none => simp [final, harm, hserved]
          | some m => simp [final, harm]
      · have hslot : ∃ x, v.swt.slot k = some x ∧ x.is_waiting = false := by
          obtain ⟨x, hx⟩ := slot_of_lt lw.swt (show k < lw.swt.timers.length by omega)
          have hx' : lw.swt.timers[k]? = some x := hx
          refine ⟨x, ?_, (hothers x (List.mem_eraseIdx_iff_getElem?.mpr ⟨k, hkt, hx'⟩)).2⟩
          unfold World.slot
          rw [j3]
          split <;> simp [List.getElem?_set, Ne.symm hkt, hx']
        obtain ⟨x, hx, hxw⟩ := hslot
        obtain ⟨w', hv', q1, -⟩ := task_slot_leds_idle inst hwt hok k v x hx hxw
        refine ⟨_, hv', ?_, ?_, ?_⟩
        · have : (tid < k + 1) = (tid < k) := by
            apply propext
            omega
          simp only [this]
          exact j1
        · have : (tid < k + 1) = (tid < k) := by
            apply propext
            omega
          simp only [this]
          exact j2
        · have : (tid < k + 1) = (tid < k) := by
            apply propext
            omega
          simp only [this]
          rw [q1]
          exact j3)
  simp only [htid, if_true] at i1 i2 i3
  -- the gating of the hardware timer
  obtain ⟨w3, hw3, r1, r2, -⟩ := stop_hw_timer_spec swt hwt lw2.swt hwp hok
    (by rw [i3, List.length_set]; exact hlenw)
  have htimers : w3.timers = lw.swt.timers.set tid final := by rw [r1, i3]
  refine ⟨{ lw2 with swt := w3 }, ?_, ?_, i1, i2, htimers, ?_, ?_⟩
  · simp [leds_expire, ht, hw1, swtimers_task_leds, show swt.num ≠ 0 by omega, hwp, hlw2, hw3]
  · exact ⟨hsp, hp, hg, hgt, hn, by rw [i1, List.length_set]; exact hlen, hwp, hok, hnum,
      by rw [htimers, List.length_set]; exact hlenw⟩
  · exact others_idle_set tid lw.swt w3 final htimers hothers
  · intro harm hgate
    rw [r2]
    simp only [hgate, if_true]
    have hnone : any_run lw2.swt.timers = false := by
      by_contra hc
      rw [Bool.not_eq_false] at hc
      obtain ⟨j, x, hj, hr⟩ := any_run_eq_true.mp hc
      rw [i3, List.getElem?_set] at hj
      by_cases hjt : tid = j
      · simp [hjt, show j < lw.swt.timers.length by omega, final, harm] at hj
        rw [← hj] at hr
        simp [led_slot_served] at hr
      · simp only [hjt, if_false] at hj
        have := (hothers x (List.mem_eraseIdx_iff_getElem?.mpr ⟨j, Ne.symm hjt, hj⟩)).1
        rw [this] at hr
        cases hr
    rw [hnone, Bool.and_false]

instance (inst : leds_instance_t) (swt : swtimers_instance_t) (hwt : swtimers_hw_interface_t)
    (hw : leds_hw_interface_t) (tid idx : Nat) (led : leds_led_instance_t) (ms : Nat)
    (lw : LWorld) : Decidable (Blinking inst swt hwt hw tid idx led ms lw) := by
  unfold Blinking; infer_instance

/-- `leds_blink_ext` with accepted parameters returns: the LED blinks on its timer, and the pin
is set for the delay or for the first pulse -/
theorem blink_ext_spec (inst : leds_instance_t) (swt : swtimers_instance_t)
    (hwt : swtimers_hw_interface_t) (hw : leds_hw_interface_t)
    (idx series pulse_ms pause_ms period_ms delay_ms : Nat) (is_inverted : Bool)
    (led : leds_led_instance_t) (lw : LWorld) (hi : LInitialized inst swt hwt hw lw)
    (hled : lw.leds[idx]? = some led) (htid : led.timer_id < swt.num)
    (hothers : others_idle led.timer_id lw.swt) (hs : series ≠ 0) (hp : pulse_ms ≠ 0)
    (hper : period_ms = 0 ∨
      period_ms ≥ wrap32 (wrap32 (pulse_ms * series) + wrap32 (pause_ms * (series - 1)))) :
    ∃ lw', leds_blink_ext inst idx series pulse_ms pause_ms period_ms delay_ms is_inverted lw =
        some lw' ∧
      (if delay_ms ≠ 0 then
        Blinking inst swt hwt hw led.timer_id idx
          (led_pause (led_pattern led series pulse_ms pause_ms period_ms is_inverted) 0)
          delay_ms lw' ∧
        lw'.log = lw.log ++ [led_write led (if is_inverted then true else false)]
      else
        Blinking inst swt hwt hw led.timer_id idx
          (led_pulse (led_pattern led series pulse_ms pause_ms period_ms is_inverted) 0)
          pulse_ms lw' ∧
        lw'.log = lw.log ++ [led_write led (if is_inverted then false else true)]) := by
  obtain ⟨hsp, hp', hg, hgt, hn, hlen, hsw⟩ := id hi
  obtain ⟨hwp, hok, hnum, hlenw⟩ := id hsw
  have hidx : idx < inst.num := by
    by_contra hc
    rw [List.getElem?_eq_none (by omega)] at hled
    cases hled
  have key : ∀ ms, ∃ w', swtimers_start swt led.timer_id ms SWTIMERS_MODE_SINGLE_FROM_LOOP
      leds_processing_cb leds_inst_addr (led_addr idx) lw.swt = some w' ∧
      w'.timers = lw.swt.timers.set led.timer_id (led_slot hwt idx ms) := by
    intro ms
    obtain ⟨w', h1, h2, -⟩ := start_spec swt hwt lw.swt led.timer_id ms
      SWTIMERS_MODE_SINGLE_FROM_LOOP leds_processing_cb leds_inst_addr (led_addr idx) hsw htid
    exact ⟨w', h1, h2⟩
  have hblink : ∀ (w' : World) (ms : Nat) (e : leds_led_instance_t) (log : List LEvent),
      w'.timers = lw.swt.timers.set led.timer_id (led_slot hwt idx ms) →
      Blinking inst swt hwt hw led.timer_id idx e ms
        { swt := w', leds := lw.leds.set idx e, log := log } := by
    intro w' ms e log hw'
    refine ⟨⟨hsp, hp', hg, hgt, hn, by simp [hlen], hwp, hok, hnum, by simp [hw', hlenw]⟩,
      by simp [List.getElem?_set, hlen, hidx], ?_, others_idle_set _ lw.swt w' _ hw' hothers⟩
    show w'.timers[led.timer_id]? = _
    rw [hw', List.getElem?_set]
    simp [hlenw, htid]
  by_cases hd : delay_ms = 0
  · obtain ⟨w', h1, h2⟩ := key pulse_ms
    refine ⟨_, ?_, by
      simp only [hd, ne_eq, not_true_eq_false, if_false]
      exact ⟨hblink w' pulse_ms _ _ h2, rfl⟩⟩
    simp [leds_blink_ext, hs, hp, hidx, hled, hper, hsp, hd, h1, leds_gpio_set, hp', hg,
      led_pulse, led_pattern, led_write]
  · obtain ⟨w', h1, h2⟩ := key delay_ms
    refine ⟨_, ?_, by
      simp only [hd, ne_eq, not_false_eq_true, if_true]
      exact ⟨hblink w' delay_ms _ _ h2, rfl⟩⟩
    simp [leds_blink_ext, hs, hp, hidx, hled, hper, hsp, hd, h1, leds_gpio_set, hp', hg,
      led_pause, led_pattern, led_write]

/-- One expiry of the timer of a blinking LED -/
theorem expire_blinking (inst : leds_instance_t) (swt : swtimers_instance_t)
    (hwt : swtimers_hw_interface_t) (hw : leds_hw_interface_t) (tid idx : Nat)
    (led : leds_led_instance_t) (ms : Nat) (lw : LWorld)
    (hb : Blinking inst swt hwt hw tid idx led ms lw) (hms : ms < 4294967296) :
    ∃ lw', leds_expire inst swt tid lw = some lw' ∧ lw'.log = lw.log ++ blink_write led ∧
      (∀ m, blink_arm led = some m →
        Blinking inst swt hwt hw tid idx (blink_next led) m lw') ∧
      (blink_arm led = none →
        LInitialized inst swt hwt hw lw' ∧ lw'.leds[idx]? = some (blink_next led) ∧
        lw'.swt.slot tid = some (led_slot_served hwt idx ms) ∧ others_idle tid lw'.swt ∧
        (hwt.hw_is_started_cb = true → lw'.swt.hw_is_started = false)) := by
  obtain ⟨hi, hled, ht, ho⟩ := hb
  obtain ⟨lw', h1, h2, h3, h4, h5, h6, h7⟩ := expire_spec inst swt hwt hw tid idx led lw ms hi
    hled ht hms ho
  have hidx : idx < lw.leds.length := by
    by_contra hc
    rw [List.getElem?_eq_none (by omega)] at hled
    cases hled
  have htid : tid < lw.swt.timers.length := slot_lt ht
  have hl : lw'.leds[idx]? = some (blink_next led) := by
    rw [h3]
    simp [List.getElem?_set, hidx]
  refine ⟨lw', h1, h4, ?_, ?_⟩
  · intro m hm
    refine ⟨h2, hl, ?_, h6⟩
    show lw'.swt.timers[tid]? = _
    rw [h5, hm]
    simp [List.getElem?_set, htid]
  · intro hn
    refine ⟨h2, hl, ?_, h6, h7 hn⟩
    show lw'.swt.timers[tid]? = _
    rw [h5, hn]
    simp [List.getElem?_set, htid]

theorem expiries_add (inst : leds_instance_t) (swt : swtimers_instance_t) (tid a b : Nat)
    (lw : LWorld) :
    leds_expiries inst swt tid (a + b) lw =
      (leds_expiries inst swt tid a lw).bind (leds_expiries inst swt tid b) := by
  induction b with
  | zero => simp [leds_expiries]
  | succ b ih =>
    show (leds_expiries inst swt tid (a + b) lw).bind (leds_expire inst swt tid) =
      (leds_expiries inst swt tid a lw).bind fun x =>
        (leds_expiries inst swt tid b x).bind (leds_expire inst swt tid)
    rw [ih]
    cases leds_expiries inst swt tid a lw <;> rfl

theorem expiries_succ (inst : leds_instance_t) (swt : swtimers_instance_t) (tid k : Nat)
    (lw lw1 lw2 : LWorld) (h1 : leds_expiries inst swt tid k lw = some lw1)
    (h2 : leds_expire inst swt tid lw1 = some lw2) :
    leds_expiries inst swt tid (k + 1) lw = some lw2 := by
  simp [leds_expiries, h1, h2]

/-- The end of a pause, a delay or a wait: the pulse starts -/
theorem next_pause (led : leds_led_instance_t) (j : Nat) :
    blink_next (led_pause led j) = led_pulse led j ∧
      blink_arm (led_pause led j) = some led.pulse_ms ∧
      blink_write (led_pause led j) = [led_write led (if led.is_inverted then false else true)] :=
  ⟨rfl, rfl, rfl⟩

/-- The end of a pulse that is not the last of the series: the pause starts -/
theorem next_pulse_mid (led : leds_led_instance_t) (j : Nat) (hj : j + 1 < led.series)
    (hs : led.series < 256) :
    blink_next (led_pulse led j) = led_pause led (j + 1) ∧
      blink_arm (led_pulse led j) = some led.pause_ms ∧
      blink_write (led_pulse led j) = [led_write led (if led.is_inverted then true else false)] := by
  have h1 : (j + 1) % 256 = j + 1 := Nat.mod_eq_of_lt (by omega)
  have h2 : j + 1 ≠ led.series := by omega
  refine ⟨?_, ?_, rfl⟩
  · simp [blink_next, led_pulse, led_pause, h1, h2]
  · simp [blink_arm, led_pulse, h1, h2]

/-- The end of the last pulse of the series -/
theorem next_pulse_last (led : leds_led_instance_t) (j : Nat) (hj : j + 1 = led.series)
    (hs : led.series < 256) :
    blink_next (led_pulse led j) =
        (if led.wait_ms ≠ 0 then led_pause led 0 else led_stopped led) ∧
      blink_arm (led_pulse led j) = (if led.wait_ms ≠ 0 then some led.wait_ms else none) ∧
      blink_write (led_pulse led j) = [led_write led (if led.is_inverted then true else false)] := by
  have h1 : (j + 1) % 256 = led.series := by
    rw [Nat.mod_eq_of_lt (by omega)]
    exact hj
  refine ⟨?_, ?_, rfl⟩
  · by_cases hw : led.wait_ms = 0 <;>
      simp [blink_next, led_pulse, led_pause, led_stopped, h1, hw]
  · by_cases hw : led.wait_ms = 0 <;> simp [blink_arm, led_pulse, h1, hw]

theorem pulses_log_succ (led : leds_led_instance_t) (j : Nat) :
    pulses_log led (j + 1) = pulses_log led j ++
      [led_write led (if led.is_inverted then true else false),
        led_write led (if led.is_inverted then false else true)] := by
  unfold pulses_log
  rw [List.replicate_succ', List.flatten_append]
  rfl

theorem pulses_log_add (led : leds_led_instance_t) (a b : Nat) :
    pulses_log led (a + b) = pulses_log led a ++ pulses_log led b := by
  unfold pulses_log
  rw [List.replicate_add, List.flatten_append]

/-- Within a series: after `2 * j` expiries the LED is in pulse number `j`, armed for the
pulse time -/
theorem series_even (inst : leds_instance_t) (swt : swtimers_instance_t)
    (hwt : swtimers_hw_interface_t) (hw : leds_hw_interface_t) (tid idx : Nat)
    (led : leds_led_instance_t) (lw : LWorld) (hok : pattern_ok led)
    (hb : Blinking inst swt hwt hw tid idx (led_pulse led 0) led.pulse_ms lw) (j : Nat)
    (hj : j < led.series) :
    ∃ lw', leds_expiries inst swt tid (2 * j) lw = some lw' ∧
      Blinking inst swt hwt hw tid idx (led_pulse led j) led.pulse_ms lw' ∧
      lw'.log = lw.log ++ pulses_log led j := by
  obtain ⟨-, hs, hp, hq, -⟩ := hok
  induction j with
  | zero => exact ⟨lw, rfl, hb, by simp [pulses_log]⟩
  | succ j ih =>
    obtain ⟨lw1, h1, b1, l1⟩ := ih (by omega)
    obtain ⟨n1, n2, n3⟩ := next_pulse_mid led j hj hs
    obtain ⟨lw2, h2, l2, b2, -⟩ := expire_blinking inst swt hwt hw tid idx _ _ lw1 b1 hp
    have b2' := b2 _ n2
    rw [n1] at b2'
    obtain ⟨m1, m2, m3⟩ := next_pause led (j + 1)
    obtain ⟨lw3, h3, l3, b3, -⟩ := expire_blinking inst swt hwt hw tid idx _ _ lw2 b2' hq
    have b3' := b3 _ m2
    rw [m1] at b3'
    refine ⟨lw3, ?_, b3', ?_⟩
    · have : 2 * (j + 1) = 2 * j + 1 + 1 := by omega
      rw [this]
      exact expiries_succ inst swt tid _ lw lw2 lw3
        (expiries_succ inst swt tid _ lw lw1 lw2 h1 h2) h3
    · rw [l3, l2, l1, n3, m3, pulses_log_succ]
      simp

/-- Within a series: after `2 * j + 1` expiries the LED is in the pause after pulse number
`j`, armed for the pause time -/
theorem series_odd (inst : leds_instance_t) (swt : swtimers_instance_t)
    (hwt : swtimers_hw_interface_t) (hw : leds_hw_interface_t) (tid idx : Nat)
    (led : leds_led_instance_t) (lw : LWorld) (hok : pattern_ok led)
    (hb : Blinking inst swt hwt hw tid idx (led_pulse led 0) led.pulse_ms lw) (j : Nat)
    (hj : j + 1 < led.series) :
    ∃ lw', leds_expiries inst swt tid (2 * j + 1) lw = some lw' ∧
      Blinking inst swt hwt hw tid idx (led_pause led (j + 1)) led.pause_ms lw' ∧
      lw'.log = lw.log ++ pulses_log led j ++
        [led_write led (if led.is_inverted then true else false)] := by
  obtain ⟨lw1, h1, b1, l1⟩ := series_even inst swt hwt hw tid idx led lw hok hb j (by omega)
  obtain ⟨-, hs, hp, hq, -⟩ := hok
  obtain ⟨n1, n2, n3⟩ := next_pulse_mid led j hj hs
  obtain ⟨lw2, h2, l2, b2, -⟩ := expire_blinking inst swt hwt hw tid idx _ _ lw1 b1 hp
  have b2' := b2 _ n2
  rw [n1] at b2'
  exact ⟨lw2, expiries_succ inst swt tid _ lw lw1 lw2 h1 h2, b2', by rw [l2, l1, n3]⟩

/-- The end of a series without wait: after `2 * series - 1` expiries the blinking has
stopped, the timer is served and not restarted, and a gated hardware timer is stopped -/
theorem series_stop (inst : leds_instance_t) (swt : swtimers_instance_t)
    (hwt : swtimers_hw_interface_t) (hw : leds_hw_interface_t) (tid idx : Nat)
    (led : leds_led_instance_t) (lw : LWorld) (hok : pattern_ok led)
    (hb : Blinking inst swt hwt hw tid idx (led_pulse led 0) led.pulse_ms lw)
    (hw0 : led.wait_ms = 0) :
    ∃ lw', leds_expiries inst swt tid (2 * led.series - 1) lw = some lw' ∧
      LInitialized inst swt hwt hw lw' ∧ lw'.leds[idx]? = some (led_stopped led) ∧
      lw'.swt.slot tid = some (led_slot_served hwt idx led.pulse_ms) ∧
      others_idle tid lw'.swt ∧
      (hwt.hw_is_started_cb = true → lw'.swt.hw_is_started = false) ∧
      lw'.log = lw.log ++ pulses_log led (led.series - 1) ++
        [led_write led (if led.is_inverted then true else false)] := by
  obtain ⟨lw1, h1, b1, l1⟩ := series_even inst swt hwt hw tid idx led lw hok hb (led.series - 1)
    (by have := hok.1; omega)
  obtain ⟨hs0, hs, hp, hq, -⟩ := hok
  obtain ⟨n1, n2, n3⟩ := next_pulse_last led (led.series - 1) (by omega) hs
  simp only [hw0, ne_eq, not_true_eq_false, if_false] at n1 n2
  obtain ⟨lw2, h2, l2, -, b2⟩ := expire_blinking inst swt hwt hw tid idx _ _ lw1 b1 hp
  obtain ⟨c1, c2, c3, c4, c5⟩ := b2 n2
  rw [n1] at c2
  refine ⟨lw2, ?_, c1, c2, c3, c4, c5, by rw [l2, l1, n3]⟩
  have : 2 * led.series - 1 = 2 * (led.series - 1) + 1 := by omega
  rw [this]
  exact expiries_succ inst swt tid _ lw lw1 lw2 h1 h2

/-- The end of a series with a wait: after `2 * series - 1` expiries the LED is in the wait,
armed for the wait time, and after one more expiry at the start of the next series -/
theorem series_wait (inst : leds_instance_t) (swt : swtimers_instance_t)
    (hwt : swtimers_hw_interface_t) (hw : leds_hw_interface_t) (tid idx : Nat)
    (led : leds_led_instance_t) (lw : LWorld) (hok : pattern_ok led)
    (hb : Blinking inst swt hwt hw tid idx (led_pulse led 0) led.pulse_ms lw)
    (hw0 : led.wait_ms ≠ 0) :
    (∃ lw', leds_expiries inst swt tid (2 * led.series - 1) lw = some lw' ∧
      Blinking inst swt hwt hw tid idx (led_pause led 0) led.wait_ms lw' ∧
      lw'.log = lw.log ++ pulses_log led (led.series - 1) ++
        [led_write led (if led.is_inverted then true else false)]) ∧
    (∃ lw', leds_expiries inst swt tid (2 * led.series) lw = some lw' ∧
      Blinking inst swt hwt hw tid idx (led_pulse led 0) led.pulse_ms lw' ∧
      lw'.log = lw.log ++ pulses_log led led.series) := by
  obtain ⟨lw1, h1, b1, l1⟩ := series_even inst swt hwt hw tid idx led lw hok hb (led.series - 1)
    (by have := hok.1; omega)
  obtain ⟨hs0, hs, hp, hq, hwt'⟩ := hok
  obtain ⟨n1, n2, n3⟩ := next_pulse_last led (led.series - 1) (by omega) hs
  simp only [hw0, ne_eq, not_false_eq_true, if_true] at n1 n2
  obtain ⟨lw2, h2, l2, b2, -⟩ := expire_blinking inst swt hwt hw tid idx _ _ lw1 b1 hp
  have b2' := b2 _ n2
  rw [n1] at b2'
  obtain ⟨m1, m2, m3⟩ := next_pause led 0
  obtain ⟨lw3, h3, l3, b3, -⟩ := expire_blinking inst swt hwt hw tid idx _ _ lw2 b2' hwt'
  have b3' := b3 _ m2
  rw [m1] at b3'
  have e1 : 2 * led.series - 1 = 2 * (led.series - 1) + 1 := by omega
  have e2 : 2 * led.series = 2 * (led.series - 1) + 1 + 1 := by omega
  have hx2 := expiries_succ inst swt tid _ lw lw1 lw2 h1 h2
  refine ⟨⟨lw2, by rw [e1]; exact hx2, b2', by rw [l2, l1, n3]⟩,
    ⟨lw3, by rw [e2]; exact expiries_succ inst swt tid _ lw lw2 lw3 hx2 h3, b3', ?_⟩⟩
  rw [l3, l2, l1, n3, m3]
  have : led.series = led.series - 1 + 1 := by omega
  conv_rhs => rw [this, pulses_log_succ]
  simp

/-- A pattern with a wait repeats: after `m` whole series the LED is at the start of a series -/
theorem series_repeat (inst : leds_instance_t) (swt : swtimers_instance_t)
    (hwt : swtimers_hw_interface_t) (hw : leds_hw_interface_t) (tid idx : Nat)
    (led : leds_led_instance_t) (lw : LWorld) (hok : pattern_ok led)
    (hb : Blinking inst swt hwt hw tid idx (led_pulse led 0) led.pulse_ms lw)
    (hw0 : led.wait_ms ≠ 0) (m : Nat) :
    ∃ lw', leds_expiries inst swt tid (2 * led.series * m) lw = some lw' ∧
      Blinking inst swt hwt hw tid idx (led_pulse led 0) led.pulse_ms lw' ∧
      lw'.log = lw.log ++ pulses_log led (led.series * m) := by
  induction m with
  | zero => exact ⟨lw, rfl, hb, by simp [pulses_log]⟩
  | succ m ih =>
    obtain ⟨lw1, h1, b1, l1⟩ := ih
    obtain ⟨-, lw2, h2, b2, l2⟩ := series_wait inst swt hwt hw tid idx led lw1 hok b1 hw0
    refine ⟨lw2, ?_, b2, ?_⟩
    · have : 2 * led.series * (m + 1) = 2 * led.series * m + 2 * led.series := by ring
      rw [this, expiries_add, h1]
      exact h2
    · rw [l2, l1, List.append_assoc, ← pulses_log_add]
      congr 2

/-- A pattern with a wait never stops: after any number of expiries the LED still blinks on its
timer -/
theorem blinking_forever (inst : leds_instance_t) (swt : swtimers_instance_t)
    (hwt : swtimers_hw_interface_t) (hw : leds_hw_interface_t) (tid idx : Nat)
    (led : leds_led_instance_t) (lw : LWorld) (hok : pattern_ok led)
    (hb : Blinking inst swt hwt hw tid idx (led_pulse led 0) led.pulse_ms lw)
    (hw0 : led.wait_ms ≠ 0) (k : Nat) :
    ∃ lw' e ms, leds_expiries inst swt tid k lw = some lw' ∧
      Blinking inst swt hwt hw tid idx e ms lw' ∧
      e.blink_state ≠ LED_BLINK_STATE_DISABLED := by
  have hs0 := hok.1
  obtain ⟨lw1, h1, b1, -⟩ := series_repeat inst swt hwt hw tid idx led lw hok hb hw0
    (k / (2 * led.series))
  have hk : k = 2 * led.series * (k / (2 * led.series)) + k % (2 * led.series) :=
    (Nat.div_add_mod k (2 * led.series)).symm
  have hr : k % (2 * led.series) < 2 * led.series := Nat.mod_lt _ (by omega)
  generalize k % (2 * led.series) = r at hk hr
  have hsplit : ∀ lw2, leds_expiries inst swt tid r lw1 = some lw2 →
      leds_expiries inst swt tid k lw = some lw2 := by
    intro lw2 h2
    rw [hk, expiries_add, h1]
    exact h2
  rcases Nat.even_or_odd' r with ⟨j, rfl | rfl⟩
  · obtain ⟨lw2, h2, b2, -⟩ := series_even inst swt hwt hw tid idx led lw1 hok b1 j (by omega)
    exact ⟨lw2, _, _, hsplit lw2 h2, b2, by simp [led_pulse]⟩
  · by_cases hj : j + 1 < led.series
    · obtain ⟨lw2, h2, b2, -⟩ := series_odd inst swt hwt hw tid idx led lw1 hok b1 j hj
      exact ⟨lw2, _, _, hsplit lw2 h2, b2, by simp [led_pause]⟩
    · obtain ⟨⟨lw2, h2, b2, -⟩, -⟩ := series_wait inst swt hwt hw tid idx led lw1 hok b1 hw0
      have : 2 * j + 1 = 2 * led.series - 1 := by omega
      rw [← this] at h2
      exact ⟨lw2, _, _, hsplit lw2 h2, b2, by simp [led_pause]⟩

/-- The pin call of `leds_processing` is the level of the phase it enters -/
theorem blink_write_level (e : leds_led_instance_t)
    (hne : e.blink_state ≠ LED_BLINK_STATE_DISABLED) :
    blink_write e = [LEvent.gpio_write e.gpio_pin
      (spec_pin_level (decide ((blink_next e).blink_state = LED_BLINK_STATE_PULSE))
        e.is_inverted e.is_active_high)] := by
  obtain ⟨pin, wait, pulse, pause, tid, series, ah, inv, cnt, st⟩ := e
  cases st
  · exact absurd rfl hne
  · by_cases h1 : (cnt + 1) % 256 = series <;> by_cases h2 : wait = 0 <;>
      cases ah <;> cases inv <;> simp [blink_write, blink_next, spec_pin_level, h1, h2]
  · cases ah <;> cases inv <;> rfl

/-- One `swtimers_isr` pass, slot by slot, for handlers that do not call back -/
theorem isr_slots (env : Handlers) (hq : Quiet env) (inst : swtimers_instance_t) (w : World)
    (hlen : w.timers.length = inst.num) :
    ∃ w', swtimers_isr env inst w = some w' ∧ w'.timers = w.timers.map tick ∧
      w'.hw_is_started = w.hw_is_started ∧
      calls w'.trace = calls w.trace ++ slot_calls tick_calls w.timers inst.num ∧
      ∀ i t, w.slot i = some t →
        w'.slot i = some (tick t) ∧
        calls_of i w'.trace = calls_of i w.trace ++ tick_calls i t := by
  obtain ⟨w', h, k1, k2, k3⟩ := isr_spec env hq inst w hlen
  refine ⟨w', h, k1, k2, k3, ?_⟩
  intro i t ht
  have hidx : i < inst.num := by have := slot_lt ht; omega
  have ht' : w.timers[i]? = some t := ht
  refine ⟨?_, ?_⟩
  · show w'.timers[i]? = some (tick t)
    rw [k1, List.getElem?_map, ht']
    rfl
  · have := congrArg (calls_of i) k3
    rw [calls_of_calls, calls_of_append, calls_of_calls,
      calls_of_slot_calls tick_calls i (calls_of_tick_calls i) w.timers _ ht'] at this
    rw [this]
    simp [hidx]

/-- No slot runs: the table is a fixed point of `tick` and nothing is dispatched -/
theorem tick_all_stopped (l : List swtimers_timer_instance_t) (h : any_run l = false) (n : Nat) :
    l.map tick = l ∧ slot_calls tick_calls l n = [] := by
  have hs : ∀ t ∈ l, t.is_run = false := by
    intro t ht
    cases hr : t.is_run with
    | false => rfl
    | true =>
      have : any_run l = true := List.any_eq_true.mpr ⟨t, ht, hr⟩
      rw [h] at this
      cases this
  constructor
  · conv_rhs => rw [← List.map_id l]
    apply List.map_congr_left
    intro t ht
    simp [tick, hs t ht]
  · simp only [slot_calls, List.flatMap_eq_nil_iff]
    intro i _
    cases hi : l[i]? with
    | none => rfl
    | some t => exact tick_calls_stopped i t (hs t (List.getElem?_mem hi))

/-- A running periodic slot served from the loop counts modulo its period `P`, `max 1 threshold`
ticks, and waits for its handler from its first expiry on -/
theorem tick_iter_periodic_loop (t : swtimers_timer_instance_t) (P : Nat)
    (hP : P = max 1 t.threshold) (hr : t.is_run = true)
    (hm : t.mode = SWTIMERS_MODE_PERIODIC_FROM_LOOP) (hh : t.handler ≠ 0)
    (hc : t.counter < P) (hT : t.threshold < 4294967296) (n : Nat) :
    tick^[n] t =
      { t with
        counter := (t.counter + n) % P
        is_waiting := t.is_waiting || decide (P ≤ t.counter + n) } := by
  have hP0 : 0 < P := by omega
  have hPT : t.threshold ≤ P := by omega
  have hPc : P = 1 ∨ P = t.threshold := by omega
  clear hP
  induction n with
  | zero =>
    have h1 : ¬ P ≤ t.counter := by omega
    cases t
    simp_all [Nat.mod_eq_of_lt]
  | succ n ih =>
    rw [Function.iterate_succ_apply', ih]
    have hlt := Nat.mod_lt (t.counter + n) hP0
    have hw : wrap32 ((t.counter + n) % P + 1) = (t.counter + n) % P + 1 :=
      wrap32_of_lt (by omega)
    have hdm := Nat.div_add_mod (t.counter + n) P
    have e : t.counter + (n + 1) = t.counter + n + 1 := rfl
    rcases succ_div_mod_cases (t.counter + n) P hP0 with ⟨a, b, -⟩ | ⟨a, b, -⟩
    · have a' : (t.counter + n) % P + 1 < t.threshold := by omega
      have hd : decide (P ≤ t.counter + n + 1) = decide (P ≤ t.counter + n) := by
        by_cases hle : P ≤ t.counter + n
        · simp [hle, show P ≤ t.counter + n + 1 by omega]
        · have hsmall : (t.counter + n) % P = t.counter + n := Nat.mod_eq_of_lt (by omega)
          simp [hle, show ¬ P ≤ t.counter + n + 1 by omega]
      rw [e, b, hd]
      simp [tick, hr, hw, a']
    · have a' : ¬ (t.counter + n) % P + 1 < t.threshold := by omega
      have hge : P ≤ t.counter + n + 1 := by
        have := Nat.mod_le (t.counter + n) P
        omega
      rw [e, b]
      simp [tick, hr, hw, a', hm, hh, is_single, is_from_isr, hge]

/-- The expiries of a periodic slot served from the loop dispatch nothing from the ISR -/
theorem periodic_loop_no_calls (t : swtimers_timer_instance_t) (idx : Nat)
    (hm : t.mode = SWTIMERS_MODE_PERIODIC_FROM_LOOP) (n : Nat) :
    (List.range n).flatMap (fun r => tick_calls idx (tick^[r] t)) = [] := by
  have hmode : ∀ r, (tick^[r] t).mode = t.mode := by
    intro r
    induction r with
    | zero => rfl
    | succ r ih =>
      rw [Function.iterate_succ_apply', ← ih]
      simp only [tick]
      split <;> [rfl; (split <;> rfl)]
  simp only [List.flatMap_eq_nil_iff]
  intro r _
  simp [tick_calls, hmode r, hm, is_from_isr]

/-- The number of expiries of a periodic slot among `n` ticks -/
theorem periodic_loop_expiries (t : swtimers_timer_instance_t) (P : Nat)
    (hP : P = max 1 t.threshold) (hr : t.is_run = true)
    (hm : t.mode = SWTIMERS_MODE_PERIODIC_FROM_LOOP) (hh : t.handler ≠ 0)
    (hc : t.counter < P) (hT : t.threshold < 4294967296) (n : Nat) :
    ((List.range n).filter fun r => expires (tick^[r] t)).length = (t.counter + n) / P := by
  have hP0 : 0 < P := by omega
  have hPT : t.threshold ≤ P := by omega
  have hPc : P = 1 ∨ P = t.threshold := by omega
  induction n with
  | zero => simp [Nat.div_eq_of_lt hc]
  | succ n ih =>
    rw [List.range_succ, List.filter_append, List.length_append, ih]
    simp only [List.filter_cons, List.filter_nil]
    rw [tick_iter_periodic_loop t P hP hr hm hh hc hT n]
    have hlt := Nat.mod_lt (t.counter + n) hP0
    have hw : wrap32 ((t.counter + n) % P + 1) = (t.counter + n) % P + 1 :=
      wrap32_of_lt (by omega)
    have e : t.counter + (n + 1) = t.counter + n + 1 := rfl
    rcases succ_div_mod_cases (t.counter + n) P hP0 with ⟨a, -, c⟩ | ⟨a, -, c⟩
    · have a' : (t.counter + n) % P + 1 < t.threshold := by omega
      rw [e, c]
      simp [expires, hr, hw, a']
    · have a' : ¬ (t.counter + n) % P + 1 < t.threshold := by omega
      rw [e, c]
      simp [expires, hr, hw, a']

/-- The loop body of `swtimers_task` for a slot whose handler does not call back -/
theorem task_slot_other (env : Handlers) (hw : swtimers_hw_interface_t) (hok : hw_ok hw)
    (idx j : Nat) (w : World) (t : swtimers_timer_instance_t) (hj : j ≠ idx)
    (hothers : ∀ f k a b v, k ≠ idx → env.full_cb f k a b v = some v)
    (hsimple : ∀ f v, env.simple_cb f v = some v) (h : w.slot j = some t) :
    ∃ w', swtimers_task_slot env hw j w = some w' ∧
      w'.timers = w.timers.set j { t with is_waiting := false } ∧
      w'.hw_is_started = w.hw_is_started ∧ calls w'.trace = calls w.trace ++ task_calls j t := by
  have e : swtimers_task_slot env hw j w = swtimers_task_slot idle_handlers hw j w := by
    simp only [swtimers_task_slot, call_full, call_simple, hothers _ _ _ _ _ hj, hsimple,
      idle_handlers]
  rw [e]
  exact task_slot_spec idle_handlers quiet_idle hw hok j w t h

/-- The loop body of `swtimers_task` for a waiting slot whose handler restarts the slot -/
theorem task_slot_rearm (env : Handlers) (inst : swtimers_instance_t)
    (hw : swtimers_hw_interface_t) (idx ms : Nat) (mode : swtimers_mode_t)
    (handler_cb arg_1_p arg_2_p : Nat) (w : World) (t : swtimers_timer_instance_t)
    (hp : inst.hw_p = some hw) (hok : hw_ok hw) (hlen : w.timers.length = inst.num)
    (ht : w.slot idx = some t) (hwt : t.is_waiting = true) (hs : t.is_simple = false)
    (hh : t.handler ≠ 0)
    (hself : ∀ v, env.full_cb t.handler idx t.arg_1_p t.arg_2_p v =
      swtimers_start inst idx ms mode handler_cb arg_1_p arg_2_p v) :
    ∃ w', swtimers_task_slot env hw idx w = some w' ∧
      w'.timers = w.timers.set idx
        { handler := handler_cb, threshold := ms / hw.tick_ms, arg_1_p := arg_1_p,
          arg_2_p := arg_2_p, mode := mode, is_simple := false, is_run := true,
          is_waiting := false, counter := 0 } ∧
      w'.hw_is_started = (hw.hw_is_started_cb || w.hw_is_started) ∧
      calls w'.trace = calls w.trace ++ [Event.call_full t.handler idx t.arg_1_p t.arg_2_p] := by
  obtain ⟨hd, he, -, -⟩ := id hok
  have hlt : idx < w.timers.length := slot_lt ht
  have ht' : w.timers[idx]? = some t := ht
  generalize hv : (((w.emit Event.isr_disable).emit (Event.rd idx Field.is_waiting)).emit
    Event.isr_enable).emit (Event.call_full t.handler idx t.arg_1_p t.arg_2_p) = v
  have hvt : v.timers = w.timers := by rw [← hv]; rfl
  have hvh : v.hw_is_started = w.hw_is_started := by rw [← hv]; rfl
  have hvc : calls v.trace =
      calls w.trace ++ [Event.call_full t.handler idx t.arg_1_p t.arg_2_p] := by
    rw [← hv]
    simp [World.emit, Event.is_call]
  have hvs : v.slot idx = some t := by
    show v.timers[idx]? = _
    rw [hvt]
    exact ht
  obtain ⟨v1, k1, k2, k3, k4⟩ := do_start_spec inst hw v idx ms mode false handler_cb 0
    arg_1_p arg_2_p t hp hok (by rw [hvt, hlen]) hvs
  simp only [Bool.false_eq_true, if_false] at k2
  have hlt1 : idx < v1.timers.length := by simp [k2, hvt, hlt]
  refine ⟨{ timers := v1.timers, hw_is_started := v1.hw_is_started,
            trace := v1.trace ++ [Event.isr_disable, Event.wr idx Field.is_waiting,
              Event.isr_enable] }, ?_, ?_, ?_, ?_⟩
  · have hs1 : v1.timers[idx]? = some
        { handler := handler_cb, threshold := ms / hw.tick_ms, arg_1_p := arg_1_p,
          arg_2_p := arg_2_p, mode := mode, is_simple := false, is_run := true,
          is_waiting := false, counter := 0 } := by
      rw [k2]
      simp [List.getElem?_set, hvt, hlt]
    have hset : v1.timers.set idx
        { handler := handler_cb, threshold := ms / hw.tick_ms, arg_1_p := arg_1_p,
          arg_2_p := arg_2_p, mode := mode, is_simple := false, is_run := true,
          is_waiting := false, counter := 0 } = v1.timers := by
      rw [k2, List.set_set]
    simp [swtimers_task_slot, call_isr_disable, call_isr_enable, hd, he, rd_is_waiting, ht,
      ht', hwt, hs, hh, call_full, hself, World.emit, wr_is_waiting, World.store,
      World.slot] at hv ⊢
    rw [hv]
    simp only [swtimers_start]
    rw [k1]
    simp [hs1, hlt1, hset]
  · show v1.timers = _
    rw [k2, hvt]
  · show v1.hw_is_started = _
    rw [k3, hvh]
  · show calls (v1.trace ++ _) = _
    rw [calls_append, k4, hvc]
    simp [Event.is_call]

/-- A call `swtimers_is_run(.., NULL)` is undefined for every instance, index and memory: the
body stores through the pointer in both branches (drv_swtimers.c:214, :218), and a call that
fails an assertion before the store does not return either -/
theorem is_run_null_undefined (inst : swtimers_instance_t) (idx : Nat) (w : World) :
    swtimers_is_run inst idx 0 w = none := by
  rw [Option.eq_none_iff_forall_not_mem]
  intro r h
  simp only [swtimers_is_run, Option.mem_def] at h
  split at h
  · simp only [Option.bind_eq_bind, Option.bind_eq_some] at h
    obtain ⟨hw, -, w1, -, r1, -, q, -, c, -, w2, -, h⟩ := h
    split at h <;> simp at h
  · cases h

/-- Line 234 of `buttons_task` is undefined in every state -/
theorem task_timer_undefined (swt : swtimers_instance_t) (s : BLocal) :
    buttons_task_timer swt s = none := by
  simp [buttons_task_timer, is_run_null_undefined]

/-- The steps of the loop body of `buttons_task` do not get past line 234 -/
theorem task_steps_undefined (swt : swtimers_instance_t) (raw_event : Nat) (s : BLocal) :
    buttons_task_steps swt raw_event s = none := by
  simp only [buttons_task_steps, Option.bind_eq_bind]
  cases buttons_task_change swt raw_event s with
  | none => rfl
  | some s1 => simp [task_timer_undefined]

/-- The loop body of `buttons_task` for an enabled button never returns an event mask -/
theorem task_events_undefined (inst : buttons_instance_t) (gpio : Nat → Bool) (i : Nat)
    (bw : BWorld) : buttons_task_events inst gpio i bw = none := by
  rw [Option.eq_none_iff_forall_not_mem]
  intro r h
  simp only [buttons_task_events, Option.mem_def, Option.bind_eq_bind, Option.bind_eq_some,
    task_steps_undefined] at h
  obtain ⟨b, -, r1, -, swt, -, s, hs, -⟩ := h
  cases hs

/-- The loop body of `buttons_task` for button `i`: a disabled button is skipped, the pass over
an enabled button is undefined -/
theorem task_button_spec (env : BHandlers) (inst : buttons_instance_t) (gpio : Nat → Bool)
    (i : Nat) (bw : BWorld) (b : buttons_button_instance_t) (hb : bw.buttons[i]? = some b) :
    buttons_task_button env inst gpio i bw =
      if b.check_type = BUTTONS_CHECK_DISABLED then some bw else none := by
  simp only [buttons_task_button, hb, Option.bind_eq_bind, Option.some_bind,
    task_events_undefined, Option.none_bind]
  split <;> rfl

/-- The loop of `buttons_task` over the first `m` buttons returns only when each of them is
disabled, and then nothing has changed -/
theorem task_loop_frame (env : BHandlers) (inst : buttons_instance_t) (gpio : Nat → Bool)
    (bw : BWorld) : ∀ (m : Nat) (bw' : BWorld),
      for_loop_b (buttons_task_button env inst gpio) m bw = some bw' →
      bw' = bw ∧ ∀ i, i < m →
        ∃ b, bw.buttons[i]? = some b ∧ b.check_type = BUTTONS_CHECK_DISABLED := by
  intro m
  induction m with
  | zero =>
    intro bw' hm
    simp only [for_loop_b, Option.some.injEq] at hm
    exact ⟨hm.symm, fun i hi => absurd hi (Nat.not_lt_zero _)⟩
  | succ m ih =>
    intro bw' hm
    simp only [for_loop_b, Option.bind_eq_some] at hm
    obtain ⟨bw1, h1, h2⟩ := hm
    obtain ⟨rfl, hdis⟩ := ih bw1 h1
    cases hb : bw1.buttons[m]? with
    | none => simp [buttons_task_button, hb] at h2
    | some b =>
      rw [task_button_spec env inst gpio m bw1 b hb] at h2
      split at h2
      · rename_i hct
        simp only [Option.some.injEq] at h2
        refine ⟨h2.symm, ?_⟩
        intro i hi
        by_cases him : i = m
        · subst him
          exact ⟨b, hb, hct⟩
        · exact hdis i (by omega)
      · cases h2

/-- A `buttons_task` pass that returns has found every button disabled and has changed
nothing -/
theorem task_frame (env : BHandlers) (inst : buttons_instance_t) (gpio : Nat → Bool)
    (bw bw' : BWorld) (h : buttons_task env inst gpio bw = some bw') :
    bw' = bw ∧ ∀ i, i < inst.num →
      ∃ b, bw.buttons[i]? = some b ∧ b.check_type = BUTTONS_CHECK_DISABLED := by
  unfold buttons_task at h
  split at h
  · exact task_loop_frame env inst gpio bw inst.num bw' h
  · cases h

/-- A `buttons_task` pass over a table with an enabled button is undefined -/
theorem task_enabled_undefined (env : BHandlers) (inst : buttons_instance_t)
    (gpio : Nat → Bool) (i : Nat) (bw : BWorld) (b : buttons_button_instance_t)
    (hi : i < inst.num) (hb : bw.buttons[i]? = some b)
    (hct : b.check_type ≠ BUTTONS_CHECK_DISABLED) :
    buttons_task env inst gpio bw = none := by
  rw [Option.eq_none_iff_forall_not_mem]
  intro bw' h
  obtain ⟨-, hdis⟩ := task_frame env inst gpio bw bw' h
  obtain ⟨b', hb', hct'⟩ := hdis i hi
  rw [hb] at hb'
  cases hb'
  exact hct hct'

/-- The effect of `buttons_isr` on the trace and on the phase flags: none -/
theorem isr_frame (idx : Nat) (gpio_state : Bool) (bw bw' : BWorld)
    (h : buttons_isr idx gpio_state bw = some bw') :
    bw'.log = bw.log ∧ bw'.swt = bw.swt ∧
      ∀ (i : Nat) (b : buttons_button_instance_t), bw'.buttons[i]? = some b →
        ∃ b0 : buttons_button_instance_t, bw.buttons[i]? = some b0 ∧
        b.is_debouncing = b0.is_debouncing ∧ b.is_holding = b0.is_holding ∧
        b.is_double_clicking = b0.is_double_clicking := by
  simp only [buttons_isr, Option.bind_eq_bind, Option.bind_eq_some] at h
  obtain ⟨b0, hb0, h⟩ := h
  by_cases hct : b0.check_type = BUTTONS_CHECK_IN_ISR
  · simp only [hct, if_true, Option.pure_def, Option.some.injEq] at h
    subst h
    exact ⟨rfl, rfl, fun i b hb => ⟨b, hb, rfl, rfl, rfl⟩⟩
  · simp only [hct, if_false] at h
    generalize (if b0.is_pressed_low = true then !gpio_state else gpio_state) = g at h
    split at h
    · simp only [Option.pure_def, Option.some.injEq] at h
      subst h
      refine ⟨rfl, rfl, ?_⟩
      intro i b hb
      simp only [List.getElem?_set] at hb
      split at hb
      · rename_i hidx
        subst hidx
        split at hb
        · simp only [Option.some.injEq] at hb
          subst hb
          exact ⟨b0, hb0, rfl, rfl, rfl⟩
        · cases hb
      · exact ⟨b, hb, rfl, rfl, rfl⟩
    · simp only [Option.pure_def, Option.some.injEq] at h
      subst h
      exact ⟨rfl, rfl, fun i b hb => ⟨b, hb, rfl, rfl, rfl⟩⟩

/-- A call that returns adds no handler call to the trace and leaves `is_debouncing`,
`is_holding` and `is_double_clicking` false for every button of the driver, if they were false
before: `buttons_configure` zeroes the flags, `buttons_isr` and the timer calls do not touch
them, and a `buttons_task` pass returns only when it has changed nothing -/
theorem exec_frame (tenv : Handlers) (env : BHandlers) (swt : swtimers_instance_t)
    (inst : buttons_instance_t) (op : BOp) (bw bw' : BWorld)
    (h : op.exec tenv env swt inst bw = some bw') :
    (∃ extra, bw'.log = bw.log ++ extra ∧ delivered extra = []) ∧
    ((∀ (i : Nat) (b : buttons_button_instance_t), i < inst.num → bw.buttons[i]? = some b →
        b.is_debouncing = false ∧ b.is_holding = false ∧ b.is_double_clicking = false) →
      ∀ (i : Nat) (b : buttons_button_instance_t), i < inst.num → bw'.buttons[i]? = some b →
        b.is_debouncing = false ∧ b.is_holding = false ∧ b.is_double_clicking = false) := by
  cases op with
  | configure gpio idx gpio_pin timer_id is_pressed_low check_type times handler_cb arg_p =>
    simp only [BOp.exec, buttons_configure] at h
    split at h
    · simp only [Option.bind_eq_bind, Option.bind_eq_some] at h
      obtain ⟨swt1, -, w, -, hw, -, h⟩ := h
      split at h
      · rename_i hc
        simp only [Option.pure_def, Option.some.injEq] at h
        subst h
        refine ⟨⟨[BEvent.gpio_read gpio_pin], rfl, rfl⟩, ?_⟩
        intro hI i b hi hb
        simp only [List.getElem?_set] at hb
        split at hb
        · split at hb
          · simp only [Option.some.injEq] at hb
            subst hb
            exact ⟨rfl, rfl, rfl⟩
          · cases hb
        · exact hI i b hi hb
      · cases h
    · cases h
  | task gpio =>
    simp only [BOp.exec] at h
    obtain ⟨rfl, -⟩ := task_frame env inst gpio bw bw' h
    exact ⟨⟨[], by simp, rfl⟩, fun hI => hI⟩
  | isr idx gpio_state =>
    simp only [BOp.exec] at h
    obtain ⟨hl, -, hf⟩ := isr_frame idx gpio_state bw bw' h
    refine ⟨⟨[], by simp [hl], rfl⟩, ?_⟩
    intro hI i b hi hb
    obtain ⟨b0, hb0, e1, e2, e3⟩ := hf i b hb
    rw [e1, e2, e3]
    exact hI i b0 hi hb0
  | timer_isr =>
    simp only [BOp.exec, Option.map_eq_some'] at h
    obtain ⟨w, -, rfl⟩ := h
    exact ⟨⟨[], by simp, rfl⟩, fun hI => hI⟩
  | timer_task =>
    simp only [BOp.exec, Option.map_eq_some'] at h
    obtain ⟨w, -, rfl⟩ := h
    exact ⟨⟨[], by simp, rfl⟩, fun hI => hI⟩

/-- A sequence of calls that all return delivers no button event and leaves every phase flag
of every button false, if they were false before -/
theorem brun_frame (tenv : Handlers) (env : BHandlers) (swt : swtimers_instance_t)
    (inst : buttons_instance_t) : ∀ (ops : List BOp) (bw bw' : BWorld),
    brun tenv env swt inst ops bw = some bw' →
    (∃ extra, bw'.log = bw.log ++ extra ∧ delivered extra = []) ∧
    ((∀ (i : Nat) (b : buttons_button_instance_t), i < inst.num → bw.buttons[i]? = some b →
        b.is_debouncing = false ∧ b.is_holding = false ∧ b.is_double_clicking = false) →
      ∀ (i : Nat) (b : buttons_button_instance_t), i < inst.num → bw'.buttons[i]? = some b →
        b.is_debouncing = false ∧ b.is_holding = false ∧ b.is_double_clicking = false) := by
  intro ops
  induction ops with
  | nil =>
    intro bw bw' h
    simp only [brun, Option.some.injEq] at h
    subst h
    exact ⟨⟨[], by simp, rfl⟩, fun hI => hI⟩
  | cons op ops ih =>
    intro bw bw' h
    simp only [brun, Option.bind_eq_some] at h
    obtain ⟨bw1, h1, h2⟩ := h
    obtain ⟨⟨e1, hl1, hd1⟩, hf1⟩ := exec_frame tenv env swt inst op bw bw1 h1
    obtain ⟨⟨e2, hl2, hd2⟩, hf2⟩ := ih bw1 bw' h2
    refine ⟨⟨e1 ++ e2, ?_, ?_⟩, fun hI => hf2 (hf1 hI)⟩
    · rw [hl2, hl1, List.append_assoc]
    · rw [delivered_append, hd1, hd2]
      rfl

/-- The button and the event after `buttons_task_change`, in terms of `change_flags` -/
theorem change_spec (swt : swtimers_instance_t) (raw_event : Nat) (s s' : BLocal)
    (h : buttons_task_change swt raw_event s = some s') :
    s'.b = (change_flags raw_event s).b ∧ s'.event = (change_flags raw_event s).event ∧
      s'.log = s.log ∧ s'.is_timer_run = s.is_timer_run := by
  unfold buttons_task_change at h
  unfold change_flags
  split at h
  · split at h
    · obtain ⟨w, -, rfl⟩ := Option.map_eq_some'.mp h
      simp [*]
    · cases h
      simp [*]
  · cases h
    simp [*]

theorem pressed_spec (swt : swtimers_instance_t) (s s' : BLocal)
    (h : buttons_task_pressed swt s = some s') :
    s'.b = (pressed_flags s).b ∧ s'.event = (pressed_flags s).event ∧
      s'.log = s.log ∧ s'.is_timer_run = s.is_timer_run := by
  unfold buttons_task_pressed at h
  unfold pressed_flags
  split at h
  · split at h
    · obtain ⟨w, -, rfl⟩ := Option.map_eq_some'.mp h
      simp [*]
    · obtain ⟨w, -, rfl⟩ := Option.map_eq_some'.mp h
      simp [*]
  · cases h
    simp [*]

theorem released_spec (swt : swtimers_instance_t) (s s' : BLocal)
    (h : buttons_task_released swt s = some s') :
    s'.b = (released_flags s).b ∧ s'.event = (released_flags s).event ∧
      s'.log = s.log ∧ s'.is_timer_run = s.is_timer_run := by
  unfold buttons_task_released at h
  unfold released_flags
  split at h
  · obtain ⟨w, -, rfl⟩ := Option.map_eq_some'.mp h
    simp [*]
  · cases h
    simp [*]

theorem core_eq_iff (s s' : BLocal) :
    s.core = s'.core ↔ s.b = s'.b ∧ s.event = s'.event ∧ s.is_timer_run = s'.is_timer_run ∧
      s.log = s'.log := by
  cases s
  cases s'
  simp [BLocal.core]

theorem debounced_core (s : BLocal) :
    buttons_task_debounced s.core = (buttons_task_debounced s).core := by
  unfold buttons_task_debounced
  split <;> rename_i h <;> simp only [BLocal.core] at h <;> simp [h, BLocal.core]

theorem hold_core (s : BLocal) : buttons_task_hold s.core = (buttons_task_hold s).core := by
  unfold buttons_task_hold
  split <;> rename_i h <;> simp only [BLocal.core] at h <;> simp [h, BLocal.core]

theorem double_timeout_core (s : BLocal) :
    buttons_task_double_timeout s.core = (buttons_task_double_timeout s).core := by
  unfold buttons_task_double_timeout
  split <;> rename_i h <;> simp only [BLocal.core] at h <;> simp [h, BLocal.core]

theorem pressed_flags_core (s : BLocal) : pressed_flags s.core = (pressed_flags s).core := by
  unfold pressed_flags
  split <;> rename_i h <;> simp only [BLocal.core] at h
  · split <;> rename_i h2 <;> simp only [BLocal.core] at h2 <;> simp [h, h2, BLocal.core]
  · simp [h, BLocal.core]

theorem released_flags_core (s : BLocal) : released_flags s.core = (released_flags s).core := by
  unfold released_flags
  split <;> rename_i h <;> simp only [BLocal.core] at h <;> simp [h, BLocal.core]

theorem pressed_flags_frame (s : BLocal) :
    (pressed_flags s).is_timer_run = s.is_timer_run ∧ (pressed_flags s).log = s.log := by
  unfold pressed_flags
  split
  · split <;> exact ⟨rfl, rfl⟩
  · exact ⟨rfl, rfl⟩

theorem released_flags_frame (s : BLocal) :
    (released_flags s).is_timer_run = s.is_timer_run ∧ (released_flags s).log = s.log := by
  unfold released_flags
  split <;> exact ⟨rfl, rfl⟩

/-- The statements of the loop body before line 234 (`buttons_task_change`) and after it
(`buttons_task_debounced` to `buttons_task_released`) change the button and the event as
`steps_flags` says, for the value `run` of `is_timer_run` and any timers memory `w2` the
statements after line 234 start from -/
theorem stages_spec (swt : swtimers_instance_t) (raw_event : Nat) (run : Bool) (w2 : World)
    (s s1 s2 s3 : BLocal)
    (h1 : buttons_task_change swt raw_event s = some s1)
    (h2 : buttons_task_pressed swt (buttons_task_hold (buttons_task_debounced
      { s1 with is_timer_run := run, w := w2 })) = some s2)
    (h3 : buttons_task_released swt (buttons_task_double_timeout s2) = some s3) :
    s3.core = (steps_flags raw_event run s).core := by
  obtain ⟨a1, a2, a3, -⟩ := change_spec swt raw_event s s1 h1
  obtain ⟨c1, c2, c3, c4⟩ := pressed_spec swt _ s2 h2
  obtain ⟨d1, d2, d3, d4⟩ := released_spec swt _ s3 h3
  have e2 : ({ s1 with is_timer_run := run, w := w2 } : BLocal).core =
      ({ change_flags raw_event s with is_timer_run := run } : BLocal).core := by
    rw [core_eq_iff]
    refine ⟨a1, a2, rfl, ?_⟩
    show s1.log = (change_flags raw_event s).log
    rw [a3]
    unfold change_flags
    split
    · split <;> rfl
    · rfl
  have e3 : s2.core = (pressed_flags (buttons_task_hold (buttons_task_debounced
      ({ s1 with is_timer_run := run, w := w2 } : BLocal)))).core := by
    rw [core_eq_iff]
    exact ⟨c1, c2, by rw [c4, (pressed_flags_frame _).1], by rw [c3, (pressed_flags_frame _).2]⟩
  have e4 : s3.core = (released_flags (buttons_task_double_timeout s2)).core := by
    rw [core_eq_iff]
    exact ⟨d1, d2, by rw [d4, (released_flags_frame _).1], by rw [d3, (released_flags_frame _).2]⟩
  unfold steps_flags
  rw [e4, ← released_flags_core, ← double_timeout_core, e3, ← pressed_flags_core, ← hold_core,
    ← debounced_core, e2, debounced_core, hold_core, pressed_flags_core, double_timeout_core,
    released_flags_core]

/-- The event mask computed by the statements of the loop body is none, Pressed, Released, Hold
or Pressed with Double, for either value of `is_timer_run` -/
theorem steps_flags_mask (raw_event : Nat) (run : Bool) (s : BLocal)
    (hraw : raw_ok raw_event s.b) (he : s.event = BUTTONS_NO_EVENT) :
    mask_ok (steps_flags raw_event run s).event := by
  obtain ⟨b, event, itr, w, log⟩ := s
  obtain ⟨h, gp, arg, bms, dms, hms, ct, low, tid, chg, raw, deb, isd, ish, isdc⟩ := b
  simp only at hraw he
  subst he
  unfold raw_ok at hraw
  simp only at hraw
  by_cases hb : bms = 0 <;> cases raw <;> rcases hraw with rfl | ⟨rfl, hr⟩ | ⟨rfl, hr⟩ <;>
    (try cases hr) <;> cases run <;> cases isd <;> cases ish <;> cases isdc <;>
    simp [steps_flags, change_flags, buttons_task_debounced, buttons_task_hold, pressed_flags,
      buttons_task_double_timeout, released_flags, mask_ok, BUTTONS_NO_EVENT, BUTTONS_PRESSED,
      BUTTONS_RELEASED, BUTTONS_HOLD, BUTTONS_DOUBLE, hb, event_bits]

theorem mask_ok_no_conflict (event : Nat) (h : mask_ok event) :
    ¬ mask_conflict event ∧ buttons_task_assert event = true := by
  unfold mask_ok at h
  unfold mask_conflict
  rcases h with rfl | rfl | rfl | rfl | rfl <;>
    simp [buttons_task_assert, BUTTONS_NO_EVENT, BUTTONS_PRESSED, BUTTONS_RELEASED, BUTTONS_HOLD,
      BUTTONS_DOUBLE] <;>
    decide

/-- What `buttons_process_changes` returns: an event that fits the raw level, and a button
that differs from the one before in `is_pressed_raw` and `is_changed` at most -/
theorem process_changes_spec (hw_p : Option buttons_hw_interface_t) (gpio : Nat → Bool)
    (b b1 : buttons_button_instance_t) (log log1 : List BEvent) (raw_event : Nat)
    (h : buttons_process_changes hw_p gpio b log = some (raw_event, b1, log1)) :
    raw_ok raw_event b1 ∧
      ({ b1 with is_pressed_raw := b.is_pressed_raw, is_changed := b.is_changed } :
        buttons_button_instance_t) = b ∧
      ∃ new, log1 = log ++ new ∧ ∀ f i e a, BEvent.handler f i e a ∉ new := by
  unfold buttons_process_changes at h
  obtain ⟨hcb, gp, arg, bms, dms, hms, ct, low, tid, chg, raw, deb, isd, ish, isdc⟩ := b
  by_cases hc1 : ct = BUTTONS_CHECK_IN_POLLING
  · subst hc1
    cases hw_p with
    | none => simp at h
    | some hw =>
      cases hg : hw.gpio_read <;> cases low <;> cases hv : gpio gp <;> cases raw <;>
        simp [hg, hv] at h <;> obtain ⟨rfl, rfl, rfl⟩ := h <;>
        exact ⟨by simp [raw_ok, BUTTONS_PRESSED, BUTTONS_RELEASED, BUTTONS_NO_EVENT], rfl, _, rfl,
          by simp⟩
  · by_cases hc2 : ct = BUTTONS_CHECK_IN_ISR
    · subst hc2
      cases hw_p with
      | none => simp at h
      | some hw =>
        cases hd : hw.isr_disable_cb <;> cases he : hw.isr_enable_cb <;> cases chg <;>
          cases raw <;> simp [hd, he] at h <;> obtain ⟨rfl, rfl, rfl⟩ := h <;>
          exact ⟨by simp [raw_ok, BUTTONS_PRESSED, BUTTONS_RELEASED, BUTTONS_NO_EVENT], rfl, _,
            rfl, by simp⟩
    · simp [hc1, hc2] at h
      obtain ⟨rfl, rfl, rfl⟩ := h
      exact ⟨Or.inl rfl, rfl, [], by simp, by simp⟩

/-- The mask that lines 218-231 and 236-272 of `buttons_task` compute from the result of
`buttons_process_changes` has no conflict and passes the assertion of lines 275-278, for either
value of `is_timer_run` -/
theorem stages_mask (hw_p : Option buttons_hw_interface_t) (gpio : Nat → Bool)
    (swt : swtimers_instance_t) (b b1 : buttons_button_instance_t) (log log1 : List BEvent)
    (raw_event : Nat) (w w2 : World) (run : Bool) (s1 s2 s3 : BLocal)
    (hp : buttons_process_changes hw_p gpio b log = some (raw_event, b1, log1))
    (h1 : buttons_task_change swt raw_event
      { b := b1, event := BUTTONS_NO_EVENT, is_timer_run := false, w := w, log := log1 } = some s1)
    (h2 : buttons_task_pressed swt (buttons_task_hold (buttons_task_debounced
      { s1 with is_timer_run := run, w := w2 })) = some s2)
    (h3 : buttons_task_released swt (buttons_task_double_timeout s2) = some s3) :
    mask_ok s3.event := by
  have hs := stages_spec swt raw_event run w2 _ s1 s2 s3 h1 h2 h3
  have he : s3.event = (steps_flags raw_event run
      { b := b1, event := BUTTONS_NO_EVENT, is_timer_run := false, w := w, log := log1 }).event :=
    ((core_eq_iff _ _).mp hs).2.1
  rw [he]
  exact steps_flags_mask raw_event run _
    (process_changes_spec hw_p gpio b b1 log log1 raw_event hp).1 rfl

theorem brun_append (tenv : Handlers) (env : BHandlers) (swt : swtimers_instance_t)
    (inst : buttons_instance_t) (ops1 ops2 : List BOp) (bw : BWorld) :
    brun tenv env swt inst (ops1 ++ ops2) bw =
      (brun tenv env swt inst ops1 bw).bind (brun tenv env swt inst ops2) := by
  induction ops1 generalizing bw with
  | nil => rfl
  | cons op ops1 ih =>
    simp only [List.cons_append, brun]
    cases op.exec tenv env swt inst bw with
    | none => rfl
    | some bw1 => exact ih bw1

/-- The button `buttons_configure` leaves: the settings of the call, the raw and the debounced
level both read from the pin, no phase active -/
theorem configure_spec (inst : buttons_instance_t) (gpio : Nat → Bool)
    (idx gpio_pin timer_id : Nat) (is_pressed_low : Bool) (check_type : buttons_check_t)
    (times : buttons_time_settings_t) (handler_cb arg_p : Nat) (bw bw1 : BWorld)
    (hcfg : buttons_configure inst gpio idx gpio_pin timer_id is_pressed_low check_type times
      handler_cb arg_p bw = some bw1) :
    idx < inst.num ∧ ∃ b, bw1.buttons[idx]? = some b ∧ b.bouncing_ms = times.bouncing_ms ∧
      b.double_click_ms = times.double_click_ms ∧ b.hold_ms = times.hold_ms ∧
      b.check_type = check_type ∧ b.timer_id = timer_id ∧
      b.is_pressed_debounced = b.is_pressed_raw ∧
      b.is_pressed_raw = (if is_pressed_low then !gpio gpio_pin else gpio gpio_pin) := by
  simp only [buttons_configure] at hcfg
  split at hcfg
  · rename_i hidx
    simp only [Option.bind_eq_bind, Option.bind_eq_some] at hcfg
    obtain ⟨swt1, -, w, -, hw, -, hcfg⟩ := hcfg
    split at hcfg
    · rename_i hc
      simp only [Option.pure_def, Option.some.injEq] at hcfg
      subst hcfg
      refine ⟨hidx, buttons_button_instance_t.mk handler_cb gpio_pin arg_p times.bouncing_ms
        times.double_click_ms times.hold_ms check_type is_pressed_low timer_id false
        (if is_pressed_low then !gpio gpio_pin else gpio gpio_pin)
        (if is_pressed_low then !gpio gpio_pin else gpio gpio_pin) false false false,
        ?_, rfl, rfl, rfl, rfl, rfl, rfl, rfl⟩
      simp [List.getElem?_set, hc.2, zero_button]
    · cases hcfg
  · cases hcfg

/-- The pin call of `leds_processing` in terms of the LED: it is switched on when the state
entered is Pulse and the blinking is not inverted, or when the state entered is not Pulse and
the blinking is inverted -/
theorem blink_write_lit (e : leds_led_instance_t)
    (hne : e.blink_state ≠ LED_BLINK_STATE_DISABLED) :
    blink_write e = [led_write e
      (if (blink_next e).blink_state = LED_BLINK_STATE_PULSE then !e.is_inverted
        else e.is_inverted)] := by
  obtain ⟨pin, wait, pulse, pause, tid, series, ah, inv, cnt, st⟩ := e
  cases st
  · exact absurd rfl hne
  · by_cases h1 : (cnt + 1) % 256 = series <;> by_cases h2 : wait = 0 <;>
      cases ah <;> cases inv <;> simp [blink_write, blink_next, led_write, h1, h2]
  · cases ah <;> cases inv <;> rfl

/-! ## The claims -/

/-- C1 does not hold as stated.  With `ms = 0` (threshold 0, `tick_ms = 1`) and a handler, the
slot expires in the first `swtimers_isr`, and `swtimers_is_run` then reports `(true, 1)`, not
`threshold × tick_ms = 0`.  With a NULL handler and `ms = 2` the slot has expired after two
`swtimers_isr` calls and `swtimers_is_run` reports `(false, 0)` before any `swtimers_task`. -/
theorem C1_counterexample :
    (((swtimers_start test_inst 0 0 SWTIMERS_MODE_SINGLE_FROM_LOOP 7 1 1 test_world).bind
        (swtimers_isr idle_handlers test_inst)).map
          fun v => v.timers.map fun t => (t.is_run, t.is_waiting, t.threshold)) =
      some [(false, true, 0), (false, false, 0), (false, false, 0)] ∧
    ((((swtimers_start test_inst 0 0 SWTIMERS_MODE_SINGLE_FROM_LOOP 7 1 1 test_world).bind
        (swtimers_isr idle_handlers test_inst)).bind (swtimers_is_run test_inst 0 1)).map
          fun r => (r.1, r.2.1)) = some (true, 1) ∧
    0 / test_hw_interface.tick_ms * test_hw_interface.tick_ms = 0 ∧
    (((swtimers_start test_inst 0 2 SWTIMERS_MODE_SINGLE_FROM_LOOP 0 1 1 test_world).bind
        (isr_n idle_handlers test_inst 2)).map
          fun v => v.timers.map fun t => (t.is_run, t.is_waiting, t.threshold)) =
      some [(false, false, 2), (false, false, 0), (false, false, 0)] ∧
    ((((swtimers_start test_inst 0 2 SWTIMERS_MODE_SINGLE_FROM_LOOP 0 1 1 test_world).bind
        (isr_n idle_handlers test_inst 2)).bind (swtimers_is_run test_inst 0 1)).map
          fun r => (r.1, r.2.1)) = some (false, 0) := by
  decide

/-- C1 (amended): for every slot started in SingleFromLoop mode with a non-NULL handler (any
ms), once `swtimers_isr` has expired the slot (after `max(1, T)` or more ticks,
`T = ms ÷ tick_ms`) and before `swtimers_task` runs, `swtimers_is_run(idx)` returns true and
writes `out_ms = max(1, T) × tick_ms`; after the next `swtimers_task`, `swtimers_is_run(idx)`
returns false (and writes 0).  Handlers do not call back into the driver. -/
theorem C1_single_from_loop_expired (env : Handlers) (inst : swtimers_instance_t)
    (hw : swtimers_hw_interface_t) (w : World) (idx p ms : Nat) (is_simple : Bool)
    (handler_cb handler_simple_cb arg_1_p arg_2_p n : Nat)
    (hq : Quiet env) (hinit : Initialized inst hw w) (hidx : idx < inst.num) (hp : p ≠ 0)
    (hms : ms < 4294967296) (htick : hw.tick_ms < 4294967296)
    (hh : (if is_simple then handler_simple_cb else handler_cb) ≠ 0)
    (hn : max 1 (ms / hw.tick_ms) ≤ n) :
    ∃ w1 w2 w3 q1 q2,
      swtimers_do_start inst idx ms SWTIMERS_MODE_SINGLE_FROM_LOOP is_simple handler_cb
        handler_simple_cb arg_1_p arg_2_p w = some w1 ∧
      isr_n env inst n w1 = some w2 ∧
      swtimers_is_run inst idx p w2 = some (true, max 1 (ms / hw.tick_ms) * hw.tick_ms, q1) ∧
      swtimers_task env inst w2 = some w3 ∧
      swtimers_is_run inst idx p w3 = some (false, 0, q2) := by
  obtain ⟨hhw, hok, hnum, hlen⟩ := hinit
  obtain ⟨t, ht⟩ := slot_of_lt w (show idx < w.timers.length by omega)
  have hlt := slot_lt ht
  obtain ⟨w1, hw1, h1, -, -⟩ := do_start_spec inst hw w idx ms SWTIMERS_MODE_SINGLE_FROM_LOOP
    is_simple handler_cb handler_simple_cb arg_1_p arg_2_p t hhw hok hlen ht
  have hs1 : w1.timers[idx]? = some
      { handler := if is_simple then handler_simple_cb else handler_cb,
        threshold := ms / hw.tick_ms, arg_1_p := arg_1_p, arg_2_p := arg_2_p,
        mode := SWTIMERS_MODE_SINGLE_FROM_LOOP,
        is_simple := is_simple, is_run := true, is_waiting := false, counter := 0 } := by
    rw [h1]
    simp [hlt]
  have hlen1 : w1.timers.length = inst.num := by simp [h1, hlen]
  have hT : ms / hw.tick_ms ≤ ms := Nat.div_le_self _ _
  obtain ⟨w2, hw2, h2, -, -⟩ := isr_n_spec env hq inst w1 hlen1 idx _ hs1 n
  have e1 := expiry_state
    { handler := if is_simple then handler_simple_cb else handler_cb,
      threshold := ms / hw.tick_ms, arg_1_p := arg_1_p, arg_2_p := arg_2_p,
      mode := SWTIMERS_MODE_SINGLE_FROM_LOOP,
      is_simple := is_simple, is_run := true, is_waiting := false, counter := 0 }
    rfl rfl (by simp only; omega)
  have e3 : (if (if is_simple then handler_simple_cb else handler_cb) ≠ 0 ∧
      is_from_isr SWTIMERS_MODE_SINGLE_FROM_LOOP = false then true else false) = true := by
    simp [is_from_isr, hh]
  have e4 : is_single SWTIMERS_MODE_SINGLE_FROM_LOOP = true := by decide
  simp only [e3, e4, if_true, Bool.not_true] at e1
  have hs2 : w2.slot idx = some
      { handler := if is_simple then handler_simple_cb else handler_cb,
        threshold := ms / hw.tick_ms, arg_1_p := arg_1_p, arg_2_p := arg_2_p,
        mode := SWTIMERS_MODE_SINGLE_FROM_LOOP,
        is_simple := is_simple, is_run := false, is_waiting := true,
        counter := max 1 (ms / hw.tick_ms) } := by
    obtain ⟨d, hd⟩ : ∃ d, n = d + max 1 (ms / hw.tick_ms) := ⟨n - max 1 (ms / hw.tick_ms), by omega⟩
    unfold World.slot
    rw [h2, List.getElem?_map, hs1, Option.map_some', hd, Function.iterate_add_apply, e1,
      tick_iter_stopped _ rfl]
  have hlen2 : w2.timers.length = inst.num := by simp [h2, hlen1]
  obtain ⟨q1, hq1, -⟩ := is_run_spec inst hw w2 idx p _ hhw hok hlen2 hs2 hp
  obtain ⟨w3, hw3, h3, -, -⟩ := task_spec env hq inst hw w2 hhw hok hnum hlen2
  have hs3 : w3.slot idx = some
      { handler := if is_simple then handler_simple_cb else handler_cb,
        threshold := ms / hw.tick_ms, arg_1_p := arg_1_p, arg_2_p := arg_2_p,
        mode := SWTIMERS_MODE_SINGLE_FROM_LOOP,
        is_simple := is_simple, is_run := false, is_waiting := false,
        counter := max 1 (ms / hw.tick_ms) } := by
    have hs2' : w2.timers[idx]? = some _ := hs2
    unfold World.slot
    rw [h3, List.getElem?_map, hs2']
    rfl
  obtain ⟨q2, hq2, -⟩ := is_run_spec inst hw w3 idx p _ hhw hok (by simp [h3, hlen2]) hs3 hp
  have hmul : max 1 (ms / hw.tick_ms) * hw.tick_ms < 4294967296 := by
    have k1 := Nat.div_mul_le_self ms hw.tick_ms
    rcases Nat.lt_or_ge (ms / hw.tick_ms) 1 with h | h
    · rw [Nat.max_eq_left (by omega)]
      omega
    · rw [Nat.max_eq_right h]
      omega
  exact ⟨w1, w2, w3, q1, q2, hw1, hw2, by simpa [wrap32_of_lt hmul] using hq1, hw3,
    by simpa using hq2⟩

theorem C1_single_from_loop_expired_witness :
    ∃ w1 w2 w3 q1 q2,
      swtimers_do_start test_inst 0 0 SWTIMERS_MODE_SINGLE_FROM_LOOP false 7 0 1 1 test_world
        = some w1 ∧
      isr_n idle_handlers test_inst 2 w1 = some w2 ∧
      swtimers_is_run test_inst 0 1 w2 =
        some (true, max 1 (0 / test_hw_interface.tick_ms) * test_hw_interface.tick_ms, q1) ∧
      swtimers_task idle_handlers test_inst w2 = some w3 ∧
      swtimers_is_run test_inst 0 1 w3 = some (false, 0, q2) :=
  C1_single_from_loop_expired idle_handlers test_inst test_hw_interface test_world 0 1 0 false
    7 0 1 1 2 quiet_idle (by decide) (by decide) (by decide) (by decide) (by decide) (by decide)
    (by decide)

/-- C2: for every slot started in PeriodicFromISR mode with a non-NULL handler and threshold
`T = ms ÷ tick_ms ≥ 1`, after `n` consecutive `swtimers_isr` calls the handler has been invoked
exactly `⌊n/T⌋` times, the slot is still running, and its counter equals `n mod T`. -/
theorem C2_periodic_from_isr_count (env : Handlers) (inst : swtimers_instance_t)
    (hw : swtimers_hw_interface_t) (w : World) (idx ms : Nat) (is_simple : Bool)
    (handler_cb handler_simple_cb arg_1_p arg_2_p n : Nat)
    (hq : Quiet env) (hinit : Initialized inst hw w) (hidx : idx < inst.num)
    (hms : ms < 4294967296)
    (hh : (if is_simple then handler_simple_cb else handler_cb) ≠ 0)
    (hT1 : 1 ≤ ms / hw.tick_ms) :
    ∃ w1 w2 t,
      swtimers_do_start inst idx ms SWTIMERS_MODE_PERIODIC_FROM_ISR is_simple handler_cb
        handler_simple_cb arg_1_p arg_2_p w = some w1 ∧
      isr_n env inst n w1 = some w2 ∧
      calls_of idx w2.trace = calls_of idx w.trace ++
        List.replicate (n / (ms / hw.tick_ms))
          (if is_simple then Event.call_simple handler_simple_cb idx
           else Event.call_full handler_cb idx arg_1_p arg_2_p) ∧
      w2.slot idx = some t ∧ t.is_run = true ∧ t.counter = n % (ms / hw.tick_ms) := by
  obtain ⟨hhw, hok, hnum, hlen⟩ := hinit
  obtain ⟨t, ht⟩ := slot_of_lt w (show idx < w.timers.length by omega)
  have hlt := slot_lt ht
  obtain ⟨w1, hw1, h1, -, hc1⟩ := do_start_spec inst hw w idx ms SWTIMERS_MODE_PERIODIC_FROM_ISR
    is_simple handler_cb handler_simple_cb arg_1_p arg_2_p t hhw hok hlen ht
  have hs1 : w1.timers[idx]? = some
      { handler := if is_simple then handler_simple_cb else handler_cb,
        threshold := ms / hw.tick_ms, arg_1_p := arg_1_p, arg_2_p := arg_2_p,
        mode := SWTIMERS_MODE_PERIODIC_FROM_ISR,
        is_simple := is_simple, is_run := true, is_waiting := false, counter := 0 } := by
    rw [h1]
    simp [hlt]
  have hlen1 : w1.timers.length = inst.num := by simp [h1, hlen]
  have hT : ms / hw.tick_ms ≤ ms := Nat.div_le_self _ _
  have hcw : calls_of idx w1.trace = calls_of idx w.trace := by
    rw [← calls_of_calls, hc1, calls_of_calls]
  obtain ⟨w2, hw2, h2, -, h3⟩ := isr_n_spec env hq inst w1 hlen1 idx _ hs1 n
  rw [periodic_isr_calls _ idx rfl rfl rfl hh hT1 (by simp only; omega) n, hcw] at h3
  refine ⟨w1, w2,
    { handler := if is_simple then handler_simple_cb else handler_cb,
      threshold := ms / hw.tick_ms, arg_1_p := arg_1_p, arg_2_p := arg_2_p,
      mode := SWTIMERS_MODE_PERIODIC_FROM_ISR,
      is_simple := is_simple, is_run := true, is_waiting := false,
      counter := n % (ms / hw.tick_ms) }, hw1, hw2, ?_, ?_, rfl, rfl⟩
  · rw [h3]
    cases is_simple <;> simp [dispatch]
  · unfold World.slot
    rw [h2, List.getElem?_map, hs1, Option.map_some',
      tick_iter_periodic_isr _ rfl rfl rfl hT1 (by simp only; omega) n]

theorem C2_periodic_from_isr_count_witness :
    ∃ w1 w2 t,
      swtimers_do_start test_inst 0 2 SWTIMERS_MODE_PERIODIC_FROM_ISR false 7 0 1 1 test_world
        = some w1 ∧
      isr_n idle_handlers test_inst 5 w1 = some w2 ∧
      calls_of 0 w2.trace = calls_of 0 test_world.trace ++
        List.replicate (5 / (2 / test_hw_interface.tick_ms))
          (if false then Event.call_simple 0 0 else Event.call_full 7 0 1 1) ∧
      w2.slot 0 = some t ∧ t.is_run = true ∧ t.counter = 5 % (2 / test_hw_interface.tick_ms) :=
  C2_periodic_from_isr_count idle_handlers test_inst test_hw_interface test_world 0 2 false
    7 0 1 1 5 quiet_idle (by decide) (by decide) (by decide) (by decide) (by decide)

/-- C3: for every initialized instance and every valid idx, after `swtimers_stop(idx)` the call
`swtimers_is_run(idx)` returns false and writes `out_ms = 0`, whatever the slot held before
(running, expired and waiting for its callback, or stopped). -/
theorem C3_is_run_after_stop (inst : swtimers_instance_t) (hw : swtimers_hw_interface_t)
    (w : World) (idx p : Nat) (hinit : Initialized inst hw w) (hidx : idx < inst.num)
    (hp : p ≠ 0) :
    ∃ w1 w2, swtimers_stop inst idx w = some w1 ∧
      swtimers_is_run inst idx p w1 = some (false, 0, w2) := by
  obtain ⟨hhw, hok, -, hlen⟩ := hinit
  obtain ⟨t, ht⟩ := slot_of_lt w (show idx < w.timers.length by omega)
  obtain ⟨w1, hw1, h1, -, -⟩ := stop_spec inst hw w idx t hhw hok hlen ht
  have hs1 : w1.slot idx = some { t with is_run := false, is_waiting := false, counter := 0 } := by
    unfold World.slot
    rw [h1]
    simp [slot_lt ht]
  obtain ⟨w2, hw2, -⟩ := is_run_spec inst hw w1 idx p _ hhw hok (by simp [h1, hlen]) hs1 hp
  exact ⟨w1, w2, hw1, by simpa using hw2⟩

theorem C3_is_run_after_stop_witness :
    ∃ w1 w2, swtimers_stop test_inst 1
        { timers := [zero_timer, { zero_timer with handler := 7, is_waiting := true, counter := 2 },
            zero_timer],
          hw_is_started := true, trace := [] } = some w1 ∧
      swtimers_is_run test_inst 1 1 w1 = some (false, 0, w2) :=
  C3_is_run_after_stop test_inst test_hw_interface _ 1 1 (by decide) (by decide) (by decide)

/-- C4 does not hold as stated, in either direction.  After init, a single-shot start without
handler and the expiring `swtimers_isr`, the hardware timer is started although no slot has
`is_run` or `is_waiting`.  After init, a SingleFromLoop start with a handler, the expiring
`swtimers_isr` and a `swtimers_stop` of another slot, the hardware timer is stopped although
slot 0 has a pending `is_waiting`. -/
theorem C4_counterexample :
    (((swtimers_init (some test_hw_interface) 3 test_world).bind fun r =>
        run idle_handlers r.1 [Op.start 0 1 SWTIMERS_MODE_SINGLE_FROM_ISR 0 0 0, Op.isr] r.2).map
      fun v => (v.hw_is_started, v.timers.map fun t => (t.is_run, t.is_waiting))) =
      some (true, [(false, false), (false, false), (false, false)]) ∧
    (((swtimers_init (some test_hw_interface) 3 test_world).bind fun r =>
        run idle_handlers r.1
          [Op.start 0 1 SWTIMERS_MODE_SINGLE_FROM_LOOP 7 0 0, Op.isr, Op.stop 1] r.2).map
      fun v => (v.hw_is_started, v.timers.map fun t => (t.is_run, t.is_waiting))) =
      some (false, [(false, true), (false, false), (false, false)]) := by
  decide

/-- C4 (amended): when the hardware interface provides `hw_start` / `hw_stop` /
`hw_is_started`, in every state reachable through init, start*, stop, stop_all, task and isr
(observed after each operation returns, handlers not calling back into the driver) the
hardware timer is started whenever at least one slot has `is_run`; and after every operation
other than `swtimers_isr` it is started if and only if at least one slot has `is_run`. -/
theorem C4_hw_timer_gating (env : Handlers) (hw : swtimers_hw_interface_t) (num : Nat)
    (w0 : World) (inst : swtimers_instance_t) (w1 : World) (ops : List Op) (w2 : World)
    (hq : Quiet env) (hg : hw.hw_is_started_cb = true) (hlen : w0.timers.length = num)
    (hinit : swtimers_init (some hw) num w0 = some (inst, w1))
    (hrun : run env inst ops w1 = some w2) :
    (any_run w2.timers = true → w2.hw_is_started = true) ∧
      (ops.getLast? ≠ some Op.isr → w2.hw_is_started = any_run w2.timers) := by
  obtain ⟨hi, hok, hnum, h1, h2, -⟩ := init_spec hw num w0 inst w1 hlen hinit
  subst hi
  have har : any_run w1.timers = false := by
    rw [h1]
    simp [any_run, zero_timer]
  have hst : w1.hw_is_started = false := by simp [h2, hg]
  obtain ⟨-, b, c⟩ := run_gating env hq { hw_p := some hw, num := num } hw rfl hok hnum hg ops
    w1 w2 (by simp [h1]) (fun h => by rw [har] at h; cases h) hrun
  refine ⟨b, fun hne => ?_⟩
  cases hl : ops.getLast? with
  | none =>
    have : ops = [] := by
      cases ops with
      | nil => rfl
      | cons o os => simp [List.getLast?_eq_getLast] at hl
    subst this
    cases hrun
    rw [hst, har]
  | some op =>
    exact c op hl (fun he => hne (by rw [hl, he]))

theorem C4_hw_timer_gating_witness :
    (any_run ([{ zero_timer with handler := 7, threshold := 1, counter := 1 }] : List swtimers_timer_instance_t) = true →
      false = true) ∧
    (([Op.start 0 1 SWTIMERS_MODE_SINGLE_FROM_LOOP 7 0 0, Op.isr, Op.task] : List Op).getLast? ≠
        some Op.isr →
      false = any_run ([{ zero_timer with handler := 7, threshold := 1, counter := 1 }] : List swtimers_timer_instance_t)) :=
  C4_hw_timer_gating idle_handlers test_hw_interface 1
    { timers := [zero_timer], hw_is_started := true, trace := [] }
    { hw_p := some test_hw_interface, num := 1 }
    { timers := [zero_timer], hw_is_started := false,
      trace := [Event.isr_disable, Event.wr 0 Field.is_run, Event.wr 0 Field.is_waiting,
        Event.wr 0 Field.counter, Event.isr_enable, Event.hw_is_started,
        Event.rd 0 Field.is_run, Event.hw_stop, Event.hw_is_started] }
    [Op.start 0 1 SWTIMERS_MODE_SINGLE_FROM_LOOP 7 0 0, Op.isr, Op.task]
    { timers := [{ zero_timer with handler := 7, threshold := 1, counter := 1 }],
      hw_is_started := false,
      trace := [Event.isr_disable, Event.wr 0 Field.is_run, Event.wr 0 Field.is_waiting,
        Event.wr 0 Field.counter, Event.isr_enable, Event.hw_is_started,
        Event.rd 0 Field.is_run, Event.hw_stop, Event.hw_is_started, Event.isr_disable,
        Event.wr 0 Field.is_run, Event.wr 0 Field.is_waiting, Event.wr 0 Field.counter,
        Event.isr_enable, Event.hw_is_started, Event.isr_disable, Event.wr 0 Field.is_run,
        Event.isr_enable, Event.hw_is_started, Event.hw_start, Event.rd 0 Field.is_run,
        Event.rd 0 Field.counter, Event.wr 0 Field.counter, Event.rd 0 Field.counter,
        Event.wr 0 Field.is_run, Event.wr 0 Field.is_waiting, Event.isr_disable,
        Event.rd 0 Field.is_waiting, Event.isr_enable, Event.call_full 7 0 0 0,
        Event.isr_disable, Event.wr 0 Field.is_waiting, Event.isr_enable, Event.hw_is_started,
        Event.rd 0 Field.is_run, Event.hw_stop] }
    quiet_idle (by decide) (by decide) (by decide) (by decide)

/-- C5: `swtimers_is_run(idx, out)` returns true exactly when the slot's `is_run` or
`is_waiting` flag is set; it then writes `counter × tick_ms` (in 32-bit unsigned arithmetic) to
`out`, otherwise it writes 0.  In particular a slot started with threshold `T = ms ÷ tick_ms`
reports `(true, k × tick_ms)` after `k < T` calls of `swtimers_isr` since the start. -/
theorem C5_is_run_report (env : Handlers) (inst : swtimers_instance_t)
    (hw : swtimers_hw_interface_t) (w : World) (idx p : Nat) (t : swtimers_timer_instance_t)
    (ms : Nat) (mode : swtimers_mode_t) (is_simple : Bool)
    (handler_cb handler_simple_cb arg_1_p arg_2_p : Nat)
    (hq : Quiet env) (hinit : Initialized inst hw w) (ht : w.slot idx = some t) (hp : p ≠ 0)
    (hms : ms < 4294967296) :
    (∃ w', swtimers_is_run inst idx p w =
      some (t.is_run || t.is_waiting,
        if (t.is_run || t.is_waiting) = true then wrap32 (t.counter * hw.tick_ms) else 0, w')) ∧
    (∀ k, k < ms / hw.tick_ms → ∃ w1 w2 w3,
      swtimers_do_start inst idx ms mode is_simple handler_cb handler_simple_cb arg_1_p arg_2_p w
        = some w1 ∧
      isr_n env inst k w1 = some w2 ∧
      swtimers_is_run inst idx p w2 = some (true, k * hw.tick_ms, w3)) := by
  obtain ⟨hhw, hok, -, hlen⟩ := hinit
  have hlt := slot_lt ht
  constructor
  · obtain ⟨w', hw', -⟩ := is_run_spec inst hw w idx p t hhw hok hlen ht hp
    exact ⟨w', hw'⟩
  · intro k hk
    obtain ⟨w1, hw1, h1, -, -⟩ := do_start_spec inst hw w idx ms mode is_simple handler_cb
      handler_simple_cb arg_1_p arg_2_p t hhw hok hlen ht
    have hs1 : w1.slot idx = some
        { handler := if is_simple then handler_simple_cb else handler_cb,
          threshold := ms / hw.tick_ms, arg_1_p := arg_1_p, arg_2_p := arg_2_p, mode := mode,
          is_simple := is_simple, is_run := true, is_waiting := false, counter := 0 } := by
      unfold World.slot
      rw [h1]
      simp [hlt]
    have hlen1 : w1.timers.length = inst.num := by simp [h1, hlen]
    obtain ⟨w2, hw2, h2, -, -⟩ := isr_n_spec env hq inst w1 hlen1 idx _ hs1 k
    have hT : ms / hw.tick_ms ≤ ms := Nat.div_le_self _ _
    have hs2 : w2.slot idx = some
        { handler := if is_simple then handler_simple_cb else handler_cb,
          threshold := ms / hw.tick_ms, arg_1_p := arg_1_p, arg_2_p := arg_2_p, mode := mode,
          is_simple := is_simple, is_run := true, is_waiting := false, counter := k } := by
      have hs1' : w1.timers[idx]? = some _ := hs1
      unfold World.slot
      rw [h2, List.getElem?_map, hs1', Option.map_some',
        tick_iter_counting _ rfl (by simp only; omega) k (by simp only; omega)]
      simp
    obtain ⟨w3, hw3, -⟩ := is_run_spec inst hw w2 idx p _ hhw hok (by simp [h2, hlen1]) hs2 hp
    refine ⟨w1, w2, w3, hw1, hw2, ?_⟩
    have hmul : k * hw.tick_ms < 4294967296 := by
      have h1 : k * hw.tick_ms ≤ ms / hw.tick_ms * hw.tick_ms :=
        Nat.mul_le_mul_right _ (by omega)
      have h2 := Nat.div_mul_le_self ms hw.tick_ms
      omega
    simpa [wrap32_of_lt hmul] using hw3

theorem C5_is_run_report_witness :
    (∃ w', swtimers_is_run test_inst 0 1 test_world =
      some (zero_timer.is_run || zero_timer.is_waiting,
        if (zero_timer.is_run || zero_timer.is_waiting) = true then
          wrap32 (zero_timer.counter * test_hw_interface.tick_ms) else 0, w')) ∧
    (∀ k, k < 5 / test_hw_interface.tick_ms → ∃ w1 w2 w3,
      swtimers_do_start test_inst 0 5 SWTIMERS_MODE_SINGLE_FROM_LOOP false 7 0 1 1 test_world
        = some w1 ∧
      isr_n idle_handlers test_inst k w1 = some w2 ∧
      swtimers_is_run test_inst 0 1 w2 = some (true, k * test_hw_interface.tick_ms, w3)) :=
  C5_is_run_report idle_handlers test_inst test_hw_interface test_world 0 1 zero_timer 5
    SWTIMERS_MODE_SINGLE_FROM_LOOP false 7 0 1 1 quiet_idle (by decide) (by decide) (by decide)
    (by decide)

/-- C6: `swtimers_is_run` called with a NULL `time_ms_out_p` (as `buttons_task` and the demo
delay loop do, and as the header allows) does not return: on every initialized instance and
valid idx the store through the pointer is executed whatever the slot holds. -/
theorem C6_is_run_null_pointer (inst : swtimers_instance_t) (hw : swtimers_hw_interface_t)
    (w : World) (idx : Nat) (hinit : Initialized inst hw w) (hidx : idx < inst.num) :
    swtimers_is_run inst idx 0 w = none := by
  obtain ⟨hhw, ⟨hd, he, -, -⟩, -, hlen⟩ := hinit
  obtain ⟨t, ht⟩ := slot_of_lt w (show idx < w.timers.length by omega)
  simp [swtimers_is_run, hidx, hhw, call_isr_disable, call_isr_enable, hd, he, rd_is_run,
    rd_is_waiting, rd_counter, ht]

theorem C6_is_run_null_pointer_witness : swtimers_is_run test_inst 0 0 test_world = none :=
  C6_is_run_null_pointer test_inst test_hw_interface test_world 0 (by decide) (by decide)

/-- C7: for every initialized instance, valid idx and any prior state of the slot, after
`swtimers_start(idx, ms, mode, handler, a1, a2)` the slot has `threshold = ms ÷ tick_ms`,
`counter = 0`, `is_run = true`, `is_waiting = false` and the given mode, handler and arguments;
`swtimers_is_run(idx)` reports `(true, 0)`; with a gated hardware interface the hardware timer is
started; every other slot is unchanged. -/
theorem C7_start_arms_slot (inst : swtimers_instance_t) (hw : swtimers_hw_interface_t)
    (w : World) (idx p ms : Nat) (mode : swtimers_mode_t) (handler_cb arg_1_p arg_2_p : Nat)
    (hinit : Initialized inst hw w) (hidx : idx < inst.num) (hp : p ≠ 0) :
    ∃ w1 w2, swtimers_start inst idx ms mode handler_cb arg_1_p arg_2_p w = some w1 ∧
      w1.slot idx = some
        { handler := handler_cb, threshold := ms / hw.tick_ms, arg_1_p := arg_1_p,
          arg_2_p := arg_2_p, mode := mode, is_simple := false, is_run := true,
          is_waiting := false, counter := 0 } ∧
      (∀ j, j ≠ idx → w1.slot j = w.slot j) ∧
      (hw.hw_is_started_cb = true → w1.hw_is_started = true) ∧
      swtimers_is_run inst idx p w1 = some (true, 0, w2) := by
  obtain ⟨hhw, hok, -, hlen⟩ := hinit
  obtain ⟨t, ht⟩ := slot_of_lt w (show idx < w.timers.length by omega)
  have hlt := slot_lt ht
  obtain ⟨w1, hw1, h1, h2, -⟩ := do_start_spec inst hw w idx ms mode false handler_cb 0
    arg_1_p arg_2_p t hhw hok hlen ht
  have hs1 : w1.slot idx = some
      { handler := handler_cb, threshold := ms / hw.tick_ms, arg_1_p := arg_1_p,
        arg_2_p := arg_2_p, mode := mode, is_simple := false, is_run := true,
        is_waiting := false, counter := 0 } := by
    unfold World.slot
    rw [h1]
    simp [hlt]
  obtain ⟨w2, hw2, -⟩ := is_run_spec inst hw w1 idx p _ hhw hok (by simp [h1, hlen]) hs1 hp
  refine ⟨w1, w2, hw1, hs1, ?_, ?_, by simpa [wrap32] using hw2⟩
  · intro j hj
    unfold World.slot
    rw [h1, List.getElem?_set]
    simp [Ne.symm hj]
  · intro hg
    simp [h2, hg]

theorem C7_start_arms_slot_witness :
    ∃ w1 w2, swtimers_start test_inst 1 20 SWTIMERS_MODE_PERIODIC_FROM_LOOP 7 8 9
        { timers := [zero_timer, { zero_timer with handler := 5, is_waiting := true, counter := 2 },
            zero_timer],
          hw_is_started := false, trace := [] } = some w1 ∧
      w1.slot 1 = some
        { handler := 7, threshold := 20 / test_hw_interface.tick_ms, arg_1_p := 8,
          arg_2_p := 9, mode := SWTIMERS_MODE_PERIODIC_FROM_LOOP, is_simple := false,
          is_run := true, is_waiting := false, counter := 0 } ∧
      (∀ j, j ≠ 1 → w1.slot j = World.slot
        { timers := [zero_timer, { zero_timer with handler := 5, is_waiting := true, counter := 2 },
            zero_timer],
          hw_is_started := false, trace := [] } j) ∧
      (test_hw_interface.hw_is_started_cb = true → w1.hw_is_started = true) ∧
      swtimers_is_run test_inst 1 1 w1 = some (true, 0, w2) :=
  C7_start_arms_slot test_inst test_hw_interface _ 1 1 20 SWTIMERS_MODE_PERIODIC_FROM_LOOP 7 8 9
    (by decide) (by decide) (by decide)

/-- C8: for every slot, mode and ms, a slot started with threshold `T = ms ÷ tick_ms` expires
during exactly the `max(1, T)`-th `swtimers_isr` call after the start and not earlier (before
it the slot runs and counts and nothing is dispatched); in particular with `ms = 0` it fires at
the next tick. -/
theorem C8_expiry_tick (env : Handlers) (inst : swtimers_instance_t)
    (hw : swtimers_hw_interface_t) (w : World) (idx ms : Nat) (mode : swtimers_mode_t)
    (is_simple : Bool) (handler_cb handler_simple_cb arg_1_p arg_2_p : Nat)
    (hq : Quiet env) (hinit : Initialized inst hw w) (hidx : idx < inst.num)
    (hms : ms < 4294967296) :
    ∃ w1, swtimers_do_start inst idx ms mode is_simple handler_cb handler_simple_cb
        arg_1_p arg_2_p w = some w1 ∧
      (∀ k, k < max 1 (ms / hw.tick_ms) → ∃ wk t, isr_n env inst k w1 = some wk ∧
        wk.slot idx = some t ∧ t.is_run = true ∧ t.is_waiting = false ∧ t.counter = k ∧
        calls_of idx wk.trace = calls_of idx w.trace ∧
        (expires t = true ↔ k + 1 = max 1 (ms / hw.tick_ms))) ∧
      (∃ wM t, isr_n env inst (max 1 (ms / hw.tick_ms)) w1 = some wM ∧
        wM.slot idx = some t ∧ t.is_run = !is_single mode ∧
        t.is_waiting =
          (decide ((if is_simple then handler_simple_cb else handler_cb) ≠ 0) &&
            !is_from_isr mode) ∧
        t.counter = (if is_single mode then max 1 (ms / hw.tick_ms) else 0) ∧
        calls_of idx wM.trace = calls_of idx w.trace ++
          (if (if is_simple then handler_simple_cb else handler_cb) ≠ 0 ∧
              is_from_isr mode = true then
            [if is_simple then Event.call_simple handler_simple_cb idx
             else Event.call_full handler_cb idx arg_1_p arg_2_p]
           else [])) := by
  obtain ⟨hhw, hok, -, hlen⟩ := hinit
  obtain ⟨t, ht⟩ := slot_of_lt w (show idx < w.timers.length by omega)
  have hlt := slot_lt ht
  obtain ⟨w1, hw1, h1, -, hc1⟩ := do_start_spec inst hw w idx ms mode is_simple handler_cb
    handler_simple_cb arg_1_p arg_2_p t hhw hok hlen ht
  have hs1 : w1.timers[idx]? = some
      { handler := if is_simple then handler_simple_cb else handler_cb,
        threshold := ms / hw.tick_ms, arg_1_p := arg_1_p, arg_2_p := arg_2_p, mode := mode,
        is_simple := is_simple, is_run := true, is_waiting := false, counter := 0 } := by
    rw [h1]
    simp [hlt]
  have hlen1 : w1.timers.length = inst.num := by simp [h1, hlen]
  have hT : ms / hw.tick_ms ≤ ms := Nat.div_le_self _ _
  have hcw : calls_of idx w1.trace = calls_of idx w.trace := by
    rw [← calls_of_calls, hc1, calls_of_calls]
  refine ⟨w1, hw1, ?_, ?_⟩
  · intro k hk
    obtain ⟨wk, hwk, h2, -, h3⟩ := isr_n_spec env hq inst w1 hlen1 idx _ hs1 k
    rw [counting_no_calls idx _ rfl rfl (by simp only; omega) k (by simp only; omega)] at h3
    refine ⟨wk,
      { handler := if is_simple then handler_simple_cb else handler_cb,
        threshold := ms / hw.tick_ms, arg_1_p := arg_1_p, arg_2_p := arg_2_p, mode := mode,
        is_simple := is_simple, is_run := true, is_waiting := false, counter := k },
      hwk, ?_, rfl, rfl, rfl, by simpa [hcw] using h3, ?_⟩
    · unfold World.slot
      rw [h2, List.getElem?_map, hs1, Option.map_some',
        tick_iter_counting _ rfl (by simp only; omega) k (by simp only; omega)]
      simp
    · have hw : wrap32 (k + 1) = k + 1 := wrap32_of_lt (by omega)
      simp only [expires, hw, Bool.true_and, Bool.not_eq_true', decide_eq_false_iff_not]
      omega
  · obtain ⟨wM, hwM, h2, -, h3⟩ := isr_n_spec env hq inst w1 hlen1 idx _ hs1
      (max 1 (ms / hw.tick_ms))
    have e1 := expiry_state
      { handler := if is_simple then handler_simple_cb else handler_cb,
        threshold := ms / hw.tick_ms, arg_1_p := arg_1_p, arg_2_p := arg_2_p, mode := mode,
        is_simple := is_simple, is_run := true, is_waiting := false, counter := 0 }
      rfl rfl (by simp only; omega)
    have e2 := expiry_calls idx
      { handler := if is_simple then handler_simple_cb else handler_cb,
        threshold := ms / hw.tick_ms, arg_1_p := arg_1_p, arg_2_p := arg_2_p, mode := mode,
        is_simple := is_simple, is_run := true, is_waiting := false, counter := 0 }
      rfl rfl (by simp only; omega)
    simp only at e1 e2
    rw [e2, hcw] at h3
    refine ⟨wM,
      { handler := if is_simple then handler_simple_cb else handler_cb,
        threshold := ms / hw.tick_ms, arg_1_p := arg_1_p, arg_2_p := arg_2_p, mode := mode,
        is_simple := is_simple,
        is_run := !is_single mode,
        is_waiting :=
          if (if is_simple then handler_simple_cb else handler_cb) ≠ 0 ∧
            is_from_isr mode = false then true else false,
        counter := if is_single mode then max 1 (ms / hw.tick_ms) else 0 },
      hwM, ?_, rfl, ?_, rfl, ?_⟩
    · unfold World.slot
      rw [h2, List.getElem?_map, hs1, Option.map_some', e1]
    · cases is_simple <;> by_cases hh : handler_cb = 0 <;> by_cases hh2 : handler_simple_cb = 0 <;>
        cases is_from_isr mode <;> simp [hh, hh2]
    · rw [h3]
      cases is_simple <;> simp [dispatch]

theorem C8_expiry_tick_witness :
    ∃ w1, swtimers_do_start test_inst 0 0 SWTIMERS_MODE_SINGLE_FROM_ISR false 7 0 1 1 test_world
        = some w1 ∧
      (∀ k, k < max 1 (0 / test_hw_interface.tick_ms) → ∃ wk t,
        isr_n idle_handlers test_inst k w1 = some wk ∧
        wk.slot 0 = some t ∧ t.is_run = true ∧ t.is_waiting = false ∧ t.counter = k ∧
        calls_of 0 wk.trace = calls_of 0 test_world.trace ∧
        (expires t = true ↔ k + 1 = max 1 (0 / test_hw_interface.tick_ms))) ∧
      (∃ wM t, isr_n idle_handlers test_inst (max 1 (0 / test_hw_interface.tick_ms)) w1 = some wM ∧
        wM.slot 0 = some t ∧ t.is_run = !is_single SWTIMERS_MODE_SINGLE_FROM_ISR ∧
        t.is_waiting =
          (decide ((if false then 0 else 7) ≠ 0) && !is_from_isr SWTIMERS_MODE_SINGLE_FROM_ISR) ∧
        t.counter = (if is_single SWTIMERS_MODE_SINGLE_FROM_ISR then
          max 1 (0 / test_hw_interface.tick_ms) else 0) ∧
        calls_of 0 wM.trace = calls_of 0 test_world.trace ++
          (if (if false then 0 else 7) ≠ 0 ∧
              is_from_isr SWTIMERS_MODE_SINGLE_FROM_ISR = true then
            [if false then Event.call_simple 0 0 else Event.call_full 7 0 1 1]
           else [])) :=
  C8_expiry_tick idle_handlers test_inst test_hw_interface test_world 0 0
    SWTIMERS_MODE_SINGLE_FROM_ISR false 7 0 1 1 quiet_idle (by decide) (by decide) (by decide)

/-- C9: `swtimers_stop` clears a pending deferred callback and is idempotent: after
`swtimers_stop(idx)` (in particular when the slot had expired in the ISR and was waiting for
its callback) the following `swtimers_task` does not invoke the handler of slot `idx`, and a
second `swtimers_stop(idx)` leaves the slots and the hardware timer exactly as the first. -/
theorem C9_stop_clears_pending_and_idempotent (env : Handlers) (inst : swtimers_instance_t)
    (hw : swtimers_hw_interface_t) (w : World) (idx : Nat)
    (hq : Quiet env) (hinit : Initialized inst hw w) (hidx : idx < inst.num) :
    ∃ w1 w2 w3, swtimers_stop inst idx w = some w1 ∧
      swtimers_task env inst w1 = some w2 ∧
      calls_of idx w2.trace = calls_of idx w.trace ∧
      swtimers_stop inst idx w1 = some w3 ∧
      w3.timers = w1.timers ∧ w3.hw_is_started = w1.hw_is_started := by
  obtain ⟨hhw, hok, hnum, hlen⟩ := hinit
  obtain ⟨t, ht⟩ := slot_of_lt w (show idx < w.timers.length by omega)
  have hlt := slot_lt ht
  obtain ⟨w1, hw1, h1, h1h, h1c⟩ := stop_spec inst hw w idx t hhw hok hlen ht
  have hlen1 : w1.timers.length = inst.num := by simp [h1, hlen]
  have hs1 : w1.slot idx = some { t with is_run := false, is_waiting := false, counter := 0 } := by
    unfold World.slot
    rw [h1]
    simp [hlt]
  obtain ⟨w2, hw2, -, -, h2c⟩ := task_spec env hq inst hw w1 hhw hok hnum hlen1
  obtain ⟨w3, hw3, h3, h3h, -⟩ := stop_spec inst hw w1 idx _ hhw hok hlen1 hs1
  refine ⟨w1, w2, w3, hw1, hw2, ?_, hw3, ?_, ?_⟩
  · have := congrArg (calls_of idx) h2c
    rw [calls_of_calls, calls_of_append, calls_of_calls,
      calls_of_slot_calls task_calls idx (calls_of_task_calls idx) w1.timers _ hs1] at this
    rw [this, ← calls_of_calls, h1c, calls_of_calls]
    simp [task_calls]
  · rw [h3]
    exact set_slot_self hs1
  · have e : w1.timers.set idx
        { ({ t with is_run := false, is_waiting := false, counter := 0 } :
            swtimers_timer_instance_t) with
          is_run := false, is_waiting := false, counter := 0 } = w1.timers :=
      set_slot_self hs1
    rw [h3h, e, h1h, ← h1]
    cases hw.hw_is_started_cb <;> cases w.hw_is_started <;> cases any_run w1.timers <;> rfl

theorem C9_stop_clears_pending_and_idempotent_witness :
    ∃ w1 w2 w3, swtimers_stop test_inst 1
        { timers := [zero_timer, { zero_timer with handler := 7, is_waiting := true, counter := 2 },
            zero_timer],
          hw_is_started := true, trace := [] } = some w1 ∧
      swtimers_task idle_handlers test_inst w1 = some w2 ∧
      calls_of 1 w2.trace = calls_of 1 [] ∧
      swtimers_stop test_inst 1 w1 = some w3 ∧
      w3.timers = w1.timers ∧ w3.hw_is_started = w1.hw_is_started :=
  C9_stop_clears_pending_and_idempotent idle_handlers test_inst test_hw_interface
    { timers := [zero_timer, { zero_timer with handler := 7, is_waiting := true, counter := 2 },
        zero_timer],
      hw_is_started := true, trace := [] } 1 quiet_idle (by decide) (by decide)

/-- C10: for handlers that do not call back into the driver, one `swtimers_task` pass invokes
the handler of exactly those slots that have `is_waiting` set and a non-NULL handler, each
exactly once, in strictly increasing index order, with the stored `(idx, arg1, arg2)` (a simple
handler without arguments); after the pass no slot has `is_waiting` set; slots that were not
waiting are left unchanged and their handlers are not called. -/
theorem C10_task_pass (env : Handlers) (inst : swtimers_instance_t)
    (hw : swtimers_hw_interface_t) (w : World) (hq : Quiet env) (hinit : Initialized inst hw w) :
    ∃ w', swtimers_task env inst w = some w' ∧
      calls w'.trace = calls w.trace ++
        (List.range inst.num).flatMap (fun i =>
          match w.timers[i]? with
          | some t =>
            if t.is_waiting = true ∧ t.handler ≠ 0 then
              [if t.is_simple then Event.call_simple t.handler i
               else Event.call_full t.handler i t.arg_1_p t.arg_2_p]
            else []
          | none => []) ∧
      ((slot_calls task_calls w.timers inst.num).map Event.slot_idx).Pairwise
        (fun a b => a < b) ∧
      (∀ i t, w'.slot i = some t → t.is_waiting = false) ∧
      (∀ i t, w.slot i = some t → w'.slot i = some { t with is_waiting := false }) ∧
      (∀ i t, w.slot i = some t → t.is_waiting = false →
        w'.slot i = some t ∧ calls_of i w'.trace = calls_of i w.trace) := by
  obtain ⟨hhw, hok, hnum, hlen⟩ := hinit
  obtain ⟨w', hw', h1, -, h2⟩ := task_spec env hq inst hw w hhw hok hnum hlen
  have hmap : ∀ i t, w.slot i = some t → w'.slot i = some { t with is_waiting := false } := by
    intro i t ht
    have ht' : w.timers[i]? = some t := ht
    unfold World.slot
    rw [h1, List.getElem?_map, ht']
    rfl
  refine ⟨w', hw', h2, (task_calls_sorted w.timers inst.num).1, ?_, hmap, ?_⟩
  · intro i t ht
    have hlt : i < w.timers.length := by
      have := slot_lt ht
      simpa [h1] using this
    obtain ⟨t0, ht0⟩ := slot_of_lt w hlt
    have := hmap i t0 ht0
    rw [ht] at this
    cases this
    rfl
  · intro i t ht hwt
    constructor
    · rw [hmap i t ht]
      cases t
      simp_all
    · have := congrArg (calls_of i) h2
      rw [calls_of_calls, calls_of_append, calls_of_calls,
        calls_of_slot_calls task_calls i (calls_of_task_calls i) w.timers _ ht] at this
      rw [this]
      simp [task_calls, hwt]

theorem C10_task_pass_witness :
    ∃ w', swtimers_task idle_handlers test_inst
        { timers := [{ zero_timer with handler := 5, is_waiting := true, arg_1_p := 3 },
            { zero_timer with handler := 7, is_run := true, counter := 2 },
            { zero_timer with handler := 9, is_waiting := true, is_simple := true }],
          hw_is_started := true, trace := [] } = some w' ∧
      calls w'.trace = calls [] ++
        (List.range test_inst.num).flatMap (fun i =>
          match ([{ zero_timer with handler := 5, is_waiting := true, arg_1_p := 3 },
            { zero_timer with handler := 7, is_run := true, counter := 2 },
            { zero_timer with handler := 9, is_waiting := true, is_simple := true }] :
              List swtimers_timer_instance_t)[i]? with
          | some t =>
            if t.is_waiting = true ∧ t.handler ≠ 0 then
              [if t.is_simple then Event.call_simple t.handler i
               else Event.call_full t.handler i t.arg_1_p t.arg_2_p]
            else []
          | none => []) ∧
      ((slot_calls task_calls
          [{ zero_timer with handler := 5, is_waiting := true, arg_1_p := 3 },
            { zero_timer with handler := 7, is_run := true, counter := 2 },
            { zero_timer with handler := 9, is_waiting := true, is_simple := true }]
          test_inst.num).map Event.slot_idx).Pairwise (fun a b => a < b) ∧
      (∀ i t, w'.slot i = some t → t.is_waiting = false) ∧
      (∀ i t, World.slot
          { timers := [{ zero_timer with handler := 5, is_waiting := true, arg_1_p := 3 },
              { zero_timer with handler := 7, is_run := true, counter := 2 },
              { zero_timer with handler := 9, is_waiting := true, is_simple := true }],
            hw_is_started := true, trace := [] } i = some t →
        w'.slot i = some { t with is_waiting := false }) ∧
      (∀ i t, World.slot
          { timers := [{ zero_timer with handler := 5, is_waiting := true, arg_1_p := 3 },
              { zero_timer with handler := 7, is_run := true, counter := 2 },
              { zero_timer with handler := 9, is_waiting := true, is_simple := true }],
            hw_is_started := true, trace := [] } i = some t → t.is_waiting = false →
        w'.slot i = some t ∧ calls_of i w'.trace = calls_of i []) :=
  C10_task_pass idle_handlers test_inst test_hw_interface _ quiet_idle (by decide)

/-- C11: for a slot armed with `swtimers_start_no_handler(idx, ms)` (or any single-shot start
with a NULL handler), `swtimers_is_run(idx)` is true until the expiring `swtimers_isr` call
(the `max(1, T)`-th, `T = ms ÷ tick_ms`) and is `(false, 0)` right after it, without any
`swtimers_task` in between; `is_waiting` is never set for the slot and neither
`swtimers_isr` nor `swtimers_task` dispatches a callback for it. -/
theorem C11_no_handler_polling (env : Handlers) (inst : swtimers_instance_t)
    (hw : swtimers_hw_interface_t) (w : World) (idx p ms : Nat) (mode : swtimers_mode_t)
    (is_simple : Bool) (handler_cb handler_simple_cb arg_1_p arg_2_p n : Nat)
    (hq : Quiet env) (hinit : Initialized inst hw w) (hidx : idx < inst.num) (hp : p ≠ 0)
    (hms : ms < 4294967296) (hsingle : is_single mode = true)
    (hnull : (if is_simple then handler_simple_cb else handler_cb) = 0) :
    ∃ w1 w2 w3 q t,
      swtimers_do_start inst idx ms mode is_simple handler_cb handler_simple_cb
        arg_1_p arg_2_p w = some w1 ∧
      isr_n env inst n w1 = some w2 ∧
      w2.slot idx = some t ∧ t.is_waiting = false ∧
      swtimers_is_run inst idx p w2 =
        some (decide (n < max 1 (ms / hw.tick_ms)),
          if n < max 1 (ms / hw.tick_ms) then n * hw.tick_ms else 0, q) ∧
      calls_of idx w2.trace = calls_of idx w.trace ∧
      swtimers_task env inst w2 = some w3 ∧
      calls_of idx w3.trace = calls_of idx w.trace := by
  obtain ⟨hhw, hok, hnum, hlen⟩ := hinit
  obtain ⟨t0, ht0⟩ := slot_of_lt w (show idx < w.timers.length by omega)
  have hlt := slot_lt ht0
  obtain ⟨w1, hw1, h1, -, hc1⟩ := do_start_spec inst hw w idx ms mode is_simple handler_cb
    handler_simple_cb arg_1_p arg_2_p t0 hhw hok hlen ht0
  rw [hnull] at h1
  have hs1 : w1.timers[idx]? = some
      { handler := 0, threshold := ms / hw.tick_ms, arg_1_p := arg_1_p, arg_2_p := arg_2_p,
        mode := mode, is_simple := is_simple, is_run := true, is_waiting := false,
        counter := 0 } := by
    rw [h1]
    simp [hlt]
  have hlen1 : w1.timers.length = inst.num := by simp [h1, hlen]
  have hT : ms / hw.tick_ms ≤ ms := Nat.div_le_self _ _
  have hcw : calls_of idx w1.trace = calls_of idx w.trace := by
    rw [← calls_of_calls, hc1, calls_of_calls]
  obtain ⟨w2, hw2, h2, -, h3⟩ := isr_n_spec env hq inst w1 hlen1 idx _ hs1 n
  rw [no_handler_no_calls idx _ rfl n, List.append_nil, hcw] at h3
  have hlen2 : w2.timers.length = inst.num := by simp [h2, hlen1]
  obtain ⟨w3, hw3, -, -, h4⟩ := task_spec env hq inst hw w2 hhw hok hnum hlen2
  have key : ∃ t, w2.slot idx = some t ∧ t.is_waiting = false ∧ t.handler = 0 ∧
      t.is_run = decide (n < max 1 (ms / hw.tick_ms)) ∧
      (n < max 1 (ms / hw.tick_ms) → t.counter = n) := by
    unfold World.slot
    rw [h2, List.getElem?_map, hs1, Option.map_some']
    by_cases hn : n < max 1 (ms / hw.tick_ms)
    · rw [tick_iter_counting _ rfl (by simp only; omega) n (by simp only; omega)]
      exact ⟨_, rfl, rfl, rfl, by simp [hn], fun _ => by simp⟩
    · obtain ⟨d, hd⟩ : ∃ d, n = d + max 1 (ms / hw.tick_ms) :=
        ⟨n - max 1 (ms / hw.tick_ms), by omega⟩
      have e1 := expiry_state
        { handler := 0, threshold := ms / hw.tick_ms, arg_1_p := arg_1_p, arg_2_p := arg_2_p,
          mode := mode, is_simple := is_simple, is_run := true, is_waiting := false,
          counter := 0 }
        rfl rfl (by simp only; omega)
      simp only [hsingle, Bool.not_true, ne_eq, not_true_eq_false, false_and, if_false,
        if_true] at e1
      have hval : tick^[n]
          { handler := 0, threshold := ms / hw.tick_ms, arg_1_p := arg_1_p, arg_2_p := arg_2_p,
            mode := mode, is_simple := is_simple, is_run := true, is_waiting := false,
            counter := 0 } =
          { handler := 0, threshold := ms / hw.tick_ms, arg_1_p := arg_1_p, arg_2_p := arg_2_p,
            mode := mode, is_simple := is_simple, is_run := false, is_waiting := false,
            counter := max 1 (ms / hw.tick_ms) } := by
        rw [hd, Function.iterate_add_apply, e1, tick_iter_stopped _ rfl]
      rw [hval]
      exact ⟨_, rfl, rfl, rfl, by simp [hn], fun h => absurd h hn⟩
  obtain ⟨t, hst, hwt, hht, hrt, hct⟩ := key
  obtain ⟨q, hq2, -⟩ := is_run_spec inst hw w2 idx p t hhw hok hlen2 hst hp
  refine ⟨w1, w2, w3, q, t, hw1, hw2, hst, hwt, ?_, h3, hw3, ?_⟩
  · rw [hq2, hwt, hrt]
    by_cases hn : n < max 1 (ms / hw.tick_ms)
    · have hmul : n * hw.tick_ms < 4294967296 := by
        have k1 := Nat.div_mul_le_self ms hw.tick_ms
        rcases Nat.eq_zero_or_pos n with h0 | h0
        · subst h0; simp
        · have k2 : n * hw.tick_ms ≤ ms / hw.tick_ms * hw.tick_ms :=
            Nat.mul_le_mul_right _ (by omega)
          omega
      simp [hn, hct hn, wrap32_of_lt hmul]
    · simp [hn]
  · have := congrArg (calls_of idx) h4
    rw [calls_of_calls, calls_of_append, calls_of_calls,
      calls_of_slot_calls task_calls idx (calls_of_task_calls idx) w2.timers _ hst] at this
    rw [this, h3]
    simp [task_calls, hwt]

theorem C11_no_handler_polling_witness :
    ∃ w1 w2 w3 q t,
      swtimers_start_no_handler test_inst 0 2 test_world = some w1 ∧
      isr_n idle_handlers test_inst 2 w1 = some w2 ∧
      w2.slot 0 = some t ∧ t.is_waiting = false ∧
      swtimers_is_run test_inst 0 1 w2 =
        some (decide (2 < max 1 (2 / test_hw_interface.tick_ms)),
          if 2 < max 1 (2 / test_hw_interface.tick_ms) then 2 * test_hw_interface.tick_ms
          else 0, q) ∧
      calls_of 0 w2.trace = calls_of 0 test_world.trace ∧
      swtimers_task idle_handlers test_inst w2 = some w3 ∧
      calls_of 0 w3.trace = calls_of 0 test_world.trace :=
  C11_no_handler_polling idle_handlers test_inst test_hw_interface test_world 0 1 2
    SWTIMERS_MODE_SINGLE_FROM_LOOP true 0 0 0 0 2 quiet_idle (by decide) (by decide)
    (by decide) (by decide) (by decide) (by decide)

/-- C12: after `swtimers_init` with valid arguments, whatever the table and the hardware timer
held before, every slot `idx < n` reports `swtimers_is_run = (false, 0)`, no slot has a
pending callback (a `swtimers_task` pass calls no handler), and with a gated hardware
interface the hardware timer is stopped. -/
theorem C12_init_state (env : Handlers) (hw : swtimers_hw_interface_t) (num : Nat) (w0 : World)
    (p : Nat) (hq : Quiet env) (hok : hw_ok hw) (hnum : 0 < num)
    (hlen : w0.timers.length = num) (hp : p ≠ 0) :
    ∃ inst w1 w2, swtimers_init (some hw) num w0 = some (inst, w1) ∧
      inst = { hw_p := some hw, num := num } ∧
      (∀ idx, idx < num → ∃ q, swtimers_is_run inst idx p w1 = some (false, 0, q)) ∧
      (∀ idx t, w1.slot idx = some t → t.is_waiting = false) ∧
      (hw.hw_is_started_cb = true → w1.hw_is_started = false) ∧
      swtimers_task env inst w1 = some w2 ∧ calls w2.trace = calls w1.trace := by
  obtain ⟨inst, w1, hi⟩ := init_ok hw num w0 hok hnum hlen
  obtain ⟨he, -, -, h1, h2, -⟩ := init_spec hw num w0 inst w1 hlen hi
  subst he
  have hlen1 : w1.timers.length = num := by simp [h1]
  have hslot : ∀ idx t, w1.slot idx = some t → t = zero_timer := by
    intro idx t ht
    unfold World.slot at ht
    rw [h1, List.getElem?_replicate] at ht
    split at ht
    · cases ht; rfl
    · cases ht
  obtain ⟨w2, hw2, -, -, h3⟩ := task_spec env hq { hw_p := some hw, num := num } hw w1 rfl hok
    hnum hlen1
  refine ⟨_, w1, w2, hi, rfl, ?_, ?_, ?_, hw2, ?_⟩
  · intro idx hidx
    obtain ⟨t, ht⟩ := slot_of_lt w1 (show idx < w1.timers.length by omega)
    obtain ⟨q, hq1, -⟩ := is_run_spec { hw_p := some hw, num := num } hw w1 idx p t rfl hok
      hlen1 ht hp
    rw [hslot idx t ht] at hq1
    exact ⟨q, by simpa [zero_timer] using hq1⟩
  · intro idx t ht
    rw [hslot idx t ht]
    rfl
  · intro hg
    simp [h2, hg]
  · rw [h3]
    have : slot_calls task_calls w1.timers num = [] := by
      unfold slot_calls
      rw [List.flatMap_eq_nil_iff]
      intro i _
      cases hti : w1.timers[i]? with
      | none => rfl
      | some t =>
        have := hslot i t hti
        subst this
        simp [task_calls, zero_timer]
    simp [this]

theorem C12_init_state_witness :
    ∃ inst w1 w2, swtimers_init (some test_hw_interface) 3
        { timers := [{ zero_timer with handler := 5, is_waiting := true, counter := 3 },
            { zero_timer with is_run := true, threshold := 9 }, zero_timer],
          hw_is_started := true, trace := [] } = some (inst, w1) ∧
      inst = { hw_p := some test_hw_interface, num := 3 } ∧
      (∀ idx, idx < 3 → ∃ q, swtimers_is_run inst idx 1 w1 = some (false, 0, q)) ∧
      (∀ idx t, w1.slot idx = some t → t.is_waiting = false) ∧
      (test_hw_interface.hw_is_started_cb = true → w1.hw_is_started = false) ∧
      swtimers_task idle_handlers inst w1 = some w2 ∧ calls w2.trace = calls w1.trace :=
  C12_init_state idle_handlers test_hw_interface 3 _ 1 quiet_idle (by decide) (by decide)
    (by decide) (by decide)

/-- C13: `swtimers_deinit` is idempotent and safe on an uninitialized instance: with
`num == 0` it returns without changing anything and without calling a hardware callback; on an
initialized instance it stops all slots, stops the (gated) hardware timer, calls no handler and
zeroes the instance and the table, so that a second deinit changes nothing. -/
theorem C13_deinit (inst0 inst : swtimers_instance_t) (hw : swtimers_hw_interface_t)
    (w0 w : World) (h0 : inst0.num = 0) (hinit : Initialized inst hw w) :
    swtimers_deinit inst0 w0 = some (inst0, w0) ∧
    ∃ w1, swtimers_deinit inst w = some ({ hw_p := none, num := 0 }, w1) ∧
      w1.timers = List.replicate inst.num zero_timer ∧
      (hw.hw_is_started_cb = true → w1.hw_is_started = false) ∧
      calls w1.trace = calls w.trace ∧
      swtimers_deinit { hw_p := none, num := 0 } w1 = some ({ hw_p := none, num := 0 }, w1) := by
  obtain ⟨hhw, hok, hnum, hlen⟩ := hinit
  constructor
  · simp [swtimers_deinit, h0]
  · obtain ⟨v, hv, h1, h2, h3⟩ := stop_all_spec inst hw w hhw hok hnum hlen
    have hlenv : v.timers.length = inst.num := by simp [h1, hlen]
    obtain ⟨v2, hv2, k1, k2, k3⟩ := stop_hw_timer_spec inst hw v hhw hok hlenv
    have hlenv2 : v2.timers.length = inst.num := by rw [k1, hlenv]
    have hz : List.replicate inst.num zero_timer ++ List.drop inst.num v2.timers =
        List.replicate inst.num zero_timer := by
      rw [List.drop_of_length_le (by omega)]
      simp
    refine ⟨{ v2 with timers := List.replicate inst.num zero_timer }, ?_, rfl, ?_,
      by rw [← h3, ← k3], by simp [swtimers_deinit]⟩
    · simp [swtimers_deinit, show inst.num ≠ 0 by omega, hv, hv2, hlenv2, hz]
    · intro hg
      simp [k2, h2, hg]

theorem C13_deinit_witness :
    swtimers_deinit { hw_p := none, num := 0 } test_world =
      some ({ hw_p := none, num := 0 }, test_world) ∧
    ∃ w1, swtimers_deinit test_inst
        { timers := [{ zero_timer with handler := 5, is_waiting := true, counter := 3 },
            { zero_timer with is_run := true, threshold := 9 }, zero_timer],
          hw_is_started := true, trace := [] } = some ({ hw_p := none, num := 0 }, w1) ∧
      w1.timers = List.replicate test_inst.num zero_timer ∧
      (test_hw_interface.hw_is_started_cb = true → w1.hw_is_started = false) ∧
      calls w1.trace = calls [] ∧
      swtimers_deinit { hw_p := none, num := 0 } w1 = some ({ hw_p := none, num := 0 }, w1) :=
  C13_deinit { hw_p := none, num := 0 } test_inst test_hw_interface test_world _ (by decide)
    (by decide)

/-- C14: in every state reachable through init, start*, stop, stop_all, task and isr
(handlers not calling back into the driver), a slot has `is_run` and `is_waiting` set at the
same time only if it is a PeriodicFromLoop slot with a handler, which the ISR has re-armed; no
single-shot slot and no ISR-mode slot ever has both flags set. -/
theorem C14_run_and_waiting (env : Handlers) (hw : swtimers_hw_interface_t) (num : Nat)
    (w0 : World) (inst : swtimers_instance_t) (w1 : World) (ops : List Op) (w2 : World)
    (hq : Quiet env) (hlen : w0.timers.length = num)
    (hinit : swtimers_init (some hw) num w0 = some (inst, w1))
    (hrun : run env inst ops w1 = some w2) :
    ∀ j t, w2.slot j = some t → t.is_run = true → t.is_waiting = true →
      t.mode = SWTIMERS_MODE_PERIODIC_FROM_LOOP ∧ t.handler ≠ 0 := by
  obtain ⟨hi, hok, hnum, h1, -, -⟩ := init_spec hw num w0 inst w1 hlen hinit
  subst hi
  have key := run_preserves env { hw_p := some hw, num := num }
    (fun w => w.timers.length = num ∧
      ∀ (j : Nat) (t : swtimers_timer_instance_t), w.timers[j]? = some t → t.is_run = true →
        t.is_waiting = true → t.mode = SWTIMERS_MODE_PERIODIC_FROM_LOOP ∧ t.handler ≠ 0)
    (by
      intro op w w' ⟨hl, hP⟩ h
      obtain ⟨hl', hs⟩ := exec_slots env hq { hw_p := some hw, num := num } hw rfl hok hnum op
        w w' hl h
      refine ⟨hl', ?_⟩
      intro j t' hj hr hwt
      obtain ⟨t, ht, hc⟩ := hs j t' hj
      rcases hc with rfl | ⟨-, b⟩ | ⟨a, -⟩ | rfl | rfl
      · exact hP j t' ht hr hwt
      · rw [b] at hwt
        cases hwt
      · rw [a] at hr
        cases hr
      · exact tick_both_flags t (hP j t ht) hr hwt
      · cases hwt)
    ops w1 w2
    ⟨by simp [h1], by
      intro j t ht hr _
      rw [h1, List.getElem?_replicate] at ht
      split at ht
      · cases ht
        cases hr
      · cases ht⟩
    hrun
  exact fun j t ht => key.2 j t ht

theorem C14_run_and_waiting_witness :
    (swtimers_init (some test_hw_interface) 1
        { timers := [zero_timer], hw_is_started := true, trace := [] } =
      some ({ hw_p := some test_hw_interface, num := 1 },
        { timers := [zero_timer], hw_is_started := false,
          trace := [Event.isr_disable, Event.wr 0 Field.is_run, Event.wr 0 Field.is_waiting,
            Event.wr 0 Field.counter, Event.isr_enable, Event.hw_is_started,
            Event.rd 0 Field.is_run, Event.hw_stop, Event.hw_is_started] }) ∧
      run idle_handlers { hw_p := some test_hw_interface, num := 1 }
        [Op.start 0 1 SWTIMERS_MODE_PERIODIC_FROM_LOOP 7 0 0, Op.isr]
        { timers := [zero_timer], hw_is_started := false,
          trace := [Event.isr_disable, Event.wr 0 Field.is_run, Event.wr 0 Field.is_waiting,
            Event.wr 0 Field.counter, Event.isr_enable, Event.hw_is_started,
            Event.rd 0 Field.is_run, Event.hw_stop, Event.hw_is_started] } =
      some
        { timers := [{ zero_timer with
            handler := 7, threshold := 1, mode := SWTIMERS_MODE_PERIODIC_FROM_LOOP,
            is_run := true, is_waiting := true }],
          hw_is_started := true,
          trace := [Event.isr_disable, Event.wr 0 Field.is_run, Event.wr 0 Field.is_waiting,
            Event.wr 0 Field.counter, Event.isr_enable, Event.hw_is_started,
            Event.rd 0 Field.is_run, Event.hw_stop, Event.hw_is_started, Event.isr_disable,
            Event.wr 0 Field.is_run, Event.wr 0 Field.is_waiting, Event.wr 0 Field.counter,
            Event.isr_enable, Event.hw_is_started, Event.isr_disable, Event.wr 0 Field.is_run,
            Event.isr_enable, Event.hw_is_started, Event.hw_start, Event.rd 0 Field.is_run,
            Event.rd 0 Field.counter, Event.wr 0 Field.counter, Event.rd 0 Field.counter,
            Event.wr 0 Field.counter, Event.wr 0 Field.is_waiting] }) ∧
    ({ zero_timer with
        handler := 7, threshold := 1, mode := SWTIMERS_MODE_PERIODIC_FROM_LOOP,
        is_run := true, is_waiting := true } : swtimers_timer_instance_t).mode =
      SWTIMERS_MODE_PERIODIC_FROM_LOOP ∧
    ({ zero_timer with
        handler := 7, threshold := 1, mode := SWTIMERS_MODE_PERIODIC_FROM_LOOP,
        is_run := true, is_waiting := true } : swtimers_timer_instance_t).handler ≠ 0 :=
  and_of_imp (by decide) fun h =>
    C14_run_and_waiting idle_handlers test_hw_interface 1 _ _ _ _ _ quiet_idle (by decide)
      h.1 h.2 0
      { zero_timer with
        handler := 7, threshold := 1, mode := SWTIMERS_MODE_PERIODIC_FROM_LOOP,
        is_run := true, is_waiting := true }
      (by decide) rfl rfl

/-- C15 fails on `swtimers_stop` while the gated hardware timer is started: after the
critical section is left (`isr_enable`), `swtimers_stop_hw_timer` reads `is_run` of the slots
with interrupts enabled, so the trace of the call does not keep the discipline.  With the
hardware timer stopped the scan is not reached and the trace keeps it. -/
theorem C15_stop_reads_outside_critical_section :
    ((swtimers_stop test_inst 0 { test_world with hw_is_started := true }).map fun v => v.trace) =
      some [Event.isr_disable, Event.wr 0 Field.is_run, Event.wr 0 Field.is_waiting,
        Event.wr 0 Field.counter, Event.isr_enable, Event.hw_is_started,
        Event.rd 0 Field.is_run, Event.rd 1 Field.is_run, Event.rd 2 Field.is_run,
        Event.hw_stop] ∧
    ((swtimers_stop test_inst 0 { test_world with hw_is_started := true }).map fun v =>
      guarded false v.trace) = some false ∧
    ((swtimers_stop test_inst 0 test_world).map fun v => guarded false v.trace) = some true := by
  decide

/-- C16: the event mask of a `buttons_task` pass never holds Pressed with Released, Released
with Hold, Released with Double, or Hold with Double.  In the code as written no mask is
computed or delivered at all: the loop body of an enabled button stops at
`swtimers_is_run(.., NULL)` (drv_buttons.c:234), which stores through the pointer, so
`buttons_task_events` returns for no button from any state, and a pass that returns has found
every button disabled, has called no handler and has changed nothing.  The statements around
that call cannot produce a conflict either: for any button, both values of `is_timer_run` and
any timers memory, the mask that lines 218-231 and 236-272 compute from the result of
`buttons_process_changes` has no conflict and passes the assertion of lines 275-278 -/
theorem C16_event_mask_exclusive (env : BHandlers) (inst : buttons_instance_t)
    (gpio : Nat → Bool) (bw : BWorld) :
    (∀ i, buttons_task_events inst gpio i bw = none) ∧
    (∀ bw', buttons_task env inst gpio bw = some bw' →
      bw' = bw ∧
      ∀ f i ev a, BEvent.handler f i ev a ∈ bw'.log.drop bw.log.length → ¬ mask_conflict ev) ∧
    ∀ (swt : swtimers_instance_t) (b b1 : buttons_button_instance_t) (log1 : List BEvent)
      (raw_event : Nat) (w2 : World) (run : Bool) (s1 s2 s3 : BLocal),
      buttons_process_changes inst.hw_p gpio b bw.log = some (raw_event, b1, log1) →
      buttons_task_change swt raw_event
        { b := b1, event := BUTTONS_NO_EVENT, is_timer_run := false, w := bw.swt, log := log1 } =
        some s1 →
      buttons_task_pressed swt (buttons_task_hold (buttons_task_debounced
        { s1 with is_timer_run := run, w := w2 })) = some s2 →
      buttons_task_released swt (buttons_task_double_timeout s2) = some s3 →
      ¬ mask_conflict s3.event ∧ buttons_task_assert s3.event = true := by
  refine ⟨fun i => task_events_undefined inst gpio i bw, ?_, ?_⟩
  · intro bw' h
    obtain ⟨rfl, -⟩ := task_frame env inst gpio bw bw' h
    refine ⟨rfl, ?_⟩
    intro f i ev a hm
    simp at hm
  · intro swt b b1 log1 raw_event w2 run s1 s2 s3 hp h1 h2 h3
    exact mask_ok_no_conflict _
      (stages_mask inst.hw_p gpio swt b b1 bw.log log1 raw_event bw.swt w2 run s1 s2 s3 hp h1 h2
        h3)

/-- C16 on the test instance: a pass over the table of disabled buttons returns, and the
statements of the loop body on a press of `test_button` give Pressed -/
theorem C16_event_mask_exclusive_witness :
    (buttons_task idle_button_handlers test_buttons_inst gpio_high test_buttons_world =
        some test_buttons_world ∧
      buttons_process_changes test_buttons_inst.hw_p gpio_high test_button
        test_buttons_world.log =
        some (BUTTONS_PRESSED, { test_button with is_pressed_raw := true },
          [BEvent.gpio_read 5]) ∧
      buttons_task_change test_inst BUTTONS_PRESSED
        { b := { test_button with is_pressed_raw := true }, event := BUTTONS_NO_EVENT,
          is_timer_run := false, w := test_buttons_world.swt, log := [BEvent.gpio_read 5] } =
        some test_change_local ∧
      buttons_task_pressed test_inst (buttons_task_hold (buttons_task_debounced
        { test_change_local with is_timer_run := false, w := test_change_local.w })) =
        some test_pressed_local ∧
      buttons_task_released test_inst (buttons_task_double_timeout test_pressed_local) =
        some test_pressed_local) ∧
    buttons_task_events test_buttons_inst gpio_high 0 test_buttons_world = none ∧
    test_pressed_local.event = BUTTONS_PRESSED ∧
    ¬ mask_conflict test_pressed_local.event ∧
    buttons_task_assert test_pressed_local.event = true :=
  and_of_imp (by decide) fun h =>
    ⟨(C16_event_mask_exclusive idle_button_handlers test_buttons_inst gpio_high
        test_buttons_world).1 0, rfl,
      (C16_event_mask_exclusive idle_button_handlers test_buttons_inst gpio_high
        test_buttons_world).2.2 test_inst test_button
        { test_button with is_pressed_raw := true } [BEvent.gpio_read 5] BUTTONS_PRESSED
        test_change_local.w false test_change_local test_pressed_local test_pressed_local
        h.2.1 h.2.2.1 h.2.2.2.1 h.2.2.2.2⟩

/-- C18 fails: `buttons_isr` returns at once for a button configured with check type
BUTTONS_CHECK_IN_ISR, whatever the level, so it neither updates `is_pressed_raw` nor sets
`is_changed`, and the next `buttons_process_changes` of a button whose `is_changed` is clear
yields no raw event. -/
theorem C18_isr_skips_isr_buttons (idx : Nat) (gpio_state : Bool) (bw : BWorld)
    (b : buttons_button_instance_t) (hw : buttons_hw_interface_t) (gpio : Nat → Bool)
    (hb : bw.buttons[idx]? = some b) (hc : b.check_type = BUTTONS_CHECK_IN_ISR)
    (hch : b.is_changed = false) (hd : hw.isr_disable_cb = true)
    (he : hw.isr_enable_cb = true) :
    buttons_isr idx gpio_state bw = some bw ∧
      buttons_process_changes (some hw) gpio b bw.log =
        some (BUTTONS_NO_EVENT, { b with is_changed := false },
          bw.log ++ [BEvent.isr_disable, BEvent.isr_enable]) := by
  constructor
  · simp [buttons_isr, hb, hc]
  · simp [buttons_process_changes, hc, hch, hd, he]

/-- C18 on a released button 0 of check type BUTTONS_CHECK_IN_ISR, pressed high, when the
interrupt reports the pin high: the button is left as it was, and the next pass sees no raw
event. -/
theorem C18_isr_skips_isr_buttons_witness :
    buttons_isr 0 true
        { swt := test_world
          buttons := [{ test_button with check_type := BUTTONS_CHECK_IN_ISR }, zero_button]
          log := [] } =
      some
        { swt := test_world
          buttons := [{ test_button with check_type := BUTTONS_CHECK_IN_ISR }, zero_button]
          log := [] } ∧
    buttons_process_changes (some test_gpio_interface) gpio_high
        { test_button with check_type := BUTTONS_CHECK_IN_ISR } [] =
      some (BUTTONS_NO_EVENT, { test_button with check_type := BUTTONS_CHECK_IN_ISR },
        [BEvent.isr_disable, BEvent.isr_enable]) :=
  C18_isr_skips_isr_buttons 0 true
    { swt := test_world
      buttons := [{ test_button with check_type := BUTTONS_CHECK_IN_ISR }, zero_button]
      log := [] }
    { test_button with check_type := BUTTONS_CHECK_IN_ISR } test_gpio_interface gpio_high
    (by decide) (by decide) (by decide) (by decide) (by decide)

/-- C20 fails in the code as written: a `buttons_task` pass in which Pressed is produced does
not deliver it.  For an enabled button without bouncing filter for which
`buttons_process_changes` reports a press, lines 218-231 put Pressed into the event mask, adopt
the pressed level and leave the timer alone; the next statement, line 234, calls
`swtimers_is_run(.., NULL)`, which stores through the pointer: the call, the loop body and the
pass are undefined, so no mask is delivered, the timer is not armed for `hold_ms` and
`is_holding` is not set -/
theorem C20_pressed_pass_undefined (env : BHandlers) (inst : buttons_instance_t)
    (gpio : Nat → Bool) (i : Nat) (bw : BWorld) (b b1 : buttons_button_instance_t)
    (log1 : List BEvent) (swt : swtimers_instance_t)
    (hi : i < inst.num) (hb : bw.buttons[i]? = some b)
    (hct : b.check_type ≠ BUTTONS_CHECK_DISABLED) (h0 : b.bouncing_ms = 0)
    (hp : buttons_process_changes inst.hw_p gpio b bw.log = some (BUTTONS_PRESSED, b1, log1)) :
    buttons_task_change swt BUTTONS_PRESSED
        { b := b1, event := BUTTONS_NO_EVENT, is_timer_run := false, w := bw.swt, log := log1 } =
      some
        { b := { b1 with is_pressed_debounced := true, is_holding := false },
          event := BUTTONS_PRESSED, is_timer_run := false, w := bw.swt, log := log1 } ∧
    buttons_task_timer swt
        { b := { b1 with is_pressed_debounced := true, is_holding := false },
          event := BUTTONS_PRESSED, is_timer_run := false, w := bw.swt, log := log1 } = none ∧
    buttons_task_events inst gpio i bw = none ∧
    buttons_task_button env inst gpio i bw = none ∧
    buttons_task env inst gpio bw = none := by
  have hb1 : b1.bouncing_ms = 0 := by
    have := (process_changes_spec inst.hw_p gpio b b1 bw.log log1 _ hp).2.1
    rw [← this] at h0
    exact h0
  refine ⟨?_, task_timer_undefined swt _, task_events_undefined inst gpio i bw, ?_,
    task_enabled_undefined env inst gpio i bw b hi hb hct⟩
  · simp [buttons_task_change, hb1, BUTTONS_PRESSED, BUTTONS_NO_EVENT]
  · rw [task_button_spec env inst gpio i bw b hb, if_neg hct]

/-- C20 on the test instance: button 0 without bouncing filter, the pin goes high -/
theorem C20_pressed_pass_undefined_witness :
    (brun idle_handlers idle_button_handlers test_inst test_buttons_inst
        [test_configure_with { test_times with bouncing_ms := 0 }] test_buttons_world =
        some test_unfiltered_world ∧
      buttons_process_changes test_buttons_inst.hw_p gpio_high { test_button with bouncing_ms := 0 }
        test_unfiltered_world.log =
        some (BUTTONS_PRESSED, { test_button with bouncing_ms := 0, is_pressed_raw := true },
          [BEvent.gpio_read 5, BEvent.gpio_read 5])) ∧
    buttons_task_events test_buttons_inst gpio_high 0 test_unfiltered_world = none ∧
    buttons_task idle_button_handlers test_buttons_inst gpio_high test_unfiltered_world = none :=
  and_of_imp (by decide) fun h =>
    ⟨(C20_pressed_pass_undefined idle_button_handlers test_buttons_inst gpio_high 0
      test_unfiltered_world { test_button with bouncing_ms := 0 }
      { test_button with bouncing_ms := 0, is_pressed_raw := true }
      [BEvent.gpio_read 5, BEvent.gpio_read 5] test_inst (by decide) (by decide) (by decide) rfl
      h.2).2.2.1,
    (C20_pressed_pass_undefined idle_button_handlers test_buttons_inst gpio_high 0
      test_unfiltered_world { test_button with bouncing_ms := 0 }
      { test_button with bouncing_ms := 0, is_pressed_raw := true }
      [BEvent.gpio_read 5, BEvent.gpio_read 5] test_inst (by decide) (by decide) (by decide) rfl
      h.2).2.2.2.2⟩

/-- C21 fails in the code as written: a press that comes after the double click window is not
delivered, with or without Double.  Whatever calls `ops1` were made before (they all returned,
so they delivered nothing: no Released event was delivered and no double click timer armed),
once a button is enabled the next `buttons_task` pass is undefined for every pin level, and so
is every sequence of calls that contains it: the loop body of the enabled button calls
`swtimers_is_run(.., NULL)` (drv_buttons.c:234), which stores through the pointer -/
theorem C21_late_press_undefined (tenv : Handlers) (env : BHandlers)
    (swt : swtimers_instance_t) (inst : buttons_instance_t) (ops1 ops2 : List BOp)
    (gpio : Nat → Bool) (bw0 bw1 : BWorld) (i : Nat) (b : buttons_button_instance_t)
    (h1 : brun tenv env swt inst ops1 bw0 = some bw1)
    (hi : i < inst.num) (hb : bw1.buttons[i]? = some b)
    (hct : b.check_type ≠ BUTTONS_CHECK_DISABLED) :
    delivered bw1.log = delivered bw0.log ∧
    buttons_task env inst gpio bw1 = none ∧
    brun tenv env swt inst (ops1 ++ BOp.task gpio :: ops2) bw0 = none := by
  obtain ⟨⟨extra, hl, hd⟩, -⟩ := brun_frame tenv env swt inst ops1 bw0 bw1 h1
  have ht := task_enabled_undefined env inst gpio i bw1 b hi hb hct
  refine ⟨by rw [hl, delivered_append, hd, List.append_nil], ht, ?_⟩
  rw [brun_append, h1]
  simp only [Option.some_bind, brun, BOp.exec, ht, Option.none_bind]

/-- C21 on the test instance: the two clicks of the header example with B = 2, D = 3 and
H = 5 ms; the calls up to the first pass return, the sequence with the pass is undefined -/
theorem C21_late_press_undefined_witness :
    (brun idle_handlers idle_button_handlers test_inst test_buttons_inst
        [test_configure, BOp.timer_isr, BOp.timer_isr] test_buttons_world =
        some { test_configured_world with
          swt := (isr_n idle_handlers test_inst 2 test_configured_world.swt).getD test_world } ∧
      test_configured_world.buttons[0]? = some test_button) ∧
    brun idle_handlers idle_button_handlers test_inst test_buttons_inst
      ([test_configure, BOp.timer_isr, BOp.timer_isr] ++ BOp.task gpio_high ::
        [BOp.timer_isr, BOp.timer_isr, BOp.task gpio_high, BOp.task gpio_low, BOp.timer_isr,
          BOp.timer_isr, BOp.task gpio_low, BOp.timer_isr, BOp.timer_isr, BOp.timer_isr,
          BOp.timer_isr, BOp.task gpio_low, BOp.task gpio_high, BOp.timer_isr, BOp.timer_isr,
          BOp.task gpio_high])
      test_buttons_world = none :=
  and_of_imp (by decide) fun h =>
    (C21_late_press_undefined idle_handlers idle_button_handlers test_inst test_buttons_inst
      [test_configure, BOp.timer_isr, BOp.timer_isr] _ gpio_high test_buttons_world _ 0
      test_button h.1 (by decide) h.2 (by decide)).2.2

/-- C25 fails in the code as written: a raw change of a button without bouncing filter is not
delivered.  Right after `buttons_configure` the debounced level is the raw level and
`buttons_is_pressed` returns it.  But for an enabled button no `buttons_task` pass after the
configuration returns, whatever the pin levels: when `buttons_process_changes` reports a raw
change and `bouncing_ms = 0`, lines 218-231 put the raw event into the mask and adopt the raw
level in the local copy of the button; the next statement, line 234, calls
`swtimers_is_run(.., NULL)`, which stores through the pointer, so the call and the pass are
undefined and neither Pressed nor Released is delivered -/
theorem C25_no_filter_pass_undefined (env : BHandlers) (inst : buttons_instance_t)
    (gpio : Nat → Bool) (idx gpio_pin timer_id : Nat) (is_pressed_low : Bool)
    (check_type : buttons_check_t) (times : buttons_time_settings_t) (handler_cb arg_p : Nat)
    (bw bw1 : BWorld)
    (hcfg : buttons_configure inst gpio idx gpio_pin timer_id is_pressed_low check_type times
      handler_cb arg_p bw = some bw1)
    (hct : check_type ≠ BUTTONS_CHECK_DISABLED) :
    ∃ b, bw1.buttons[idx]? = some b ∧ b.bouncing_ms = times.bouncing_ms ∧
      b.check_type = check_type ∧
      b.is_pressed_debounced = b.is_pressed_raw ∧
      b.is_pressed_raw = (if is_pressed_low then !gpio gpio_pin else gpio gpio_pin) ∧
      buttons_is_pressed inst idx bw1 = some b.is_pressed_raw ∧
      (∀ gpio2, buttons_task env inst gpio2 bw1 = none) ∧
      ∀ (gpio2 : Nat → Bool) (swt : swtimers_instance_t) (raw_event : Nat)
        (b1 : buttons_button_instance_t) (log1 : List BEvent),
        times.bouncing_ms = 0 →
        buttons_process_changes inst.hw_p gpio2 b bw1.log = some (raw_event, b1, log1) →
        raw_event ≠ BUTTONS_NO_EVENT →
        ∃ s1, buttons_task_change swt raw_event
            { b := b1, event := BUTTONS_NO_EVENT, is_timer_run := false, w := bw1.swt,
              log := log1 } = some s1 ∧
          s1.event = raw_event ∧ s1.b.is_pressed_debounced = s1.b.is_pressed_raw ∧
          buttons_task_timer swt s1 = none := by
  obtain ⟨hidx, b, hb, hbB, -, -, hbc, -, hdeb, hraw0⟩ := configure_spec inst gpio idx gpio_pin
    timer_id is_pressed_low check_type times handler_cb arg_p bw bw1 hcfg
  refine ⟨b, hb, hbB, hbc, hdeb, hraw0, ?_, ?_, ?_⟩
  · simp [buttons_is_pressed, hidx, hb, hdeb]
  · intro gpio2
    exact task_enabled_undefined env inst gpio2 idx bw1 b hidx hb (by rw [hbc]; exact hct)
  · intro gpio2 swt raw_event b1 log1 hB hp hraw
    obtain ⟨hok, hb1, -⟩ := process_changes_spec inst.hw_p gpio2 b b1 bw1.log log1 raw_event hp
    have hb0 : b1.bouncing_ms = 0 := by
      rw [← hB, ← hbB, ← hb1]
    have hch : buttons_task_change swt raw_event
        { b := b1, event := BUTTONS_NO_EVENT, is_timer_run := false, w := bw1.swt, log := log1 } =
        some (BLocal.mk
          { b1 with is_pressed_debounced := decide (raw_event &&& BUTTONS_PRESSED ≠ 0), is_holding := false }
          (BUTTONS_NO_EVENT ||| raw_event) false bw1.swt log1) := by
      unfold buttons_task_change
      rw [if_pos hraw, if_neg (by simp [hb0])]
    refine ⟨_, hch, ?_, ?_, task_timer_undefined swt _⟩
    · simp [BUTTONS_NO_EVENT]
    · rcases hok with h0 | ⟨rfl, hr⟩ | ⟨rfl, hr⟩
      · exact absurd h0 hraw
      · simp [hr, BUTTONS_PRESSED]
      · simp [hr, BUTTONS_PRESSED, BUTTONS_RELEASED, event_bits]

/-- C25 on the test instance: button 0 configured without bouncing filter while the pin is
low, then a pass with the pin high -/
theorem C25_no_filter_pass_undefined_witness :
    (buttons_configure test_buttons_inst gpio_low 0 5 1 false BUTTONS_CHECK_IN_POLLING
        { test_times with bouncing_ms := 0 } 7 9 test_buttons_world =
        some test_unfiltered_world ∧
      buttons_process_changes test_buttons_inst.hw_p gpio_high
        { test_button with bouncing_ms := 0 } test_unfiltered_world.log =
        some (BUTTONS_PRESSED, { test_button with bouncing_ms := 0, is_pressed_raw := true },
          [BEvent.gpio_read 5, BEvent.gpio_read 5])) ∧
    ∃ b, test_unfiltered_world.buttons[0]? = some b ∧
      b.bouncing_ms = ({ test_times with bouncing_ms := 0 } : buttons_time_settings_t).bouncing_ms ∧
      b.check_type = BUTTONS_CHECK_IN_POLLING ∧
      b.is_pressed_debounced = b.is_pressed_raw ∧
      buttons_is_pressed test_buttons_inst 0 test_unfiltered_world = some b.is_pressed_raw ∧
      buttons_task idle_button_handlers test_buttons_inst gpio_high test_unfiltered_world = none :=
  and_of_imp (by decide) fun h =>
    Exists.elim (C25_no_filter_pass_undefined idle_button_handlers test_buttons_inst gpio_low 0 5 1
      false BUTTONS_CHECK_IN_POLLING { test_times with bouncing_ms := 0 } 7 9 test_buttons_world
      test_unfiltered_world h.1 (by decide)) fun b hb =>
      ⟨b, hb.1, hb.2.1, hb.2.2.1, hb.2.2.2.1, hb.2.2.2.2.2.1, hb.2.2.2.2.2.2.1 gpio_high⟩

/-- C26: on initialized drivers, for LED `idx` whose timer is the only active one, `leds_blink`
with `series` ≥ 1 (a `uint8_t`), `pulse_ms` > 0, any `pause_ms` and `period_ms` = 0 returns and
switches the LED on at once, its timer armed for `pulse_ms`.  The successive expiries of the
timer (each served by `swtimers_task`) switch the LED off, on, off, ...: after `2j` expiries
(`j < series`) the LED is in pulse `j`, on, armed for `pulse_ms`; after `2j + 1` expiries
(`j + 1 < series`) it is in a pause, off, armed for `pause_ms`; after exactly
`2·series − 1` expiries the blink state is Disabled, the LED is off, the timer neither runs nor
waits, no other timer is active and a gated hardware timer is stopped. -/
theorem C26_simple_blink (inst : leds_instance_t) (swt : swtimers_instance_t)
    (hwt : swtimers_hw_interface_t) (hw : leds_hw_interface_t)
    (idx series pulse_ms pause_ms : Nat) (led : leds_led_instance_t) (lw : LWorld)
    (hi : LInitialized inst swt hwt hw lw) (hled : lw.leds[idx]? = some led)
    (htid : led.timer_id < swt.num) (hothers : others_idle led.timer_id lw.swt)
    (hs0 : 0 < series) (hs : series < 256) (hp0 : 0 < pulse_ms)
    (hp : pulse_ms < 4294967296) (hq : pause_ms < 4294967296) :
    ∃ lw1, leds_blink inst idx series pulse_ms pause_ms 0 lw = some lw1 ∧
      lw1.log = lw.log ++ [led_write led true] ∧
      (∀ j, j < series → ∃ lw2,
        leds_expiries inst swt led.timer_id (2 * j) lw1 = some lw2 ∧
        Blinking inst swt hwt hw led.timer_id idx
          (led_pulse (led_pattern led series pulse_ms pause_ms 0 false) j) pulse_ms lw2 ∧
        lw2.log = lw1.log ++
          (List.replicate j [led_write led false, led_write led true]).flatten) ∧
      (∀ j, j + 1 < series → ∃ lw2,
        leds_expiries inst swt led.timer_id (2 * j + 1) lw1 = some lw2 ∧
        Blinking inst swt hwt hw led.timer_id idx
          (led_pause (led_pattern led series pulse_ms pause_ms 0 false) (j + 1)) pause_ms lw2 ∧
        lw2.log = lw1.log ++
          (List.replicate j [led_write led false, led_write led true]).flatten ++
          [led_write led false]) ∧
      ∃ lw2 t, leds_expiries inst swt led.timer_id (2 * series - 1) lw1 = some lw2 ∧
        lw2.leds[idx]? = some (led_stopped (led_pattern led series pulse_ms pause_ms 0 false)) ∧
        lw2.swt.slot led.timer_id = some t ∧ t.is_run = false ∧ t.is_waiting = false ∧
        others_idle led.timer_id lw2.swt ∧
        (hwt.hw_is_started_cb = true → lw2.swt.hw_is_started = false) ∧
        lw2.log = lw1.log ++
          (List.replicate (series - 1) [led_write led false, led_write led true]).flatten ++
          [led_write led false] := by
  obtain ⟨lw1, h1, h2⟩ := blink_ext_spec inst swt hwt hw idx series pulse_ms pause_ms 0 0 false
    led lw hi hled htid hothers (by omega) (by omega) (Or.inl rfl)
  simp only [ne_eq, not_true_eq_false, if_false] at h2
  obtain ⟨hb, hlog⟩ := h2
  have hok : pattern_ok (led_pattern led series pulse_ms pause_ms 0 false) :=
    ⟨hs0, hs, hp, hq, by simp [led_pattern]⟩
  refine ⟨lw1, h1, hlog, ?_, ?_, ?_⟩
  · intro j hj
    exact series_even inst swt hwt hw led.timer_id idx _ lw1 hok hb j hj
  · intro j hj
    exact series_odd inst swt hwt hw led.timer_id idx _ lw1 hok hb j hj
  · obtain ⟨lw2, k1, k2, k3, k4, k5, k6, k7⟩ := series_stop inst swt hwt hw led.timer_id idx _
      lw1 hok hb (by simp [led_pattern])
    exact ⟨lw2, _, k1, k3, k4, rfl, rfl, k5, k6, k7⟩

/-- C26 on LED 0 of the test instance with two pulses of 50 ms and a pause of 100 ms: on, then
off, on, off at the three expiries. -/
theorem C26_simple_blink_witness :
    ∃ lw1, leds_blink test_leds_inst 0 2 50 100 0 test_led_world = some lw1 ∧
      lw1.log = test_led_world.log ++ [led_write test_led true] ∧
      (∀ j, j < 2 → ∃ lw2,
        leds_expiries test_leds_inst test_inst test_led.timer_id (2 * j) lw1 = some lw2 ∧
        Blinking test_leds_inst test_inst test_hw_interface test_leds_interface
          test_led.timer_id 0 (led_pulse (led_pattern test_led 2 50 100 0 false) j) 50 lw2 ∧
        lw2.log = lw1.log ++
          (List.replicate j [led_write test_led false, led_write test_led true]).flatten) ∧
      (∀ j, j + 1 < 2 → ∃ lw2,
        leds_expiries test_leds_inst test_inst test_led.timer_id (2 * j + 1) lw1 = some lw2 ∧
        Blinking test_leds_inst test_inst test_hw_interface test_leds_interface
          test_led.timer_id 0 (led_pause (led_pattern test_led 2 50 100 0 false) (j + 1)) 100
          lw2 ∧
        lw2.log = lw1.log ++
          (List.replicate j [led_write test_led false, led_write test_led true]).flatten ++
          [led_write test_led false]) ∧
      ∃ lw2 t, leds_expiries test_leds_inst test_inst test_led.timer_id (2 * 2 - 1) lw1 =
          some lw2 ∧
        lw2.leds[0]? = some (led_stopped (led_pattern test_led 2 50 100 0 false)) ∧
        lw2.swt.slot test_led.timer_id = some t ∧ t.is_run = false ∧ t.is_waiting = false ∧
        others_idle test_led.timer_id lw2.swt ∧
        (test_hw_interface.hw_is_started_cb = true → lw2.swt.hw_is_started = false) ∧
        lw2.log = lw1.log ++
          (List.replicate (2 - 1) [led_write test_led false, led_write test_led true]).flatten ++
          [led_write test_led false] :=
  C26_simple_blink test_leds_inst test_inst test_hw_interface test_leds_interface 0 2 50 100
    test_led test_led_world (by decide) (by decide) (by decide) (by decide) (by decide)
    (by decide) (by decide) (by decide) (by decide)

/-- C27: on initialized drivers, for LED `idx` whose timer is the only active one, every call
of `leds_blink_ext` that passes the assertions and stores a `wait_ms` > 0 (any delay, inverted
or not) returns, and timer expiries alone never stop the blinking: after any number of expiries
the LED still blinks on its armed timer, its blink state not Disabled.  With `d` = 1 expiry
for the delay (0 without delay), after `d + 2·series·m` expiries the LED is at the start of a
series (pulse 0, armed for `pulse_ms`), `series·m` pulses made, and after `2·series − 1` more
expiries, the `series` pulses of the series made, it is in state Pause armed for `wait_ms`. -/
theorem C27_periodic_blink (inst : leds_instance_t) (swt : swtimers_instance_t)
    (hwt : swtimers_hw_interface_t) (hw : leds_hw_interface_t)
    (idx series pulse_ms pause_ms period_ms delay_ms : Nat) (is_inverted : Bool)
    (led : leds_led_instance_t) (lw : LWorld)
    (hi : LInitialized inst swt hwt hw lw) (hled : lw.leds[idx]? = some led)
    (htid : led.timer_id < swt.num) (hothers : others_idle led.timer_id lw.swt)
    (hs0 : 0 < series) (hs : series < 256) (hp0 : 0 < pulse_ms)
    (hp : pulse_ms < 4294967296) (hq : pause_ms < 4294967296) (hd : delay_ms < 4294967296)
    (hper : period_ms = 0 ∨
      period_ms ≥ wrap32 (wrap32 (pulse_ms * series) + wrap32 (pause_ms * (series - 1))))
    (hw0 : (led_pattern led series pulse_ms pause_ms period_ms is_inverted).wait_ms ≠ 0) :
    ∃ lw1, leds_blink_ext inst idx series pulse_ms pause_ms period_ms delay_ms is_inverted lw =
        some lw1 ∧
      (∀ k, ∃ lw2 e ms, leds_expiries inst swt led.timer_id k lw1 = some lw2 ∧
        Blinking inst swt hwt hw led.timer_id idx e ms lw2 ∧
        e.blink_state ≠ LED_BLINK_STATE_DISABLED) ∧
      ∀ m,
        (∃ lw2, leds_expiries inst swt led.timer_id
            ((if delay_ms ≠ 0 then 1 else 0) + 2 * series * m) lw1 = some lw2 ∧
          Blinking inst swt hwt hw led.timer_id idx
            (led_pulse (led_pattern led series pulse_ms pause_ms period_ms is_inverted) 0)
            pulse_ms lw2 ∧
          lw2.log = lw1.log ++
            (if delay_ms ≠ 0 then [led_write led (if is_inverted then false else true)]
              else []) ++
            pulses_log (led_pattern led series pulse_ms pause_ms period_ms is_inverted)
              (series * m)) ∧
        (∃ lw2, leds_expiries inst swt led.timer_id
            ((if delay_ms ≠ 0 then 1 else 0) + 2 * series * m + (2 * series - 1)) lw1 =
              some lw2 ∧
          Blinking inst swt hwt hw led.timer_id idx
            (led_pause (led_pattern led series pulse_ms pause_ms period_ms is_inverted) 0)
            (led_pattern led series pulse_ms pause_ms period_ms is_inverted).wait_ms lw2 ∧
          lw2.log = lw1.log ++
            (if delay_ms ≠ 0 then [led_write led (if is_inverted then false else true)]
              else []) ++
            pulses_log (led_pattern led series pulse_ms pause_ms period_ms is_inverted)
              (series * m + (series - 1)) ++
            [led_write led (if is_inverted then true else false)]) := by
  obtain ⟨lw1, h1, h2⟩ := blink_ext_spec inst swt hwt hw idx series pulse_ms pause_ms period_ms
    delay_ms is_inverted led lw hi hled htid hothers (by omega) (by omega) hper
  generalize hpat : led_pattern led series pulse_ms pause_ms period_ms is_inverted = pat
    at h2 hw0 ⊢
  have e1 : pat.series = series := by rw [← hpat]; rfl
  have e2 : pat.pulse_ms = pulse_ms := by rw [← hpat]; rfl
  have e3 : pat.is_inverted = is_inverted := by rw [← hpat]; rfl
  have e4 : ∀ x, led_write pat x = led_write led x := by intro x; rw [← hpat]; rfl
  have hok : pattern_ok pat := by
    refine ⟨by rw [e1]; exact hs0, by rw [e1]; exact hs, by rw [e2]; exact hp,
      by rw [← hpat]; exact hq, ?_⟩
    rw [← hpat]
    simp only [led_pattern]
    split
    · decide
    · exact Nat.mod_lt _ (by decide)
  -- the state after the delay
  have hstart : ∃ lwd, leds_expiries inst swt led.timer_id (if delay_ms ≠ 0 then 1 else 0) lw1 =
      some lwd ∧ Blinking inst swt hwt hw led.timer_id idx (led_pulse pat 0) pat.pulse_ms lwd ∧
      lwd.log = lw1.log ++
        (if delay_ms ≠ 0 then [led_write led (if is_inverted then false else true)] else []) := by
    by_cases hdz : delay_ms = 0
    · simp only [hdz, ne_eq, not_true_eq_false, if_false] at h2 ⊢
      exact ⟨lw1, rfl, by rw [e2]; exact h2.1, by simp⟩
    · simp only [hdz, ne_eq, not_false_eq_true, if_true] at h2 ⊢
      obtain ⟨n1, n2, n3⟩ := next_pause pat 0
      obtain ⟨lw2, k1, k2, k3, -⟩ := expire_blinking inst swt hwt hw led.timer_id idx _ _ lw1
        h2.1 hd
      have k3' := k3 _ n2
      rw [n1] at k3'
      refine ⟨lw2, by simp [leds_expiries, k1], k3', ?_⟩
      rw [k2, n3, e3, e4]
  obtain ⟨lwd, s1, s2, s3⟩ := hstart
  refine ⟨lw1, h1, ?_, ?_⟩
  · intro k
    by_cases hk : k < (if delay_ms ≠ 0 then 1 else 0)
    · have hdz : delay_ms ≠ 0 := by
        by_contra hc
        simp [hc] at hk
      have hk0 : k = 0 := by
        simp only [hdz, ne_eq, not_false_eq_true, if_true] at hk
        omega
      subst hk0
      simp only [hdz, ne_eq, not_false_eq_true, if_true] at h2
      exact ⟨lw1, _, _, rfl, h2.1, by simp [led_pause]⟩
    · obtain ⟨lw2, e, ms, q1, q2, q3⟩ := blinking_forever inst swt hwt hw led.timer_id idx pat
        lwd hok s2 hw0 (k - (if delay_ms ≠ 0 then 1 else 0))
      refine ⟨lw2, e, ms, ?_, q2, q3⟩
      have : k = (if delay_ms ≠ 0 then 1 else 0) + (k - (if delay_ms ≠ 0 then 1 else 0)) := by
        omega
      rw [this, expiries_add, s1]
      exact q1
  · intro m
    obtain ⟨lwm, r1, r2, r3⟩ := series_repeat inst swt hwt hw led.timer_id idx pat lwd hok s2
      hw0 m
    rw [e1] at r1 r3
    have hm : leds_expiries inst swt led.timer_id
        ((if delay_ms ≠ 0 then 1 else 0) + 2 * series * m) lw1 = some lwm := by
      rw [expiries_add, s1]
      exact r1
    obtain ⟨⟨lww, t1, t2, t3⟩, -⟩ := series_wait inst swt hwt hw led.timer_id idx pat lwm hok r2
      hw0
    rw [e1] at t1 t3
    refine ⟨⟨lwm, hm, by rw [← e2]; exact r2, by rw [r3, s3]⟩, lww, ?_, t2, ?_⟩
    · rw [expiries_add, hm]
      exact t1
    · rw [t3, r3, s3, e3, e4]
      simp only [List.append_assoc, pulses_log_add]

/-- C27 on LED 0 of the test instance: two pulses of 50 ms with a pause of 100 ms, repeated
every 1000 ms (wait 800 ms) after a delay of 10 ms. -/
theorem C27_periodic_blink_witness :
    ∃ lw1, leds_blink_ext test_leds_inst 0 2 50 100 1000 10 false test_led_world = some lw1 ∧
      (∀ k, ∃ lw2 e ms, leds_expiries test_leds_inst test_inst test_led.timer_id k lw1 =
          some lw2 ∧
        Blinking test_leds_inst test_inst test_hw_interface test_leds_interface
          test_led.timer_id 0 e ms lw2 ∧
        e.blink_state ≠ LED_BLINK_STATE_DISABLED) ∧
      ∀ m,
        (∃ lw2, leds_expiries test_leds_inst test_inst test_led.timer_id
            ((if 10 ≠ 0 then 1 else 0) + 2 * 2 * m) lw1 = some lw2 ∧
          Blinking test_leds_inst test_inst test_hw_interface test_leds_interface
            test_led.timer_id 0 (led_pulse (led_pattern test_led 2 50 100 1000 false) 0) 50 lw2 ∧
          lw2.log = lw1.log ++
            (if 10 ≠ 0 then [led_write test_led (if false then false else true)] else []) ++
            pulses_log (led_pattern test_led 2 50 100 1000 false) (2 * m)) ∧
        (∃ lw2, leds_expiries test_leds_inst test_inst test_led.timer_id
            ((if 10 ≠ 0 then 1 else 0) + 2 * 2 * m + (2 * 2 - 1)) lw1 = some lw2 ∧
          Blinking test_leds_inst test_inst test_hw_interface test_leds_interface
            test_led.timer_id 0 (led_pause (led_pattern test_led 2 50 100 1000 false) 0)
            (led_pattern test_led 2 50 100 1000 false).wait_ms lw2 ∧
          lw2.log = lw1.log ++
            (if 10 ≠ 0 then [led_write test_led (if false then false else true)] else []) ++
            pulses_log (led_pattern test_led 2 50 100 1000 false) (2 * m + (2 - 1)) ++
            [led_write test_led (if false then true else false)]) :=
  C27_periodic_blink test_leds_inst test_inst test_hw_interface test_leds_interface 0 2 50 100
    1000 10 false test_led test_led_world (by decide) (by decide) (by decide) (by decide)
    (by decide) (by decide) (by decide) (by decide) (by decide) (by decide) (by decide)
    (by decide)

/-- C28: on initialized drivers, for LED `idx` whose timer is the only active one,
`leds_meander(idx, d)` is `leds_blink_ext` with series 1, pulse `d`, pause `d`, delay 0, not
inverted, and the period `2 * d` computed in `uint32_t`.  For `0 < d < 2^31` it returns with the
LED on, and the expiries switch it off and on forever, every arm `d` ms: after `2m` expiries it
is in a pulse armed for `d`, after `2m + 1` in a pause armed for `d`.  For `d = 2^31` the period
wraps to 0: the call returns, and the first expiry switches the LED off and leaves the blink
state Disabled, the timer stopped.  For `2^31 < d < 2^32` the wrapped period is below the
pulse and the call fails its period assertion. -/
theorem C28_meander_period_wraps (inst : leds_instance_t) (swt : swtimers_instance_t)
    (hwt : swtimers_hw_interface_t) (hw : leds_hw_interface_t) (idx : Nat)
    (led : leds_led_instance_t) (lw : LWorld)
    (hi : LInitialized inst swt hwt hw lw) (hled : lw.leds[idx]? = some led)
    (htid : led.timer_id < swt.num) (hothers : others_idle led.timer_id lw.swt) :
    (∀ d, leds_meander inst idx d lw =
      leds_blink_ext inst idx 1 d d (wrap32 (2 * d)) 0 false lw) ∧
    (∀ d, 0 < d → d < 2147483648 →
      ∃ lw1, leds_meander inst idx d lw = some lw1 ∧
        lw1.log = lw.log ++ [led_write led true] ∧
        ∀ m,
          (∃ lw2, leds_expiries inst swt led.timer_id (2 * m) lw1 = some lw2 ∧
            Blinking inst swt hwt hw led.timer_id idx
              (led_pulse (led_pattern led 1 d d (wrap32 (2 * d)) false) 0) d lw2 ∧
            lw2.log = lw1.log ++
              (List.replicate m [led_write led false, led_write led true]).flatten) ∧
          (∃ lw2, leds_expiries inst swt led.timer_id (2 * m + 1) lw1 = some lw2 ∧
            Blinking inst swt hwt hw led.timer_id idx
              (led_pause (led_pattern led 1 d d (wrap32 (2 * d)) false) 0) d lw2 ∧
            lw2.log = lw1.log ++
              (List.replicate m [led_write led false, led_write led true]).flatten ++
              [led_write led false])) ∧
    (∃ lw1 lw2 e t, leds_meander inst idx 2147483648 lw = some lw1 ∧
      lw1.log = lw.log ++ [led_write led true] ∧
      leds_expiries inst swt led.timer_id 1 lw1 = some lw2 ∧
      lw2.leds[idx]? = some e ∧ e.blink_state = LED_BLINK_STATE_DISABLED ∧
      lw2.swt.slot led.timer_id = some t ∧ t.is_run = false ∧ t.is_waiting = false ∧
      lw2.log = lw1.log ++ [led_write led false]) ∧
    (∀ d, 2147483648 < d → d < 4294967296 → leds_meander inst idx d lw = none) := by
  refine ⟨fun d => rfl, ?_, ?_, ?_⟩
  · intro d hd0 hd
    have hper : wrap32 (2 * d) = 0 ∨
        wrap32 (2 * d) ≥ wrap32 (wrap32 (d * 1) + wrap32 (d * (1 - 1))) := by
      right
      simp only [wrap32]
      omega
    obtain ⟨lw1, h1, h2⟩ := blink_ext_spec inst swt hwt hw idx 1 d d (wrap32 (2 * d)) 0 false
      led lw hi hled htid hothers (by omega) (by omega) hper
    simp only [ne_eq, not_true_eq_false, if_false] at h2
    obtain ⟨hb, hlog⟩ := h2
    generalize hpat : led_pattern led 1 d d (wrap32 (2 * d)) false = pat at hb ⊢
    have e1 : pat.series = 1 := by rw [← hpat]; rfl
    have e2 : pat.pulse_ms = d := by rw [← hpat]; rfl
    have e3 : pat.is_inverted = false := by rw [← hpat]; rfl
    have e4 : ∀ x, led_write pat x = led_write led x := by intro x; rw [← hpat]; rfl
    have e5 : pat.wait_ms = d := by
      rw [← hpat]
      simp only [led_pattern, wrap32, sub32]
      have : ¬ (2 * d % 4294967296 = 0) := by omega
      rw [if_neg this]
      omega
    have hok : pattern_ok pat :=
      ⟨by rw [e1]; decide, by rw [e1]; decide, by rw [e2]; omega,
        by rw [← hpat]; show d < 4294967296; omega, by rw [e5]; omega⟩
    have hw0 : pat.wait_ms ≠ 0 := by rw [e5]; omega
    have hplog : ∀ m, pulses_log pat m =
        (List.replicate m [led_write led false, led_write led true]).flatten := by
      intro m
      simp only [pulses_log, e3, e4]
      rfl
    refine ⟨lw1, h1, hlog, ?_⟩
    intro m
    rw [← e2] at hb
    obtain ⟨lwm, r1, r2, r3⟩ := series_repeat inst swt hwt hw led.timer_id idx pat lw1 hok hb
      hw0 m
    rw [e1] at r1 r3
    have hm : leds_expiries inst swt led.timer_id (2 * m) lw1 = some lwm := by
      have h2m : 2 * 1 * m = 2 * m := by omega
      rw [h2m] at r1
      exact r1
    obtain ⟨⟨lww, t1, t2, t3⟩, -⟩ := series_wait inst swt hwt hw led.timer_id idx pat lwm hok r2
      hw0
    rw [e1] at t1 t3
    rw [e5] at t2
    rw [e2] at r2
    refine ⟨⟨lwm, hm, r2, by rw [r3, hplog, Nat.one_mul]⟩, lww, ?_, t2, ?_⟩
    · rw [expiries_add, hm]
      exact t1
    · rw [t3, r3, hplog, e3, e4, Nat.one_mul]
      simp [pulses_log]
  · have hper : wrap32 (2 * 2147483648) = 0 ∨ wrap32 (2 * 2147483648) ≥
        wrap32 (wrap32 (2147483648 * 1) + wrap32 (2147483648 * (1 - 1))) := Or.inl (by decide)
    obtain ⟨lw1, h1, h2⟩ := blink_ext_spec inst swt hwt hw idx 1 2147483648 2147483648
      (wrap32 (2 * 2147483648)) 0 false led lw hi hled htid hothers (by omega) (by omega) hper
    simp only [ne_eq, not_true_eq_false, if_false] at h2
    obtain ⟨hb, hlog⟩ := h2
    have hwz : (led_pattern led 1 2147483648 2147483648 (wrap32 (2 * 2147483648)) false).wait_ms
        = 0 := by
      simp only [led_pattern]
      rw [if_pos (by decide)]
    have hok : pattern_ok
        (led_pattern led 1 2147483648 2147483648 (wrap32 (2 * 2147483648)) false) :=
      ⟨by show 0 < 1; decide, by show 1 < 256; decide,
        by show 2147483648 < 4294967296; decide, by show 2147483648 < 4294967296; decide,
        by rw [hwz]; decide⟩
    obtain ⟨lw2, k1, -, k3, k4, -, -, k7⟩ := series_stop inst swt hwt hw led.timer_id idx _
      lw1 hok hb hwz
    exact ⟨lw1, lw2, _, _, h1, hlog, k1, k3, rfl, k4, rfl, rfl, by rw [k7]; simp [pulses_log]; rfl⟩
  · intro d hd1 hd2
    have hper : ¬ (wrap32 (2 * d) = 0 ∨
        wrap32 (2 * d) ≥ wrap32 (wrap32 (d * 1) + wrap32 (d * (1 - 1)))) := by
      simp only [wrap32]
      omega
    simp only [leds_meander, leds_blink_ext]
    split
    · split
      · rw [hled]
        simp only [Option.bind_eq_bind, Option.some_bind, hper, if_false]
      · rfl
    · rfl

/-- C28 on LED 0 of the test instance: the three ranges of the duration. -/
theorem C28_meander_period_wraps_witness :
    (∀ d, leds_meander test_leds_inst 0 d test_led_world =
      leds_blink_ext test_leds_inst 0 1 d d (wrap32 (2 * d)) 0 false test_led_world) ∧
    (∀ d, 0 < d → d < 2147483648 →
      ∃ lw1, leds_meander test_leds_inst 0 d test_led_world = some lw1 ∧
        lw1.log = test_led_world.log ++ [led_write test_led true] ∧
        ∀ m,
          (∃ lw2, leds_expiries test_leds_inst test_inst test_led.timer_id (2 * m) lw1 =
              some lw2 ∧
            Blinking test_leds_inst test_inst test_hw_interface test_leds_interface
              test_led.timer_id 0
              (led_pulse (led_pattern test_led 1 d d (wrap32 (2 * d)) false) 0) d lw2 ∧
            lw2.log = lw1.log ++
              (List.replicate m [led_write test_led false, led_write test_led true]).flatten) ∧
          (∃ lw2, leds_expiries test_leds_inst test_inst test_led.timer_id (2 * m + 1) lw1 =
              some lw2 ∧
            Blinking test_leds_inst test_inst test_hw_interface test_leds_interface
              test_led.timer_id 0
              (led_pause (led_pattern test_led 1 d d (wrap32 (2 * d)) false) 0) d lw2 ∧
            lw2.log = lw1.log ++
              (List.replicate m [led_write test_led false, led_write test_led true]).flatten ++
              [led_write test_led false])) ∧
    (∃ lw1 lw2 e t, leds_meander test_leds_inst 0 2147483648 test_led_world = some lw1 ∧
      lw1.log = test_led_world.log ++ [led_write test_led true] ∧
      leds_expiries test_leds_inst test_inst test_led.timer_id 1 lw1 = some lw2 ∧
      lw2.leds[0]? = some e ∧ e.blink_state = LED_BLINK_STATE_DISABLED ∧
      lw2.swt.slot test_led.timer_id = some t ∧ t.is_run = false ∧ t.is_waiting = false ∧
      lw2.log = lw1.log ++ [led_write test_led false]) ∧
    (∀ d, 2147483648 < d → d < 4294967296 →
      leds_meander test_leds_inst 0 d test_led_world = none) :=
  C28_meander_period_wraps test_leds_inst test_inst test_hw_interface test_leds_interface 0
    test_led test_led_world (by decide) (by decide) (by decide) (by decide)

/-- C29 fails: `leds_blink_ext` with `series` = 2, `pulse_ms` = 2^31, `pause_ms` = 0 and
`period_ms` = 1 passes the assertions, because the `uint32_t` product `pulse_ms * series` of
the period check wraps to 0, and stores `wait_ms` = 1: the pulses of one series alone last
2^32 ms, more than the accepted period, and series·pulse + (series − 1)·pause + wait is not the
period. -/
theorem C29_period_check_wraps :
    ((leds_blink_ext test_leds_inst 0 2 2147483648 0 1 0 false test_leds_world).map fun lw =>
      lw.leds.map fun l => (l.series, l.pulse_ms, l.pause_ms, l.wait_ms, l.blink_state)) =
      some [(2, 2147483648, 0, 1, LED_BLINK_STATE_PULSE),
        (0, 0, 0, 0, LED_BLINK_STATE_DISABLED)] ∧
    (1 : Nat) < 2 * 2147483648 + (2 - 1) * 0 ∧
    2 * 2147483648 + (2 - 1) * 0 + 1 ≠ 1 := by
  decide

/-- C30: in every state reachable after `leds_init` through `leds_set_pin`, `leds_blink`,
`leds_blink_ext`, `leds_meander`, `leds_on`, `leds_off`, `leds_toggle`, `leds_switch_on`,
`leds_switch_off`, `leds_switch_toggle`, the hardware timer interrupt and `swtimers_task`
(which runs `leds_processing` at the expiries; `series` a `uint8_t` in every call), every LED
whose blink state is Pulse or Pause has `pulse_counter < series`. -/
theorem C30_pulse_counter_below_series (hw_p : Option leds_hw_interface_t) (num : Nat)
    (swt : swtimers_instance_t) (inst : leds_instance_t) (lw00 lw0 lw : LWorld)
    (ops : List LOp) (hlen : lw00.leds.length = num)
    (hinit : leds_init hw_p num (some swt) lw00 = some (inst, lw0))
    (hops : ∀ op ∈ ops, op.in_range = true) (hrun : lrun inst swt ops lw0 = some lw) :
    ∀ led ∈ lw.leds,
      led.blink_state = LED_BLINK_STATE_PULSE ∨ led.blink_state = LED_BLINK_STATE_PAUSE →
      led.pulse_counter < led.series := by
  obtain ⟨-, hz, -, -⟩ := leds_init_table hw_p num (some swt) inst lw00 lw0 hlen hinit
  have h0 : ∀ led ∈ lw0.leds, counter_ok led := by
    intro led hl hne
    rw [hz] at hl
    rw [(List.mem_replicate.mp hl).2] at hne
    exact absurd rfl hne
  intro led hl hst
  refine (lrun_counter_ok inst swt ops lw0 lw hops hrun h0 led hl ?_).1
  rcases hst with h | h <;> rw [h] <;> decide

/-- C30 on LED 0 after `leds_blink` with two pulses and one served expiry: the LED is in the
pause with one pulse counted. -/
theorem C30_pulse_counter_below_series_witness :
    (leds_init (some test_leds_interface) 2 (some test_inst) test_leds_world =
        some (test_leds_inst, test_leds_world) ∧
      lrun test_leds_inst test_inst
        [LOp.set_pin 0 4 1 true, LOp.blink 0 2 1 1 0, LOp.timer_isr, LOp.timer_task]
        test_leds_world = some test_pause_world) ∧
    ({ zero_led with
        gpio_pin := 4, pulse_ms := 1, pause_ms := 1, timer_id := 1, series := 2,
        is_active_high := true, pulse_counter := 1,
        blink_state := LED_BLINK_STATE_PAUSE } : leds_led_instance_t).pulse_counter <
      ({ zero_led with
        gpio_pin := 4, pulse_ms := 1, pause_ms := 1, timer_id := 1, series := 2,
        is_active_high := true, pulse_counter := 1,
        blink_state := LED_BLINK_STATE_PAUSE } : leds_led_instance_t).series :=
  and_of_imp (by decide) fun h =>
    C30_pulse_counter_below_series (some test_leds_interface) 2 test_inst test_leds_inst
      test_leds_world test_leds_world test_pause_world
      [LOp.set_pin 0 4 1 true, LOp.blink 0 2 1 1 0, LOp.timer_isr, LOp.timer_task]
      rfl h.1 (by decide) h.2
      { zero_led with
        gpio_pin := 4, pulse_ms := 1, pause_ms := 1, timer_id := 1, series := 2,
        is_active_high := true, pulse_counter := 1, blink_state := LED_BLINK_STATE_PAUSE }
      (by decide) (Or.inr rfl)

/-- C31: on initialized drivers, for LED `idx` whose timer is the only active one, every pin
call of a blink pattern writes the level of the phase that starts.  `leds_blink_ext` (accepted
parameters) returns and enters Pause when there is a delay and Pulse otherwise, and every
expiry of the timer of a LED that blinks enters the state `leds_processing` stores; each makes
exactly one `gpio_write` call for the pin of the LED, with the level `spec_pin_level`: the LED
is logically on exactly when (the state entered is Pulse) XOR `is_inverted`, and the pin is
high exactly when (logically on) = `is_active_high`. -/
theorem C31_pin_level_by_phase (inst : leds_instance_t) (swt : swtimers_instance_t)
    (hwt : swtimers_hw_interface_t) (hw : leds_hw_interface_t)
    (idx series pulse_ms pause_ms period_ms delay_ms : Nat) (is_inverted : Bool)
    (led : leds_led_instance_t) (lw : LWorld)
    (hi : LInitialized inst swt hwt hw lw) (hled : lw.leds[idx]? = some led)
    (htid : led.timer_id < swt.num) (hothers : others_idle led.timer_id lw.swt)
    (hs0 : 0 < series) (hp0 : 0 < pulse_ms)
    (hper : period_ms = 0 ∨
      period_ms ≥ wrap32 (wrap32 (pulse_ms * series) + wrap32 (pause_ms * (series - 1)))) :
    (∃ lw1 e1 ms1,
      leds_blink_ext inst idx series pulse_ms pause_ms period_ms delay_ms is_inverted lw =
        some lw1 ∧
      Blinking inst swt hwt hw led.timer_id idx e1 ms1 lw1 ∧
      e1.blink_state =
        (if delay_ms ≠ 0 then LED_BLINK_STATE_PAUSE else LED_BLINK_STATE_PULSE) ∧
      e1.is_inverted = is_inverted ∧ e1.is_active_high = led.is_active_high ∧
      e1.gpio_pin = led.gpio_pin ∧
      lw1.log = lw.log ++ [LEvent.gpio_write led.gpio_pin
        (spec_pin_level (decide (e1.blink_state = LED_BLINK_STATE_PULSE)) is_inverted
          led.is_active_high)]) ∧
    (∀ e ms lw2, Blinking inst swt hwt hw led.timer_id idx e ms lw2 → ms < 4294967296 →
      e.blink_state ≠ LED_BLINK_STATE_DISABLED →
      ∃ lw3 e3, leds_expire inst swt led.timer_id lw2 = some lw3 ∧
        lw3.leds[idx]? = some e3 ∧
        e3.is_inverted = e.is_inverted ∧ e3.is_active_high = e.is_active_high ∧
        e3.gpio_pin = e.gpio_pin ∧
        (e.blink_state = LED_BLINK_STATE_PAUSE → e3.blink_state = LED_BLINK_STATE_PULSE) ∧
        (e.blink_state = LED_BLINK_STATE_PULSE → e3.blink_state ≠ LED_BLINK_STATE_PULSE) ∧
        lw3.log = lw2.log ++ [LEvent.gpio_write e.gpio_pin
          (spec_pin_level (decide (e3.blink_state = LED_BLINK_STATE_PULSE)) e.is_inverted
            e.is_active_high)]) := by
  constructor
  · obtain ⟨lw1, h1, h2⟩ := blink_ext_spec inst swt hwt hw idx series pulse_ms pause_ms
      period_ms delay_ms is_inverted led lw hi hled htid hothers (by omega) (by omega) hper
    by_cases hd : delay_ms = 0
    · subst hd
      simp only [ne_eq, not_true_eq_false, if_false] at h2 ⊢
      refine ⟨lw1, _, _, h1, h2.1, rfl, rfl, rfl, rfl, ?_⟩
      rw [h2.2]
      cases is_inverted <;> cases hah : led.is_active_high <;>
        simp [led_write, led_pulse, spec_pin_level, hah]
    · simp only [hd, ne_eq, not_false_eq_true, if_true] at h2 ⊢
      refine ⟨lw1, _, _, h1, h2.1, rfl, rfl, rfl, rfl, ?_⟩
      rw [h2.2]
      cases is_inverted <;> cases hah : led.is_active_high <;>
        simp [led_write, led_pause, spec_pin_level, hah]
  · intro e ms lw2 hb hms hne
    obtain ⟨lw3, k1, k2, k3, k4⟩ := expire_blinking inst swt hwt hw led.timer_id idx e ms lw2
      hb hms
    have hl : lw3.leds[idx]? = some (blink_next e) := by
      cases ha : blink_arm e with
      | none => exact (k4 ha).2.1
      | some m => exact (k3 m ha).2.1
    refine ⟨lw3, blink_next e, k1, hl, ?_, ?_, ?_, ?_, ?_, ?_⟩
    · simp only [blink_next]
      split <;> [rfl; (split <;> [split; skip] <;> rfl); rfl]
    · simp only [blink_next]
      split <;> [rfl; (split <;> [split; skip] <;> rfl); rfl]
    · simp only [blink_next]
      split <;> [rfl; (split <;> [split; skip] <;> rfl); rfl]
    · intro hst
      simp only [blink_next, hst]
    · intro hst
      simp only [blink_next, hst]
      split <;> [split; skip] <;> simp
    · rw [k2, blink_write_level e hne]

/-- C31 on LED 0 of the test instance, an inverted pattern with a delay. -/
theorem C31_pin_level_by_phase_witness :
    (∃ lw1 e1 ms1,
      leds_blink_ext test_leds_inst 0 2 50 100 0 10 true test_led_world = some lw1 ∧
      Blinking test_leds_inst test_inst test_hw_interface test_leds_interface
        test_led.timer_id 0 e1 ms1 lw1 ∧
      e1.blink_state =
        (if 10 ≠ 0 then LED_BLINK_STATE_PAUSE else LED_BLINK_STATE_PULSE) ∧
      e1.is_inverted = true ∧ e1.is_active_high = test_led.is_active_high ∧
      e1.gpio_pin = test_led.gpio_pin ∧
      lw1.log = test_led_world.log ++ [LEvent.gpio_write test_led.gpio_pin
        (spec_pin_level (decide (e1.blink_state = LED_BLINK_STATE_PULSE)) true
          test_led.is_active_high)]) ∧
    (∀ e ms lw2, Blinking test_leds_inst test_inst test_hw_interface test_leds_interface
        test_led.timer_id 0 e ms lw2 → ms < 4294967296 →
      e.blink_state ≠ LED_BLINK_STATE_DISABLED →
      ∃ lw3 e3, leds_expire test_leds_inst test_inst test_led.timer_id lw2 = some lw3 ∧
        lw3.leds[0]? = some e3 ∧
        e3.is_inverted = e.is_inverted ∧ e3.is_active_high = e.is_active_high ∧
        e3.gpio_pin = e.gpio_pin ∧
        (e.blink_state = LED_BLINK_STATE_PAUSE → e3.blink_state = LED_BLINK_STATE_PULSE) ∧
        (e.blink_state = LED_BLINK_STATE_PULSE → e3.blink_state ≠ LED_BLINK_STATE_PULSE) ∧
        lw3.log = lw2.log ++ [LEvent.gpio_write e.gpio_pin
          (spec_pin_level (decide (e3.blink_state = LED_BLINK_STATE_PULSE)) e.is_inverted
            e.is_active_high)]) :=
  C31_pin_level_by_phase test_leds_inst test_inst test_hw_interface test_leds_interface 0 2 50
    100 0 10 true test_led test_led_world (by decide) (by decide) (by decide) (by decide)
    (by decide) (by decide) (by decide)

/-- C32 as stated fails: LED 0 of the test instance (active high, pin 4) blinks two pulses of
2 ms with a pause of 1 ms after a delay of 3 ms.  With `is_inverted` = true the pin is written
high (LED on) for the delay and for the pause and low (LED off) for each pulse; with
`is_inverted` = false it is low for the delay and the pause and high for each pulse, as in the
diagrams of the header: the opposite of what the claim says.  Each entry is the blink state
and the pin calls after 0, 1, 2 and 3 expiries of the timer. -/
theorem C32_counterexample :
    ([0, 1, 2, 3].map fun k =>
      ((leds_blink_ext test_leds_inst 0 2 2 1 0 3 true test_led_world).bind
        (leds_expiries test_leds_inst test_inst 1 k)).map fun lw =>
          (lw.leds.head?.map fun l => l.blink_state, lw.log)) =
      [some (some LED_BLINK_STATE_PAUSE, [LEvent.gpio_write 4 true]),
        some (some LED_BLINK_STATE_PULSE, [LEvent.gpio_write 4 true, LEvent.gpio_write 4 false]),
        some (some LED_BLINK_STATE_PAUSE,
          [LEvent.gpio_write 4 true, LEvent.gpio_write 4 false, LEvent.gpio_write 4 true]),
        some (some LED_BLINK_STATE_PULSE,
          [LEvent.gpio_write 4 true, LEvent.gpio_write 4 false, LEvent.gpio_write 4 true,
            LEvent.gpio_write 4 false])] ∧
    ([0, 1, 2, 3].map fun k =>
      ((leds_blink_ext test_leds_inst 0 2 2 1 0 3 false test_led_world).bind
        (leds_expiries test_leds_inst test_inst 1 k)).map fun lw =>
          (lw.leds.head?.map fun l => l.blink_state, lw.log)) =
      [some (some LED_BLINK_STATE_PAUSE, [LEvent.gpio_write 4 false]),
        some (some LED_BLINK_STATE_PULSE, [LEvent.gpio_write 4 false, LEvent.gpio_write 4 true]),
        some (some LED_BLINK_STATE_PAUSE,
          [LEvent.gpio_write 4 false, LEvent.gpio_write 4 true, LEvent.gpio_write 4 false]),
        some (some LED_BLINK_STATE_PULSE,
          [LEvent.gpio_write 4 false, LEvent.gpio_write 4 true, LEvent.gpio_write 4 false,
            LEvent.gpio_write 4 true])] := by
  decide

/-- C32, amended: the flag `is_inverted` of `leds_blink_ext` has the meaning of the diagrams of
the header.  On initialized drivers, for LED `idx` whose timer is the only active one and
accepted parameters, the call returns and switches the LED for the phase it enters, the delay
(state Pause) if `delay_ms` is not zero and the first pulse otherwise; every expiry of the timer
of a LED that blinks switches the LED for the state entered, Pulse after a delay, a pause or a
wait, and not Pulse after a pulse.  With `is_inverted` = false the LED is switched on for a
pulse and off for a delay, a pause or a wait; with `is_inverted` = true it is switched off for
a pulse and on for a delay, a pause or a wait.  `led_write led lit` is the pin call that
switches the LED on (`lit`) or off -/
theorem C32_inverted_flag_meaning (inst : leds_instance_t) (swt : swtimers_instance_t)
    (hwt : swtimers_hw_interface_t) (hw : leds_hw_interface_t)
    (idx series pulse_ms pause_ms period_ms delay_ms : Nat) (is_inverted : Bool)
    (led : leds_led_instance_t) (lw : LWorld)
    (hi : LInitialized inst swt hwt hw lw) (hled : lw.leds[idx]? = some led)
    (htid : led.timer_id < swt.num) (hothers : others_idle led.timer_id lw.swt)
    (hs0 : 0 < series) (hp0 : 0 < pulse_ms)
    (hper : period_ms = 0 ∨
      period_ms ≥ wrap32 (wrap32 (pulse_ms * series) + wrap32 (pause_ms * (series - 1)))) :
    (∃ lw1 e1 ms1,
      leds_blink_ext inst idx series pulse_ms pause_ms period_ms delay_ms is_inverted lw =
        some lw1 ∧
      Blinking inst swt hwt hw led.timer_id idx e1 ms1 lw1 ∧
      e1.is_inverted = is_inverted ∧
      (delay_ms ≠ 0 → e1.blink_state = LED_BLINK_STATE_PAUSE ∧
        (is_inverted = false → lw1.log = lw.log ++ [led_write led false]) ∧
        (is_inverted = true → lw1.log = lw.log ++ [led_write led true])) ∧
      (delay_ms = 0 → e1.blink_state = LED_BLINK_STATE_PULSE ∧
        (is_inverted = false → lw1.log = lw.log ++ [led_write led true]) ∧
        (is_inverted = true → lw1.log = lw.log ++ [led_write led false]))) ∧
    (∀ e ms lw2, Blinking inst swt hwt hw led.timer_id idx e ms lw2 → ms < 4294967296 →
      e.blink_state ≠ LED_BLINK_STATE_DISABLED →
      ∃ lw3 e3, leds_expire inst swt led.timer_id lw2 = some lw3 ∧
        lw3.leds[idx]? = some e3 ∧ e3.is_inverted = e.is_inverted ∧
        (e.blink_state = LED_BLINK_STATE_PAUSE → e3.blink_state = LED_BLINK_STATE_PULSE) ∧
        (e.blink_state = LED_BLINK_STATE_PULSE → e3.blink_state ≠ LED_BLINK_STATE_PULSE) ∧
        (e.is_inverted = false → lw3.log = lw2.log ++
          [led_write e (decide (e3.blink_state = LED_BLINK_STATE_PULSE))]) ∧
        (e.is_inverted = true → lw3.log = lw2.log ++
          [led_write e (!decide (e3.blink_state = LED_BLINK_STATE_PULSE))])) := by
  constructor
  · obtain ⟨lw1, h1, h2⟩ := blink_ext_spec inst swt hwt hw idx series pulse_ms pause_ms
      period_ms delay_ms is_inverted led lw hi hled htid hothers (by omega) (by omega) hper
    by_cases hd : delay_ms = 0
    · subst hd
      simp only [ne_eq, not_true_eq_false, if_false] at h2
      refine ⟨lw1, _, _, h1, h2.1, rfl, fun h => absurd rfl h, fun _ => ⟨rfl, ?_, ?_⟩⟩
      · intro hinv
        rw [h2.2, hinv]
        rfl
      · intro hinv
        rw [h2.2, hinv]
        rfl
    · simp only [hd, ne_eq, not_false_eq_true, if_true] at h2
      refine ⟨lw1, _, _, h1, h2.1, rfl, fun _ => ⟨rfl, ?_, ?_⟩, fun h => absurd h hd⟩
      · intro hinv
        rw [h2.2, hinv]
        rfl
      · intro hinv
        rw [h2.2, hinv]
        rfl
  · intro e ms lw2 hb hms hne
    obtain ⟨lw3, k1, k2, k3, k4⟩ := expire_blinking inst swt hwt hw led.timer_id idx e ms lw2
      hb hms
    have hl : lw3.leds[idx]? = some (blink_next e) := by
      cases ha : blink_arm e with
      | none => exact (k4 ha).2.1
      | some m => exact (k3 m ha).2.1
    refine ⟨lw3, blink_next e, k1, hl, ?_, ?_, ?_, ?_, ?_⟩
    · simp only [blink_next]
      split <;> [rfl; (split <;> [split; skip] <;> rfl); rfl]
    · intro hst
      simp only [blink_next, hst]
    · intro hst
      simp only [blink_next, hst]
      split <;> [split; skip] <;> simp
    · intro hinv
      rw [k2, blink_write_lit e hne, hinv]
      by_cases hst : (blink_next e).blink_state = LED_BLINK_STATE_PULSE <;> simp [hst]
    · intro hinv
      rw [k2, blink_write_lit e hne, hinv]
      by_cases hst : (blink_next e).blink_state = LED_BLINK_STATE_PULSE <;> simp [hst]

/-- C32, amended, on LED 0 of the test instance, an inverted pattern with a delay. -/
theorem C32_inverted_flag_meaning_witness :
    (∃ lw1 e1 ms1,
      leds_blink_ext test_leds_inst 0 2 50 100 0 10 true test_led_world = some lw1 ∧
      Blinking test_leds_inst test_inst test_hw_interface test_leds_interface
        test_led.timer_id 0 e1 ms1 lw1 ∧
      e1.is_inverted = true ∧
      ((10 : Nat) ≠ 0 → e1.blink_state = LED_BLINK_STATE_PAUSE ∧
        (true = false → lw1.log = test_led_world.log ++ [led_write test_led false]) ∧
        (true = true → lw1.log = test_led_world.log ++ [led_write test_led true])) ∧
      ((10 : Nat) = 0 → e1.blink_state = LED_BLINK_STATE_PULSE ∧
        (true = false → lw1.log = test_led_world.log ++ [led_write test_led true]) ∧
        (true = true → lw1.log = test_led_world.log ++ [led_write test_led false]))) ∧
    (∀ e ms lw2, Blinking test_leds_inst test_inst test_hw_interface test_leds_interface
        test_led.timer_id 0 e ms lw2 → ms < 4294967296 →
      e.blink_state ≠ LED_BLINK_STATE_DISABLED →
      ∃ lw3 e3, leds_expire test_leds_inst test_inst test_led.timer_id lw2 = some lw3 ∧
        lw3.leds[0]? = some e3 ∧ e3.is_inverted = e.is_inverted ∧
        (e.blink_state = LED_BLINK_STATE_PAUSE → e3.blink_state = LED_BLINK_STATE_PULSE) ∧
        (e.blink_state = LED_BLINK_STATE_PULSE → e3.blink_state ≠ LED_BLINK_STATE_PULSE) ∧
        (e.is_inverted = false → lw3.log = lw2.log ++
          [led_write e (decide (e3.blink_state = LED_BLINK_STATE_PULSE))]) ∧
        (e.is_inverted = true → lw3.log = lw2.log ++
          [led_write e (!decide (e3.blink_state = LED_BLINK_STATE_PULSE))])) :=
  C32_inverted_flag_meaning test_leds_inst test_inst test_hw_interface test_leds_interface 0 2 50
    100 0 10 true test_led test_led_world (by decide) (by decide) (by decide) (by decide)
    (by decide) (by decide) (by decide)

/-- C33: on initialized drivers, `leds_switch_on`, `leds_switch_off` and `leds_switch_toggle`
return; the memory they leave is the memory before (the LEDs table and the timers driver
untouched) with exactly one pin call added for the pin of the LED: `gpio_write` with the on
level, `gpio_write` with the off level, `gpio_toggle`.  When the LED is blinking on its timer,
it is still blinking after each of the three calls, and the next expiry of the timer makes the
step of the pattern it would have made without the call: the same entry, the same pin call and
the same arm. -/
theorem C33_switch_frame (inst : leds_instance_t) (swt : swtimers_instance_t)
    (hwt : swtimers_hw_interface_t) (hw : leds_hw_interface_t) (idx : Nat)
    (led : leds_led_instance_t) (lw : LWorld)
    (hi : LInitialized inst swt hwt hw lw) (hled : lw.leds[idx]? = some led) :
    leds_switch_on inst idx lw = some { lw with log := lw.log ++ [led_write led true] } ∧
    leds_switch_off inst idx lw = some { lw with log := lw.log ++ [led_write led false] } ∧
    leds_switch_toggle inst idx lw =
      some { lw with log := lw.log ++ [LEvent.gpio_toggle led.gpio_pin] } ∧
    ∀ tid ms ev, Blinking inst swt hwt hw tid idx led ms lw → ms < 4294967296 →
      Blinking inst swt hwt hw tid idx led ms { lw with log := lw.log ++ [ev] } ∧
      ∃ lw1 lw2, leds_expire inst swt tid lw = some lw1 ∧
        leds_expire inst swt tid { lw with log := lw.log ++ [ev] } = some lw2 ∧
        lw2.leds = lw1.leds ∧ lw2.swt.timers = lw1.swt.timers ∧
        lw1.log = lw.log ++ blink_write led ∧
        lw2.log = lw.log ++ [ev] ++ blink_write led := by
  obtain ⟨hsp, hp, hg, hgt, hn, hlen, hsw⟩ := id hi
  have hidx : idx < inst.num := by
    by_contra hc
    rw [List.getElem?_eq_none (by omega)] at hled
    cases hled
  refine ⟨?_, ?_, ?_, ?_⟩
  · simp [leds_switch_on, hidx, hled, leds_gpio_set, hp, hg, led_write]
  · simp [leds_switch_off, hidx, hled, leds_gpio_set, hp, hg, led_write]
  · simp [leds_switch_toggle, hidx, hled, leds_gpio_toggle, hp, hgt]
  · intro tid ms ev hb hms
    have hb' : Blinking inst swt hwt hw tid idx led ms { lw with log := lw.log ++ [ev] } := hb
    refine ⟨hb', ?_⟩
    obtain ⟨hi1, hl1, ht1, ho1⟩ := id hb
    obtain ⟨lw1, k1, -, k2, k3, k4, -, -⟩ := expire_spec inst swt hwt hw tid idx led lw ms hi1
      hl1 ht1 hms ho1
    obtain ⟨lw2, j1, -, j2, j3, j4, -, -⟩ := expire_spec inst swt hwt hw tid idx led
      { lw with log := lw.log ++ [ev] } ms hi1 hl1 ht1 hms ho1
    exact ⟨lw1, lw2, k1, j1, by rw [k2, j2], by rw [k4, j4], k3, j3⟩

/-- C33 on LED 0 of the test instance, blinking in the pause after its first pulse, timer 1
armed for 1 ms. -/
theorem C33_switch_frame_witness :
    Blinking test_leds_inst test_inst test_hw_interface test_leds_interface 1 0
      (led_pause (led_pattern test_led 2 1 1 0 false) 1) 1 test_pause_world ∧
    leds_switch_on test_leds_inst 0 test_pause_world = some { test_pause_world with
      log := test_pause_world.log ++
        [led_write (led_pause (led_pattern test_led 2 1 1 0 false) 1) true] } ∧
    leds_switch_off test_leds_inst 0 test_pause_world = some { test_pause_world with
      log := test_pause_world.log ++
        [led_write (led_pause (led_pattern test_led 2 1 1 0 false) 1) false] } ∧
    leds_switch_toggle test_leds_inst 0 test_pause_world = some { test_pause_world with
      log := test_pause_world.log ++
        [LEvent.gpio_toggle (led_pause (led_pattern test_led 2 1 1 0 false) 1).gpio_pin] } ∧
    ∀ tid ms ev, Blinking test_leds_inst test_inst test_hw_interface test_leds_interface tid 0
        (led_pause (led_pattern test_led 2 1 1 0 false) 1) ms test_pause_world →
      ms < 4294967296 →
      Blinking test_leds_inst test_inst test_hw_interface test_leds_interface tid 0
        (led_pause (led_pattern test_led 2 1 1 0 false) 1) ms
        { test_pause_world with log := test_pause_world.log ++ [ev] } ∧
      ∃ lw1 lw2, leds_expire test_leds_inst test_inst tid test_pause_world = some lw1 ∧
        leds_expire test_leds_inst test_inst tid
          { test_pause_world with log := test_pause_world.log ++ [ev] } = some lw2 ∧
        lw2.leds = lw1.leds ∧ lw2.swt.timers = lw1.swt.timers ∧
        lw1.log = test_pause_world.log ++
          blink_write (led_pause (led_pattern test_led 2 1 1 0 false) 1) ∧
        lw2.log = test_pause_world.log ++ [ev] ++
          blink_write (led_pause (led_pattern test_led 2 1 1 0 false) 1) :=
  ⟨by decide,
    C33_switch_frame test_leds_inst test_inst test_hw_interface test_leds_interface 0
      (led_pause (led_pattern test_led 2 1 1 0 false) 1) test_pause_world (by decide)
      (by decide)⟩

/-- C34: on initialized drivers, `leds_on`, `leds_off` and `leds_toggle` return; they store
Disabled in the blink state of the LED, leave the rest of the table and the timers driver as
they were (the timer of an abandoned pattern stays armed) and make exactly one pin call:
`gpio_write` with the on level, `gpio_write` with the off level, `gpio_toggle`.  When the LED
was blinking on its timer, the later expiry of that timer returns and makes no pin call, leaves
the LEDs table as the call left it and arms nothing: the slot neither runs nor waits, no other
timer is active and a gated hardware timer is stopped. -/
theorem C34_disabled_is_sink (inst : leds_instance_t) (swt : swtimers_instance_t)
    (hwt : swtimers_hw_interface_t) (hw : leds_hw_interface_t) (idx : Nat)
    (led : leds_led_instance_t) (lw : LWorld)
    (hi : LInitialized inst swt hwt hw lw) (hled : lw.leds[idx]? = some led) :
    leds_on inst idx lw =
      some (LWorld.mk lw.swt
        (lw.leds.set idx { led with blink_state := LED_BLINK_STATE_DISABLED })
        (lw.log ++ [led_write led true])) ∧
    leds_off inst idx lw =
      some (LWorld.mk lw.swt
        (lw.leds.set idx { led with blink_state := LED_BLINK_STATE_DISABLED })
        (lw.log ++ [led_write led false])) ∧
    leds_toggle inst idx lw =
      some (LWorld.mk lw.swt
        (lw.leds.set idx { led with blink_state := LED_BLINK_STATE_DISABLED })
        (lw.log ++ [LEvent.gpio_toggle led.gpio_pin])) ∧
    ∀ tid ms ev, Blinking inst swt hwt hw tid idx led ms lw → ms < 4294967296 →
      ∃ lw2 t,
        leds_expire inst swt tid
          (LWorld.mk lw.swt
            (lw.leds.set idx { led with blink_state := LED_BLINK_STATE_DISABLED })
            (lw.log ++ [ev])) = some lw2 ∧
        lw2.leds = lw.leds.set idx { led with blink_state := LED_BLINK_STATE_DISABLED } ∧
        lw2.log = lw.log ++ [ev] ∧
        lw2.swt.slot tid = some t ∧ t.is_run = false ∧ t.is_waiting = false ∧
        others_idle tid lw2.swt ∧
        (hwt.hw_is_started_cb = true → lw2.swt.hw_is_started = false) := by
  obtain ⟨hsp, hp, hg, hgt, hn, hlen, hsw⟩ := id hi
  have hidx : idx < inst.num := by
    by_contra hc
    rw [List.getElem?_eq_none (by omega)] at hled
    cases hled
  refine ⟨?_, ?_, ?_, ?_⟩
  · simp [leds_on, hidx, hled, leds_gpio_set, hp, hg, led_write]
  · simp [leds_off, hidx, hled, leds_gpio_set, hp, hg, led_write]
  · simp [leds_toggle, hidx, hled, leds_gpio_toggle, hp, hgt]
  · intro tid ms ev hb hms
    obtain ⟨-, -, ht1, ho1⟩ := id hb
    have hi' : LInitialized inst swt hwt hw
        (LWorld.mk lw.swt
          (lw.leds.set idx { led with blink_state := LED_BLINK_STATE_DISABLED })
          (lw.log ++ [ev])) :=
      ⟨hsp, hp, hg, hgt, hn, by simp [hlen], hsw⟩
    have hl' : (lw.leds.set idx { led with blink_state := LED_BLINK_STATE_DISABLED })[idx]? =
        some { led with blink_state := LED_BLINK_STATE_DISABLED } := by
      simp [List.getElem?_set, hlen, hidx]
    obtain ⟨lw2, k1, -, k2, k3, k4, k5, k6⟩ := expire_spec inst swt hwt hw tid idx
      { led with blink_state := LED_BLINK_STATE_DISABLED } _ ms hi' hl' ht1 hms ho1
    have hlt : tid < lw.swt.timers.length := by
      by_contra hc
      have : lw.swt.slot tid = none := by
        simp only [World.slot]
        exact List.getElem?_eq_none (by omega)
      rw [this] at ht1
      cases ht1
    refine ⟨lw2, led_slot_served hwt idx ms, k1, ?_, ?_, ?_, rfl, rfl, k5, k6 rfl⟩
    · rw [k2]
      simp [blink_next]
    · rw [k3]
      simp [blink_write]
    · simp only [World.slot, k4, blink_arm]
      simp [List.getElem?_set, hlt]

/-- C34 on LED 0 of the test instance, blinking in the pause after its first pulse, timer 1
armed for 1 ms. -/
theorem C34_disabled_is_sink_witness :
    Blinking test_leds_inst test_inst test_hw_interface test_leds_interface 1 0
      (led_pause (led_pattern test_led 2 1 1 0 false) 1) 1 test_pause_world ∧
    leds_on test_leds_inst 0 test_pause_world =
      some (LWorld.mk test_pause_world.swt
        (test_pause_world.leds.set 0
          { led_pause (led_pattern test_led 2 1 1 0 false) 1 with
            blink_state := LED_BLINK_STATE_DISABLED })
        (test_pause_world.log ++
          [led_write (led_pause (led_pattern test_led 2 1 1 0 false) 1) true])) ∧
    leds_off test_leds_inst 0 test_pause_world =
      some (LWorld.mk test_pause_world.swt
        (test_pause_world.leds.set 0
          { led_pause (led_pattern test_led 2 1 1 0 false) 1 with
            blink_state := LED_BLINK_STATE_DISABLED })
        (test_pause_world.log ++
          [led_write (led_pause (led_pattern test_led 2 1 1 0 false) 1) false])) ∧
    leds_toggle test_leds_inst 0 test_pause_world =
      some (LWorld.mk test_pause_world.swt
        (test_pause_world.leds.set 0
          { led_pause (led_pattern test_led 2 1 1 0 false) 1 with
            blink_state := LED_BLINK_STATE_DISABLED })
        (test_pause_world.log ++
          [LEvent.gpio_toggle (led_pause (led_pattern test_led 2 1 1 0 false) 1).gpio_pin])) ∧
    ∀ tid ms ev, Blinking test_leds_inst test_inst test_hw_interface test_leds_interface tid 0
        (led_pause (led_pattern test_led 2 1 1 0 false) 1) ms test_pause_world →
      ms < 4294967296 →
      ∃ lw2 t,
        leds_expire test_leds_inst test_inst tid
          (LWorld.mk test_pause_world.swt
            (test_pause_world.leds.set 0
              { led_pause (led_pattern test_led 2 1 1 0 false) 1 with
                blink_state := LED_BLINK_STATE_DISABLED })
            (test_pause_world.log ++ [ev])) = some lw2 ∧
        lw2.leds = test_pause_world.leds.set 0
          { led_pause (led_pattern test_led 2 1 1 0 false) 1 with
            blink_state := LED_BLINK_STATE_DISABLED } ∧
        lw2.log = test_pause_world.log ++ [ev] ∧
        lw2.swt.slot tid = some t ∧ t.is_run = false ∧ t.is_waiting = false ∧
        others_idle tid lw2.swt ∧
        (test_hw_interface.hw_is_started_cb = true → lw2.swt.hw_is_started = false) :=
  ⟨by decide,
    C34_disabled_is_sink test_leds_inst test_inst test_hw_interface test_leds_interface 0
      (led_pause (led_pattern test_led 2 1 1 0 false) 1) test_pause_world (by decide)
      (by decide)⟩

/-- C35: for handlers that do not call back, one `swtimers_isr` call on a table of `num` slots
returns and leaves the hardware timer as it was.  Every slot keeps its threshold, mode,
handler, arguments and handler kind.  A slot with `is_run` = false is left as it was and
nothing is dispatched for it; when no slot runs the table is left as it was and no handler is
called.  A running slot whose incremented counter (a `uint32_t`) is below its threshold only
has its counter replaced by the incremented one, which is `counter + 1` unless the counter was
at its maximum, and nothing is dispatched for it. -/
theorem C35_isr_frame (env : Handlers) (inst : swtimers_instance_t) (w : World)
    (hq : Quiet env) (hlen : w.timers.length = inst.num) :
    ∃ w', swtimers_isr env inst w = some w' ∧ w'.hw_is_started = w.hw_is_started ∧
      w'.timers.length = w.timers.length ∧
      (∀ i t, w.slot i = some t → ∃ t', w'.slot i = some t' ∧
        t'.threshold = t.threshold ∧ t'.mode = t.mode ∧ t'.handler = t.handler ∧
        t'.arg_1_p = t.arg_1_p ∧ t'.arg_2_p = t.arg_2_p ∧ t'.is_simple = t.is_simple ∧
        (t.is_run = false → t' = t ∧ calls_of i w'.trace = calls_of i w.trace) ∧
        (t.is_run = true → wrap32 (t.counter + 1) < t.threshold →
          t' = { t with counter := wrap32 (t.counter + 1) } ∧
          (t.counter + 1 < 4294967296 → t'.counter = t.counter + 1) ∧
          calls_of i w'.trace = calls_of i w.trace)) ∧
      (any_run w.timers = false → w'.timers = w.timers ∧ calls w'.trace = calls w.trace) := by
  obtain ⟨w', h, k1, k2, k3, k4⟩ := isr_slots env hq inst w hlen
  refine ⟨w', h, k2, by simp [k1], ?_, ?_⟩
  · intro i t ht
    obtain ⟨s1, s2⟩ := k4 i t ht
    refine ⟨tick t, s1, ?_, ?_, tick_handler t, ?_, ?_, ?_, ?_, ?_⟩
    · simp only [tick]; split <;> [rfl; (split <;> rfl)]
    · simp only [tick]; split <;> [rfl; (split <;> rfl)]
    · simp only [tick]; split <;> [rfl; (split <;> rfl)]
    · simp only [tick]; split <;> [rfl; (split <;> rfl)]
    · simp only [tick]; split <;> [rfl; (split <;> rfl)]
    · intro hr
      refine ⟨by simp [tick, hr], ?_⟩
      rw [s2, tick_calls_stopped i t hr, List.append_nil]
    · intro hr hc
      refine ⟨by simp [tick, hr, hc], ?_, ?_⟩
      · intro hlt
        have hc' := hc
        rw [wrap32_of_lt hlt] at hc'
        simp [tick, hr, hc', wrap32_of_lt hlt]
      · rw [s2]
        simp [tick_calls, expires, hr, hc]
  · intro hno
    obtain ⟨a, b⟩ := tick_all_stopped w.timers hno inst.num
    exact ⟨by rw [k1, a], by rw [k3, b, List.append_nil]⟩

/-- C35 on a table with a stopped slot, a slot that counts and a slot that expires. -/
theorem C35_isr_frame_witness :
    ∃ w', swtimers_isr idle_handlers test_inst
        { timers := [{ zero_timer with handler := 5, threshold := 4, counter := 4 },
            { zero_timer with handler := 7, threshold := 5, is_run := true, counter := 2 },
            { zero_timer with handler := 9, threshold := 1, is_run := true }],
          hw_is_started := true, trace := [] } = some w' ∧
      w'.hw_is_started = true ∧
      w'.timers.length = 3 ∧
      (∀ i t, World.slot
          { timers := [{ zero_timer with handler := 5, threshold := 4, counter := 4 },
              { zero_timer with handler := 7, threshold := 5, is_run := true, counter := 2 },
              { zero_timer with handler := 9, threshold := 1, is_run := true }],
            hw_is_started := true, trace := [] } i = some t → ∃ t', w'.slot i = some t' ∧
        t'.threshold = t.threshold ∧ t'.mode = t.mode ∧ t'.handler = t.handler ∧
        t'.arg_1_p = t.arg_1_p ∧ t'.arg_2_p = t.arg_2_p ∧ t'.is_simple = t.is_simple ∧
        (t.is_run = false → t' = t ∧ calls_of i w'.trace = calls_of i []) ∧
        (t.is_run = true → wrap32 (t.counter + 1) < t.threshold →
          t' = { t with counter := wrap32 (t.counter + 1) } ∧
          (t.counter + 1 < 4294967296 → t'.counter = t.counter + 1) ∧
          calls_of i w'.trace = calls_of i [])) ∧
      (any_run [{ zero_timer with handler := 5, threshold := 4, counter := 4 },
            { zero_timer with handler := 7, threshold := 5, is_run := true, counter := 2 },
            { zero_timer with handler := 9, threshold := 1, is_run := true }] = false →
        w'.timers = [{ zero_timer with handler := 5, threshold := 4, counter := 4 },
            { zero_timer with handler := 7, threshold := 5, is_run := true, counter := 2 },
            { zero_timer with handler := 9, threshold := 1, is_run := true }] ∧
        calls w'.trace = calls []) :=
  C35_isr_frame idle_handlers test_inst
    { timers := [{ zero_timer with handler := 5, threshold := 4, counter := 4 },
        { zero_timer with handler := 7, threshold := 5, is_run := true, counter := 2 },
        { zero_timer with handler := 9, threshold := 1, is_run := true }],
      hw_is_started := true, trace := [] } quiet_idle (by decide)

/-- C36 fails in the code as written: a `buttons_task` pass in which a raw edge is detected for
a button with a bouncing filter does not return.  Lines 218-231 do what the claim says,
whatever phase the button is in: `swtimers_start_no_handler` arms the button's timer for
`bouncing_ms` (threshold `bouncing_ms / tick_ms`, counter 0, running), `is_debouncing` is set,
`is_pressed_debounced` and the event mask are left as they were.  The next statement, line 234,
calls `swtimers_is_run(.., NULL)` on the timer just started; the call stores through the
pointer, so the call, the loop body and the pass are undefined -/
theorem C36_raw_edge_pass_undefined (env : BHandlers) (inst : buttons_instance_t)
    (gpio : Nat → Bool) (i : Nat) (bw : BWorld) (b b1 : buttons_button_instance_t)
    (log1 : List BEvent) (swt : swtimers_instance_t) (hwt : swtimers_hw_interface_t)
    (raw_event : Nat) (t : swtimers_timer_instance_t)
    (hi : i < inst.num) (hb : bw.buttons[i]? = some b)
    (hct : b.check_type ≠ BUTTONS_CHECK_DISABLED) (hB : b.bouncing_ms ≠ 0)
    (hp : buttons_process_changes inst.hw_p gpio b bw.log = some (raw_event, b1, log1))
    (hraw : raw_event ≠ BUTTONS_NO_EVENT)
    (hinit : Initialized swt hwt bw.swt) (ht : bw.swt.slot b.timer_id = some t) :
    ∃ w1, buttons_task_change swt raw_event
        { b := b1, event := BUTTONS_NO_EVENT, is_timer_run := false, w := bw.swt, log := log1 } =
        some (BLocal.mk { b1 with is_debouncing := true } BUTTONS_NO_EVENT false w1 log1) ∧
      b1.is_pressed_debounced = b.is_pressed_debounced ∧
      w1.slot b.timer_id = some
        { handler := 0, threshold := b.bouncing_ms / hwt.tick_ms, arg_1_p := 0, arg_2_p := 0,
          mode := SWTIMERS_MODE_SINGLE_FROM_LOOP, is_simple := true, is_run := true,
          is_waiting := false, counter := 0 } ∧
      buttons_task_timer swt
        (BLocal.mk { b1 with is_debouncing := true } BUTTONS_NO_EVENT false w1 log1) = none ∧
      buttons_task_events inst gpio i bw = none ∧
      buttons_task env inst gpio bw = none := by
  have hb1 := (process_changes_spec inst.hw_p gpio b b1 bw.log log1 _ hp).2.1
  have hbm : b1.bouncing_ms = b.bouncing_ms := by rw [← hb1]
  have htid : b1.timer_id = b.timer_id := by rw [← hb1]
  have hdeb : b1.is_pressed_debounced = b.is_pressed_debounced := by rw [← hb1]
  obtain ⟨hhw, hok, -, hlen⟩ := hinit
  obtain ⟨w1, hw1, htm, -, -⟩ := do_start_spec swt hwt bw.swt b.timer_id b.bouncing_ms
    SWTIMERS_MODE_SINGLE_FROM_LOOP true 0 0 0 0 t hhw hok hlen ht
  refine ⟨w1, ?_, hdeb, ?_, task_timer_undefined swt _, task_events_undefined inst gpio i bw,
    task_enabled_undefined env inst gpio i bw b hi hb hct⟩
  · unfold buttons_task_change
    rw [if_pos hraw, if_pos (by simpa [hbm] using hB)]
    simp only [swtimers_start_no_handler, htid, hbm, hw1, Option.map_some']
  · unfold World.slot
    rw [htm]
    simp [List.getElem?_set, slot_lt ht]

/-- C36 on the test instance: button 0 configured with B = 2 ms while the pin is low, then a
pass with the pin high -/
theorem C36_raw_edge_pass_undefined_witness :
    (brun idle_handlers idle_button_handlers test_inst test_buttons_inst [test_configure]
        test_buttons_world = some test_configured_world ∧
      test_configured_world.buttons[0]? = some test_button ∧
      buttons_process_changes test_buttons_inst.hw_p gpio_high test_button
        test_configured_world.log =
        some (BUTTONS_PRESSED, { test_button with is_pressed_raw := true },
          [BEvent.gpio_read 5, BEvent.gpio_read 5]) ∧
      Initialized test_inst test_hw_interface test_configured_world.swt ∧
      test_configured_world.swt.slot 1 = some zero_timer) ∧
    ∃ w1, buttons_task_change test_inst BUTTONS_PRESSED
        { b := { test_button with is_pressed_raw := true }, event := BUTTONS_NO_EVENT,
          is_timer_run := false, w := test_configured_world.swt,
          log := [BEvent.gpio_read 5, BEvent.gpio_read 5] } =
        some (BLocal.mk { test_button with is_pressed_raw := true, is_debouncing := true }
          BUTTONS_NO_EVENT false w1 [BEvent.gpio_read 5, BEvent.gpio_read 5]) ∧
      buttons_task idle_button_handlers test_buttons_inst gpio_high test_configured_world =
        none :=
  and_of_imp (by decide) fun h =>
    Exists.elim (C36_raw_edge_pass_undefined idle_button_handlers test_buttons_inst gpio_high 0
      test_configured_world test_button { test_button with is_pressed_raw := true }
      [BEvent.gpio_read 5, BEvent.gpio_read 5] test_inst test_hw_interface BUTTONS_PRESSED
      zero_timer (by decide) h.2.1 (by decide) (by decide) h.2.2.1 (by decide) h.2.2.2.1
      h.2.2.2.2) fun w1 hw1 => ⟨w1, hw1.1, hw1.2.2.2.2.2⟩

/-- C38: on initialized drivers, for LED `idx` whose timer is the only active one,
`leds_blink_ext` with accepted parameters returns.  With `delay_ms` > 0 it writes the level of
the phases that are not a pulse (off, or on when inverted), arms the timer of the LED for
`delay_ms` as SingleFromLoop with `leds_processing` as handler and enters Pause with
`pulse_counter` = 0; the first expiry writes the level of the pulse, arms the timer for
`pulse_ms` and enters Pulse with `pulse_counter` still 0.  With `delay_ms` = 0 the call itself
writes the level of the pulse, arms `pulse_ms` and enters Pulse with `pulse_counter` = 0. -/
theorem C38_delay_then_pulse (inst : leds_instance_t) (swt : swtimers_instance_t)
    (hwt : swtimers_hw_interface_t) (hw : leds_hw_interface_t)
    (idx series pulse_ms pause_ms period_ms delay_ms : Nat) (is_inverted : Bool)
    (led : leds_led_instance_t) (lw : LWorld)
    (hi : LInitialized inst swt hwt hw lw) (hled : lw.leds[idx]? = some led)
    (htid : led.timer_id < swt.num) (hothers : others_idle led.timer_id lw.swt)
    (hs0 : 0 < series) (hp0 : 0 < pulse_ms) (hd : delay_ms < 4294967296)
    (hper : period_ms = 0 ∨
      period_ms ≥ wrap32 (wrap32 (pulse_ms * series) + wrap32 (pause_ms * (series - 1)))) :
    ∃ lw1 e1 t1,
      leds_blink_ext inst idx series pulse_ms pause_ms period_ms delay_ms is_inverted lw =
        some lw1 ∧
      lw1.leds[idx]? = some e1 ∧ lw1.swt.slot led.timer_id = some t1 ∧
      e1.pulse_counter = 0 ∧ e1.series = series ∧ e1.pulse_ms = pulse_ms ∧
      e1.pause_ms = pause_ms ∧ e1.is_inverted = is_inverted ∧
      t1.mode = SWTIMERS_MODE_SINGLE_FROM_LOOP ∧ t1.is_run = true ∧ t1.is_waiting = false ∧
      t1.counter = 0 ∧ t1.handler = leds_processing_cb ∧ t1.is_simple = false ∧
      (delay_ms ≠ 0 →
        lw1.log = lw.log ++ [led_write led is_inverted] ∧
        e1.blink_state = LED_BLINK_STATE_PAUSE ∧ t1.threshold = delay_ms / hwt.tick_ms ∧
        ∃ lw2 e2 t2, leds_expire inst swt led.timer_id lw1 = some lw2 ∧
          lw2.log = lw1.log ++ [led_write led (!is_inverted)] ∧
          lw2.leds[idx]? = some e2 ∧ e2 = { e1 with blink_state := LED_BLINK_STATE_PULSE } ∧
          lw2.swt.slot led.timer_id = some t2 ∧
          t2 = { t1 with threshold := pulse_ms / hwt.tick_ms }) ∧
      (delay_ms = 0 →
        lw1.log = lw.log ++ [led_write led (!is_inverted)] ∧
        e1.blink_state = LED_BLINK_STATE_PULSE ∧ t1.threshold = pulse_ms / hwt.tick_ms) := by
  obtain ⟨lw1, h1, h2⟩ := blink_ext_spec inst swt hwt hw idx series pulse_ms pause_ms
    period_ms delay_ms is_inverted led lw hi hled htid hothers (by omega) (by omega) hper
  have hw1 : ∀ x : Bool, (if x = true then true else false) = x := by intro x; cases x <;> rfl
  have hw2 : ∀ x : Bool, (if x = true then false else true) = !x := by intro x; cases x <;> rfl
  by_cases hdz : delay_ms = 0
  · simp only [hdz, ne_eq, not_true_eq_false, if_false] at h2
    obtain ⟨⟨-, b2, b3, -⟩, hlog⟩ := h2
    refine ⟨lw1, _, _, h1, b2, b3, rfl, rfl, rfl, rfl, rfl, rfl, rfl, rfl, rfl, rfl, rfl,
      fun h => absurd hdz h, fun _ => ⟨by rw [hlog, hw2], rfl, rfl⟩⟩
  · simp only [hdz, ne_eq, not_false_eq_true, if_true] at h2
    obtain ⟨hb, hlog⟩ := h2
    obtain ⟨-, b2, b3, -⟩ := id hb
    obtain ⟨n1, n2, n3⟩ := next_pause
      (led_pattern led series pulse_ms pause_ms period_ms is_inverted) 0
    obtain ⟨lw2, k1, k2, k3, -⟩ := expire_blinking inst swt hwt hw led.timer_id idx _ _ lw1
      hb hd
    obtain ⟨-, c2, c3, -⟩ := k3 _ n2
    refine ⟨lw1, _, _, h1, b2, b3, rfl, rfl, rfl, rfl, rfl, rfl, rfl, rfl, rfl, rfl, rfl,
      fun _ => ⟨by rw [hlog, hw1], rfl, rfl, lw2, _, _, k1, ?_, c2, ?_, c3, rfl⟩,
      fun h => absurd h hdz⟩
    · rw [k2, n3, ← hw2 is_inverted]
      rfl
    · rw [n1]
      rfl

/-- C38 on LED 0 of the test instance: two pulses of 50 ms after a delay of 10 ms. -/
theorem C38_delay_then_pulse_witness :
    ∃ lw1 e1 t1,
      leds_blink_ext test_leds_inst 0 2 50 100 0 10 false test_led_world = some lw1 ∧
      lw1.leds[0]? = some e1 ∧ lw1.swt.slot test_led.timer_id = some t1 ∧
      e1.pulse_counter = 0 ∧ e1.series = 2 ∧ e1.pulse_ms = 50 ∧
      e1.pause_ms = 100 ∧ e1.is_inverted = false ∧
      t1.mode = SWTIMERS_MODE_SINGLE_FROM_LOOP ∧ t1.is_run = true ∧ t1.is_waiting = false ∧
      t1.counter = 0 ∧ t1.handler = leds_processing_cb ∧ t1.is_simple = false ∧
      (10 ≠ 0 →
        lw1.log = test_led_world.log ++ [led_write test_led false] ∧
        e1.blink_state = LED_BLINK_STATE_PAUSE ∧
        t1.threshold = 10 / test_hw_interface.tick_ms ∧
        ∃ lw2 e2 t2, leds_expire test_leds_inst test_inst test_led.timer_id lw1 = some lw2 ∧
          lw2.log = lw1.log ++ [led_write test_led (!false)] ∧
          lw2.leds[0]? = some e2 ∧ e2 = { e1 with blink_state := LED_BLINK_STATE_PULSE } ∧
          lw2.swt.slot test_led.timer_id = some t2 ∧
          t2 = { t1 with threshold := 50 / test_hw_interface.tick_ms }) ∧
      (10 = 0 →
        lw1.log = test_led_world.log ++ [led_write test_led (!false)] ∧
        e1.blink_state = LED_BLINK_STATE_PULSE ∧
        t1.threshold = 50 / test_hw_interface.tick_ms) :=
  C38_delay_then_pulse test_leds_inst test_inst test_hw_interface test_leds_interface 0 2 50
    100 0 10 false test_led test_led_world (by decide) (by decide) (by decide) (by decide)
    (by decide) (by decide) (by decide) (by decide)

/-- C39: for handlers that do not call back, on an initialized instance, a running
PeriodicFromLoop slot with a handler whose period is `P = max(1, threshold)` ticks (its counter
below `P`, as a start or an expiry leaves it): over `n` consecutive `swtimers_isr`
calls the slot expires `(counter + n) ÷ P` times, nothing is dispatched from the ISR and the
slot runs after every one of the calls; when it has expired at least once, the next
`swtimers_task` calls its handler exactly once, with the stored arguments, and leaves the slot
running, not waiting, its counter `(counter + n) mod P`. -/
theorem C39_periodic_expiries_coalesce (env : Handlers) (inst : swtimers_instance_t)
    (hw : swtimers_hw_interface_t) (w : World) (idx n : Nat) (t : swtimers_timer_instance_t)
    (hq : Quiet env) (hinit : Initialized inst hw w) (ht : w.slot idx = some t)
    (hr : t.is_run = true) (hm : t.mode = SWTIMERS_MODE_PERIODIC_FROM_LOOP)
    (hh : t.handler ≠ 0) (hc : t.counter < max 1 t.threshold)
    (hT : t.threshold < 4294967296) (hn : max 1 t.threshold ≤ t.counter + n) :
    ∃ w1 w2 t2, isr_n env inst n w = some w1 ∧ swtimers_task env inst w1 = some w2 ∧
      (∀ k, k ≤ n → ∃ wk, isr_n env inst k w = some wk ∧
        wk.slot idx = some (tick^[k] t) ∧ (tick^[k] t).is_run = true) ∧
      ((List.range n).filter fun k => expires (tick^[k] t)).length =
        (t.counter + n) / max 1 t.threshold ∧
      1 ≤ (t.counter + n) / max 1 t.threshold ∧
      calls_of idx w1.trace = calls_of idx w.trace ∧
      calls_of idx w2.trace = calls_of idx w.trace ++
        [if t.is_simple then Event.call_simple t.handler idx
         else Event.call_full t.handler idx t.arg_1_p t.arg_2_p] ∧
      w2.slot idx = some t2 ∧ t2.is_run = true ∧ t2.is_waiting = false ∧
      t2.counter = (t.counter + n) % max 1 t.threshold := by
  obtain ⟨hp, hok, hnum, hlen⟩ := id hinit
  have hidx : idx < inst.num := by have := slot_lt ht; omega
  have ht' : w.timers[idx]? = some t := ht
  have key : ∀ k, ∃ wk, isr_n env inst k w = some wk ∧ wk.timers = w.timers.map (tick^[k]) ∧
      wk.slot idx = some (tick^[k] t) ∧ calls_of idx wk.trace = calls_of idx w.trace := by
    intro k
    obtain ⟨wk, a1, a2, -, a4⟩ := isr_n_spec env hq inst w hlen idx t ht k
    refine ⟨wk, a1, a2, ?_, ?_⟩
    · show wk.timers[idx]? = _
      rw [a2, List.getElem?_map, ht']
      rfl
    · rw [a4, periodic_loop_no_calls t idx hm k, List.append_nil]
  have hit := fun k => tick_iter_periodic_loop t (max 1 t.threshold) rfl hr hm hh hc hT k
  obtain ⟨w1, a1, a2, a3, a4⟩ := key n
  have hlen1 : w1.timers.length = inst.num := by simp [a2, hlen]
  obtain ⟨w2, b1, b2, -, b4⟩ := task_spec env hq inst hw w1 hp hok hnum hlen1
  have hs1 : w1.timers[idx]? = some (tick^[n] t) := a3
  refine ⟨w1, w2, { tick^[n] t with is_waiting := false }, a1, b1, ?_,
    periodic_loop_expiries t (max 1 t.threshold) rfl hr hm hh hc hT n, ?_, a4, ?_, ?_, ?_,
    rfl, ?_⟩
  · intro k _
    obtain ⟨wk, c1, -, c3, -⟩ := key k
    exact ⟨wk, c1, c3, by rw [hit k]; exact hr⟩
  · exact (Nat.one_le_div_iff (by omega)).mpr hn
  · have := congrArg (calls_of idx) b4
    rw [calls_of_calls, calls_of_append, calls_of_calls,
      calls_of_slot_calls task_calls idx (calls_of_task_calls idx) w1.timers _ hs1] at this
    rw [this, a4, if_pos hidx, hit n]
    simp [task_calls, hn, hh, dispatch]
  · show w2.timers[idx]? = _
    rw [b2, List.getElem?_map, hs1]
    rfl
  · rw [hit n]
    exact hr
  · rw [hit n]

/-- C39 on timer 1 of the test instance, periodic with a period of 2 ticks: 5 ticks, 2
expiries, one call. -/
theorem C39_periodic_expiries_coalesce_witness :
    ∃ w1 w2 t2,
      isr_n idle_handlers test_inst 5
        { timers := [zero_timer,
            { zero_timer with
              handler := 7, threshold := 2, mode := SWTIMERS_MODE_PERIODIC_FROM_LOOP,
              is_run := true },
            zero_timer],
          hw_is_started := true, trace := [] } = some w1 ∧
      swtimers_task idle_handlers test_inst w1 = some w2 ∧
      (∀ k, k ≤ 5 → ∃ wk, isr_n idle_handlers test_inst k
          { timers := [zero_timer,
              { zero_timer with
                handler := 7, threshold := 2, mode := SWTIMERS_MODE_PERIODIC_FROM_LOOP,
                is_run := true },
              zero_timer],
            hw_is_started := true, trace := [] } = some wk ∧
        wk.slot 1 = some (tick^[k]
          { zero_timer with
            handler := 7, threshold := 2, mode := SWTIMERS_MODE_PERIODIC_FROM_LOOP,
            is_run := true }) ∧
        (tick^[k]
          { zero_timer with
            handler := 7, threshold := 2, mode := SWTIMERS_MODE_PERIODIC_FROM_LOOP,
            is_run := true }).is_run = true) ∧
      ((List.range 5).filter fun k => expires (tick^[k]
          { zero_timer with
            handler := 7, threshold := 2, mode := SWTIMERS_MODE_PERIODIC_FROM_LOOP,
            is_run := true })).length = (0 + 5) / max 1 2 ∧
      1 ≤ (0 + 5) / max 1 2 ∧
      calls_of 1 w1.trace = calls_of 1 [] ∧
      calls_of 1 w2.trace = calls_of 1 [] ++
        [if false then Event.call_simple 7 1 else Event.call_full 7 1 0 0] ∧
      w2.slot 1 = some t2 ∧ t2.is_run = true ∧ t2.is_waiting = false ∧
      t2.counter = (0 + 5) % max 1 2 :=
  C39_periodic_expiries_coalesce idle_handlers test_inst test_hw_interface
    { timers := [zero_timer,
        { zero_timer with
          handler := 7, threshold := 2, mode := SWTIMERS_MODE_PERIODIC_FROM_LOOP,
          is_run := true },
        zero_timer],
      hw_is_started := true, trace := [] } 1 5
    { zero_timer with
      handler := 7, threshold := 2, mode := SWTIMERS_MODE_PERIODIC_FROM_LOOP, is_run := true }
    quiet_idle (by decide) (by decide) (by decide) (by decide) (by decide) (by decide)
    (by decide) (by decide)

/-- C40: on an initialized instance, when slot `idx` waits for its full handler and that
handler, called by `swtimers_task`, calls `swtimers_start(idx, ms, mode, handler, args)` on its
own slot (the handlers of the other slots do not call back): `swtimers_task` returns, the
handler is called once, and slot `idx` is as the start left it: running with counter 0,
threshold `ms ÷ tick_ms`, `is_waiting` false, the new mode, handler and arguments; a gated
hardware timer is started.  The write of `is_waiting` after the handler and the gating at the
end of the task leave the new arm as it is. -/
theorem C40_handler_rearms_own_slot (env : Handlers) (inst : swtimers_instance_t)
    (hw : swtimers_hw_interface_t) (w : World) (idx ms : Nat) (mode : swtimers_mode_t)
    (handler_cb arg_1_p arg_2_p : Nat) (t : swtimers_timer_instance_t)
    (hinit : Initialized inst hw w) (ht : w.slot idx = some t) (hwt : t.is_waiting = true)
    (hs : t.is_simple = false) (hh : t.handler ≠ 0)
    (hself : ∀ v, env.full_cb t.handler idx t.arg_1_p t.arg_2_p v =
      swtimers_start inst idx ms mode handler_cb arg_1_p arg_2_p v)
    (hothers : ∀ f k a b v, k ≠ idx → env.full_cb f k a b v = some v)
    (hsimple : ∀ f v, env.simple_cb f v = some v) :
    ∃ w', swtimers_task env inst w = some w' ∧
      w'.slot idx = some
        { handler := handler_cb, threshold := ms / hw.tick_ms, arg_1_p := arg_1_p,
          arg_2_p := arg_2_p, mode := mode, is_simple := false, is_run := true,
          is_waiting := false, counter := 0 } ∧
      (hw.hw_is_started_cb = true → w'.hw_is_started = true) ∧
      calls_of idx w'.trace = calls_of idx w.trace ++
        [Event.call_full t.handler idx t.arg_1_p t.arg_2_p] := by
  obtain ⟨hp, hok, hnum, hlen⟩ := id hinit
  have hidx : idx < inst.num := by have := slot_lt ht; omega
  obtain ⟨w1, h1, i1, i2, i3⟩ := for_loop_inv (swtimers_task_slot env hw)
    (fun k v => v.timers.length = inst.num ∧
      (k ≤ idx → v.slot idx = some t ∧ calls_of idx v.trace = calls_of idx w.trace) ∧
      (idx < k → v.slot idx = some
          { handler := handler_cb, threshold := ms / hw.tick_ms, arg_1_p := arg_1_p,
            arg_2_p := arg_2_p, mode := mode, is_simple := false, is_run := true,
            is_waiting := false, counter := 0 } ∧
        (hw.hw_is_started_cb = true → v.hw_is_started = true) ∧
        calls_of idx v.trace = calls_of idx w.trace ++
          [Event.call_full t.handler idx t.arg_1_p t.arg_2_p]))
    inst.num w ⟨hlen, fun _ => ⟨ht, rfl⟩, fun h => absurd h (Nat.not_lt_zero _)⟩
    (by
      intro k v hk ⟨g1, g2, g3⟩
      by_cases hki : k = idx
      · subst hki
        obtain ⟨g4, g5⟩ := g2 (Nat.le_refl _)
        obtain ⟨v', a1, a2, a3, a4⟩ := task_slot_rearm env inst hw k ms mode handler_cb
          arg_1_p arg_2_p v t hp hok g1 g4 hwt hs hh hself
        refine ⟨v', a1, by simp [a2, g1], fun h => absurd h (by omega), fun _ => ⟨?_, ?_, ?_⟩⟩
        · show v'.timers[k]? = _
          rw [a2]
          simp [List.getElem?_set, g1, hidx]
        · intro hcb
          rw [a3, hcb]
          rfl
        · have := congrArg (calls_of k) a4
          rw [calls_of_calls, calls_of_append, calls_of_calls] at this
          rw [this, g5]
          simp [calls_of, Event.is_call_of]
      · obtain ⟨tk, htk⟩ := slot_of_lt v (i := k) (by omega)
        obtain ⟨v', a1, a2, a3, a4⟩ := task_slot_other env hw hok idx k v tk hki hothers
          hsimple htk
        have hsl : v'.slot idx = v.slot idx := by
          show v'.timers[idx]? = v.timers[idx]?
          rw [a2, List.getElem?_set_ne hki]
        have hc : calls_of idx v'.trace = calls_of idx v.trace := by
          have := congrArg (calls_of idx) a4
          rw [calls_of_calls, calls_of_append, calls_of_calls, calls_of_task_calls,
            if_neg hki, List.append_nil] at this
          exact this
        refine ⟨v', a1, by simp [a2, g1], ?_, ?_⟩
        · intro hle
          obtain ⟨g4, g5⟩ := g2 (by omega)
          exact ⟨by rw [hsl]; exact g4, by rw [hc]; exact g5⟩
        · intro hlt
          obtain ⟨g4, g5, g6⟩ := g3 (by omega)
          exact ⟨by rw [hsl]; exact g4, fun hcb => by rw [a3]; exact g5 hcb,
            by rw [hc]; exact g6⟩)
  obtain ⟨j1, j2, j3⟩ := i3 hidx
  obtain ⟨w2, h2, k1, k2, k3⟩ := stop_hw_timer_spec inst hw w1 hp hok i1
  refine ⟨w2, ?_, ?_, ?_, ?_⟩
  · simp [swtimers_task, show inst.num ≠ 0 by omega, hp, h1, h2]
  · show w2.timers[idx]? = _
    rw [k1]
    exact j1
  · intro hcb
    have hany : any_run w1.timers = true := any_run_eq_true.mpr ⟨idx, _, j1, rfl⟩
    rw [k2, hcb, j2 hcb, hany]
    rfl
  · have := congrArg (calls_of idx) k3
    rw [calls_of_calls, calls_of_calls] at this
    rw [this, j3]

/-- C40 on timer 1 of the test instance: the slot has expired and waits for handler 7, which
restarts it for 4 ms; timer 2 waits for a handler that does nothing. -/
theorem C40_handler_rearms_own_slot_witness :
    ∃ w', swtimers_task (rearm_handlers test_inst 1 4 SWTIMERS_MODE_SINGLE_FROM_LOOP) test_inst
        { timers := [zero_timer,
            { zero_timer with handler := 7, threshold := 2, is_waiting := true, counter := 2 },
            { zero_timer with handler := 9, is_waiting := true }],
          hw_is_started := true, trace := [] } = some w' ∧
      w'.slot 1 = some
        { handler := 7, threshold := 4 / test_hw_interface.tick_ms, arg_1_p := 0,
          arg_2_p := 0, mode := SWTIMERS_MODE_SINGLE_FROM_LOOP, is_simple := false,
          is_run := true, is_waiting := false, counter := 0 } ∧
      (test_hw_interface.hw_is_started_cb = true → w'.hw_is_started = true) ∧
      calls_of 1 w'.trace = calls_of 1 [] ++ [Event.call_full 7 1 0 0] :=
  C40_handler_rearms_own_slot (rearm_handlers test_inst 1 4 SWTIMERS_MODE_SINGLE_FROM_LOOP)
    test_inst test_hw_interface
    { timers := [zero_timer,
        { zero_timer with handler := 7, threshold := 2, is_waiting := true, counter := 2 },
        { zero_timer with handler := 9, is_waiting := true }],
      hw_is_started := true, trace := [] } 1 4 SWTIMERS_MODE_SINGLE_FROM_LOOP 7 0 0
    { zero_timer with handler := 7, threshold := 2, is_waiting := true, counter := 2 }
    (by decide) (by decide) (by decide) (by decide) (by decide) (fun _ => rfl)
    (fun _ _ _ _ _ hk => if_neg hk) (fun _ _ => rfl)

end SWT
